import Mathlib

/-!
libmbdevice: JSON mapping of the device model

A shallow embedding of `libmbdevice/src/json.cpp` and `libmbdevice/src/device.cpp`
(with the constants of `mbdevice/flags.h` and the error record of `mbdevice/json.h`),
followed by the theorems that settle the properties stated about them.

Conventions of the embedding:

* A C++ function that mutates `Device &device` and `JsonError &error` and returns
  `bool` becomes a function returning an `Outcome`: the returned value together with
  the device and the error record as they are when the function returns.
* `uint64_t` bit masks are natural numbers; `int` values are integers.
* A `bool` that is returned without ever having been assigned has no defined value;
  the returned value is therefore an `Option Bool`, with `none` for that case.
* The JSON library is external. `device_from_json` is modelled from the outcome of the
  library's parser onwards, `device_to_json` up to the tree that it hands to the
  library's writer; where the two are composed, the parser is taken to return the tree
  that the writer was given.
-/

set_option autoImplicit false

/-! ## The generic JSON tree -/

namespace Json

/-- Modelled from the spec: the type tags of the generic JSON tree, an external library
(`Json::ValueType`); the eight tags are the cases of `json_type_to_string`. -/
inductive ValueType where
  | nullValue
  | intValue
  | uintValue
  | realValue
  | stringValue
  | booleanValue
  | arrayValue
  | objectValue
deriving DecidableEq

/-- Modelled from the spec: the generic JSON tree, an external library (`Json::Value`):
a variant tree with a type tag queryable at run time. An object is the list of its
members in iteration order, an array the list of its elements. The payload of a real
number is never inspected by the code modelled here and is kept as an uninterpreted
bit pattern. -/
inductive Value where
  | null
  | int (i : Int)
  | uint (n : Nat)
  | real (bits : Nat)
  | string (s : String)
  | bool (b : Bool)
  | array (items : List Value)
  | object (members : List (String × Value))

namespace Value

/-- Modelled from the spec: the per-node type tag query (`Json::Value::type`). -/
def type : Value → ValueType
  | null => .nullValue
  | int _ => .intValue
  | uint _ => .uintValue
  | real _ => .realValue
  | string _ => .stringValue
  | bool _ => .booleanValue
  | array _ => .arrayValue
  | object _ => .objectValue

/-- Modelled from the spec: type test by tag (`Json::Value::isBool`). -/
def isBool (v : Value) : Bool := decide (v.type = .booleanValue)

/-- Modelled from the spec: type test by tag (`Json::Value::isInt`). -/
def isInt (v : Value) : Bool := decide (v.type = .intValue)

/-- Modelled from the spec: type test by tag (`Json::Value::isString`). -/
def isString (v : Value) : Bool := decide (v.type = .stringValue)

/-- Modelled from the spec: type test by tag (`Json::Value::isArray`). -/
def isArray (v : Value) : Bool := decide (v.type = .arrayValue)

/-- Modelled from the spec: type test by tag (`Json::Value::isObject`). -/
def isObject (v : Value) : Bool := decide (v.type = .objectValue)

/-- Modelled from the spec: typed accessor (`Json::Value::asBool`), used on booleans only. -/
def asBool : Value → Bool
  | bool b => b
  | _ => false

/-- Modelled from the spec: typed accessor (`Json::Value::asInt`), used on integers only. -/
def asInt : Value → Int
  | int i => i
  | _ => 0

/-- Modelled from the spec: typed accessor (`Json::Value::asString`), used on strings only. -/
def asString : Value → String
  | string s => s
  | _ => ""

/-- Modelled from the spec: array iteration; the elements of an array in order. -/
def items : Value → List Value
  | array xs => xs
  | _ => []

/-- Modelled from the spec: object key iteration; the members of an object in
iteration order. -/
def members : Value → List (String × Value)
  | object ms => ms
  | _ => []

/-- Modelled from the spec: tree mutation on the member list of an object. The member
named `key` is created as `null` when absent, then replaced by `f` of its value. The
library keeps the members in an ordered map, one entry per key, the keys in
lexicographic order of their characters. -/
def updateMember (key : String) (f : Value → Value) :
    List (String × Value) → List (String × Value)
  | [] => [(key, f null)]
  | (k, v) :: rest =>
    if key = k then (k, f v) :: rest
    else if key.data < k.data then (key, f null) :: (k, v) :: rest
    else (k, v) :: updateMember key f rest

/-- Modelled from the spec: tree mutation through `value[key]`; a `null` value becomes
an object on first use. -/
def update (v : Value) (key : String) (f : Value → Value) : Value :=
  match v with
  | null => object (updateMember key f [])
  | object ms => object (updateMember key f ms)
  | other => other

/-- Modelled from the spec: tree construction, the assignment `value[key] = x`. -/
def set (v : Value) (key : String) (x : Value) : Value :=
  v.update key (fun _ => x)

/-- Modelled from the spec: tree construction (`Json::Value::append`); a `null` value
becomes an array on first use. -/
def append (v : Value) (x : Value) : Value :=
  match v with
  | null => array [x]
  | array xs => array (xs ++ [x])
  | other => other

/-- Modelled from the spec: tree construction, the statement `value[key].append(x)`. -/
def appendAt (v : Value) (key : String) (x : Value) : Value :=
  v.update key (fun m => m.append x)

/-- Modelled from the spec: emptiness test (`Json::Value::empty`): true for `null` and
for an array or object without entries. -/
def empty : Value → Bool
  | null => true
  | array xs => xs.isEmpty
  | object ms => ms.isEmpty
  | _ => false

end Value

/-- Modelled from the spec: the outcome of the external parser (`Json::Reader::parse`)
on a text: the root of the tree, or the parser's message on a syntax failure. -/
inductive ParseResult where
  | ok (root : Value)
  | syntaxError (msg : String)

end Json

namespace mbdevice

open Json

/-! ## Constants of `flags.h` -/

def ARCH_ARMEABI_V7A : String := "armeabi-v7a"
def ARCH_ARM64_V8A : String := "arm64-v8a"
def ARCH_X86 : String := "x86"
def ARCH_X86_64 : String := "x86_64"

namespace DeviceFlag
def HAS_COMBINED_BOOT_AND_RECOVERY : Nat := 1 <<< 0
def FSTAB_SKIP_SDCARD0 : Nat := 1 <<< 1
end DeviceFlag

def DEVICE_FLAG_MASK : Nat := (1 <<< 2) - 1

namespace TwFlag
def TW_TOUCHSCREEN_SWAP_XY : Nat := 1 <<< 0
def TW_TOUCHSCREEN_FLIP_X : Nat := 1 <<< 1
def TW_TOUCHSCREEN_FLIP_Y : Nat := 1 <<< 2
def TW_GRAPHICS_FORCE_USE_LINELENGTH : Nat := 1 <<< 3
def TW_SCREEN_BLANK_ON_BOOT : Nat := 1 <<< 4
def TW_BOARD_HAS_FLIPPED_SCREEN : Nat := 1 <<< 5
def TW_IGNORE_MAJOR_AXIS_0 : Nat := 1 <<< 6
def TW_IGNORE_MT_POSITION_0 : Nat := 1 <<< 7
def TW_IGNORE_ABS_MT_TRACKING_ID : Nat := 1 <<< 8
def TW_NEW_ION_HEAP : Nat := 1 <<< 9
def TW_NO_SCREEN_BLANK : Nat := 1 <<< 10
def TW_NO_SCREEN_TIMEOUT : Nat := 1 <<< 11
def TW_ROUND_SCREEN : Nat := 1 <<< 12
def TW_NO_CPU_TEMP : Nat := 1 <<< 13
def TW_QCOM_RTC_FIX : Nat := 1 <<< 14
def TW_HAS_DOWNLOAD_MODE : Nat := 1 <<< 15
def TW_PREFER_LCD_BACKLIGHT : Nat := 1 <<< 16
end TwFlag

def TW_FLAG_MASK : Nat := (1 <<< 17) - 1

inductive TwPixelFormat where
  | DEFAULT
  | ABGR_8888
  | RGBX_8888
  | BGRA_8888
  | RGBA_8888
deriving DecidableEq

inductive TwForcePixelFormat where
  | NONE
  | RGB_565
deriving DecidableEq

def VALIDATE_MISSING_ID : Nat := 1 <<< 0
def VALIDATE_MISSING_CODENAMES : Nat := 1 <<< 1
def VALIDATE_MISSING_NAME : Nat := 1 <<< 2
def VALIDATE_MISSING_ARCHITECTURE : Nat := 1 <<< 3
def VALIDATE_MISSING_SYSTEM_BLOCK_DEVS : Nat := 1 <<< 4
def VALIDATE_MISSING_CACHE_BLOCK_DEVS : Nat := 1 <<< 5
def VALIDATE_MISSING_DATA_BLOCK_DEVS : Nat := 1 <<< 6
def VALIDATE_MISSING_BOOT_BLOCK_DEVS : Nat := 1 <<< 7
def VALIDATE_MISSING_RECOVERY_BLOCK_DEVS : Nat := 1 <<< 8
def VALIDATE_MISSING_BOOT_UI_THEME : Nat := 1 <<< 9
def VALIDATE_MISSING_BOOT_UI_GRAPHICS_BACKENDS : Nat := 1 <<< 10
def VALIDATE_INVALID_ARCHITECTURE : Nat := 1 <<< 11
def VALIDATE_INVALID_FLAGS : Nat := 1 <<< 12
def VALIDATE_INVALID_BOOT_UI_FLAGS : Nat := 1 <<< 13

/-! ## The device model (`device.cpp`) -/

structure BaseOptions where
  id : String
  codenames : List String
  name : String
  architecture : String
  flags : Nat
  base_dirs : List String
  system_devs : List String
  cache_devs : List String
  data_devs : List String
  boot_devs : List String
  recovery_devs : List String
  extra_devs : List String
deriving DecidableEq

structure TwOptions where
  supported : Bool
  flags : Nat
  pixel_format : TwPixelFormat
  force_pixel_format : TwForcePixelFormat
  overscan_percent : Int
  default_x_offset : Int
  default_y_offset : Int
  brightness_path : String
  secondary_brightness_path : String
  max_brightness : Int
  default_brightness : Int
  battery_path : String
  cpu_temp_path : String
  input_blacklist : String
  input_whitelist : String
  graphics_backends : List String
  theme : String
deriving DecidableEq

/-- The record behind a `Device` (`Device::Impl`); a `Device` owns exactly one. -/
structure Device where
  options : BaseOptions
  tw_options : TwOptions
deriving DecidableEq

namespace Device

/-- The constructor `Device::Device()`: a value-initialised record in which the two
pixel formats and the two brightness values are then set. -/
def ctor : Device :=
  { options :=
      { id := "", codenames := [], name := "", architecture := "", flags := 0,
        base_dirs := [], system_devs := [], cache_devs := [], data_devs := [],
        boot_devs := [], recovery_devs := [], extra_devs := [] },
    tw_options :=
      { supported := false, flags := 0,
        pixel_format := TwPixelFormat.DEFAULT,
        force_pixel_format := TwForcePixelFormat.NONE,
        overscan_percent := 0, default_x_offset := 0, default_y_offset := 0,
        brightness_path := "", secondary_brightness_path := "",
        max_brightness := -1, default_brightness := -1,
        battery_path := "", cpu_temp_path := "",
        input_blacklist := "", input_whitelist := "",
        graphics_backends := [], theme := "" } }

def id (d : Device) : String := d.options.id
def set_id (d : Device) (id : String) : Device :=
  { d with options := { d.options with id := id } }
def codenames (d : Device) : List String := d.options.codenames
def set_codenames (d : Device) (codenames : List String) : Device :=
  { d with options := { d.options with codenames := codenames } }
def name (d : Device) : String := d.options.name
def set_name (d : Device) (name : String) : Device :=
  { d with options := { d.options with name := name } }
def architecture (d : Device) : String := d.options.architecture
def set_architecture (d : Device) (architecture : String) : Device :=
  { d with options := { d.options with architecture := architecture } }
def flags (d : Device) : Nat := d.options.flags
def set_flags (d : Device) (flags : Nat) : Device :=
  { d with options := { d.options with flags := flags } }
def block_dev_base_dirs (d : Device) : List String := d.options.base_dirs
def set_block_dev_base_dirs (d : Device) (base_dirs : List String) : Device :=
  { d with options := { d.options with base_dirs := base_dirs } }
def system_block_devs (d : Device) : List String := d.options.system_devs
def set_system_block_devs (d : Device) (block_devs : List String) : Device :=
  { d with options := { d.options with system_devs := block_devs } }
def cache_block_devs (d : Device) : List String := d.options.cache_devs
def set_cache_block_devs (d : Device) (block_devs : List String) : Device :=
  { d with options := { d.options with cache_devs := block_devs } }
def data_block_devs (d : Device) : List String := d.options.data_devs
def set_data_block_devs (d : Device) (block_devs : List String) : Device :=
  { d with options := { d.options with data_devs := block_devs } }
def boot_block_devs (d : Device) : List String := d.options.boot_devs
def set_boot_block_devs (d : Device) (block_devs : List String) : Device :=
  { d with options := { d.options with boot_devs := block_devs } }
def recovery_block_devs (d : Device) : List String := d.options.recovery_devs
def set_recovery_block_devs (d : Device) (block_devs : List String) : Device :=
  { d with options := { d.options with recovery_devs := block_devs } }
def extra_block_devs (d : Device) : List String := d.options.extra_devs
def set_extra_block_devs (d : Device) (block_devs : List String) : Device :=
  { d with options := { d.options with extra_devs := block_devs } }

def tw_supported (d : Device) : Bool := d.tw_options.supported
def set_tw_supported (d : Device) (supported : Bool) : Device :=
  { d with tw_options := { d.tw_options with supported := supported } }
def tw_flags (d : Device) : Nat := d.tw_options.flags
def set_tw_flags (d : Device) (flags : Nat) : Device :=
  { d with tw_options := { d.tw_options with flags := flags } }
def tw_pixel_format (d : Device) : TwPixelFormat := d.tw_options.pixel_format
def set_tw_pixel_format (d : Device) (format : TwPixelFormat) : Device :=
  { d with tw_options := { d.tw_options with pixel_format := format } }
def tw_force_pixel_format (d : Device) : TwForcePixelFormat :=
  d.tw_options.force_pixel_format
def set_tw_force_pixel_format (d : Device) (format : TwForcePixelFormat) : Device :=
  { d with tw_options := { d.tw_options with force_pixel_format := format } }
def tw_overscan_percent (d : Device) : Int := d.tw_options.overscan_percent
def set_tw_overscan_percent (d : Device) (percent : Int) : Device :=
  { d with tw_options := { d.tw_options with overscan_percent := percent } }
def tw_default_x_offset (d : Device) : Int := d.tw_options.default_x_offset
def set_tw_default_x_offset (d : Device) (offset : Int) : Device :=
  { d with tw_options := { d.tw_options with default_x_offset := offset } }
def tw_default_y_offset (d : Device) : Int := d.tw_options.default_y_offset
def set_tw_default_y_offset (d : Device) (offset : Int) : Device :=
  { d with tw_options := { d.tw_options with default_y_offset := offset } }
def tw_brightness_path (d : Device) : String := d.tw_options.brightness_path
def set_tw_brightness_path (d : Device) (path : String) : Device :=
  { d with tw_options := { d.tw_options with brightness_path := path } }
def tw_secondary_brightness_path (d : Device) : String :=
  d.tw_options.secondary_brightness_path
def set_tw_secondary_brightness_path (d : Device) (path : String) : Device :=
  { d with tw_options := { d.tw_options with secondary_brightness_path := path } }
def tw_max_brightness (d : Device) : Int := d.tw_options.max_brightness
def set_tw_max_brightness (d : Device) (value : Int) : Device :=
  { d with tw_options := { d.tw_options with max_brightness := value } }
def tw_default_brightness (d : Device) : Int := d.tw_options.default_brightness
def set_tw_default_brightness (d : Device) (value : Int) : Device :=
  { d with tw_options := { d.tw_options with default_brightness := value } }
def tw_battery_path (d : Device) : String := d.tw_options.battery_path
def set_tw_battery_path (d : Device) (path : String) : Device :=
  { d with tw_options := { d.tw_options with battery_path := path } }
def tw_cpu_temp_path (d : Device) : String := d.tw_options.cpu_temp_path
def set_tw_cpu_temp_path (d : Device) (path : String) : Device :=
  { d with tw_options := { d.tw_options with cpu_temp_path := path } }
def tw_input_blacklist (d : Device) : String := d.tw_options.input_blacklist
def set_tw_input_blacklist (d : Device) (blacklist : String) : Device :=
  { d with tw_options := { d.tw_options with input_blacklist := blacklist } }
def tw_input_whitelist (d : Device) : String := d.tw_options.input_whitelist
def set_tw_input_whitelist (d : Device) (whitelist : String) : Device :=
  { d with tw_options := { d.tw_options with input_whitelist := whitelist } }
def tw_graphics_backends (d : Device) : List String := d.tw_options.graphics_backends
def set_tw_graphics_backends (d : Device) (backends : List String) : Device :=
  { d with tw_options := { d.tw_options with graphics_backends := backends } }
def tw_theme (d : Device) : String := d.tw_options.theme
def set_tw_theme (d : Device) (theme : String) : Device :=
  { d with tw_options := { d.tw_options with theme := theme } }

/-- The validator `Device::validate`: the mask of violated rules. -/
def validate (d : Device) : Nat :=
  let flags := 0
  let flags := if d.options.id = "" then flags ||| VALIDATE_MISSING_ID else flags
  let flags := if d.options.codenames = [] then flags ||| VALIDATE_MISSING_CODENAMES else flags
  let flags := if d.options.name = "" then flags ||| VALIDATE_MISSING_NAME else flags
  let flags :=
    if d.options.architecture = "" then flags ||| VALIDATE_MISSING_ARCHITECTURE
    else if d.options.architecture ≠ ARCH_ARMEABI_V7A
        ∧ d.options.architecture ≠ ARCH_ARM64_V8A
        ∧ d.options.architecture ≠ ARCH_X86
        ∧ d.options.architecture ≠ ARCH_X86_64 then
      flags ||| VALIDATE_INVALID_ARCHITECTURE
    else flags
  let flags :=
    if d.options.flags &&& DEVICE_FLAG_MASK ≠ d.options.flags then
      flags ||| VALIDATE_INVALID_FLAGS
    else flags
  let flags :=
    if d.options.system_devs = [] then flags ||| VALIDATE_MISSING_SYSTEM_BLOCK_DEVS else flags
  let flags :=
    if d.options.cache_devs = [] then flags ||| VALIDATE_MISSING_CACHE_BLOCK_DEVS else flags
  let flags :=
    if d.options.data_devs = [] then flags ||| VALIDATE_MISSING_DATA_BLOCK_DEVS else flags
  let flags :=
    if d.options.boot_devs = [] then flags ||| VALIDATE_MISSING_BOOT_BLOCK_DEVS else flags
  if d.tw_options.supported then
    let flags :=
      if d.tw_options.flags &&& TW_FLAG_MASK ≠ d.tw_options.flags then
        flags ||| VALIDATE_INVALID_BOOT_UI_FLAGS
      else flags
    let flags :=
      if d.tw_options.theme = "" then flags ||| VALIDATE_MISSING_BOOT_UI_THEME else flags
    let flags :=
      if d.tw_options.graphics_backends = [] then
        flags ||| VALIDATE_MISSING_BOOT_UI_GRAPHICS_BACKENDS
      else flags
    flags
  else flags

end Device

/-- The comparison `BaseOptions::operator==`. -/
def BaseOptions.operator_eq (a other : BaseOptions) : Bool :=
  a.id == other.id
    && a.codenames == other.codenames
    && a.name == other.name
    && a.architecture == other.architecture
    && a.flags == other.flags
    && a.base_dirs == other.base_dirs
    && a.system_devs == other.system_devs
    && a.cache_devs == other.cache_devs
    && a.data_devs == other.data_devs
    && a.boot_devs == other.boot_devs
    && a.recovery_devs == other.recovery_devs
    && a.extra_devs == other.extra_devs

/-- The comparison `TwOptions::operator==`. -/
def TwOptions.operator_eq (a other : TwOptions) : Bool :=
  a.supported == other.supported
    && a.flags == other.flags
    && a.pixel_format == other.pixel_format
    && a.force_pixel_format == other.force_pixel_format
    && a.overscan_percent == other.overscan_percent
    && a.default_x_offset == other.default_x_offset
    && a.default_y_offset == other.default_y_offset
    && a.brightness_path == other.brightness_path
    && a.secondary_brightness_path == other.secondary_brightness_path
    && a.max_brightness == other.max_brightness
    && a.default_brightness == other.default_brightness
    && a.battery_path == other.battery_path
    && a.cpu_temp_path == other.cpu_temp_path
    && a.input_blacklist == other.input_blacklist
    && a.input_whitelist == other.input_whitelist
    && a.graphics_backends == other.graphics_backends
    && a.theme == other.theme

/-- The comparison `Device::operator==`. -/
def Device.operator_eq (a other : Device) : Bool :=
  a.options.operator_eq other.options && a.tw_options.operator_eq other.tw_options

/-! ## The error record (`json.h`) -/

inductive JsonErrorType where
  | PARSE_ERROR
  | MISMATCHED_TYPE
  | UNKNOWN_KEY
  | UNKNOWN_VALUE
deriving DecidableEq

structure JsonError where
  type : JsonErrorType
  parser_msg : String
  context : String
  expected_type : String
  actual_type : String
deriving DecidableEq

/-- What a decoding function leaves behind: the value it returns (`none` when the
returned `bool` was never assigned), the device and the error record. -/
structure Outcome where
  ret : Option Bool
  device : Device
  error : JsonError
deriving DecidableEq

/-! ## Lookup tables (`json.cpp`) -/

structure FlagMapping where
  key : String
  flag : Nat
deriving DecidableEq

/-- The table `device_flag_mappings`, without its terminating null entry. -/
def device_flag_mappings : List FlagMapping :=
  [ ⟨"HAS_COMBINED_BOOT_AND_RECOVERY", DeviceFlag.HAS_COMBINED_BOOT_AND_RECOVERY⟩,
    ⟨"FSTAB_SKIP_SDCARD0", DeviceFlag.FSTAB_SKIP_SDCARD0⟩ ]

/-- The table `tw_flag_mappings`, without its terminating null entry. -/
def tw_flag_mappings : List FlagMapping :=
  [ ⟨"TW_TOUCHSCREEN_SWAP_XY", TwFlag.TW_TOUCHSCREEN_SWAP_XY⟩,
    ⟨"TW_TOUCHSCREEN_FLIP_X", TwFlag.TW_TOUCHSCREEN_FLIP_X⟩,
    ⟨"TW_TOUCHSCREEN_FLIP_Y", TwFlag.TW_TOUCHSCREEN_FLIP_Y⟩,
    ⟨"TW_GRAPHICS_FORCE_USE_LINELENGTH", TwFlag.TW_GRAPHICS_FORCE_USE_LINELENGTH⟩,
    ⟨"TW_SCREEN_BLANK_ON_BOOT", TwFlag.TW_SCREEN_BLANK_ON_BOOT⟩,
    ⟨"TW_BOARD_HAS_FLIPPED_SCREEN", TwFlag.TW_BOARD_HAS_FLIPPED_SCREEN⟩,
    ⟨"TW_IGNORE_MAJOR_AXIS_0", TwFlag.TW_IGNORE_MAJOR_AXIS_0⟩,
    ⟨"TW_IGNORE_MT_POSITION_0", TwFlag.TW_IGNORE_MT_POSITION_0⟩,
    ⟨"TW_IGNORE_ABS_MT_TRACKING_ID", TwFlag.TW_IGNORE_ABS_MT_TRACKING_ID⟩,
    ⟨"TW_NEW_ION_HEAP", TwFlag.TW_NEW_ION_HEAP⟩,
    ⟨"TW_NO_SCREEN_BLANK", TwFlag.TW_NO_SCREEN_BLANK⟩,
    ⟨"TW_NO_SCREEN_TIMEOUT", TwFlag.TW_NO_SCREEN_TIMEOUT⟩,
    ⟨"TW_ROUND_SCREEN", TwFlag.TW_ROUND_SCREEN⟩,
    ⟨"TW_NO_CPU_TEMP", TwFlag.TW_NO_CPU_TEMP⟩,
    ⟨"TW_QCOM_RTC_FIX", TwFlag.TW_QCOM_RTC_FIX⟩,
    ⟨"TW_HAS_DOWNLOAD_MODE", TwFlag.TW_HAS_DOWNLOAD_MODE⟩,
    ⟨"TW_PREFER_LCD_BACKLIGHT", TwFlag.TW_PREFER_LCD_BACKLIGHT⟩ ]

structure TwPixelFormatMapping where
  key : String
  value : TwPixelFormat
deriving DecidableEq

/-- The table `tw_pxfmt_mappings`, without its terminating null entry. -/
def tw_pxfmt_mappings : List TwPixelFormatMapping :=
  [ ⟨"DEFAULT", TwPixelFormat.DEFAULT⟩,
    ⟨"ABGR_8888", TwPixelFormat.ABGR_8888⟩,
    ⟨"RGBX_8888", TwPixelFormat.RGBX_8888⟩,
    ⟨"BGRA_8888", TwPixelFormat.BGRA_8888⟩,
    ⟨"RGBA_8888", TwPixelFormat.RGBA_8888⟩ ]

structure TwForcePixelFormatMapping where
  key : String
  value : TwForcePixelFormat
deriving DecidableEq

/-- The table `tw_force_pxfmt_mappings`, without its terminating null entry. -/
def tw_force_pxfmt_mappings : List TwForcePixelFormatMapping :=
  [ ⟨"NONE", TwForcePixelFormat.NONE⟩,
    ⟨"RGB_565", TwForcePixelFormat.RGB_565⟩ ]

/-! ## Error setters (`json.cpp`) -/

def json_type_to_string : ValueType → String
  | .nullValue => "null"
  | .intValue => "integer"
  | .uintValue => "uinteger"
  | .realValue => "real"
  | .stringValue => "string"
  | .booleanValue => "boolean"
  | .arrayValue => "array"
  | .objectValue => "object"

def json_error_set_parse_error (error : JsonError) (parser_msg : String) : JsonError :=
  { error with type := JsonErrorType.PARSE_ERROR, parser_msg := parser_msg }

def json_error_set_mismatched_type (error : JsonError) (context : String)
    (actual_type expected_type : ValueType) : JsonError :=
  { error with
    type := JsonErrorType.MISMATCHED_TYPE,
    context := if context = "" then "." else context,
    actual_type := json_type_to_string actual_type,
    expected_type := json_type_to_string expected_type }

def json_error_set_unknown_key (error : JsonError) (context : String) : JsonError :=
  { error with
    type := JsonErrorType.UNKNOWN_KEY,
    context := if context = "" then "." else context }

def json_error_set_unknown_value (error : JsonError) (context : String) : JsonError :=
  { error with
    type := JsonErrorType.UNKNOWN_VALUE,
    context := if context = "" then "." else context }

/-! ## The decoder (`json.cpp`) -/

def device_set_boolean (setter : Device → Bool → Device) (device : Device) (node : Value)
    (context : String) (error : JsonError) : Outcome :=
  if !node.isBool then
    ⟨some false, device,
      json_error_set_mismatched_type error context node.type ValueType.booleanValue⟩
  else ⟨some true, setter device node.asBool, error⟩

def device_set_int (setter : Device → Int → Device) (device : Device) (node : Value)
    (context : String) (error : JsonError) : Outcome :=
  if !node.isInt then
    ⟨some false, device,
      json_error_set_mismatched_type error context node.type ValueType.intValue⟩
  else ⟨some true, setter device node.asInt, error⟩

def device_set_string (setter : Device → String → Device) (device : Device) (node : Value)
    (context : String) (error : JsonError) : Outcome :=
  if !node.isString then
    ⟨some false, device,
      json_error_set_mismatched_type error context node.type ValueType.stringValue⟩
  else ⟨some true, setter device node.asString, error⟩

/-- The element loop of `device_set_string_array`: `index` and `array` are the loop's
locals; the result is the collected strings, or the error of the first element that is
not a string. -/
def string_array_loop (context : String) (error : JsonError) :
    List Value → Nat → List String → Except JsonError (List String)
  | [], _, array => .ok array
  | item :: rest, index, array =>
    let subcontext := context ++ "[" ++ toString index ++ "]"
    if !item.isString then
      .error (json_error_set_mismatched_type error subcontext item.type ValueType.stringValue)
    else string_array_loop context error rest (index + 1) (array ++ [item.asString])

def device_set_string_array (setter : Device → List String → Device) (device : Device)
    (node : Value) (context : String) (error : JsonError) : Outcome :=
  if !node.isArray then
    ⟨some false, device,
      json_error_set_mismatched_type error context node.type ValueType.arrayValue⟩
  else
    match string_array_loop context error node.items 0 [] with
    | .error error1 => ⟨some false, device, error1⟩
    | .ok array => ⟨some true, setter device array, error⟩

/-- The inner table scan of the two flag decoders: the first entry whose key equals
`str` is OR-ed into `flags`, and the scan stops there. -/
def flag_table_scan : List FlagMapping → String → Nat → Nat
  | [], _, flags => flags
  | it :: rest, str, flags =>
    if str = it.key then flags ||| it.flag else flag_table_scan rest str flags

/-- The element loop shared, up to the table, by `process_device_flags` and
`process_boot_ui_flags`: `index` and `flags` are the loop's locals; the result is the
accumulated mask, or the error of the first offending element. -/
def flags_loop (table : List FlagMapping) (context : String) (error : JsonError) :
    List Value → Nat → Nat → Except JsonError Nat
  | [], _, flags => .ok flags
  | item :: rest, index, flags =>
    let subcontext := context ++ "[" ++ toString index ++ "]"
    if !item.isString then
      .error (json_error_set_mismatched_type error subcontext item.type ValueType.stringValue)
    else
      let str := item.asString
      let old_flags := flags
      let flags := flag_table_scan table str flags
      if flags = old_flags then .error (json_error_set_unknown_value error subcontext)
      else flags_loop table context error rest (index + 1) flags

def process_device_flags (device : Device) (node : Value) (context : String)
    (error : JsonError) : Outcome :=
  if !node.isArray then
    ⟨some false, device,
      json_error_set_mismatched_type error context node.type ValueType.arrayValue⟩
  else
    match flags_loop device_flag_mappings context error node.items 0 0 with
    | .error error1 => ⟨some false, device, error1⟩
    | .ok flags => ⟨some true, device.set_flags flags, error⟩

def process_boot_ui_flags (device : Device) (node : Value) (context : String)
    (error : JsonError) : Outcome :=
  if !node.isArray then
    ⟨some false, device,
      json_error_set_mismatched_type error context node.type ValueType.arrayValue⟩
  else
    match flags_loop tw_flag_mappings context error node.items 0 0 with
    | .error error1 => ⟨some false, device, error1⟩
    | .ok flags => ⟨some true, device.set_tw_flags flags, error⟩

/-- The table scan of `process_boot_ui_pixel_format`: the value of the first entry
whose key equals `str`. -/
def tw_pxfmt_scan : List TwPixelFormatMapping → String → Option TwPixelFormat
  | [], _ => none
  | it :: rest, str => if str = it.key then some it.value else tw_pxfmt_scan rest str

def process_boot_ui_pixel_format (device : Device) (node : Value) (context : String)
    (error : JsonError) : Outcome :=
  if !node.isString then
    ⟨some false, device,
      json_error_set_mismatched_type error context node.type ValueType.stringValue⟩
  else
    match tw_pxfmt_scan tw_pxfmt_mappings node.asString with
    | some value => ⟨some true, device.set_tw_pixel_format value, error⟩
    | none => ⟨some false, device, json_error_set_unknown_value error context⟩

/-- The table scan of `process_boot_ui_force_pixel_format`: the value of the first
entry whose key equals `str`. -/
def tw_force_pxfmt_scan : List TwForcePixelFormatMapping → String → Option TwForcePixelFormat
  | [], _ => none
  | it :: rest, str => if str = it.key then some it.value else tw_force_pxfmt_scan rest str

def process_boot_ui_force_pixel_format (device : Device) (node : Value) (context : String)
    (error : JsonError) : Outcome :=
  if !node.isString then
    ⟨some false, device,
      json_error_set_mismatched_type error context node.type ValueType.stringValue⟩
  else
    match tw_force_pxfmt_scan tw_force_pxfmt_mappings node.asString with
    | some value => ⟨some true, device.set_tw_force_pixel_format value, error⟩
    | none => ⟨some false, device, json_error_set_unknown_value error context⟩

/-- The key loop shared by `process_boot_ui`, `process_block_devs` and
`process_device`: `entry` is the body of the loop up to the assignment of `ret`, and
`ret` is the local that the function returns. The loop is left as soon as `ret` is not
true; a `ret` without a defined value leaves it as well. -/
def key_loop (entry : String → Value → Device → JsonError → Outcome) :
    List (String × Value) → Option Bool → Device → JsonError → Outcome
  | [], ret, device, error => ⟨ret, device, error⟩
  | (key, val) :: rest, _, device, error =>
    let r := entry key val device error
    match r.ret with
    | some true => key_loop entry rest (some true) r.device r.error
    | _ => r

/-- The body of the key loop of `process_boot_ui` for one member. -/
def process_boot_ui_entry (context : String) (key : String) (val : Value)
    (device : Device) (error : JsonError) : Outcome :=
  let subcontext := context ++ "." ++ key
  if key = "supported" then
    device_set_boolean Device.set_tw_supported device val subcontext error
  else if key = "flags" then
    process_boot_ui_flags device val subcontext error
  else if key = "pixel_format" then
    process_boot_ui_pixel_format device val subcontext error
  else if key = "force_pixel_format" then
    process_boot_ui_force_pixel_format device val subcontext error
  else if key = "overscan_percent" then
    device_set_int Device.set_tw_overscan_percent device val subcontext error
  else if key = "default_x_offset" then
    device_set_int Device.set_tw_default_x_offset device val subcontext error
  else if key = "default_y_offset" then
    device_set_int Device.set_tw_default_y_offset device val subcontext error
  else if key = "brightness_path" then
    device_set_string Device.set_tw_brightness_path device val subcontext error
  else if key = "secondary_brightness_path" then
    device_set_string Device.set_tw_secondary_brightness_path device val subcontext error
  else if key = "max_brightness" then
    device_set_int Device.set_tw_max_brightness device val subcontext error
  else if key = "default_brightness" then
    device_set_int Device.set_tw_default_brightness device val subcontext error
  else if key = "battery_path" then
    device_set_string Device.set_tw_battery_path device val subcontext error
  else if key = "cpu_temp_path" then
    device_set_string Device.set_tw_cpu_temp_path device val subcontext error
  else if key = "input_blacklist" then
    device_set_string Device.set_tw_input_blacklist device val subcontext error
  else if key = "input_whitelist" then
    device_set_string Device.set_tw_input_whitelist device val subcontext error
  else if key = "graphics_backends" then
    device_set_string_array Device.set_tw_graphics_backends device val subcontext error
  else if key = "theme" then
    device_set_string Device.set_tw_theme device val subcontext error
  else ⟨some false, device, json_error_set_unknown_key error subcontext⟩

def process_boot_ui (device : Device) (node : Value) (context : String)
    (error : JsonError) : Outcome :=
  if !node.isObject then
    ⟨some false, device,
      json_error_set_mismatched_type error context node.type ValueType.objectValue⟩
  else key_loop (process_boot_ui_entry context) node.members none device error

/-- The body of the key loop of `process_block_devs` for one member. -/
def process_block_devs_entry (context : String) (key : String) (val : Value)
    (device : Device) (error : JsonError) : Outcome :=
  let subcontext := context ++ "." ++ key
  if key = "base_dirs" then
    device_set_string_array Device.set_block_dev_base_dirs device val subcontext error
  else if key = "system" then
    device_set_string_array Device.set_system_block_devs device val subcontext error
  else if key = "cache" then
    device_set_string_array Device.set_cache_block_devs device val subcontext error
  else if key = "data" then
    device_set_string_array Device.set_data_block_devs device val subcontext error
  else if key = "boot" then
    device_set_string_array Device.set_boot_block_devs device val subcontext error
  else if key = "recovery" then
    device_set_string_array Device.set_recovery_block_devs device val subcontext error
  else if key = "extra" then
    device_set_string_array Device.set_extra_block_devs device val subcontext error
  else ⟨some false, device, json_error_set_unknown_key error subcontext⟩

def process_block_devs (device : Device) (node : Value) (context : String)
    (error : JsonError) : Outcome :=
  if !node.isObject then
    ⟨some false, device,
      json_error_set_mismatched_type error context node.type ValueType.objectValue⟩
  else key_loop (process_block_devs_entry context) node.members none device error

/-- The body of the key loop of `process_device` for one member. -/
def process_device_entry (context : String) (key : String) (val : Value)
    (device : Device) (error : JsonError) : Outcome :=
  let subcontext := context ++ "." ++ key
  if key = "name" then
    device_set_string Device.set_name device val subcontext error
  else if key = "id" then
    device_set_string Device.set_id device val subcontext error
  else if key = "codenames" then
    device_set_string_array Device.set_codenames device val subcontext error
  else if key = "architecture" then
    device_set_string Device.set_architecture device val subcontext error
  else if key = "flags" then
    process_device_flags device val subcontext error
  else if key = "block_devs" then
    process_block_devs device val subcontext error
  else if key = "boot_ui" then
    process_boot_ui device val subcontext error
  else ⟨some false, device, json_error_set_unknown_key error subcontext⟩

def process_device (device : Device) (node : Value) (context : String)
    (error : JsonError) : Outcome :=
  if !node.isObject then
    ⟨some false, device,
      json_error_set_mismatched_type error context node.type ValueType.objectValue⟩
  else key_loop (process_device_entry context) node.members none device error

/-- The function `device_from_json`, from the outcome of the external parser on the
text `json` onwards. -/
def device_from_json (json : ParseResult) (device : Device) (error : JsonError) : Outcome :=
  match json with
  | .syntaxError msg => ⟨some false, device, json_error_set_parse_error error msg⟩
  | .ok root => process_device device root "" error

/-- What `device_list_from_json` leaves behind: the value it returns, the vector
`devices` and the error record. The returned value is `none` when the function has
branched on a `bool` that was never assigned. -/
structure ListOutcome where
  ret : Option Bool
  devices : List Device
  error : JsonError
deriving DecidableEq

/-- The element loop of `device_list_from_json`: `index` is the loop's counter and
`context` the string built from it before it is incremented. Every element is decoded
into a fresh `Device`, which is pushed onto `devices` when `process_device` returns
true; the loop returns false when `process_device` returns false, and has no defined
result when `process_device` returns a `bool` that was never assigned. -/
def device_list_loop : List Value → Nat → List Device → JsonError → ListOutcome
  | [], _, devices, error => ⟨some true, devices, error⟩
  | item :: rest, index, devices, error =>
    let context := "[" ++ toString index ++ "]"
    let r := process_device Device.ctor item context error
    match r.ret with
    | some true => device_list_loop rest (index + 1) (devices ++ [r.device]) r.error
    | some false => ⟨some false, devices, r.error⟩
    | none => ⟨none, devices, r.error⟩

/-- The function `device_list_from_json`, from the outcome of the external parser on
the text `json` onwards. -/
def device_list_from_json (json : ParseResult) (devices : List Device)
    (error : JsonError) : ListOutcome :=
  match json with
  | .syntaxError msg => ⟨some false, devices, json_error_set_parse_error error msg⟩
  | .ok root =>
    if !root.isArray then
      ⟨some false, devices,
        json_error_set_mismatched_type error "" root.type ValueType.arrayValue⟩
    else device_list_loop root.items 0 devices error

/-! ## The encoder (`json.cpp`) -/

/-- The loop `for (auto const &x : xs) value[key].append(x)` of `device_to_json`. -/
def append_strings (value : Value) (key : String) (xs : List String) : Value :=
  xs.foldl (fun v x => v.appendAt key (Value.string x)) value

/-- The loop of `device_to_json` over a flag table: the key of every entry whose bit
is set in `flags` is appended to `value[key]`, in table order. -/
def append_flag_names (value : Value) (key : String) (table : List FlagMapping)
    (flags : Nat) : Value :=
  table.foldl
    (fun v it => if flags &&& it.flag ≠ 0 then v.appendAt key (Value.string it.key) else v)
    value

/-- The loop of `device_to_json` over `tw_pxfmt_mappings`: the key of the first entry
with the given value is stored. -/
def set_pixel_format_name (value : Value) (key : String) :
    List TwPixelFormatMapping → TwPixelFormat → Value
  | [], _ => value
  | it :: rest, pixel_format =>
    if pixel_format = it.value then value.set key (Value.string it.key)
    else set_pixel_format_name value key rest pixel_format

/-- The loop of `device_to_json` over `tw_force_pxfmt_mappings`: the key of the first
entry with the given value is stored. -/
def set_force_pixel_format_name (value : Value) (key : String) :
    List TwForcePixelFormatMapping → TwForcePixelFormat → Value
  | [], _ => value
  | it :: rest, force_pixel_format =>
    if force_pixel_format = it.value then value.set key (Value.string it.key)
    else set_force_pixel_format_name value key rest force_pixel_format

/-- The `block_devs` tree built by `device_to_json`. -/
def device_to_json_block_devs (device : Device) : Value :=
  let block_devs := Value.null
  let block_devs := append_strings block_devs "base_dirs" device.block_dev_base_dirs
  let block_devs := append_strings block_devs "system" device.system_block_devs
  let block_devs := append_strings block_devs "cache" device.cache_block_devs
  let block_devs := append_strings block_devs "data" device.data_block_devs
  let block_devs := append_strings block_devs "boot" device.boot_block_devs
  let block_devs := append_strings block_devs "recovery" device.recovery_block_devs
  let block_devs := append_strings block_devs "extra" device.extra_block_devs
  block_devs

/-- The `boot_ui` tree built by `device_to_json`. -/
def device_to_json_boot_ui (device : Device) : Value :=
  let boot_ui := Value.null
  let boot_ui := if device.tw_supported then boot_ui.set "supported" (Value.bool true) else boot_ui
  let tw_flags := device.tw_flags
  let boot_ui :=
    if tw_flags ≠ 0 then append_flag_names boot_ui "flags" tw_flag_mappings tw_flags
    else boot_ui
  let pixel_format := device.tw_pixel_format
  let boot_ui :=
    if pixel_format ≠ TwPixelFormat.DEFAULT then
      set_pixel_format_name boot_ui "pixel_format" tw_pxfmt_mappings pixel_format
    else boot_ui
  let force_pixel_format := device.tw_force_pixel_format
  let boot_ui :=
    if force_pixel_format ≠ TwForcePixelFormat.NONE then
      set_force_pixel_format_name boot_ui "force_pixel_format" tw_force_pxfmt_mappings
        force_pixel_format
    else boot_ui
  let overscan_percent := device.tw_overscan_percent
  let boot_ui :=
    if overscan_percent ≠ 0 then boot_ui.set "overscan_percent" (Value.int overscan_percent)
    else boot_ui
  let default_x_offset := device.tw_default_x_offset
  let boot_ui :=
    if default_x_offset ≠ 0 then boot_ui.set "default_x_offset" (Value.int default_x_offset)
    else boot_ui
  let default_y_offset := device.tw_default_y_offset
  let boot_ui :=
    if default_y_offset ≠ 0 then boot_ui.set "default_y_offset" (Value.int default_y_offset)
    else boot_ui
  let brightness_path := device.tw_brightness_path
  let boot_ui :=
    if brightness_path ≠ "" then boot_ui.set "brightness_path" (Value.string brightness_path)
    else boot_ui
  let secondary_brightness_path := device.tw_secondary_brightness_path
  let boot_ui :=
    if secondary_brightness_path ≠ "" then
      boot_ui.set "secondary_brightness_path" (Value.string secondary_brightness_path)
    else boot_ui
  let max_brightness := device.tw_max_brightness
  let boot_ui :=
    if max_brightness ≠ -1 then boot_ui.set "max_brightness" (Value.int max_brightness)
    else boot_ui
  let default_brightness := device.tw_default_brightness
  let boot_ui :=
    if default_brightness ≠ -1 then
      boot_ui.set "default_brightness" (Value.int default_brightness)
    else boot_ui
  let battery_path := device.tw_battery_path
  let boot_ui :=
    if battery_path ≠ "" then boot_ui.set "battery_path" (Value.string battery_path)
    else boot_ui
  let cpu_temp_path := device.tw_cpu_temp_path
  let boot_ui :=
    if cpu_temp_path ≠ "" then boot_ui.set "cpu_temp_path" (Value.string cpu_temp_path)
    else boot_ui
  let input_blacklist := device.tw_input_blacklist
  let boot_ui :=
    if input_blacklist ≠ "" then boot_ui.set "input_blacklist" (Value.string input_blacklist)
    else boot_ui
  let input_whitelist := device.tw_input_whitelist
  let boot_ui :=
    if input_whitelist ≠ "" then boot_ui.set "input_whitelist" (Value.string input_whitelist)
    else boot_ui
  let boot_ui := append_strings boot_ui "graphics_backends" device.tw_graphics_backends
  let theme := device.tw_theme
  let boot_ui := if theme ≠ "" then boot_ui.set "theme" (Value.string theme) else boot_ui
  boot_ui

/-- The function `device_to_json`, up to the tree `root` that it hands to the external
writer. -/
def device_to_json (device : Device) : Value :=
  let root := Value.null
  let id := device.id
  let root := if id ≠ "" then root.set "id" (Value.string id) else root
  let root := append_strings root "codenames" device.codenames
  let name := device.name
  let root := if name ≠ "" then root.set "name" (Value.string name) else root
  let architecture := device.architecture
  let root :=
    if architecture ≠ "" then root.set "architecture" (Value.string architecture) else root
  let flags := device.flags
  let root :=
    if flags ≠ 0 then append_flag_names root "flags" device_flag_mappings flags else root
  let block_devs := device_to_json_block_devs device
  let root := if !block_devs.empty then root.set "block_devs" block_devs else root
  let boot_ui := device_to_json_boot_ui device
  let root := if !boot_ui.empty then root.set "boot_ui" boot_ui else root
  root

/-! ## Vocabulary of the statements

The definitions below are not part of the program: they name what the statements
about it speak of. -/

/-- The bit that a flag table gives to a name: the flag of the first entry with that
key, and 0 for a name that the table does not have. -/
def flag_of (table : List FlagMapping) (name : String) : Nat :=
  match table.find? (fun it => decide (it.key = name)) with
  | some it => it.flag
  | none => 0

/-- The names that a flag table recognizes. -/
def table_keys (table : List FlagMapping) : List String := table.map (fun it => it.key)

/-- The bitwise OR of `flags` with the table bits of the listed names. -/
def or_names (table : List FlagMapping) (flags : Nat) (names : List String) : Nat :=
  names.foldl (fun acc name => acc ||| flag_of table name) flags

/-- The bitwise OR of the table bits of the listed names. -/
def or_of_names (table : List FlagMapping) (names : List String) : Nat :=
  or_names table 0 names

/-- A JSON array of strings. -/
def strings (xs : List String) : Value := Value.array (xs.map Value.string)

/-- What the flag decoders rely on in a table: every recognized name has a non-zero
bit, and distinct recognized names have disjoint bits. -/
structure FlagTableOK (table : List FlagMapping) : Prop where
  nonzero : ∀ name ∈ table_keys table, flag_of table name ≠ 0
  disjoint : ∀ a ∈ table_keys table, ∀ b ∈ table_keys table,
    a ≠ b → flag_of table a &&& flag_of table b = 0

/-- An error record in which nothing has been recorded yet, as a caller passes it in. -/
def error0 : JsonError :=
  { type := JsonErrorType.PARSE_ERROR, parser_msg := "", context := "",
    expected_type := "", actual_type := "" }

/-- The record of a type mismatch (`json.h`: type, context, expected and actual type). -/
def mismatched_type_error (error : JsonError) (context : String) (actual expected : String) :
    JsonError :=
  { error with type := JsonErrorType.MISMATCHED_TYPE, context := context,
               actual_type := actual, expected_type := expected }

/-- The record of an unknown key (`json.h`: type and context). -/
def unknown_key_error (error : JsonError) (context : String) : JsonError :=
  { error with type := JsonErrorType.UNKNOWN_KEY, context := context }

/-- The record of an unknown value (`json.h`: type and context). -/
def unknown_value_error (error : JsonError) (context : String) : JsonError :=
  { error with type := JsonErrorType.UNKNOWN_VALUE, context := context }

/-- The context of element `index` of the array at `context`. -/
def element_context (context : String) (index : Nat) : String :=
  context ++ "[" ++ toString index ++ "]"

/-- The keys that the specification lists for the top level of a device object. -/
def device_keys : List String :=
  ["name", "id", "codenames", "architecture", "flags", "block_devs", "boot_ui"]

/-- The keys that the specification lists for the `block_devs` object. -/
def block_devs_keys : List String :=
  ["base_dirs", "system", "cache", "data", "boot", "recovery", "extra"]

/-- The seventeen keys of the `boot_ui` object. -/
def boot_ui_keys : List String :=
  ["supported", "flags", "pixel_format", "force_pixel_format", "overscan_percent",
   "default_x_offset", "default_y_offset", "brightness_path", "secondary_brightness_path",
   "max_brightness", "default_brightness", "battery_path", "cpu_temp_path",
   "input_blacklist", "input_whitelist", "graphics_backends", "theme"]

/-- The JSON type that the schema expects for each top-level key. -/
def device_schema : List (String × ValueType) :=
  [("name", ValueType.stringValue), ("id", ValueType.stringValue),
   ("codenames", ValueType.arrayValue), ("architecture", ValueType.stringValue),
   ("flags", ValueType.arrayValue), ("block_devs", ValueType.objectValue),
   ("boot_ui", ValueType.objectValue)]

/-- The JSON type that the schema expects for each key of `block_devs`. -/
def block_devs_schema : List (String × ValueType) :=
  [("base_dirs", ValueType.arrayValue), ("system", ValueType.arrayValue),
   ("cache", ValueType.arrayValue), ("data", ValueType.arrayValue),
   ("boot", ValueType.arrayValue), ("recovery", ValueType.arrayValue),
   ("extra", ValueType.arrayValue)]

/-- The JSON type that the schema expects for each key of `boot_ui`. -/
def boot_ui_schema : List (String × ValueType) :=
  [("supported", ValueType.booleanValue), ("flags", ValueType.arrayValue),
   ("pixel_format", ValueType.stringValue), ("force_pixel_format", ValueType.stringValue),
   ("overscan_percent", ValueType.intValue), ("default_x_offset", ValueType.intValue),
   ("default_y_offset", ValueType.intValue), ("brightness_path", ValueType.stringValue),
   ("secondary_brightness_path", ValueType.stringValue),
   ("max_brightness", ValueType.intValue), ("default_brightness", ValueType.intValue),
   ("battery_path", ValueType.stringValue), ("cpu_temp_path", ValueType.stringValue),
   ("input_blacklist", ValueType.stringValue), ("input_whitelist", ValueType.stringValue),
   ("graphics_backends", ValueType.arrayValue), ("theme", ValueType.stringValue)]

/-- The enum value named by a string, as the specification lists the names of
`TwPixelFormat`. -/
def pixel_format_named (s : String) : Option TwPixelFormat :=
  if s = "DEFAULT" then some TwPixelFormat.DEFAULT
  else if s = "ABGR_8888" then some TwPixelFormat.ABGR_8888
  else if s = "RGBX_8888" then some TwPixelFormat.RGBX_8888
  else if s = "BGRA_8888" then some TwPixelFormat.BGRA_8888
  else if s = "RGBA_8888" then some TwPixelFormat.RGBA_8888
  else none

/-- The enum value named by a string, as the specification lists the names of
`TwForcePixelFormat`. -/
def force_pixel_format_named (s : String) : Option TwForcePixelFormat :=
  if s = "NONE" then some TwForcePixelFormat.NONE
  else if s = "RGB_565" then some TwForcePixelFormat.RGB_565
  else none

/-- A decoding step reports `key` as unknown: it returns false with error type
`UNKNOWN_KEY` and the context of that key under `parent`. -/
def ReportsUnknownKey (r : Outcome) (parent key : String) : Prop :=
  r.ret = some false ∧ r.error.type = JsonErrorType.UNKNOWN_KEY
    ∧ r.error.context = parent ++ "." ++ key

/-! ## Fields of the device

The vocabulary of the round-trip argument: the 29 fields of a device, what it means for
two devices to agree on one of them, and the key under which each field is decoded at
each level of the JSON object. -/

/-- The fields of a device: the twelve of `BaseOptions`, then the seventeen of
`TwOptions`. -/
inductive FieldId where
  | id
  | codenames
  | name
  | architecture
  | flags
  | base_dirs
  | system_devs
  | cache_devs
  | data_devs
  | boot_devs
  | recovery_devs
  | extra_devs
  | tw_supported
  | tw_flags
  | tw_pixel_format
  | tw_force_pixel_format
  | tw_overscan_percent
  | tw_default_x_offset
  | tw_default_y_offset
  | tw_brightness_path
  | tw_secondary_brightness_path
  | tw_max_brightness
  | tw_default_brightness
  | tw_battery_path
  | tw_cpu_temp_path
  | tw_input_blacklist
  | tw_input_whitelist
  | tw_graphics_backends
  | tw_theme

/-- Two devices hold the same value in the given field. -/
def Agree : FieldId → Device → Device → Prop
  | FieldId.id, a, b => a.options.id = b.options.id
  | FieldId.codenames, a, b => a.options.codenames = b.options.codenames
  | FieldId.name, a, b => a.options.name = b.options.name
  | FieldId.architecture, a, b => a.options.architecture = b.options.architecture
  | FieldId.flags, a, b => a.options.flags = b.options.flags
  | FieldId.base_dirs, a, b => a.options.base_dirs = b.options.base_dirs
  | FieldId.system_devs, a, b => a.options.system_devs = b.options.system_devs
  | FieldId.cache_devs, a, b => a.options.cache_devs = b.options.cache_devs
  | FieldId.data_devs, a, b => a.options.data_devs = b.options.data_devs
  | FieldId.boot_devs, a, b => a.options.boot_devs = b.options.boot_devs
  | FieldId.recovery_devs, a, b => a.options.recovery_devs = b.options.recovery_devs
  | FieldId.extra_devs, a, b => a.options.extra_devs = b.options.extra_devs
  | FieldId.tw_supported, a, b => a.tw_options.supported = b.tw_options.supported
  | FieldId.tw_flags, a, b => a.tw_options.flags = b.tw_options.flags
  | FieldId.tw_pixel_format, a, b => a.tw_options.pixel_format = b.tw_options.pixel_format
  | FieldId.tw_force_pixel_format, a, b => a.tw_options.force_pixel_format = b.tw_options.force_pixel_format
  | FieldId.tw_overscan_percent, a, b => a.tw_options.overscan_percent = b.tw_options.overscan_percent
  | FieldId.tw_default_x_offset, a, b => a.tw_options.default_x_offset = b.tw_options.default_x_offset
  | FieldId.tw_default_y_offset, a, b => a.tw_options.default_y_offset = b.tw_options.default_y_offset
  | FieldId.tw_brightness_path, a, b => a.tw_options.brightness_path = b.tw_options.brightness_path
  | FieldId.tw_secondary_brightness_path, a, b => a.tw_options.secondary_brightness_path = b.tw_options.secondary_brightness_path
  | FieldId.tw_max_brightness, a, b => a.tw_options.max_brightness = b.tw_options.max_brightness
  | FieldId.tw_default_brightness, a, b => a.tw_options.default_brightness = b.tw_options.default_brightness
  | FieldId.tw_battery_path, a, b => a.tw_options.battery_path = b.tw_options.battery_path
  | FieldId.tw_cpu_temp_path, a, b => a.tw_options.cpu_temp_path = b.tw_options.cpu_temp_path
  | FieldId.tw_input_blacklist, a, b => a.tw_options.input_blacklist = b.tw_options.input_blacklist
  | FieldId.tw_input_whitelist, a, b => a.tw_options.input_whitelist = b.tw_options.input_whitelist
  | FieldId.tw_graphics_backends, a, b => a.tw_options.graphics_backends = b.tw_options.graphics_backends
  | FieldId.tw_theme, a, b => a.tw_options.theme = b.tw_options.theme

/-- The top-level key under which a field is decoded. -/
def device_key : FieldId → Option String
  | FieldId.id => some "id"
  | FieldId.codenames => some "codenames"
  | FieldId.name => some "name"
  | FieldId.architecture => some "architecture"
  | FieldId.flags => some "flags"
  | FieldId.base_dirs => some "block_devs"
  | FieldId.system_devs => some "block_devs"
  | FieldId.cache_devs => some "block_devs"
  | FieldId.data_devs => some "block_devs"
  | FieldId.boot_devs => some "block_devs"
  | FieldId.recovery_devs => some "block_devs"
  | FieldId.extra_devs => some "block_devs"
  | FieldId.tw_supported => some "boot_ui"
  | FieldId.tw_flags => some "boot_ui"
  | FieldId.tw_pixel_format => some "boot_ui"
  | FieldId.tw_force_pixel_format => some "boot_ui"
  | FieldId.tw_overscan_percent => some "boot_ui"
  | FieldId.tw_default_x_offset => some "boot_ui"
  | FieldId.tw_default_y_offset => some "boot_ui"
  | FieldId.tw_brightness_path => some "boot_ui"
  | FieldId.tw_secondary_brightness_path => some "boot_ui"
  | FieldId.tw_max_brightness => some "boot_ui"
  | FieldId.tw_default_brightness => some "boot_ui"
  | FieldId.tw_battery_path => some "boot_ui"
  | FieldId.tw_cpu_temp_path => some "boot_ui"
  | FieldId.tw_input_blacklist => some "boot_ui"
  | FieldId.tw_input_whitelist => some "boot_ui"
  | FieldId.tw_graphics_backends => some "boot_ui"
  | FieldId.tw_theme => some "boot_ui"

/-- The key of the `block_devs` object under which a field is decoded, if any. -/
def block_devs_key : FieldId → Option String
  | FieldId.id => none
  | FieldId.codenames => none
  | FieldId.name => none
  | FieldId.architecture => none
  | FieldId.flags => none
  | FieldId.base_dirs => some "base_dirs"
  | FieldId.system_devs => some "system"
  | FieldId.cache_devs => some "cache"
  | FieldId.data_devs => some "data"
  | FieldId.boot_devs => some "boot"
  | FieldId.recovery_devs => some "recovery"
  | FieldId.extra_devs => some "extra"
  | FieldId.tw_supported => none
  | FieldId.tw_flags => none
  | FieldId.tw_pixel_format => none
  | FieldId.tw_force_pixel_format => none
  | FieldId.tw_overscan_percent => none
  | FieldId.tw_default_x_offset => none
  | FieldId.tw_default_y_offset => none
  | FieldId.tw_brightness_path => none
  | FieldId.tw_secondary_brightness_path => none
  | FieldId.tw_max_brightness => none
  | FieldId.tw_default_brightness => none
  | FieldId.tw_battery_path => none
  | FieldId.tw_cpu_temp_path => none
  | FieldId.tw_input_blacklist => none
  | FieldId.tw_input_whitelist => none
  | FieldId.tw_graphics_backends => none
  | FieldId.tw_theme => none

/-- The key of the `boot_ui` object under which a field is decoded, if any. -/
def boot_ui_key : FieldId → Option String
  | FieldId.id => none
  | FieldId.codenames => none
  | FieldId.name => none
  | FieldId.architecture => none
  | FieldId.flags => none
  | FieldId.base_dirs => none
  | FieldId.system_devs => none
  | FieldId.cache_devs => none
  | FieldId.data_devs => none
  | FieldId.boot_devs => none
  | FieldId.recovery_devs => none
  | FieldId.extra_devs => none
  | FieldId.tw_supported => some "supported"
  | FieldId.tw_flags => some "flags"
  | FieldId.tw_pixel_format => some "pixel_format"
  | FieldId.tw_force_pixel_format => some "force_pixel_format"
  | FieldId.tw_overscan_percent => some "overscan_percent"
  | FieldId.tw_default_x_offset => some "default_x_offset"
  | FieldId.tw_default_y_offset => some "default_y_offset"
  | FieldId.tw_brightness_path => some "brightness_path"
  | FieldId.tw_secondary_brightness_path => some "secondary_brightness_path"
  | FieldId.tw_max_brightness => some "max_brightness"
  | FieldId.tw_default_brightness => some "default_brightness"
  | FieldId.tw_battery_path => some "battery_path"
  | FieldId.tw_cpu_temp_path => some "cpu_temp_path"
  | FieldId.tw_input_blacklist => some "input_blacklist"
  | FieldId.tw_input_whitelist => some "input_whitelist"
  | FieldId.tw_graphics_backends => some "graphics_backends"
  | FieldId.tw_theme => some "theme"

/-- A member that the key loop decodes successfully into the fields of its key, taking
their values from the device `t` and leaving every other field alone, whenever each
field of the device at hand still has the value it has in `base` or already the value
it has in `t`. -/
def GoodEntry (entry : String → Value → Device → JsonError → Outcome)
    (keyOf : FieldId → Option String) (base t : Device) (x : String × Value) : Prop :=
  ∀ (dev : Device) (err : JsonError), (∀ f, Agree f dev base ∨ Agree f dev t) →
    (entry x.1 x.2 dev err).ret = some true
    ∧ (entry x.1 x.2 dev err).error = err
    ∧ (∀ f, keyOf f = some x.1 → Agree f (entry x.1 x.2 dev err).device t)
    ∧ (∀ f, keyOf f ≠ some x.1 → Agree f (entry x.1 x.2 dev err).device dev)

/-- A device with the bits outside the two flag masks cleared. -/
def Device.masked (d : Device) : Device :=
  { options := { d.options with flags := d.options.flags &&& DEVICE_FLAG_MASK },
    tw_options := { d.tw_options with flags := d.tw_options.flags &&& TW_FLAG_MASK } }

/-- One statement of the encoder: under `cond`, the member `key` is given the value
`val`. -/
structure Step where
  cond : Bool
  key : String
  val : Value

/-- The effect of one encoder statement on the members of the object being built. -/
def insert_step (ms : List (String × Value)) (s : Step) : List (String × Value) :=
  if s.cond then Value.updateMember s.key (fun _ => s.val) ms else ms

/-- The members built by a sequence of encoder statements, starting from none. -/
def chain (steps : List Step) : List (String × Value) := steps.foldl insert_step []

/-- The tree with the given members: `null` as long as there is none. -/
def of_members : List (String × Value) → Value
  | [] => Value.null
  | m :: ms => Value.object (m :: ms)

/-- The names of the table entries whose bit is set in `flags`, in table order. -/
def flag_names (table : List FlagMapping) (flags : Nat) : List String :=
  (table.filter (fun it => decide (flags &&& it.flag ≠ 0))).map (fun it => it.key)

/-- The table name of a pixel format. -/
def pixel_format_name : TwPixelFormat → String
  | TwPixelFormat.DEFAULT => "DEFAULT"
  | TwPixelFormat.ABGR_8888 => "ABGR_8888"
  | TwPixelFormat.RGBX_8888 => "RGBX_8888"
  | TwPixelFormat.BGRA_8888 => "BGRA_8888"
  | TwPixelFormat.RGBA_8888 => "RGBA_8888"

/-- The table name of a forced pixel format. -/
def force_pixel_format_name : TwForcePixelFormat → String
  | TwForcePixelFormat.NONE => "NONE"
  | TwForcePixelFormat.RGB_565 => "RGB_565"

/-- The statements of `device_to_json` that build the `block_devs` object. -/
def block_devs_steps (d : Device) : List Step :=
  [ ⟨decide (d.options.base_dirs ≠ []), "base_dirs", strings d.options.base_dirs⟩,
    ⟨decide (d.options.system_devs ≠ []), "system", strings d.options.system_devs⟩,
    ⟨decide (d.options.cache_devs ≠ []), "cache", strings d.options.cache_devs⟩,
    ⟨decide (d.options.data_devs ≠ []), "data", strings d.options.data_devs⟩,
    ⟨decide (d.options.boot_devs ≠ []), "boot", strings d.options.boot_devs⟩,
    ⟨decide (d.options.recovery_devs ≠ []), "recovery", strings d.options.recovery_devs⟩,
    ⟨decide (d.options.extra_devs ≠ []), "extra", strings d.options.extra_devs⟩ ]

/-- The statements of `device_to_json` that build the `boot_ui` object. -/
def boot_ui_steps (d : Device) : List Step :=
  [ ⟨d.tw_options.supported, "supported", Value.bool true⟩,
    ⟨decide (flag_names tw_flag_mappings d.tw_options.flags ≠ []), "flags",
      strings (flag_names tw_flag_mappings d.tw_options.flags)⟩,
    ⟨decide (d.tw_options.pixel_format ≠ TwPixelFormat.DEFAULT), "pixel_format",
      Value.string (pixel_format_name d.tw_options.pixel_format)⟩,
    ⟨decide (d.tw_options.force_pixel_format ≠ TwForcePixelFormat.NONE), "force_pixel_format",
      Value.string (force_pixel_format_name d.tw_options.force_pixel_format)⟩,
    ⟨decide (d.tw_options.overscan_percent ≠ 0), "overscan_percent",
      Value.int d.tw_options.overscan_percent⟩,
    ⟨decide (d.tw_options.default_x_offset ≠ 0), "default_x_offset",
      Value.int d.tw_options.default_x_offset⟩,
    ⟨decide (d.tw_options.default_y_offset ≠ 0), "default_y_offset",
      Value.int d.tw_options.default_y_offset⟩,
    ⟨decide (d.tw_options.brightness_path ≠ ""), "brightness_path",
      Value.string d.tw_options.brightness_path⟩,
    ⟨decide (d.tw_options.secondary_brightness_path ≠ ""), "secondary_brightness_path",
      Value.string d.tw_options.secondary_brightness_path⟩,
    ⟨decide (d.tw_options.max_brightness ≠ -1), "max_brightness",
      Value.int d.tw_options.max_brightness⟩,
    ⟨decide (d.tw_options.default_brightness ≠ -1), "default_brightness",
      Value.int d.tw_options.default_brightness⟩,
    ⟨decide (d.tw_options.battery_path ≠ ""), "battery_path",
      Value.string d.tw_options.battery_path⟩,
    ⟨decide (d.tw_options.cpu_temp_path ≠ ""), "cpu_temp_path",
      Value.string d.tw_options.cpu_temp_path⟩,
    ⟨decide (d.tw_options.input_blacklist ≠ ""), "input_blacklist",
      Value.string d.tw_options.input_blacklist⟩,
    ⟨decide (d.tw_options.input_whitelist ≠ ""), "input_whitelist",
      Value.string d.tw_options.input_whitelist⟩,
    ⟨decide (d.tw_options.graphics_backends ≠ []), "graphics_backends",
      strings d.tw_options.graphics_backends⟩,
    ⟨decide (d.tw_options.theme ≠ ""), "theme", Value.string d.tw_options.theme⟩ ]

/-- The statements of `device_to_json` that build the root object. -/
def device_steps (d : Device) : List Step :=
  [ ⟨decide (d.options.id ≠ ""), "id", Value.string d.options.id⟩,
    ⟨decide (d.options.codenames ≠ []), "codenames", strings d.options.codenames⟩,
    ⟨decide (d.options.name ≠ ""), "name", Value.string d.options.name⟩,
    ⟨decide (d.options.architecture ≠ ""), "architecture",
      Value.string d.options.architecture⟩,
    ⟨decide (flag_names device_flag_mappings d.options.flags ≠ []), "flags",
      strings (flag_names device_flag_mappings d.options.flags)⟩,
    ⟨!(chain (block_devs_steps d)).isEmpty, "block_devs",
      Value.object (chain (block_devs_steps d))⟩,
    ⟨!(chain (boot_ui_steps d)).isEmpty, "boot_ui",
      Value.object (chain (boot_ui_steps d))⟩ ]

/-- Both flag fields of a device lie within their masks. -/
def InMask (d : Device) : Prop :=
  d.options.flags &&& DEVICE_FLAG_MASK = d.options.flags
    ∧ d.tw_options.flags &&& TW_FLAG_MASK = d.tw_options.flags

/-- A device that passes validation, with boot UI unsupported and a boot-UI flag bit
outside the mask. -/
def sample_unsupported_device : Device :=
  { options :=
      { id := "test", codenames := ["test1"], name := "Test Device",
        architecture := "arm64-v8a", flags := 0, base_dirs := [],
        system_devs := ["/dev/block/sda1"], cache_devs := ["/dev/block/sda2"],
        data_devs := ["/dev/block/sda3"], boot_devs := ["/dev/block/sda4"],
        recovery_devs := [], extra_devs := [] },
    tw_options := { Device.ctor.tw_options with flags := 1 <<< 17 } }

/-- The full-field sample object of the tests (`sample_complete` in `test_json.cpp`). -/
def sample_complete : Value :=
  Value.object
    [ ("name", Value.string "Test Device"),
      ("id", Value.string "test"),
      ("codenames", strings ["test1", "test2", "test3", "test4"]),
      ("architecture", Value.string "arm64-v8a"),
      ("flags", strings ["HAS_COMBINED_BOOT_AND_RECOVERY"]),
      ("block_devs", Value.object
        [ ("base_dirs", strings ["/dev/block/bootdevice/by-name"]),
          ("system", strings ["/dev/block/bootdevice/by-name/system", "/dev/block/sda1"]),
          ("cache", strings ["/dev/block/bootdevice/by-name/cache", "/dev/block/sda2"]),
          ("data", strings ["/dev/block/bootdevice/by-name/userdata", "/dev/block/sda3"]),
          ("boot", strings ["/dev/block/bootdevice/by-name/boot", "/dev/block/sda4"]),
          ("recovery", strings ["/dev/block/bootdevice/by-name/recovery", "/dev/block/sda5"]),
          ("extra", strings ["/dev/block/bootdevice/by-name/modem", "/dev/block/sda6"]) ]),
      ("boot_ui", Value.object
        [ ("supported", Value.bool true),
          ("flags", strings
            [ "TW_TOUCHSCREEN_SWAP_XY", "TW_TOUCHSCREEN_FLIP_X", "TW_TOUCHSCREEN_FLIP_Y",
              "TW_GRAPHICS_FORCE_USE_LINELENGTH", "TW_SCREEN_BLANK_ON_BOOT",
              "TW_BOARD_HAS_FLIPPED_SCREEN", "TW_IGNORE_MAJOR_AXIS_0",
              "TW_IGNORE_MT_POSITION_0", "TW_IGNORE_ABS_MT_TRACKING_ID", "TW_NEW_ION_HEAP",
              "TW_NO_SCREEN_BLANK", "TW_NO_SCREEN_TIMEOUT", "TW_ROUND_SCREEN",
              "TW_NO_CPU_TEMP", "TW_QCOM_RTC_FIX", "TW_HAS_DOWNLOAD_MODE",
              "TW_PREFER_LCD_BACKLIGHT" ]),
          ("pixel_format", Value.string "RGBA_8888"),
          ("force_pixel_format", Value.string "RGB_565"),
          ("overscan_percent", Value.int 10),
          ("default_x_offset", Value.int 20),
          ("default_y_offset", Value.int 30),
          ("brightness_path", Value.string "/sys/class/backlight"),
          ("secondary_brightness_path", Value.string "/sys/class/lcd-backlight"),
          ("max_brightness", Value.int 255),
          ("default_brightness", Value.int 100),
          ("battery_path", Value.string "/sys/class/battery"),
          ("cpu_temp_path", Value.string "/sys/class/cputemp"),
          ("input_blacklist", Value.string "foo"),
          ("input_whitelist", Value.string "bar"),
          ("graphics_backends", strings ["overlay_msm_old", "fbdev"]),
          ("theme", Value.string "portrait_hdpi") ]) ]

/-! ## Paths into a JSON tree

The vocabulary of the statements about error contexts and about the keys that the
encoder emits. -/

/-- One step from a node of the tree to a child: a member of an object, or an element
of an array. -/
inductive Segment where
  | key (k : String)
  | index (i : Nat)
deriving DecidableEq

/-- The text of a step in a context string: `.key` for an object member and `[i]`, in
decimal, for an array element. -/
def Segment.render : Segment → String
  | Segment.key k => "." ++ k
  | Segment.index i => "[" ++ toString i ++ "]"

/-- The concatenation of the texts of the steps of a path, from the root down. -/
def render_path : List Segment → String
  | [] => ""
  | s :: rest => s.render ++ render_path rest

/-- The path leads from the given node to a node of the tree: every `key` step goes to
a member with that key, every `index` step to the element at that position. -/
def has_path : List Segment → Value → Bool
  | [], _ => true
  | Segment.key k :: rest, v => v.members.any (fun m => decide (m.1 = k) && has_path rest m.2)
  | Segment.index i :: rest, v =>
    match v.items[i]? with
    | some x => has_path rest x
    | none => false

/-- The context string that an error carries for the node reached by `path` from the
node decoded under `context`: the concatenation, with `.` standing for the empty one. -/
def context_at (context : String) (path : List Segment) : String :=
  if context ++ render_path path = "" then "." else context ++ render_path path

/-- A decoding function of a node behaves uniformly: the value it returns does not
depend on the device, the context or the error record; the device is transformed in a
way that does not depend on the context or the error record; the error record is left
alone unless false is returned, and then it is a record whose context is the one of a
path, satisfying `Q`, below the context passed in. -/
def Uniform (Q : List Segment → Prop) (f : Device → String → JsonError → Outcome) : Prop :=
  ∃ (ret : Option Bool) (t : Device → Device) (path : List Segment)
      (upd : JsonError → JsonError),
    (ret = some false → Q path) ∧
    ∀ dev ctx e, f dev ctx e
      = ⟨ret, t dev,
          if ret = some false then { upd e with context := context_at ctx path } else e⟩

/-- The member of an object with the given key, if there is one. -/
def member (v : Value) (key : String) : Option Value := v.members.lookup key

/-- The member `key` of the member `outer` of an object, if both exist. -/
def member2 (v : Value) (outer key : String) : Option Value :=
  (member v outer).bind (fun w => member w key)

/-- The two-element array of the tests (`sample_multiple` in `test_json.cpp`). -/
def sample_multiple : Value :=
  Value.array
    [ Value.object [("id", Value.string "test1")],
      Value.object [("id", Value.string "test2")] ]

/-- The three levels of a device object that are decoded by a key loop. -/
inductive Level where
  | device
  | block_devs
  | boot_ui
deriving DecidableEq

/-- The body of the key loop of a level, as a function of the context first. -/
def Level.entry : Level → String → String → Value → Device → JsonError → Outcome
  | Level.device => process_device_entry
  | Level.block_devs => process_block_devs_entry
  | Level.boot_ui => process_boot_ui_entry

/-- The decoding function of a level. -/
def Level.process : Level → Device → Value → String → JsonError → Outcome
  | Level.device => process_device
  | Level.block_devs => process_block_devs
  | Level.boot_ui => process_boot_ui

/-- The members of an object have pairwise distinct keys, as in the map in which the
library keeps them. -/
def distinct_keys (v : Value) : Prop := (v.members.map Prod.fst).Nodup

/-- The JSON value given for a field in a device object: the member of the field's key
at the top level, or in the `block_devs` or `boot_ui` member, if it is present. -/
def field_value (root : Value) (f : FieldId) : Option Value :=
  match block_devs_key f with
  | some k => member2 root "block_devs" k
  | none =>
    match boot_ui_key f with
    | some k => member2 root "boot_ui" k
    | none => (device_key f).bind (member root)

/-- The JSON literal of the value that a device holds in a field, for the fields that
hold a string, an integer, a boolean or a list of strings; the two flag masks and the
two pixel formats have none. -/
def field_literal : FieldId → Device → Option Value
  | FieldId.id, d => some (Value.string d.id)
  | FieldId.codenames, d => some (strings d.codenames)
  | FieldId.name, d => some (Value.string d.name)
  | FieldId.architecture, d => some (Value.string d.architecture)
  | FieldId.flags, _ => none
  | FieldId.base_dirs, d => some (strings d.block_dev_base_dirs)
  | FieldId.system_devs, d => some (strings d.system_block_devs)
  | FieldId.cache_devs, d => some (strings d.cache_block_devs)
  | FieldId.data_devs, d => some (strings d.data_block_devs)
  | FieldId.boot_devs, d => some (strings d.boot_block_devs)
  | FieldId.recovery_devs, d => some (strings d.recovery_block_devs)
  | FieldId.extra_devs, d => some (strings d.extra_block_devs)
  | FieldId.tw_supported, d => some (Value.bool d.tw_supported)
  | FieldId.tw_flags, _ => none
  | FieldId.tw_pixel_format, _ => none
  | FieldId.tw_force_pixel_format, _ => none
  | FieldId.tw_overscan_percent, d => some (Value.int d.tw_overscan_percent)
  | FieldId.tw_default_x_offset, d => some (Value.int d.tw_default_x_offset)
  | FieldId.tw_default_y_offset, d => some (Value.int d.tw_default_y_offset)
  | FieldId.tw_brightness_path, d => some (Value.string d.tw_brightness_path)
  | FieldId.tw_secondary_brightness_path, d => some (Value.string d.tw_secondary_brightness_path)
  | FieldId.tw_max_brightness, d => some (Value.int d.tw_max_brightness)
  | FieldId.tw_default_brightness, d => some (Value.int d.tw_default_brightness)
  | FieldId.tw_battery_path, d => some (Value.string d.tw_battery_path)
  | FieldId.tw_cpu_temp_path, d => some (Value.string d.tw_cpu_temp_path)
  | FieldId.tw_input_blacklist, d => some (Value.string d.tw_input_blacklist)
  | FieldId.tw_input_whitelist, d => some (Value.string d.tw_input_whitelist)
  | FieldId.tw_graphics_backends, d => some (strings d.tw_graphics_backends)
  | FieldId.tw_theme, d => some (Value.string d.tw_theme)

/-- A device object with a repeated codename, two keys of `block_devs` and two of
`boot_ui`. -/
def sample_fields : Value :=
  Value.object
    [ ("id", Value.string "test"),
      ("codenames", strings ["a", "b", "a"]),
      ("block_devs", Value.object
        [ ("system", strings ["/dev/block/sda1", "/dev/block/sda1"]),
          ("extra", strings []) ]),
      ("boot_ui", Value.object
        [ ("supported", Value.bool false),
          ("max_brightness", Value.int 0) ]) ]

/-! ## Vocabulary of the validator and of the emitted tree -/

/-- The contribution of one rule of the validator to the mask: `bit` when the rule
fires, nothing otherwise. -/
def rule_bit (fires : Bool) (bit : Nat) : Nat := if fires then bit else 0

/-- The value has a bit set at a position from `n` upwards, that is, outside the mask
of the `n` lowest bits. -/
def has_bit_from (n x : Nat) : Prop := ∃ i, n ≤ i ∧ x.testBit i = true

mutual
/-- No array and no object in the tree is empty. -/
def no_empty_container : Value → Bool
  | Value.array xs => !xs.isEmpty && all_no_empty_container xs
  | Value.object ms => !ms.isEmpty && members_no_empty_container ms
  | _ => true
/-- No array and no object in the listed trees is empty. -/
def all_no_empty_container : List Value → Bool
  | [] => true
  | x :: xs => no_empty_container x && all_no_empty_container xs
/-- No array and no object in the values of the listed members is empty. -/
def members_no_empty_container : List (String × Value) → Bool
  | [] => true
  | (_, v) :: ms => no_empty_container v && members_no_empty_container ms
end

/-- The device that `sample_complete` decodes to. -/
def sample_device : Device :=
  (device_from_json (ParseResult.ok sample_complete) Device.ctor error0).device

/-! ## The batch check of `devicesgen` (`devicesgen.cpp`) -/

namespace devicesgen

/-- A message that `validate` prints on the error stream: through `print_json_error`
(the path and the error record) or through `print_validation_error` (the path, the id
of the device and the mask of `Device::validate`). -/
inductive Report where
  | json_error (path : String) (error : JsonError)
  | validation_error (path : String) (id : String) (flags : Nat)
deriving DecidableEq

/-- What `validate` leaves behind: the value it returns (`none` when it has branched on
a `bool` that was never assigned) and the messages it has printed, in order. -/
structure ValidateOutcome where
  ret : Option Bool
  reports : List Report
deriving DecidableEq

/-- The loop of `validate` over the decoded devices: `failed` is the loop's flag and
`reports` what has been printed so far. -/
def validate_loop (path : String) : List Device → Bool → List Report → Bool × List Report
  | [], failed, reports => (failed, reports)
  | device :: rest, failed, reports =>
    let flags := device.validate
    if flags ≠ 0 then
      validate_loop path rest true (reports ++ [Report.validation_error path device.id flags])
    else validate_loop path rest failed reports

/-- The function `validate` of `devicesgen.cpp`, from the outcome of the external parser
on the text `json` onwards. `error` is the content of the local error record when it is
declared; the source leaves its `type` field unassigned. -/
def validate (path : String) (json : ParseResult) (is_array : Bool) (error : JsonError) :
    ValidateOutcome :=
  if is_array then
    let devices : List Device := []
    let r := device_list_from_json json devices error
    match r.ret with
    | some false => ⟨some false, [Report.json_error path r.error]⟩
    | none => ⟨none, []⟩
    | some true =>
      let failed := false
      let l := validate_loop path r.devices failed []
      if l.1 then ⟨some false, l.2⟩ else ⟨some true, l.2⟩
  else
    let device := Device.ctor
    let r := device_from_json json device error
    match r.ret with
    | some false => ⟨some false, [Report.json_error path r.error]⟩
    | none => ⟨none, []⟩
    | some true =>
      let flags := r.device.validate
      if flags ≠ 0 then
        ⟨some false, [Report.validation_error path r.device.id flags]⟩
      else ⟨some true, []⟩

end devicesgen

/-- The key under which a field is decoded does not occur at its level: a top-level key
is not among the keys of the root, and a key of `block_devs` or `boot_ui` is not among
the keys of any member of that name. -/
def key_absent (root : Value) (f : FieldId) : Prop :=
  match block_devs_key f with
  | some k => ∀ w, ("block_devs", w) ∈ root.members → k ∉ w.members.map Prod.fst
  | none =>
    match boot_ui_key f with
    | some k => ∀ w, ("boot_ui", w) ∈ root.members → k ∉ w.members.map Prod.fst
    | none => ∀ k, device_key f = some k → k ∉ root.members.map Prod.fst

/-- An array of three device objects: the first passes validation, the other two miss
fields. -/
def sample_batch : Value :=
  Value.array [sample_complete, Value.object [("id", Value.string "b")],
    Value.object [("name", Value.string "c")]]

/-! ## The node that an error points to

The vocabulary of the statement about error contexts: the node that a path leads to,
and what the schema expects at a path below a device object. -/

/-- The path leads from the node `v` to the node `x`: every `key` step goes to a member
with that key, every `index` step to the element at that position. -/
def leads_to : List Segment → Value → Value → Prop
  | [], v, x => x = v
  | Segment.key k :: rest, v, x => ∃ w, (k, w) ∈ v.members ∧ leads_to rest w x
  | Segment.index i :: rest, v, x => ∃ w, v.items[i]? = some w ∧ leads_to rest w x

/-- The JSON type that the schema expects of the node at a path below a device object:
an object at the root, the type listed for a key at the top level and in `block_devs`
and `boot_ui`, and a string for every element of a member that is to be an array. -/
def expected_at : List Segment → Option ValueType
  | [] => some ValueType.objectValue
  | [Segment.key k] => device_schema.lookup k
  | [Segment.key outer, Segment.key k] =>
    if outer = "block_devs" then block_devs_schema.lookup k
    else if outer = "boot_ui" then boot_ui_schema.lookup k
    else none
  | [Segment.key k, Segment.index _] =>
    if device_schema.lookup k = some ValueType.arrayValue then some ValueType.stringValue
    else none
  | [Segment.key outer, Segment.key k, Segment.index _] =>
    if outer = "block_devs" ∧ block_devs_schema.lookup k = some ValueType.arrayValue then
      some ValueType.stringValue
    else if outer = "boot_ui" ∧ boot_ui_schema.lookup k = some ValueType.arrayValue then
      some ValueType.stringValue
    else none
  | _ => none

/-- The keys that the schema lists for the object at a path below a device object: the
device object itself and its members `block_devs` and `boot_ui`. -/
def keys_at : List Segment → Option (List String)
  | [] => some device_keys
  | [Segment.key k] =>
    if k = "block_devs" then some block_devs_keys
    else if k = "boot_ui" then some boot_ui_keys
    else none
  | _ => none

/-- The names that the tables have for the string at a path below a device object: the
names of the flag tables for an element of `flags` and of `boot_ui.flags`, and the names
of the two pixel-format tables for `boot_ui.pixel_format` and
`boot_ui.force_pixel_format`. -/
def names_at : List Segment → Option (List String)
  | [Segment.key k, Segment.index _] =>
    if k = "flags" then some (table_keys device_flag_mappings) else none
  | [Segment.key outer, Segment.key k] =>
    if outer = "boot_ui" ∧ k = "pixel_format" then
      some (tw_pxfmt_mappings.map (fun it => it.key))
    else if outer = "boot_ui" ∧ k = "force_pixel_format" then
      some (tw_force_pxfmt_mappings.map (fun it => it.key))
    else none
  | [Segment.key outer, Segment.key k, Segment.index _] =>
    if outer = "boot_ui" ∧ k = "flags" then some (table_keys tw_flag_mappings) else none
  | _ => none

/-- The error record `result` describes what is wrong with the node `x` that `path`
leads to from the device object `root`, `error` being the record before the call and
`context` the context that the record carries. One of three holds. The type of `x` is
not the one the schema expects at `path`, and the record is the mismatch of these two
types. Or `path` ends in a key that the schema does not list for the object it is in,
and the record is the unknown key. Or `x` is a string where a name of a table is
expected, and the record is the unknown value: the string is not a name of the table,
or it is an element of a flags array that repeats an earlier element. -/
def Offending (root : Value) (path : List Segment) (x : Value) (error : JsonError)
    (context : String) (result : JsonError) : Prop :=
  (∃ t, expected_at path = some t ∧ x.type ≠ t
    ∧ result = mismatched_type_error error context (json_type_to_string x.type)
        (json_type_to_string t))
  ∨ (∃ (parent : List Segment) (k : String) (keys : List String),
      path = parent ++ [Segment.key k] ∧ keys_at parent = some keys ∧ k ∉ keys
      ∧ result = unknown_key_error error context)
  ∨ (∃ names, names_at path = some names ∧ x.type = ValueType.stringValue
      ∧ (x.asString ∉ names
        ∨ ∃ (parent : List Segment) (j : Nat) (arr : Value) (i : Nat),
            path = parent ++ [Segment.index j] ∧ leads_to parent root arr ∧ i < j
            ∧ arr.items[i]? = some (Value.string x.asString))
      ∧ result = unknown_value_error error context)


/-! ## Context strings -/

theorem subcontext_ne_empty (context key : String) : context ++ "." ++ key ≠ "" := by
  intro h
  have h2 := congrArg String.length h
  have h1 : ".".length = 1 := rfl
  simp [String.length_append] at h2
  omega

theorem index_context_ne_empty (context : String) (index : Nat) :
    context ++ "[" ++ toString index ++ "]" ≠ "" := by
  intro h
  have h2 := congrArg String.length h
  have h1 : "]".length = 1 := rfl
  simp [String.length_append] at h2
  omega

theorem subcontext_ne_self (context key : String) : context ++ "." ++ key ≠ context := by
  intro h
  have h2 := congrArg String.length h
  have h1 : ".".length = 1 := rfl
  simp [String.length_append] at h2
  omega

/-! ## Dispatch of the key loops

One lemma per recognized key: the loop body hands the member to the handler of that key,
with the parent context extended by the key. -/

@[simp]
theorem boot_ui_entry_supported (context : String) (val : Value) (device : Device)
    (error : JsonError) :
    process_boot_ui_entry context "supported" val device error =
      device_set_boolean Device.set_tw_supported device val (context ++ "." ++ "supported") error := by
  simp [process_boot_ui_entry]

@[simp]
theorem boot_ui_entry_flags (context : String) (val : Value) (device : Device)
    (error : JsonError) :
    process_boot_ui_entry context "flags" val device error =
      process_boot_ui_flags device val (context ++ "." ++ "flags") error := by
  simp [process_boot_ui_entry]

@[simp]
theorem boot_ui_entry_pixel_format (context : String) (val : Value) (device : Device)
    (error : JsonError) :
    process_boot_ui_entry context "pixel_format" val device error =
      process_boot_ui_pixel_format device val (context ++ "." ++ "pixel_format") error := by
  simp [process_boot_ui_entry]

@[simp]
theorem boot_ui_entry_force_pixel_format (context : String) (val : Value) (device : Device)
    (error : JsonError) :
    process_boot_ui_entry context "force_pixel_format" val device error =
      process_boot_ui_force_pixel_format device val (context ++ "." ++ "force_pixel_format") error := by
  simp [process_boot_ui_entry]

@[simp]
theorem boot_ui_entry_overscan_percent (context : String) (val : Value) (device : Device)
    (error : JsonError) :
    process_boot_ui_entry context "overscan_percent" val device error =
      device_set_int Device.set_tw_overscan_percent device val (context ++ "." ++ "overscan_percent") error := by
  simp [process_boot_ui_entry]

@[simp]
theorem boot_ui_entry_default_x_offset (context : String) (val : Value) (device : Device)
    (error : JsonError) :
    process_boot_ui_entry context "default_x_offset" val device error =
      device_set_int Device.set_tw_default_x_offset device val (context ++ "." ++ "default_x_offset") error := by
  simp [process_boot_ui_entry]

@[simp]
theorem boot_ui_entry_default_y_offset (context : String) (val : Value) (device : Device)
    (error : JsonError) :
    process_boot_ui_entry context "default_y_offset" val device error =
      device_set_int Device.set_tw_default_y_offset device val (context ++ "." ++ "default_y_offset") error := by
  simp [process_boot_ui_entry]

@[simp]
theorem boot_ui_entry_brightness_path (context : String) (val : Value) (device : Device)
    (error : JsonError) :
    process_boot_ui_entry context "brightness_path" val device error =
      device_set_string Device.set_tw_brightness_path device val (context ++ "." ++ "brightness_path") error := by
  simp [process_boot_ui_entry]

@[simp]
theorem boot_ui_entry_secondary_brightness_path (context : String) (val : Value) (device : Device)
    (error : JsonError) :
    process_boot_ui_entry context "secondary_brightness_path" val device error =
      device_set_string Device.set_tw_secondary_brightness_path device val (context ++ "." ++ "secondary_brightness_path") error := by
  simp [process_boot_ui_entry]

@[simp]
theorem boot_ui_entry_max_brightness (context : String) (val : Value) (device : Device)
    (error : JsonError) :
    process_boot_ui_entry context "max_brightness" val device error =
      device_set_int Device.set_tw_max_brightness device val (context ++ "." ++ "max_brightness") error := by
  simp [process_boot_ui_entry]

@[simp]
theorem boot_ui_entry_default_brightness (context : String) (val : Value) (device : Device)
    (error : JsonError) :
    process_boot_ui_entry context "default_brightness" val device error =
      device_set_int Device.set_tw_default_brightness device val (context ++ "." ++ "default_brightness") error := by
  simp [process_boot_ui_entry]

@[simp]
theorem boot_ui_entry_battery_path (context : String) (val : Value) (device : Device)
    (error : JsonError) :
    process_boot_ui_entry context "battery_path" val device error =
      device_set_string Device.set_tw_battery_path device val (context ++ "." ++ "battery_path") error := by
  simp [process_boot_ui_entry]

@[simp]
theorem boot_ui_entry_cpu_temp_path (context : String) (val : Value) (device : Device)
    (error : JsonError) :
    process_boot_ui_entry context "cpu_temp_path" val device error =
      device_set_string Device.set_tw_cpu_temp_path device val (context ++ "." ++ "cpu_temp_path") error := by
  simp [process_boot_ui_entry]

@[simp]
theorem boot_ui_entry_input_blacklist (context : String) (val : Value) (device : Device)
    (error : JsonError) :
    process_boot_ui_entry context "input_blacklist" val device error =
      device_set_string Device.set_tw_input_blacklist device val (context ++ "." ++ "input_blacklist") error := by
  simp [process_boot_ui_entry]

@[simp]
theorem boot_ui_entry_input_whitelist (context : String) (val : Value) (device : Device)
    (error : JsonError) :
    process_boot_ui_entry context "input_whitelist" val device error =
      device_set_string Device.set_tw_input_whitelist device val (context ++ "." ++ "input_whitelist") error := by
  simp [process_boot_ui_entry]

@[simp]
theorem boot_ui_entry_graphics_backends (context : String) (val : Value) (device : Device)
    (error : JsonError) :
    process_boot_ui_entry context "graphics_backends" val device error =
      device_set_string_array Device.set_tw_graphics_backends device val (context ++ "." ++ "graphics_backends") error := by
  simp [process_boot_ui_entry]

@[simp]
theorem boot_ui_entry_theme (context : String) (val : Value) (device : Device)
    (error : JsonError) :
    process_boot_ui_entry context "theme" val device error =
      device_set_string Device.set_tw_theme device val (context ++ "." ++ "theme") error := by
  simp [process_boot_ui_entry]

@[simp]
theorem block_devs_entry_base_dirs (context : String) (val : Value) (device : Device)
    (error : JsonError) :
    process_block_devs_entry context "base_dirs" val device error =
      device_set_string_array Device.set_block_dev_base_dirs device val (context ++ "." ++ "base_dirs") error := by
  simp [process_block_devs_entry]

@[simp]
theorem block_devs_entry_system (context : String) (val : Value) (device : Device)
    (error : JsonError) :
    process_block_devs_entry context "system" val device error =
      device_set_string_array Device.set_system_block_devs device val (context ++ "." ++ "system") error := by
  simp [process_block_devs_entry]

@[simp]
theorem block_devs_entry_cache (context : String) (val : Value) (device : Device)
    (error : JsonError) :
    process_block_devs_entry context "cache" val device error =
      device_set_string_array Device.set_cache_block_devs device val (context ++ "." ++ "cache") error := by
  simp [process_block_devs_entry]

@[simp]
theorem block_devs_entry_data (context : String) (val : Value) (device : Device)
    (error : JsonError) :
    process_block_devs_entry context "data" val device error =
      device_set_string_array Device.set_data_block_devs device val (context ++ "." ++ "data") error := by
  simp [process_block_devs_entry]

@[simp]
theorem block_devs_entry_boot (context : String) (val : Value) (device : Device)
    (error : JsonError) :
    process_block_devs_entry context "boot" val device error =
      device_set_string_array Device.set_boot_block_devs device val (context ++ "." ++ "boot") error := by
  simp [process_block_devs_entry]

@[simp]
theorem block_devs_entry_recovery (context : String) (val : Value) (device : Device)
    (error : JsonError) :
    process_block_devs_entry context "recovery" val device error =
      device_set_string_array Device.set_recovery_block_devs device val (context ++ "." ++ "recovery") error := by
  simp [process_block_devs_entry]

@[simp]
theorem block_devs_entry_extra (context : String) (val : Value) (device : Device)
    (error : JsonError) :
    process_block_devs_entry context "extra" val device error =
      device_set_string_array Device.set_extra_block_devs device val (context ++ "." ++ "extra") error := by
  simp [process_block_devs_entry]

@[simp]
theorem device_entry_name (context : String) (val : Value) (device : Device)
    (error : JsonError) :
    process_device_entry context "name" val device error =
      device_set_string Device.set_name device val (context ++ "." ++ "name") error := by
  simp [process_device_entry]

@[simp]
theorem device_entry_id (context : String) (val : Value) (device : Device)
    (error : JsonError) :
    process_device_entry context "id" val device error =
      device_set_string Device.set_id device val (context ++ "." ++ "id") error := by
  simp [process_device_entry]

@[simp]
theorem device_entry_codenames (context : String) (val : Value) (device : Device)
    (error : JsonError) :
    process_device_entry context "codenames" val device error =
      device_set_string_array Device.set_codenames device val (context ++ "." ++ "codenames") error := by
  simp [process_device_entry]

@[simp]
theorem device_entry_architecture (context : String) (val : Value) (device : Device)
    (error : JsonError) :
    process_device_entry context "architecture" val device error =
      device_set_string Device.set_architecture device val (context ++ "." ++ "architecture") error := by
  simp [process_device_entry]

@[simp]
theorem device_entry_flags (context : String) (val : Value) (device : Device)
    (error : JsonError) :
    process_device_entry context "flags" val device error =
      process_device_flags device val (context ++ "." ++ "flags") error := by
  simp [process_device_entry]

@[simp]
theorem device_entry_block_devs (context : String) (val : Value) (device : Device)
    (error : JsonError) :
    process_device_entry context "block_devs" val device error =
      process_block_devs device val (context ++ "." ++ "block_devs") error := by
  simp [process_device_entry]

@[simp]
theorem device_entry_boot_ui (context : String) (val : Value) (device : Device)
    (error : JsonError) :
    process_device_entry context "boot_ui" val device error =
      process_boot_ui device val (context ++ "." ++ "boot_ui") error := by
  simp [process_device_entry]

/-! ## Flag tables -/

theorem flag_table_scan_eq (table : List FlagMapping) (str : String) (flags : Nat) :
    flag_table_scan table str flags = flags ||| flag_of table str := by
  induction table with
  | nil => simp [flag_table_scan, flag_of]
  | cons it rest ih =>
    by_cases h : str = it.key
    · subst h
      simp [flag_table_scan, flag_of]
    · have h2 : ¬ it.key = str := fun e => h e.symm
      simp only [flag_table_scan, if_neg h, ih]
      simp [flag_of, List.find?, h2]

theorem flag_of_unknown (table : List FlagMapping) (name : String)
    (h : name ∉ table_keys table) : flag_of table name = 0 := by
  induction table with
  | nil => simp [flag_of]
  | cons it rest ih =>
    simp only [table_keys, List.map_cons, List.mem_cons, not_or] at h
    have h2 : ¬ it.key = name := fun e => h.1 e.symm
    have h3 := ih h.2
    simp only [flag_of, List.find?, h2, decide_False] at h3 ⊢
    exact h3

set_option maxRecDepth 100000 in
theorem device_flag_table_ok : FlagTableOK device_flag_mappings :=
  ⟨by decide, by decide⟩

set_option maxRecDepth 100000 in
set_option maxHeartbeats 4000000 in
theorem tw_flag_table_ok : FlagTableOK tw_flag_mappings :=
  ⟨by decide, by decide⟩

theorem or_ne_self_of_disjoint (acc b : Nat) (hb : b ≠ 0) (hd : b &&& acc = 0) :
    acc ||| b ≠ acc := by
  intro h
  apply hb
  have h1 : b &&& (acc ||| b) = b := by
    rw [Nat.and_or_distrib_left, hd]
    simp
  rw [h] at h1
  rw [← h1, hd]

theorem or_names_cons (table : List FlagMapping) (flags : Nat) (name : String)
    (names : List String) :
    or_names table flags (name :: names) = or_names table (flags ||| flag_of table name) names := by
  simp [or_names]

/-- The flag loop on a run of pairwise distinct recognized names whose bits are not in
`flags` yet: it consumes the run, OR-ing each name's bit into `flags`. -/
theorem flags_loop_names (table : List FlagMapping) (hok : FlagTableOK table)
    (context : String) (error : JsonError) (rest : List Value) (names : List String) :
    ∀ (index flags : Nat), names.Nodup → (∀ name ∈ names, name ∈ table_keys table) →
      (∀ name ∈ names, flag_of table name &&& flags = 0) →
      flags_loop table context error (names.map Value.string ++ rest) index flags =
        flags_loop table context error rest (index + names.length)
          (or_names table flags names) := by
  induction names with
  | nil => intro index flags _ _ _; simp [or_names]
  | cons name names ih =>
    intro index flags hnd hrec hdis
    have hnd2 := List.nodup_cons.mp hnd
    have hn : flag_of table name ≠ 0 := hok.nonzero name (hrec name (List.mem_cons_self _ _))
    have hne : flags ||| flag_of table name ≠ flags :=
      or_ne_self_of_disjoint flags _ hn (hdis name (List.mem_cons_self _ _))
    have hstep : flags_loop table context error
        (List.map Value.string (name :: names) ++ rest) index flags =
        flags_loop table context error (List.map Value.string names ++ rest) (index + 1)
          (flags ||| flag_of table name) := by
      simp [flags_loop, Value.isString, Value.type, Value.asString, flag_table_scan_eq, hne]
    rw [hstep, ih (index + 1) (flags ||| flag_of table name) hnd2.2
      (fun n hmem => hrec n (List.mem_cons_of_mem _ hmem))]
    · rw [or_names_cons]
      congr 1
      simp only [List.length_cons]
      omega
    · intro n hmem
      have hne2 : n ≠ name := fun e => hnd2.1 (e ▸ hmem)
      rw [Nat.and_or_distrib_left, hdis n (List.mem_cons_of_mem _ hmem),
        hok.disjoint n (hrec n (List.mem_cons_of_mem _ hmem)) name
          (hrec name (List.mem_cons_self _ _)) hne2]
      rfl

theorem or_names_perm (table : List FlagMapping) (flags : Nat) (names names2 : List String)
    (h : names.Perm names2) : or_names table flags names = or_names table flags names2 := by
  unfold or_names
  apply List.Perm.foldl_eq' h
  intro x _ y _ z
  simp only [Nat.or_assoc]
  rw [Nat.or_comm (flag_of table x)]

theorem flags_loop_not_string (table : List FlagMapping) (context : String)
    (error : JsonError) (item : Value) (rest : List Value) (index flags : Nat)
    (h : item.type ≠ ValueType.stringValue) :
    flags_loop table context error (item :: rest) index flags =
      Except.error (json_error_set_mismatched_type error
        (context ++ "[" ++ toString index ++ "]") item.type ValueType.stringValue) := by
  simp [flags_loop, Value.isString, h]

theorem flags_loop_unknown (table : List FlagMapping) (context : String)
    (error : JsonError) (s : String) (rest : List Value) (index flags : Nat)
    (h : s ∉ table_keys table) :
    flags_loop table context error (Value.string s :: rest) index flags =
      Except.error (json_error_set_unknown_value error
        (context ++ "[" ++ toString index ++ "]")) := by
  simp [flags_loop, Value.isString, Value.type, Value.asString, flag_table_scan_eq,
    flag_of_unknown table s h]

/-- A repeated name is reported as an unknown value: once its bit is in `flags`, the
table scan leaves `flags` as it was. -/
theorem flags_loop_repeated (table : List FlagMapping) (context : String)
    (error : JsonError) (s : String) (rest : List Value) (index flags : Nat)
    (h : flags ||| flag_of table s = flags) :
    flags_loop table context error (Value.string s :: rest) index flags =
      Except.error (json_error_set_unknown_value error
        (context ++ "[" ++ toString index ++ "]")) := by
  simp [flags_loop, Value.isString, Value.type, Value.asString, flag_table_scan_eq, h]

theorem mismatched_type_at (error : JsonError) (context : String) (index : Nat)
    (actual expected : ValueType) :
    json_error_set_mismatched_type error (context ++ "[" ++ toString index ++ "]")
        actual expected =
      mismatched_type_error error (element_context context index)
        (json_type_to_string actual) (json_type_to_string expected) := by
  simp [json_error_set_mismatched_type, index_context_ne_empty, mismatched_type_error,
    element_context]

theorem unknown_value_at (error : JsonError) (context : String) (index : Nat) :
    json_error_set_unknown_value error (context ++ "[" ++ toString index ++ "]") =
      unknown_value_error error (element_context context index) := by
  simp [json_error_set_unknown_value, index_context_ne_empty, unknown_value_error,
    element_context]

theorem mismatched_type_sub (error : JsonError) (context key : String)
    (actual expected : ValueType) :
    json_error_set_mismatched_type error (context ++ "." ++ key) actual expected =
      mismatched_type_error error (context ++ "." ++ key)
        (json_type_to_string actual) (json_type_to_string expected) := by
  simp [json_error_set_mismatched_type, subcontext_ne_empty, mismatched_type_error]

theorem unknown_key_sub (error : JsonError) (context key : String) :
    json_error_set_unknown_key error (context ++ "." ++ key) =
      unknown_key_error error (context ++ "." ++ key) := by
  simp [json_error_set_unknown_key, subcontext_ne_empty, unknown_key_error]

theorem unknown_value_sub (error : JsonError) (context key : String) :
    json_error_set_unknown_value error (context ++ "." ++ key) =
      unknown_value_error error (context ++ "." ++ key) := by
  simp [json_error_set_unknown_value, subcontext_ne_empty, unknown_value_error]

/-- Decoding an array of pairwise distinct recognized names with a flag table. -/
theorem flags_loop_distinct (table : List FlagMapping) (hok : FlagTableOK table)
    (context : String) (error : JsonError) (names : List String) (hnd : names.Nodup)
    (hrec : ∀ name ∈ names, name ∈ table_keys table) :
    flags_loop table context error (names.map Value.string) 0 0 =
      Except.ok (or_of_names table names) := by
  have h := flags_loop_names table hok context error [] names 0 0 hnd hrec
    (fun n _ => by simp)
  simp only [List.append_nil] at h
  rw [h]
  simp [flags_loop, or_of_names]

/-! ## String arrays -/

theorem strings_of_string_typed (pre : List Value)
    (h : ∀ x ∈ pre, x.type = ValueType.stringValue) :
    pre = (pre.map Value.asString).map Value.string := by
  induction pre with
  | nil => rfl
  | cons x rest ih =>
    have hx := h x (List.mem_cons_self _ _)
    have hrest := ih (fun y hy => h y (List.mem_cons_of_mem _ hy))
    cases x <;> simp [Value.type] at hx
    simp only [List.map_cons, Value.asString]
    rw [← hrest]

theorem string_array_loop_strings (context : String) (error : JsonError)
    (rest : List Value) (xs : List String) :
    ∀ (index : Nat) (array : List String),
      string_array_loop context error (xs.map Value.string ++ rest) index array =
        string_array_loop context error rest (index + xs.length) (array ++ xs) := by
  induction xs with
  | nil => intro index array; simp
  | cons x xs ih =>
    intro index array
    have hstep : string_array_loop context error
        (List.map Value.string (x :: xs) ++ rest) index array =
        string_array_loop context error (List.map Value.string xs ++ rest) (index + 1)
          (array ++ [x]) := by
      simp [string_array_loop, Value.isString, Value.type, Value.asString]
    rw [hstep, ih]
    simp only [List.length_cons, List.append_assoc, List.singleton_append]
    congr 1
    omega

theorem string_array_loop_not_string (context : String) (error : JsonError)
    (item : Value) (rest : List Value) (index : Nat) (array : List String)
    (h : item.type ≠ ValueType.stringValue) :
    string_array_loop context error (item :: rest) index array =
      Except.error (json_error_set_mismatched_type error
        (context ++ "[" ++ toString index ++ "]") item.type ValueType.stringValue) := by
  simp [string_array_loop, Value.isString, h]

/-- An array of strings is stored element by element, in order. -/
theorem device_set_string_array_strings (setter : Device → List String → Device)
    (device : Device) (xs : List String) (context : String) (error : JsonError) :
    device_set_string_array setter device (strings xs) context error =
      ⟨some true, setter device xs, error⟩ := by
  have h := string_array_loop_strings context error [] xs 0 []
  simp only [List.append_nil, List.nil_append] at h
  simp [device_set_string_array, strings, Value.isArray, Value.type, Value.items, h,
    string_array_loop]

/-- The first element that is not a string stops `device_set_string_array`. -/
theorem device_set_string_array_mismatch (setter : Device → List String → Device)
    (device : Device) (pre : List Value) (bad : Value) (post : List Value)
    (context : String) (error : JsonError)
    (hpre : ∀ x ∈ pre, x.type = ValueType.stringValue)
    (hbad : bad.type ≠ ValueType.stringValue) :
    device_set_string_array setter device (Value.array (pre ++ bad :: post)) context error =
      ⟨some false, device,
        mismatched_type_error error (element_context context pre.length)
          (json_type_to_string bad.type) "string"⟩ := by
  have h := string_array_loop_strings context error (bad :: post)
    (pre.map Value.asString) 0 []
  rw [← strings_of_string_typed pre hpre] at h
  simp [device_set_string_array, Value.isArray, Value.type, Value.items, h,
    string_array_loop_not_string _ _ _ _ _ _ hbad, mismatched_type_at, json_type_to_string]

/-- The first element that is not a string stops a flag decoder, when the elements
before it are pairwise distinct recognized names. -/
theorem flags_loop_mismatch (table : List FlagMapping) (hok : FlagTableOK table)
    (names : List String) (bad : Value) (post : List Value)
    (context : String) (error : JsonError) (hnd : names.Nodup)
    (hrec : ∀ name ∈ names, name ∈ table_keys table)
    (hbad : bad.type ≠ ValueType.stringValue) :
    flags_loop table context error (names.map Value.string ++ bad :: post) 0 0 =
      Except.error (mismatched_type_error error (element_context context names.length)
          (json_type_to_string bad.type) "string") := by
  rw [flags_loop_names table hok context error (bad :: post) names 0 0 hnd hrec
    (fun n _ => by simp)]
  simp [flags_loop_not_string _ _ _ _ _ _ _ hbad, mismatched_type_at, json_type_to_string]

/-- An unrecognized name stops a flag decoder, when the elements before it are
pairwise distinct recognized names. -/
theorem flags_loop_unknown_name (table : List FlagMapping) (hok : FlagTableOK table)
    (names : List String) (s : String) (post : List Value)
    (context : String) (error : JsonError) (hnd : names.Nodup)
    (hrec : ∀ name ∈ names, name ∈ table_keys table)
    (hs : s ∉ table_keys table) :
    flags_loop table context error (names.map Value.string ++ Value.string s :: post) 0 0 =
      Except.error (unknown_value_error error (element_context context names.length)) := by
  rw [flags_loop_names table hok context error (Value.string s :: post) names 0 0 hnd hrec
    (fun n _ => by simp)]
  simp [flags_loop_unknown _ _ _ _ _ _ _ hs, unknown_value_at]

theorem process_device_flags_distinct (device : Device) (context : String)
    (error : JsonError) (names : List String) (hnd : names.Nodup)
    (hrec : ∀ name ∈ names, name ∈ table_keys device_flag_mappings) :
    process_device_flags device (strings names) context error =
      ⟨some true, device.set_flags (or_of_names device_flag_mappings names), error⟩ := by
  simp [process_device_flags, strings, Value.isArray, Value.type, Value.items,
    flags_loop_distinct _ device_flag_table_ok context error names hnd hrec]

theorem process_boot_ui_flags_distinct (device : Device) (context : String)
    (error : JsonError) (names : List String) (hnd : names.Nodup)
    (hrec : ∀ name ∈ names, name ∈ table_keys tw_flag_mappings) :
    process_boot_ui_flags device (strings names) context error =
      ⟨some true, device.set_tw_flags (or_of_names tw_flag_mappings names), error⟩ := by
  simp [process_boot_ui_flags, strings, Value.isArray, Value.type, Value.items,
    flags_loop_distinct _ tw_flag_table_ok context error names hnd hrec]


/-! ## The key loop -/

theorem key_loop_cons_ok (entry : String → Value → Device → JsonError → Outcome)
    (key : String) (val : Value) (rest : List (String × Value)) (ret : Option Bool)
    (device : Device) (error : JsonError)
    (h : (entry key val device error).ret = some true) :
    key_loop entry ((key, val) :: rest) ret device error =
      key_loop entry rest (some true) (entry key val device error).device
        (entry key val device error).error := by
  simp [key_loop, h]

theorem key_loop_cons_stop (entry : String → Value → Device → JsonError → Outcome)
    (key : String) (val : Value) (rest : List (String × Value)) (ret : Option Bool)
    (device : Device) (error : JsonError)
    (h : (entry key val device error).ret ≠ some true) :
    key_loop entry ((key, val) :: rest) ret device error = entry key val device error := by
  simp only [key_loop]

/-- Members that are processed successfully are passed over: the loop continues after
them from the device and error they leave. -/
theorem key_loop_append (entry : String → Value → Device → JsonError → Outcome)
    (pre : List (String × Value)) (x : String × Value) (post : List (String × Value)) :
    ∀ (ret : Option Bool) (device : Device) (error : JsonError),
      (key_loop entry pre (some true) device error).ret = some true →
      key_loop entry (pre ++ x :: post) ret device error =
        key_loop entry (x :: post) (some true)
          (key_loop entry pre (some true) device error).device
          (key_loop entry pre (some true) device error).error := by
  induction pre with
  | nil => intro ret device error _; cases x; simp [key_loop]
  | cons y pre ih =>
    intro ret device error h
    obtain ⟨k, v⟩ := y
    by_cases hy : (entry k v device error).ret = some true
    · rw [key_loop_cons_ok _ _ _ _ _ _ _ hy] at h
      rw [List.cons_append, key_loop_cons_ok _ _ _ _ _ _ _ hy, ih _ _ _ h,
        key_loop_cons_ok _ _ _ _ _ _ _ hy]
    · rw [key_loop_cons_stop _ _ _ _ _ _ _ hy] at h
      exact absurd h hy

/-- A loop that does not return true either ran over no member at all or returns what
one of its members left. -/
theorem key_loop_stopped (entry : String → Value → Device → JsonError → Outcome)
    (ms : List (String × Value)) :
    ∀ (ret : Option Bool) (device : Device) (error : JsonError),
      (key_loop entry ms ret device error).ret ≠ some true →
      (ms = [] ∧ key_loop entry ms ret device error = ⟨ret, device, error⟩)
      ∨ ∃ x ∈ ms, ∃ (d : Device) (e : JsonError),
          key_loop entry ms ret device error = entry x.1 x.2 d e := by
  induction ms with
  | nil => intro ret device error _; left; exact ⟨rfl, rfl⟩
  | cons y ms ih =>
    intro ret device error h
    obtain ⟨k, v⟩ := y
    right
    by_cases hy : (entry k v device error).ret = some true
    · rw [key_loop_cons_ok _ _ _ _ _ _ _ hy] at h ⊢
      rcases ih _ _ _ h with ⟨_, h2⟩ | ⟨x, hx, d, e, h2⟩
      · rw [h2] at h
        exact absurd rfl h
      · exact ⟨x, List.mem_cons_of_mem _ hx, d, e, h2⟩
    · rw [key_loop_cons_stop _ _ _ _ _ _ _ hy]
      exact ⟨(k, v), List.mem_cons_self _ _, device, error, rfl⟩

/-! ## What a failing handler records -/

theorem string_array_loop_error_type (context : String) (error : JsonError)
    (items : List Value) :
    ∀ (index : Nat) (array : List String) (e : JsonError),
      string_array_loop context error items index array = Except.error e →
      e.type = JsonErrorType.MISMATCHED_TYPE := by
  induction items with
  | nil => intro index array e h; simp [string_array_loop] at h
  | cons item rest ih =>
    intro index array e h
    simp only [string_array_loop] at h
    split at h
    · simp only [Except.error.injEq] at h
      rw [← h]
      rfl
    · exact ih _ _ _ h

theorem flags_loop_error_type (table : List FlagMapping) (context : String)
    (error : JsonError) (items : List Value) :
    ∀ (index flags : Nat) (e : JsonError),
      flags_loop table context error items index flags = Except.error e →
      e.type ≠ JsonErrorType.UNKNOWN_KEY := by
  induction items with
  | nil => intro index flags e h; simp [flags_loop] at h
  | cons item rest ih =>
    intro index flags e h
    simp only [flags_loop] at h
    split at h
    · simp only [Except.error.injEq] at h
      rw [← h]
      simp [json_error_set_mismatched_type]
    · split at h
      · simp only [Except.error.injEq] at h
        rw [← h]
        simp [json_error_set_unknown_value]
      · exact ih _ _ _ h

theorem device_set_boolean_failure (setter : Device → Bool → Device) (device : Device)
    (val : Value) (context : String) (error : JsonError)
    (h : (device_set_boolean setter device val context error).ret ≠ some true) :
    (device_set_boolean setter device val context error).error.type ≠
      JsonErrorType.UNKNOWN_KEY := by
  unfold device_set_boolean at h ⊢
  split <;> simp_all [json_error_set_mismatched_type]

theorem device_set_int_failure (setter : Device → Int → Device) (device : Device)
    (val : Value) (context : String) (error : JsonError)
    (h : (device_set_int setter device val context error).ret ≠ some true) :
    (device_set_int setter device val context error).error.type ≠
      JsonErrorType.UNKNOWN_KEY := by
  unfold device_set_int at h ⊢
  split <;> simp_all [json_error_set_mismatched_type]

theorem device_set_string_failure (setter : Device → String → Device) (device : Device)
    (val : Value) (context : String) (error : JsonError)
    (h : (device_set_string setter device val context error).ret ≠ some true) :
    (device_set_string setter device val context error).error.type ≠
      JsonErrorType.UNKNOWN_KEY := by
  unfold device_set_string at h ⊢
  split <;> simp_all [json_error_set_mismatched_type]

theorem device_set_string_array_failure (setter : Device → List String → Device)
    (device : Device) (val : Value) (context : String) (error : JsonError)
    (h : (device_set_string_array setter device val context error).ret ≠ some true) :
    (device_set_string_array setter device val context error).error.type ≠
      JsonErrorType.UNKNOWN_KEY := by
  unfold device_set_string_array at h ⊢
  split
  · simp [json_error_set_mismatched_type]
  · split
    · next e he =>
      simp [string_array_loop_error_type _ _ _ _ _ _ he]
    · next a ha => simp_all

theorem process_device_flags_failure (device : Device) (val : Value) (context : String)
    (error : JsonError)
    (h : (process_device_flags device val context error).ret ≠ some true) :
    (process_device_flags device val context error).error.type ≠
      JsonErrorType.UNKNOWN_KEY := by
  unfold process_device_flags at h ⊢
  split
  · simp [json_error_set_mismatched_type]
  · split
    · next e he => exact flags_loop_error_type _ _ _ _ _ _ _ he
    · next a ha => simp_all

theorem process_boot_ui_flags_failure (device : Device) (val : Value) (context : String)
    (error : JsonError)
    (h : (process_boot_ui_flags device val context error).ret ≠ some true) :
    (process_boot_ui_flags device val context error).error.type ≠
      JsonErrorType.UNKNOWN_KEY := by
  unfold process_boot_ui_flags at h ⊢
  split
  · simp [json_error_set_mismatched_type]
  · split
    · next e he => exact flags_loop_error_type _ _ _ _ _ _ _ he
    · next a ha => simp_all

theorem process_boot_ui_pixel_format_failure (device : Device) (val : Value)
    (context : String) (error : JsonError)
    (h : (process_boot_ui_pixel_format device val context error).ret ≠ some true) :
    (process_boot_ui_pixel_format device val context error).error.type ≠
      JsonErrorType.UNKNOWN_KEY := by
  unfold process_boot_ui_pixel_format at h ⊢
  split
  · simp [json_error_set_mismatched_type]
  · split
    · next a ha => simp_all
    · simp [json_error_set_unknown_value]

theorem process_boot_ui_force_pixel_format_failure (device : Device) (val : Value)
    (context : String) (error : JsonError)
    (h : (process_boot_ui_force_pixel_format device val context error).ret ≠ some true) :
    (process_boot_ui_force_pixel_format device val context error).error.type ≠
      JsonErrorType.UNKNOWN_KEY := by
  unfold process_boot_ui_force_pixel_format at h ⊢
  split
  · simp [json_error_set_mismatched_type]
  · split
    · next a ha => simp_all
    · simp [json_error_set_unknown_value]

/-! ## Handlers on a value of the wrong type -/

theorem device_set_boolean_mismatch (setter : Device → Bool → Device) (device : Device)
    (val : Value) (context key : String) (error : JsonError)
    (h : val.type ≠ ValueType.booleanValue) :
    device_set_boolean setter device val (context ++ "." ++ key) error =
      ⟨some false, device, mismatched_type_error error (context ++ "." ++ key)
        (json_type_to_string val.type) (json_type_to_string ValueType.booleanValue)⟩ := by
  simp [device_set_boolean, Value.isBool, h, mismatched_type_sub]

theorem device_set_int_mismatch (setter : Device → Int → Device) (device : Device)
    (val : Value) (context key : String) (error : JsonError)
    (h : val.type ≠ ValueType.intValue) :
    device_set_int setter device val (context ++ "." ++ key) error =
      ⟨some false, device, mismatched_type_error error (context ++ "." ++ key)
        (json_type_to_string val.type) (json_type_to_string ValueType.intValue)⟩ := by
  simp [device_set_int, Value.isInt, h, mismatched_type_sub]

theorem device_set_string_mismatch (setter : Device → String → Device) (device : Device)
    (val : Value) (context key : String) (error : JsonError)
    (h : val.type ≠ ValueType.stringValue) :
    device_set_string setter device val (context ++ "." ++ key) error =
      ⟨some false, device, mismatched_type_error error (context ++ "." ++ key)
        (json_type_to_string val.type) (json_type_to_string ValueType.stringValue)⟩ := by
  simp [device_set_string, Value.isString, h, mismatched_type_sub]

theorem device_set_string_array_not_array (setter : Device → List String → Device)
    (device : Device) (val : Value) (context key : String) (error : JsonError)
    (h : val.type ≠ ValueType.arrayValue) :
    device_set_string_array setter device val (context ++ "." ++ key) error =
      ⟨some false, device, mismatched_type_error error (context ++ "." ++ key)
        (json_type_to_string val.type) (json_type_to_string ValueType.arrayValue)⟩ := by
  simp [device_set_string_array, Value.isArray, h, mismatched_type_sub]

theorem process_device_flags_not_array (device : Device) (val : Value)
    (context key : String) (error : JsonError) (h : val.type ≠ ValueType.arrayValue) :
    process_device_flags device val (context ++ "." ++ key) error =
      ⟨some false, device, mismatched_type_error error (context ++ "." ++ key)
        (json_type_to_string val.type) (json_type_to_string ValueType.arrayValue)⟩ := by
  simp [process_device_flags, Value.isArray, h, mismatched_type_sub]

theorem process_boot_ui_flags_not_array (device : Device) (val : Value)
    (context key : String) (error : JsonError) (h : val.type ≠ ValueType.arrayValue) :
    process_boot_ui_flags device val (context ++ "." ++ key) error =
      ⟨some false, device, mismatched_type_error error (context ++ "." ++ key)
        (json_type_to_string val.type) (json_type_to_string ValueType.arrayValue)⟩ := by
  simp [process_boot_ui_flags, Value.isArray, h, mismatched_type_sub]

theorem process_boot_ui_pixel_format_mismatch (device : Device) (val : Value)
    (context key : String) (error : JsonError) (h : val.type ≠ ValueType.stringValue) :
    process_boot_ui_pixel_format device val (context ++ "." ++ key) error =
      ⟨some false, device, mismatched_type_error error (context ++ "." ++ key)
        (json_type_to_string val.type) (json_type_to_string ValueType.stringValue)⟩ := by
  simp [process_boot_ui_pixel_format, Value.isString, h, mismatched_type_sub]

theorem process_boot_ui_force_pixel_format_mismatch (device : Device) (val : Value)
    (context key : String) (error : JsonError) (h : val.type ≠ ValueType.stringValue) :
    process_boot_ui_force_pixel_format device val (context ++ "." ++ key) error =
      ⟨some false, device, mismatched_type_error error (context ++ "." ++ key)
        (json_type_to_string val.type) (json_type_to_string ValueType.stringValue)⟩ := by
  simp [process_boot_ui_force_pixel_format, Value.isString, h, mismatched_type_sub]

theorem process_block_devs_not_object (device : Device) (val : Value)
    (context key : String) (error : JsonError) (h : val.type ≠ ValueType.objectValue) :
    process_block_devs device val (context ++ "." ++ key) error =
      ⟨some false, device, mismatched_type_error error (context ++ "." ++ key)
        (json_type_to_string val.type) (json_type_to_string ValueType.objectValue)⟩ := by
  simp [process_block_devs, Value.isObject, h, mismatched_type_sub]

theorem process_boot_ui_not_object (device : Device) (val : Value)
    (context key : String) (error : JsonError) (h : val.type ≠ ValueType.objectValue) :
    process_boot_ui device val (context ++ "." ++ key) error =
      ⟨some false, device, mismatched_type_error error (context ++ "." ++ key)
        (json_type_to_string val.type) (json_type_to_string ValueType.objectValue)⟩ := by
  simp [process_boot_ui, Value.isObject, h, mismatched_type_sub]

theorem device_entry_mismatch (parent key : String) (expected : ValueType) (val : Value)
    (device : Device) (error : JsonError) (hkey : (key, expected) ∈ device_schema)
    (h : val.type ≠ expected) :
    process_device_entry parent key val device error =
      ⟨some false, device, mismatched_type_error error (parent ++ "." ++ key)
        (json_type_to_string val.type) (json_type_to_string expected)⟩ := by
  simp only [device_schema, List.mem_cons, List.mem_singleton, List.not_mem_nil, or_false,
    Prod.mk.injEq] at hkey
  rcases hkey with ⟨hk, he⟩ | ⟨hk, he⟩ | ⟨hk, he⟩ | ⟨hk, he⟩ | ⟨hk, he⟩ | ⟨hk, he⟩ | ⟨hk, he⟩ <;>
    subst hk <;> subst he
  · rw [device_entry_name, device_set_string_mismatch _ _ _ _ _ _ h]
  · rw [device_entry_id, device_set_string_mismatch _ _ _ _ _ _ h]
  · rw [device_entry_codenames, device_set_string_array_not_array _ _ _ _ _ _ h]
  · rw [device_entry_architecture, device_set_string_mismatch _ _ _ _ _ _ h]
  · rw [device_entry_flags, process_device_flags_not_array _ _ _ _ _ h]
  · rw [device_entry_block_devs, process_block_devs_not_object _ _ _ _ _ h]
  · rw [device_entry_boot_ui, process_boot_ui_not_object _ _ _ _ _ h]

theorem block_devs_entry_mismatch (parent key : String) (expected : ValueType) (val : Value)
    (device : Device) (error : JsonError) (hkey : (key, expected) ∈ block_devs_schema)
    (h : val.type ≠ expected) :
    process_block_devs_entry parent key val device error =
      ⟨some false, device, mismatched_type_error error (parent ++ "." ++ key)
        (json_type_to_string val.type) (json_type_to_string expected)⟩ := by
  simp only [block_devs_schema, List.mem_cons, List.mem_singleton, List.not_mem_nil,
    or_false, Prod.mk.injEq] at hkey
  rcases hkey with ⟨hk, he⟩ | ⟨hk, he⟩ | ⟨hk, he⟩ | ⟨hk, he⟩ | ⟨hk, he⟩ | ⟨hk, he⟩ | ⟨hk, he⟩ <;>
    subst hk <;> subst he
  · rw [block_devs_entry_base_dirs, device_set_string_array_not_array _ _ _ _ _ _ h]
  · rw [block_devs_entry_system, device_set_string_array_not_array _ _ _ _ _ _ h]
  · rw [block_devs_entry_cache, device_set_string_array_not_array _ _ _ _ _ _ h]
  · rw [block_devs_entry_data, device_set_string_array_not_array _ _ _ _ _ _ h]
  · rw [block_devs_entry_boot, device_set_string_array_not_array _ _ _ _ _ _ h]
  · rw [block_devs_entry_recovery, device_set_string_array_not_array _ _ _ _ _ _ h]
  · rw [block_devs_entry_extra, device_set_string_array_not_array _ _ _ _ _ _ h]

theorem boot_ui_entry_mismatch (parent key : String) (expected : ValueType) (val : Value)
    (device : Device) (error : JsonError) (hkey : (key, expected) ∈ boot_ui_schema)
    (h : val.type ≠ expected) :
    process_boot_ui_entry parent key val device error =
      ⟨some false, device, mismatched_type_error error (parent ++ "." ++ key)
        (json_type_to_string val.type) (json_type_to_string expected)⟩ := by
  simp only [boot_ui_schema, List.mem_cons, List.mem_singleton, List.not_mem_nil,
    or_false, Prod.mk.injEq] at hkey
  rcases hkey with ⟨hk, he⟩ | ⟨hk, he⟩ | ⟨hk, he⟩ | ⟨hk, he⟩ | ⟨hk, he⟩ | ⟨hk, he⟩ | ⟨hk, he⟩ |
    ⟨hk, he⟩ | ⟨hk, he⟩ | ⟨hk, he⟩ | ⟨hk, he⟩ | ⟨hk, he⟩ | ⟨hk, he⟩ | ⟨hk, he⟩ | ⟨hk, he⟩ |
    ⟨hk, he⟩ | ⟨hk, he⟩ <;> subst hk <;> subst he
  · rw [boot_ui_entry_supported, device_set_boolean_mismatch _ _ _ _ _ _ h]
  · rw [boot_ui_entry_flags, process_boot_ui_flags_not_array _ _ _ _ _ h]
  · rw [boot_ui_entry_pixel_format, process_boot_ui_pixel_format_mismatch _ _ _ _ _ h]
  · rw [boot_ui_entry_force_pixel_format,
      process_boot_ui_force_pixel_format_mismatch _ _ _ _ _ h]
  · rw [boot_ui_entry_overscan_percent, device_set_int_mismatch _ _ _ _ _ _ h]
  · rw [boot_ui_entry_default_x_offset, device_set_int_mismatch _ _ _ _ _ _ h]
  · rw [boot_ui_entry_default_y_offset, device_set_int_mismatch _ _ _ _ _ _ h]
  · rw [boot_ui_entry_brightness_path, device_set_string_mismatch _ _ _ _ _ _ h]
  · rw [boot_ui_entry_secondary_brightness_path, device_set_string_mismatch _ _ _ _ _ _ h]
  · rw [boot_ui_entry_max_brightness, device_set_int_mismatch _ _ _ _ _ _ h]
  · rw [boot_ui_entry_default_brightness, device_set_int_mismatch _ _ _ _ _ _ h]
  · rw [boot_ui_entry_battery_path, device_set_string_mismatch _ _ _ _ _ _ h]
  · rw [boot_ui_entry_cpu_temp_path, device_set_string_mismatch _ _ _ _ _ _ h]
  · rw [boot_ui_entry_input_blacklist, device_set_string_mismatch _ _ _ _ _ _ h]
  · rw [boot_ui_entry_input_whitelist, device_set_string_mismatch _ _ _ _ _ _ h]
  · rw [boot_ui_entry_graphics_backends, device_set_string_array_not_array _ _ _ _ _ _ h]
  · rw [boot_ui_entry_theme, device_set_string_mismatch _ _ _ _ _ _ h]

theorem tw_pxfmt_scan_eq (s : String) :
    tw_pxfmt_scan tw_pxfmt_mappings s = pixel_format_named s := by
  simp only [tw_pxfmt_scan, tw_pxfmt_mappings, pixel_format_named]

theorem tw_force_pxfmt_scan_eq (s : String) :
    tw_force_pxfmt_scan tw_force_pxfmt_mappings s = force_pixel_format_named s := by
  simp only [tw_force_pxfmt_scan, tw_force_pxfmt_mappings, force_pixel_format_named]


/-! ## Closed schema -/

theorem block_devs_entry_unknown (parent key : String) (val : Value) (device : Device)
    (error : JsonError) (h : key ∉ block_devs_keys) :
    process_block_devs_entry parent key val device error =
      ⟨some false, device, unknown_key_error error (parent ++ "." ++ key)⟩ := by
  simp only [block_devs_keys, List.mem_cons, List.mem_singleton, List.not_mem_nil, or_false,
    not_or] at h
  simp [process_block_devs_entry, h, unknown_key_sub]

theorem boot_ui_entry_unknown (parent key : String) (val : Value) (device : Device)
    (error : JsonError) (h : key ∉ boot_ui_keys) :
    process_boot_ui_entry parent key val device error =
      ⟨some false, device, unknown_key_error error (parent ++ "." ++ key)⟩ := by
  simp only [boot_ui_keys, List.mem_cons, List.mem_singleton, List.not_mem_nil, or_false,
    not_or] at h
  simp [process_boot_ui_entry, h, unknown_key_sub]

theorem device_entry_unknown (parent key : String) (val : Value) (device : Device)
    (error : JsonError) (h : key ∉ device_keys) :
    process_device_entry parent key val device error =
      ⟨some false, device, unknown_key_error error (parent ++ "." ++ key)⟩ := by
  simp only [device_keys, List.mem_cons, List.mem_singleton, List.not_mem_nil, or_false,
    not_or] at h
  simp [process_device_entry, h, unknown_key_sub]

theorem block_devs_entry_known (parent key : String) (val : Value) (device : Device)
    (error : JsonError) (hkey : key ∈ block_devs_keys)
    (h : (process_block_devs_entry parent key val device error).ret ≠ some true) :
    (process_block_devs_entry parent key val device error).error.type ≠
      JsonErrorType.UNKNOWN_KEY := by
  simp only [block_devs_keys, List.mem_cons, List.mem_singleton, List.not_mem_nil,
    or_false] at hkey
  rcases hkey with hk | hk | hk | hk | hk | hk | hk <;> subst hk <;>
    simp only [block_devs_entry_base_dirs, block_devs_entry_system, block_devs_entry_cache,
      block_devs_entry_data, block_devs_entry_boot, block_devs_entry_recovery,
      block_devs_entry_extra] at h ⊢ <;>
    exact device_set_string_array_failure _ _ _ _ _ h

theorem boot_ui_entry_known (parent key : String) (val : Value) (device : Device)
    (error : JsonError) (hkey : key ∈ boot_ui_keys)
    (h : (process_boot_ui_entry parent key val device error).ret ≠ some true) :
    (process_boot_ui_entry parent key val device error).error.type ≠
      JsonErrorType.UNKNOWN_KEY := by
  simp only [boot_ui_keys, List.mem_cons, List.mem_singleton, List.not_mem_nil,
    or_false] at hkey
  rcases hkey with hk | hk | hk | hk | hk | hk | hk | hk | hk | hk | hk | hk | hk | hk | hk |
    hk | hk <;> subst hk
  · rw [boot_ui_entry_supported] at h ⊢
    exact device_set_boolean_failure _ _ _ _ _ h
  · rw [boot_ui_entry_flags] at h ⊢
    exact process_boot_ui_flags_failure _ _ _ _ h
  · rw [boot_ui_entry_pixel_format] at h ⊢
    exact process_boot_ui_pixel_format_failure _ _ _ _ h
  · rw [boot_ui_entry_force_pixel_format] at h ⊢
    exact process_boot_ui_force_pixel_format_failure _ _ _ _ h
  · rw [boot_ui_entry_overscan_percent] at h ⊢
    exact device_set_int_failure _ _ _ _ _ h
  · rw [boot_ui_entry_default_x_offset] at h ⊢
    exact device_set_int_failure _ _ _ _ _ h
  · rw [boot_ui_entry_default_y_offset] at h ⊢
    exact device_set_int_failure _ _ _ _ _ h
  · rw [boot_ui_entry_brightness_path] at h ⊢
    exact device_set_string_failure _ _ _ _ _ h
  · rw [boot_ui_entry_secondary_brightness_path] at h ⊢
    exact device_set_string_failure _ _ _ _ _ h
  · rw [boot_ui_entry_max_brightness] at h ⊢
    exact device_set_int_failure _ _ _ _ _ h
  · rw [boot_ui_entry_default_brightness] at h ⊢
    exact device_set_int_failure _ _ _ _ _ h
  · rw [boot_ui_entry_battery_path] at h ⊢
    exact device_set_string_failure _ _ _ _ _ h
  · rw [boot_ui_entry_cpu_temp_path] at h ⊢
    exact device_set_string_failure _ _ _ _ _ h
  · rw [boot_ui_entry_input_blacklist] at h ⊢
    exact device_set_string_failure _ _ _ _ _ h
  · rw [boot_ui_entry_input_whitelist] at h ⊢
    exact device_set_string_failure _ _ _ _ _ h
  · rw [boot_ui_entry_graphics_backends] at h ⊢
    exact device_set_string_array_failure _ _ _ _ _ h
  · rw [boot_ui_entry_theme] at h ⊢
    exact device_set_string_failure _ _ _ _ _ h

theorem process_block_devs_object (device : Device) (val : Value) (context : String)
    (error : JsonError) (h : val.type = ValueType.objectValue) :
    process_block_devs device val context error =
      key_loop (process_block_devs_entry context) val.members none device error := by
  simp [process_block_devs, Value.isObject, h]

theorem process_boot_ui_object (device : Device) (val : Value) (context : String)
    (error : JsonError) (h : val.type = ValueType.objectValue) :
    process_boot_ui device val context error =
      key_loop (process_boot_ui_entry context) val.members none device error := by
  simp [process_boot_ui, Value.isObject, h]

theorem process_device_object (device : Device) (val : Value) (context : String)
    (error : JsonError) (h : val.type = ValueType.objectValue) :
    process_device device val context error =
      key_loop (process_device_entry context) val.members none device error := by
  simp [process_device, Value.isObject, h]

/-- An unknown-key error that comes out of `process_block_devs` names a member of the
object: its context is the context of the object followed by `.` and a key. -/
theorem process_block_devs_unknown_key_context (device : Device) (val : Value)
    (context key : String) (error : JsonError)
    (h : (process_block_devs device val (context ++ "." ++ key) error).ret = some false)
    (ht : (process_block_devs device val (context ++ "." ++ key) error).error.type =
      JsonErrorType.UNKNOWN_KEY) :
    (process_block_devs device val (context ++ "." ++ key) error).error.context ≠
      context ++ "." ++ key := by
  by_cases hobj : val.type = ValueType.objectValue
  · rw [process_block_devs_object _ _ _ _ hobj] at h ht ⊢
    have hne : (key_loop (process_block_devs_entry (context ++ "." ++ key)) val.members none
        device error).ret ≠ some true := by rw [h]; simp
    rcases key_loop_stopped _ _ _ _ _ hne with ⟨_, h2⟩ | ⟨x, _, d, e, h2⟩
    · rw [h2] at h
      simp at h
    · rw [h2] at hne ht ⊢
      by_cases hx : x.1 ∈ block_devs_keys
      · exact absurd ht (block_devs_entry_known _ _ _ _ _ hx hne)
      · rw [block_devs_entry_unknown _ _ _ _ _ hx]
        exact subcontext_ne_self _ _
  · rw [process_block_devs_not_object _ _ _ _ _ hobj] at ht
    simp [mismatched_type_error] at ht

/-- An unknown-key error that comes out of `process_boot_ui` names a member of the
object: its context is the context of the object followed by `.` and a key. -/
theorem process_boot_ui_unknown_key_context (device : Device) (val : Value)
    (context key : String) (error : JsonError)
    (h : (process_boot_ui device val (context ++ "." ++ key) error).ret = some false)
    (ht : (process_boot_ui device val (context ++ "." ++ key) error).error.type =
      JsonErrorType.UNKNOWN_KEY) :
    (process_boot_ui device val (context ++ "." ++ key) error).error.context ≠
      context ++ "." ++ key := by
  by_cases hobj : val.type = ValueType.objectValue
  · rw [process_boot_ui_object _ _ _ _ hobj] at h ht ⊢
    have hne : (key_loop (process_boot_ui_entry (context ++ "." ++ key)) val.members none
        device error).ret ≠ some true := by rw [h]; simp
    rcases key_loop_stopped _ _ _ _ _ hne with ⟨_, h2⟩ | ⟨x, _, d, e, h2⟩
    · rw [h2] at h
      simp at h
    · rw [h2] at hne ht ⊢
      by_cases hx : x.1 ∈ boot_ui_keys
      · exact absurd ht (boot_ui_entry_known _ _ _ _ _ hx hne)
      · rw [boot_ui_entry_unknown _ _ _ _ _ hx]
        exact subcontext_ne_self _ _
  · rw [process_boot_ui_not_object _ _ _ _ _ hobj] at ht
    simp [mismatched_type_error] at ht

/-- A recognized top-level key is never reported as unknown. -/
theorem device_entry_known (parent key : String) (val : Value) (device : Device)
    (error : JsonError) (hkey : key ∈ device_keys) :
    ¬ ReportsUnknownKey (process_device_entry parent key val device error) parent key := by
  intro hr
  obtain ⟨h1, h2, h3⟩ := hr
  have hne : (process_device_entry parent key val device error).ret ≠ some true := by
    rw [h1]; simp
  simp only [device_keys, List.mem_cons, List.mem_singleton, List.not_mem_nil,
    or_false] at hkey
  rcases hkey with hk | hk | hk | hk | hk | hk | hk <;> subst hk
  · rw [device_entry_name] at hne h2
    exact device_set_string_failure _ _ _ _ _ hne h2
  · rw [device_entry_id] at hne h2
    exact device_set_string_failure _ _ _ _ _ hne h2
  · rw [device_entry_codenames] at hne h2
    exact device_set_string_array_failure _ _ _ _ _ hne h2
  · rw [device_entry_architecture] at hne h2
    exact device_set_string_failure _ _ _ _ _ hne h2
  · rw [device_entry_flags] at hne h2
    exact process_device_flags_failure _ _ _ _ hne h2
  · rw [device_entry_block_devs] at h1 h2 h3
    exact process_block_devs_unknown_key_context _ _ _ _ _ h1 h2 h3
  · rw [device_entry_boot_ui] at h1 h2 h3
    exact process_boot_ui_unknown_key_context _ _ _ _ _ h1 h2 h3

/-! ## Agreement of devices on fields -/

theorem agree_refl (f : FieldId) (a : Device) : Agree f a a := by
  cases f <;> rfl

theorem agree_trans (f : FieldId) (a b c : Device) (h1 : Agree f a b) (h2 : Agree f b c) :
    Agree f a c := by
  cases f <;> exact Eq.trans h1 h2

theorem agree_symm (f : FieldId) (a b : Device) (h : Agree f a b) : Agree f b a := by
  cases f <;> exact Eq.symm h

theorem eq_of_agree (a b : Device) (h : ∀ f, Agree f a b) : a = b := by
  obtain ⟨⟨a1, a2, a3, a4, a5, a6, a7, a8, a9, a10, a11, a12⟩,
    ⟨b1, b2, b3, b4, b5, b6, b7, b8, b9, b10, b11, b12, b13, b14, b15, b16, b17⟩⟩ := a
  obtain ⟨⟨c1, c2, c3, c4, c5, c6, c7, c8, c9, c10, c11, c12⟩,
    ⟨d1, d2, d3, d4, d5, d6, d7, d8, d9, d10, d11, d12, d13, d14, d15, d16, d17⟩⟩ := b
  have h1 := h FieldId.id
  have h2 := h FieldId.codenames
  have h3 := h FieldId.name
  have h4 := h FieldId.architecture
  have h5 := h FieldId.flags
  have h6 := h FieldId.base_dirs
  have h7 := h FieldId.system_devs
  have h8 := h FieldId.cache_devs
  have h9 := h FieldId.data_devs
  have h10 := h FieldId.boot_devs
  have h11 := h FieldId.recovery_devs
  have h12 := h FieldId.extra_devs
  have g1 := h FieldId.tw_supported
  have g2 := h FieldId.tw_flags
  have g3 := h FieldId.tw_pixel_format
  have g4 := h FieldId.tw_force_pixel_format
  have g5 := h FieldId.tw_overscan_percent
  have g6 := h FieldId.tw_default_x_offset
  have g7 := h FieldId.tw_default_y_offset
  have g8 := h FieldId.tw_brightness_path
  have g9 := h FieldId.tw_secondary_brightness_path
  have g10 := h FieldId.tw_max_brightness
  have g11 := h FieldId.tw_default_brightness
  have g12 := h FieldId.tw_battery_path
  have g13 := h FieldId.tw_cpu_temp_path
  have g14 := h FieldId.tw_input_blacklist
  have g15 := h FieldId.tw_input_whitelist
  have g16 := h FieldId.tw_graphics_backends
  have g17 := h FieldId.tw_theme
  simp only [Agree] at h1 h2 h3 h4 h5 h6 h7 h8 h9 h10 h11 h12
  simp only [Agree] at g1 g2 g3 g4 g5 g6 g7 g8 g9 g10 g11 g12 g13 g14 g15 g16 g17
  subst h1 h2 h3 h4 h5 h6 h7 h8 h9 h10 h11 h12
  subst g1 g2 g3 g4 g5 g6 g7 g8 g9 g10 g11 g12 g13 g14 g15 g16 g17
  rfl

/-- The key loop over members that are all decoded into the fields of their keys with
the values of `t`: it succeeds, leaves the error record alone, and ends in a device that
agrees with `t` on every field of this level and with the device it started from on
every other field. -/
theorem key_loop_good (entry : String → Value → Device → JsonError → Outcome)
    (keyOf : FieldId → Option String) (base t : Device) (ms : List (String × Value)) :
    (∀ x ∈ ms, GoodEntry entry keyOf base t x) →
    ∀ (ret : Option Bool) (dev : Device) (err : JsonError),
      (∀ f, Agree f dev base ∨ Agree f dev t) →
      (∀ f k, keyOf f = some k → k ∉ ms.map Prod.fst → Agree f dev t) →
      (key_loop entry ms ret dev err).ret = (if ms.isEmpty then ret else some true)
      ∧ (key_loop entry ms ret dev err).error = err
      ∧ (∀ f, keyOf f ≠ none → Agree f (key_loop entry ms ret dev err).device t)
      ∧ (∀ f, keyOf f = none → Agree f (key_loop entry ms ret dev err).device dev) := by
  induction ms with
  | nil =>
    intro _ ret dev err _ habs
    refine ⟨rfl, rfl, ?_, ?_⟩
    · intro f hf
      cases hk : keyOf f with
      | none => exact absurd hk hf
      | some k => exact habs f k hk (by simp)
    · intro f _
      exact agree_refl f dev
  | cons x rest ih =>
    intro hgood ret dev err hI habs
    obtain ⟨k, v⟩ := x
    obtain ⟨h1, h2, h3, h4⟩ := hgood (k, v) (List.mem_cons_self _ _) dev err hI
    simp only at h1 h2 h3 h4
    rw [key_loop_cons_ok _ _ _ _ _ _ _ h1, h2]
    have hI2 : ∀ f, Agree f (entry k v dev err).device base
        ∨ Agree f (entry k v dev err).device t := by
      intro f
      by_cases hf : keyOf f = some k
      · exact Or.inr (h3 f hf)
      · rcases hI f with h | h
        · exact Or.inl (agree_trans f _ _ _ (h4 f hf) h)
        · exact Or.inr (agree_trans f _ _ _ (h4 f hf) h)
    have habs2 : ∀ f k2, keyOf f = some k2 → k2 ∉ rest.map Prod.fst →
        Agree f (entry k v dev err).device t := by
      intro f k2 hf hk2
      by_cases hkk : k2 = k
      · subst hkk
        exact h3 f hf
      · have hne : keyOf f ≠ some k := by
          rw [hf]
          intro h
          exact hkk (Option.some.inj h)
        refine agree_trans f _ _ _ (h4 f hne) (habs f k2 hf ?_)
        simp only [List.map_cons, List.mem_cons, not_or]
        exact ⟨hkk, hk2⟩
    obtain ⟨g1, g2, g3, g4⟩ := ih (fun y hy => hgood y (List.mem_cons_of_mem _ hy))
      (some true) (entry k v dev err).device err hI2 habs2
    refine ⟨?_, g2, g3, ?_⟩
    · rw [g1]
      cases rest <;> rfl
    · intro f hf
      have hne : keyOf f ≠ some k := by
        rw [hf]
        simp
      exact agree_trans f _ _ _ (g4 f hf) (h4 f hne)

/-! ## Objects built by the encoder -/

theorem updateMember_ne_nil (k : String) (f : Value → Value) (ms : List (String × Value)) :
    Value.updateMember k f ms ≠ [] := by
  cases ms with
  | nil => simp [Value.updateMember]
  | cons m rest =>
    obtain ⟨k2, v2⟩ := m
    simp only [Value.updateMember]
    split_ifs <;> simp

theorem mem_updateMember_const (k : String) (v : Value) (ms : List (String × Value))
    (x : String × Value) (h : x ∈ Value.updateMember k (fun _ => v) ms) :
    x = (k, v) ∨ x ∈ ms := by
  induction ms with
  | nil => simpa [Value.updateMember] using h
  | cons m rest ih =>
    obtain ⟨k2, v2⟩ := m
    simp only [Value.updateMember] at h
    split_ifs at h with h1 h2
    · subst h1
      rcases List.mem_cons.mp h with h | h
      · exact Or.inl h
      · exact Or.inr (List.mem_cons_of_mem _ h)
    · rcases List.mem_cons.mp h with h | h
      · exact Or.inl h
      · exact Or.inr h
    · rcases List.mem_cons.mp h with h | h
      · exact Or.inr (h ▸ List.mem_cons_self _ _)
      · rcases ih h with h | h
        · exact Or.inl h
        · exact Or.inr (List.mem_cons_of_mem _ h)

theorem key_mem_updateMember (k : String) (f : Value → Value) (ms : List (String × Value))
    (j : String) :
    j ∈ (Value.updateMember k f ms).map Prod.fst ↔ j = k ∨ j ∈ ms.map Prod.fst := by
  induction ms with
  | nil => simp [Value.updateMember]
  | cons m rest ih =>
    obtain ⟨k2, v2⟩ := m
    simp only [Value.updateMember]
    split_ifs with h1 h2
    · subst h1
      simp
    · simp
    · simp only [List.map_cons, List.mem_cons, ih]
      tauto

theorem updateMember_absent (k : String) (f : Value → Value) (ms : List (String × Value))
    (h : k ∉ ms.map Prod.fst) :
    Value.updateMember k f ms = Value.updateMember k (fun _ => f Value.null) ms := by
  induction ms with
  | nil => rfl
  | cons m rest ih =>
    obtain ⟨k2, v2⟩ := m
    simp only [List.map_cons, List.mem_cons, not_or] at h
    simp only [Value.updateMember, if_neg h.1, ih h.2]

theorem updateMember_twice (k : String) (f g : Value → Value) (ms : List (String × Value)) :
    Value.updateMember k g (Value.updateMember k f ms) =
      Value.updateMember k (fun v => g (f v)) ms := by
  induction ms with
  | nil => simp [Value.updateMember]
  | cons m rest ih =>
    obtain ⟨k2, v2⟩ := m
    simp only [Value.updateMember]
    split_ifs with h1 h2
    · simp [Value.updateMember, h1]
    · simp [Value.updateMember]
    · simp [Value.updateMember, h1, h2, ih]

theorem mem_foldl_insert_step (steps : List Step) :
    ∀ (ms0 : List (String × Value)) (x : String × Value),
      x ∈ steps.foldl insert_step ms0 →
      x ∈ ms0 ∨ ∃ s ∈ steps, s.cond = true ∧ x = (s.key, s.val) := by
  induction steps with
  | nil => intro ms0 x h; exact Or.inl h
  | cons s rest ih =>
    intro ms0 x h
    rcases ih _ _ h with h | ⟨s2, hs2, h2⟩
    · unfold insert_step at h
      split_ifs at h with hc
      · rcases mem_updateMember_const _ _ _ _ h with h | h
        · exact Or.inr ⟨s, List.mem_cons_self _ _, hc, h⟩
        · exact Or.inl h
      · exact Or.inl h
    · exact Or.inr ⟨s2, List.mem_cons_of_mem _ hs2, h2⟩

theorem key_mem_foldl_insert_step (steps : List Step) :
    ∀ (ms0 : List (String × Value)) (j : String),
      j ∈ (steps.foldl insert_step ms0).map Prod.fst ↔
        j ∈ ms0.map Prod.fst ∨ ∃ s ∈ steps, s.cond = true ∧ s.key = j := by
  induction steps with
  | nil => intro ms0 j; simp
  | cons s rest ih =>
    intro ms0 j
    rw [List.foldl_cons, ih]
    unfold insert_step
    split_ifs with hc
    · rw [key_mem_updateMember]
      constructor
      · rintro ((h | h) | ⟨s2, hs2, h2⟩)
        · exact Or.inr ⟨s, List.mem_cons_self _ _, hc, h.symm⟩
        · exact Or.inl h
        · exact Or.inr ⟨s2, List.mem_cons_of_mem _ hs2, h2⟩
      · rintro (h | ⟨s2, hs2, h2⟩)
        · exact Or.inl (Or.inr h)
        · rcases List.mem_cons.mp hs2 with h | h
          · subst h
            exact Or.inl (Or.inl h2.2.symm)
          · exact Or.inr ⟨s2, h, h2⟩
    · constructor
      · rintro (h | ⟨s2, hs2, h2⟩)
        · exact Or.inl h
        · exact Or.inr ⟨s2, List.mem_cons_of_mem _ hs2, h2⟩
      · rintro (h | ⟨s2, hs2, h2⟩)
        · exact Or.inl h
        · rcases List.mem_cons.mp hs2 with h | h
          · subst h
            exact absurd h2.1 hc
          · exact Or.inr ⟨s2, h, h2⟩

theorem mem_chain (steps : List Step) (x : String × Value) (h : x ∈ chain steps) :
    ∃ s ∈ steps, s.cond = true ∧ x = (s.key, s.val) := by
  rcases mem_foldl_insert_step steps [] x h with h | h
  · simp at h
  · exact h

theorem key_mem_chain (steps : List Step) (j : String) :
    j ∈ (chain steps).map Prod.fst ↔ ∃ s ∈ steps, s.cond = true ∧ s.key = j := by
  unfold chain
  rw [key_mem_foldl_insert_step]
  simp

theorem chain_snoc (steps : List Step) (s : Step) :
    chain (steps ++ [s]) = insert_step (chain steps) s := by
  simp [chain, List.foldl_append]

theorem chain_ne_nil_iff (steps : List Step) :
    chain steps ≠ [] ↔ ∃ s ∈ steps, s.cond = true := by
  constructor
  · intro h
    cases hc : chain steps with
    | nil => exact absurd hc h
    | cons m rest =>
      have hm : m.1 ∈ (chain steps).map Prod.fst := by
        rw [hc]
        simp
      obtain ⟨s, hs, h1, _⟩ := (key_mem_chain steps m.1).mp hm
      exact ⟨s, hs, h1⟩
  · rintro ⟨s, hs, h1⟩ h
    have hm : s.key ∈ (chain steps).map Prod.fst := (key_mem_chain steps s.key).mpr ⟨s, hs, h1, rfl⟩
    rw [h] at hm
    simp at hm

theorem of_members_cons_eq (ms : List (String × Value)) (h : ms ≠ []) :
    of_members ms = Value.object ms := by
  cases ms with
  | nil => exact absurd rfl h
  | cons m rest => rfl

theorem update_of_members (ms : List (String × Value)) (k : String) (f : Value → Value) :
    (of_members ms).update k f = of_members (Value.updateMember k f ms) := by
  rw [of_members_cons_eq _ (updateMember_ne_nil k f ms)]
  cases ms <;> rfl

theorem set_of_chain (steps : List Step) (p : Prop) [Decidable p] (k : String) (v : Value) :
    (if p then (of_members (chain steps)).set k v else of_members (chain steps)) =
      of_members (chain (steps ++ [⟨decide p, k, v⟩])) := by
  rw [chain_snoc]
  unfold insert_step Value.set
  by_cases hp : p <;> simp [hp, update_of_members]

theorem append_array (xs : List Value) (x : Value) :
    Value.append (Value.array xs) x = Value.array (xs ++ [x]) := rfl

theorem append_null (x : Value) : Value.append Value.null x = Value.array [x] := rfl

theorem foldl_append_array (xs : List String) :
    ∀ acc : List Value,
      xs.foldl (fun v x => Value.append v (Value.string x)) (Value.array acc) =
        Value.array (acc ++ xs.map Value.string) := by
  induction xs with
  | nil => intro acc; simp
  | cons x rest ih =>
    intro acc
    simp only [List.foldl_cons, append_array, ih, List.map_cons, List.append_assoc,
      List.singleton_append]

theorem foldl_updateMember_append (k : String) (xs : List String) :
    ∀ (ms : List (String × Value)) (acc : List Value),
      xs.foldl (fun m x => Value.updateMember k (fun w => Value.append w (Value.string x)) m)
          (Value.updateMember k (fun _ => Value.array acc) ms) =
        Value.updateMember k (fun _ => Value.array (acc ++ xs.map Value.string)) ms := by
  induction xs with
  | nil => intro ms acc; simp
  | cons x rest ih =>
    intro ms acc
    simp only [List.foldl_cons, updateMember_twice, append_array, ih, List.map_cons,
      List.append_assoc, List.singleton_append]

theorem append_strings_of_members (k : String) (xs : List String) :
    ∀ ms : List (String × Value),
      append_strings (of_members ms) k xs =
        of_members
          (xs.foldl (fun m x => Value.updateMember k (fun w => Value.append w (Value.string x)) m)
            ms) := by
  induction xs with
  | nil => intro ms; rfl
  | cons x rest ih =>
    intro ms
    have h := ih (Value.updateMember k (fun w => Value.append w (Value.string x)) ms)
    simp only [append_strings, List.foldl_cons, Value.appendAt, update_of_members] at h ⊢
    exact h

theorem append_strings_of_chain (steps : List Step) (k : String) (xs : List String)
    (h : k ∉ steps.map (fun s => s.key)) :
    append_strings (of_members (chain steps)) k xs =
      of_members (chain (steps ++ [⟨decide (xs ≠ []), k, strings xs⟩])) := by
  have habs : k ∉ (chain steps).map Prod.fst := by
    intro hk
    obtain ⟨s, hs, _, h2⟩ := (key_mem_chain steps k).mp hk
    exact h (List.mem_map.mpr ⟨s, hs, h2⟩)
  rw [append_strings_of_members, chain_snoc]
  unfold insert_step
  cases xs with
  | nil => simp
  | cons x rest =>
    have h1 := foldl_updateMember_append k rest (chain steps) [Value.string x]
    simp only [List.foldl_cons, updateMember_absent k _ (chain steps) habs, append_null, h1]
    simp [strings]

theorem append_flag_names_eq (value : Value) (k : String) (table : List FlagMapping)
    (flags : Nat) :
    append_flag_names value k table flags = append_strings value k (flag_names table flags) := by
  unfold append_flag_names append_strings flag_names
  induction table generalizing value with
  | nil => rfl
  | cons it rest ih =>
    simp only [List.foldl_cons, ih, List.filter_cons]
    by_cases hc : flags &&& it.flag ≠ 0
    · simp [hc]
    · simp [hc]

theorem flag_names_zero (table : List FlagMapping) : flag_names table 0 = [] := by
  simp [flag_names]

theorem append_flag_names_of_chain (steps : List Step) (k : String)
    (table : List FlagMapping) (flags : Nat) (h : k ∉ steps.map (fun s => s.key)) :
    (if flags ≠ 0 then append_flag_names (of_members (chain steps)) k table flags
      else of_members (chain steps)) =
      of_members (chain (steps ++
        [⟨decide (flag_names table flags ≠ []), k, strings (flag_names table flags)⟩])) := by
  rw [← append_strings_of_chain steps k _ h, append_flag_names_eq]
  by_cases hf : flags = 0
  · subst hf
    simp [flag_names_zero, append_strings]
  · simp [hf]

theorem set_pixel_format_name_eq (value : Value) (k : String) (pixel_format : TwPixelFormat) :
    set_pixel_format_name value k tw_pxfmt_mappings pixel_format =
      value.set k (Value.string (pixel_format_name pixel_format)) := by
  cases pixel_format <;> rfl

theorem set_force_pixel_format_name_eq (value : Value) (k : String)
    (force_pixel_format : TwForcePixelFormat) :
    set_force_pixel_format_name value k tw_force_pxfmt_mappings force_pixel_format =
      value.set k (Value.string (force_pixel_format_name force_pixel_format)) := by
  cases force_pixel_format <;> rfl

theorem empty_of_members (ms : List (String × Value)) :
    (of_members ms).empty = ms.isEmpty := by
  cases ms <;> rfl

theorem set_nested_of_chain (steps : List Step) (k : String) (ms : List (String × Value)) :
    (if (!(of_members ms).empty) = true then (of_members (chain steps)).set k (of_members ms)
      else of_members (chain steps)) =
      of_members (chain (steps ++ [⟨!ms.isEmpty, k, Value.object ms⟩])) := by
  rw [chain_snoc]
  unfold insert_step Value.set
  cases ms with
  | nil => simp [of_members, Value.empty]
  | cons m rest =>
    have h1 : of_members (m :: rest) = Value.object (m :: rest) := rfl
    have h2 : (Value.object (m :: rest)).empty = false := rfl
    rw [h1, h2]
    simp [update_of_members]

/-- The `block_devs` tree of the encoder, as the members that its statements build. -/
theorem device_to_json_block_devs_eq (d : Device) :
    device_to_json_block_devs d = of_members (chain (block_devs_steps d)) := by
  have h0 : Value.null = of_members (chain []) := rfl
  simp only [device_to_json_block_devs, Device.block_dev_base_dirs, Device.system_block_devs,
    Device.cache_block_devs, Device.data_block_devs, Device.boot_block_devs,
    Device.recovery_block_devs, Device.extra_block_devs]
  rw [h0, append_strings_of_chain _ _ _ (by simp), append_strings_of_chain _ _ _ (by simp),
    append_strings_of_chain _ _ _ (by simp), append_strings_of_chain _ _ _ (by simp),
    append_strings_of_chain _ _ _ (by simp), append_strings_of_chain _ _ _ (by simp),
    append_strings_of_chain _ _ _ (by simp)]
  rfl

/-- The `boot_ui` tree of the encoder, as the members that its statements build. -/
theorem device_to_json_boot_ui_eq (d : Device) :
    device_to_json_boot_ui d = of_members (chain (boot_ui_steps d)) := by
  have hs : ∀ steps : List Step,
      (if d.tw_options.supported = true then
          (of_members (chain steps)).set "supported" (Value.bool true)
        else of_members (chain steps)) =
      of_members (chain (steps ++ [⟨d.tw_options.supported, "supported", Value.bool true⟩])) := by
    intro steps
    rw [set_of_chain]
    simp
  have hp : ∀ (steps : List Step) (p : TwPixelFormat),
      (if p ≠ TwPixelFormat.DEFAULT then
          set_pixel_format_name (of_members (chain steps)) "pixel_format" tw_pxfmt_mappings p
        else of_members (chain steps)) =
      of_members (chain (steps ++
        [⟨decide (p ≠ TwPixelFormat.DEFAULT), "pixel_format",
          Value.string (pixel_format_name p)⟩])) := by
    intro steps p
    rw [set_pixel_format_name_eq, set_of_chain]
  have hq : ∀ (steps : List Step) (q : TwForcePixelFormat),
      (if q ≠ TwForcePixelFormat.NONE then
          set_force_pixel_format_name (of_members (chain steps)) "force_pixel_format"
            tw_force_pxfmt_mappings q
        else of_members (chain steps)) =
      of_members (chain (steps ++
        [⟨decide (q ≠ TwForcePixelFormat.NONE), "force_pixel_format",
          Value.string (force_pixel_format_name q)⟩])) := by
    intro steps q
    rw [set_force_pixel_format_name_eq, set_of_chain]
  unfold device_to_json_boot_ui
  lift_lets
  intro b0 b1 f b2 p b3 q b4 o b5 x b6 y b7 bp b8 sp b9 mb b10 db b11 ba b12 ct b13 ib b14 iw b15
    b16 th b17
  have hb0 : b0 = of_members (chain []) := rfl
  have hb1 : b1 = of_members (chain ((boot_ui_steps d).take 1)) := by
    unfold b1
    rw [hb0]
    exact hs _
  have hb2 : b2 = of_members (chain ((boot_ui_steps d).take 2)) := by
    unfold b2
    rw [hb1]
    exact append_flag_names_of_chain _ _ _ _ (by simp [boot_ui_steps, device_steps])
  have hb3 : b3 = of_members (chain ((boot_ui_steps d).take 3)) := by
    unfold b3
    rw [hb2]
    exact hp _ _
  have hb4 : b4 = of_members (chain ((boot_ui_steps d).take 4)) := by
    unfold b4
    rw [hb3]
    exact hq _ _
  have hb5 : b5 = of_members (chain ((boot_ui_steps d).take 5)) := by
    unfold b5
    rw [hb4]
    exact set_of_chain _ _ _ _
  have hb6 : b6 = of_members (chain ((boot_ui_steps d).take 6)) := by
    unfold b6
    rw [hb5]
    exact set_of_chain _ _ _ _
  have hb7 : b7 = of_members (chain ((boot_ui_steps d).take 7)) := by
    unfold b7
    rw [hb6]
    exact set_of_chain _ _ _ _
  have hb8 : b8 = of_members (chain ((boot_ui_steps d).take 8)) := by
    unfold b8
    rw [hb7]
    exact set_of_chain _ _ _ _
  have hb9 : b9 = of_members (chain ((boot_ui_steps d).take 9)) := by
    unfold b9
    rw [hb8]
    exact set_of_chain _ _ _ _
  have hb10 : b10 = of_members (chain ((boot_ui_steps d).take 10)) := by
    unfold b10
    rw [hb9]
    exact set_of_chain _ _ _ _
  have hb11 : b11 = of_members (chain ((boot_ui_steps d).take 11)) := by
    unfold b11
    rw [hb10]
    exact set_of_chain _ _ _ _
  have hb12 : b12 = of_members (chain ((boot_ui_steps d).take 12)) := by
    unfold b12
    rw [hb11]
    exact set_of_chain _ _ _ _
  have hb13 : b13 = of_members (chain ((boot_ui_steps d).take 13)) := by
    unfold b13
    rw [hb12]
    exact set_of_chain _ _ _ _
  have hb14 : b14 = of_members (chain ((boot_ui_steps d).take 14)) := by
    unfold b14
    rw [hb13]
    exact set_of_chain _ _ _ _
  have hb15 : b15 = of_members (chain ((boot_ui_steps d).take 15)) := by
    unfold b15
    rw [hb14]
    exact set_of_chain _ _ _ _
  have hb16 : b16 = of_members (chain ((boot_ui_steps d).take 16)) := by
    unfold b16
    rw [hb15]
    exact append_strings_of_chain _ _ _ (by simp [boot_ui_steps, device_steps])
  have hb17 : b17 = of_members (chain ((boot_ui_steps d).take 17)) := by
    unfold b17
    rw [hb16]
    exact set_of_chain _ _ _ _
  rw [hb17]
  rfl

/-- The tree of the encoder, as the members that its statements build. -/
theorem device_to_json_eq (d : Device) :
    device_to_json d = of_members (chain (device_steps d)) := by
  unfold device_to_json
  rw [device_to_json_block_devs_eq, device_to_json_boot_ui_eq]
  lift_lets
  intro r0 i r1 r2 n r3 a r4 f r5 bd r6 bu r7
  have hr0 : r0 = of_members (chain []) := rfl
  have hr1 : r1 = of_members (chain ((device_steps d).take 1)) := by
    unfold r1
    rw [hr0]
    exact set_of_chain _ _ _ _
  have hr2 : r2 = of_members (chain ((device_steps d).take 2)) := by
    unfold r2
    rw [hr1]
    exact append_strings_of_chain _ _ _ (by simp [boot_ui_steps, device_steps])
  have hr3 : r3 = of_members (chain ((device_steps d).take 3)) := by
    unfold r3
    rw [hr2]
    exact set_of_chain _ _ _ _
  have hr4 : r4 = of_members (chain ((device_steps d).take 4)) := by
    unfold r4
    rw [hr3]
    exact set_of_chain _ _ _ _
  have hr5 : r5 = of_members (chain ((device_steps d).take 5)) := by
    unfold r5
    rw [hr4]
    exact append_flag_names_of_chain _ _ _ _ (by simp [boot_ui_steps, device_steps])
  have hr6 : r6 = of_members (chain ((device_steps d).take 6)) := by
    unfold r6
    rw [hr5]
    exact set_nested_of_chain _ _ _
  have hr7 : r7 = of_members (chain ((device_steps d).take 7)) := by
    unfold r7
    rw [hr6]
    exact set_nested_of_chain _ _ _
  rw [hr7]
  rfl

/-! ## Flag names written by the encoder -/

theorem and_two_pow_eq (x i : Nat) : x &&& 2 ^ i = 0 ∨ x &&& 2 ^ i = 2 ^ i := by
  by_cases h : x.testBit i = true
  · right
    apply Nat.eq_of_testBit_eq
    intro j
    rw [Nat.testBit_and, Nat.testBit_two_pow]
    by_cases hij : i = j
    · subst hij
      simp [h]
    · simp [hij]
  · left
    apply Nat.eq_of_testBit_eq
    intro j
    rw [Nat.testBit_and, Nat.testBit_two_pow]
    by_cases hij : i = j
    · subst hij
      simp [h]
    · simp [hij]

theorem foldl_or_init (xs : List Nat) :
    ∀ a : Nat, xs.foldl (fun x y => x ||| y) a = a ||| xs.foldl (fun x y => x ||| y) 0 := by
  induction xs with
  | nil => intro a; simp
  | cons x rest ih =>
    intro a
    rw [List.foldl_cons, List.foldl_cons, ih (a ||| x), ih (0 ||| x)]
    simp [Nat.or_assoc]

/-- The OR of the table bits that are set in `flags` is `flags` masked by the OR of
all table bits, when every table entry is a single bit. -/
theorem or_selected_bits (table : List FlagMapping) (flags : Nat)
    (hbit : ∀ it ∈ table, ∃ i, it.flag = 2 ^ i) :
    ((table.filter (fun it => decide (flags &&& it.flag ≠ 0))).map (fun it => it.flag)).foldl
        (fun x y => x ||| y) 0 =
      flags &&& (table.map (fun it => it.flag)).foldl (fun x y => x ||| y) 0 := by
  induction table with
  | nil => simp
  | cons it rest ih =>
    have ih2 := ih (fun x hx => hbit x (List.mem_cons_of_mem _ hx))
    obtain ⟨i, hi⟩ := hbit it (List.mem_cons_self _ _)
    rw [List.map_cons, List.foldl_cons, foldl_or_init _ (0 ||| it.flag),
      Nat.and_or_distrib_left, ← ih2, List.filter_cons]
    rcases and_two_pow_eq flags i with h | h
    · have h0 : flags &&& it.flag = 0 := by rw [hi]; exact h
      simp [h0]
    · have h1 : flags &&& it.flag = it.flag := by rw [hi]; exact h
      have hne : it.flag ≠ 0 := by
        rw [hi]
        exact Nat.pos_iff_ne_zero.mp (Nat.two_pow_pos i)
      have hc : flags &&& it.flag ≠ 0 := by rw [h1]; exact hne
      simp only [hc, ne_eq, not_false_eq_true, decide_True, if_true, List.map_cons,
        List.foldl_cons, Nat.zero_or]
      rw [foldl_or_init _ it.flag, h1]

theorem or_of_names_eq_foldl (table : List FlagMapping) (names : List String) :
    or_of_names table names =
      (names.map (flag_of table)).foldl (fun x y => x ||| y) 0 := by
  simp [or_of_names, or_names, List.foldl_map]

theorem or_of_flag_names (table : List FlagMapping) (flags : Nat)
    (hbit : ∀ it ∈ table, ∃ i, it.flag = 2 ^ i)
    (hkey : ∀ it ∈ table, flag_of table it.key = it.flag) :
    or_of_names table (flag_names table flags) =
      flags &&& (table.map (fun it => it.flag)).foldl (fun x y => x ||| y) 0 := by
  rw [or_of_names_eq_foldl, ← or_selected_bits table flags hbit, flag_names, List.map_map]
  congr 1
  apply List.map_congr_left
  intro it hit
  exact hkey it (List.mem_of_mem_filter hit)

theorem flag_names_sublist (table : List FlagMapping) (flags : Nat) :
    List.Sublist (flag_names table flags) (table_keys table) :=
  List.Sublist.map _ (List.filter_sublist _)

set_option maxRecDepth 100000 in
theorem device_flag_names_mask (flags : Nat) :
    or_of_names device_flag_mappings (flag_names device_flag_mappings flags) =
      flags &&& DEVICE_FLAG_MASK := by
  have hbit : ∀ it ∈ device_flag_mappings, ∃ i, it.flag = 2 ^ i := by
    have h : ∀ it ∈ device_flag_mappings, ∃ i ∈ List.range 2, it.flag = 2 ^ i := by decide
    intro it hit
    obtain ⟨i, _, hi⟩ := h it hit
    exact ⟨i, hi⟩
  rw [or_of_flag_names _ _ hbit (by decide)]
  rfl

set_option maxRecDepth 100000 in
theorem tw_flag_names_mask (flags : Nat) :
    or_of_names tw_flag_mappings (flag_names tw_flag_mappings flags) =
      flags &&& TW_FLAG_MASK := by
  have hbit : ∀ it ∈ tw_flag_mappings, ∃ i, it.flag = 2 ^ i := by
    have h : ∀ it ∈ tw_flag_mappings, ∃ i ∈ List.range 17, it.flag = 2 ^ i := by decide
    intro it hit
    obtain ⟨i, _, hi⟩ := h it hit
    exact ⟨i, hi⟩
  rw [or_of_flag_names _ _ hbit (by decide)]
  rfl

theorem device_flag_names_nodup (flags : Nat) :
    (flag_names device_flag_mappings flags).Nodup :=
  List.Nodup.sublist (flag_names_sublist _ _) (by decide)

theorem tw_flag_names_nodup (flags : Nat) : (flag_names tw_flag_mappings flags).Nodup :=
  List.Nodup.sublist (flag_names_sublist _ _) (by decide)

/-- The encoder's `flags` array decodes to the device flags within the mask. -/
theorem process_device_flags_flag_names (device : Device) (flags : Nat) (context : String)
    (error : JsonError) :
    process_device_flags device (strings (flag_names device_flag_mappings flags)) context error =
      ⟨some true, device.set_flags (flags &&& DEVICE_FLAG_MASK), error⟩ := by
  rw [process_device_flags_distinct _ _ _ _ (device_flag_names_nodup flags)
    (fun n hn => (flag_names_sublist _ _).subset hn), device_flag_names_mask]

/-- The encoder's `boot_ui.flags` array decodes to the boot-UI flags within the mask. -/
theorem process_boot_ui_flags_flag_names (device : Device) (flags : Nat) (context : String)
    (error : JsonError) :
    process_boot_ui_flags device (strings (flag_names tw_flag_mappings flags)) context error =
      ⟨some true, device.set_tw_flags (flags &&& TW_FLAG_MASK), error⟩ := by
  rw [process_boot_ui_flags_distinct _ _ _ _ (tw_flag_names_nodup flags)
    (fun n hn => (flag_names_sublist _ _).subset hn), tw_flag_names_mask]

theorem flag_names_nil_device (flags : Nat)
    (h : flag_names device_flag_mappings flags = []) : flags &&& DEVICE_FLAG_MASK = 0 := by
  rw [← device_flag_names_mask, h]
  rfl

theorem flag_names_nil_tw (flags : Nat)
    (h : flag_names tw_flag_mappings flags = []) : flags &&& TW_FLAG_MASK = 0 := by
  rw [← tw_flag_names_mask, h]
  rfl

/-! ## The members written by the encoder are decoded back -/

theorem good_of_setter (entry : String → Value → Device → JsonError → Outcome)
    (keyOf : FieldId → Option String) (base t : Device) (k : String) (v : Value)
    (newdev : Device → Device)
    (hrun : ∀ dev err, entry k v dev err = ⟨some true, newdev dev, err⟩)
    (hset : ∀ dev f, keyOf f = some k → Agree f (newdev dev) t)
    (hframe : ∀ dev f, keyOf f ≠ some k → Agree f (newdev dev) dev) :
    GoodEntry entry keyOf base t (k, v) := by
  intro dev err _
  show (entry k v dev err).ret = some true ∧ (entry k v dev err).error = err
    ∧ (∀ f, keyOf f = some k → Agree f (entry k v dev err).device t)
    ∧ (∀ f, keyOf f ≠ some k → Agree f (entry k v dev err).device dev)
  rw [hrun]
  exact ⟨rfl, rfl, hset dev, hframe dev⟩

theorem device_set_string_string (setter : Device → String → Device) (device : Device)
    (s : String) (context : String) (error : JsonError) :
    device_set_string setter device (Value.string s) context error =
      ⟨some true, setter device s, error⟩ := rfl

theorem device_set_int_int (setter : Device → Int → Device) (device : Device)
    (i : Int) (context : String) (error : JsonError) :
    device_set_int setter device (Value.int i) context error =
      ⟨some true, setter device i, error⟩ := rfl

theorem device_set_boolean_bool (setter : Device → Bool → Device) (device : Device)
    (b : Bool) (context : String) (error : JsonError) :
    device_set_boolean setter device (Value.bool b) context error =
      ⟨some true, setter device b, error⟩ := rfl

theorem process_boot_ui_pixel_format_name (device : Device) (p : TwPixelFormat)
    (context : String) (error : JsonError) :
    process_boot_ui_pixel_format device (Value.string (pixel_format_name p)) context error =
      ⟨some true, device.set_tw_pixel_format p, error⟩ := by
  cases p <;> rfl

theorem process_boot_ui_force_pixel_format_name (device : Device) (p : TwForcePixelFormat)
    (context : String) (error : JsonError) :
    process_boot_ui_force_pixel_format device (Value.string (force_pixel_format_name p))
        context error =
      ⟨some true, device.set_tw_force_pixel_format p, error⟩ := by
  cases p <;> rfl

/-- Every member that the encoder writes into `boot_ui` is decoded into its field. -/
theorem boot_ui_steps_good (context : String) (base d : Device) :
    ∀ s ∈ boot_ui_steps d, s.cond = true →
      GoodEntry (process_boot_ui_entry context) boot_ui_key base d.masked (s.key, s.val) := by
  intro s hs hc
  simp only [boot_ui_steps, List.mem_cons, List.mem_singleton, List.not_mem_nil, or_false] at hs
  rcases hs with h | h | h | h | h | h | h | h | h | h | h | h | h | h | h | h | h <;> subst h
  · refine good_of_setter _ _ _ _ _ _ (fun dev => dev.set_tw_supported true) ?_ ?_ ?_
    · intro dev err
      rw [boot_ui_entry_supported, device_set_boolean_bool]
    · intro dev f hf
      cases f <;> first | rfl | (simp at hc; exact hc.symm) | (simp [boot_ui_key] at hf)
    · intro dev f hf
      cases f <;> first | rfl | exact absurd rfl hf
  · refine good_of_setter _ _ _ _ _ _ (fun dev => dev.set_tw_flags (d.tw_options.flags &&& TW_FLAG_MASK)) ?_ ?_ ?_
    · intro dev err
      rw [boot_ui_entry_flags, process_boot_ui_flags_flag_names]
    · intro dev f hf
      cases f <;> first | rfl | (simp [boot_ui_key] at hf)
    · intro dev f hf
      cases f <;> first | rfl | exact absurd rfl hf
  · refine good_of_setter _ _ _ _ _ _ (fun dev => dev.set_tw_pixel_format d.tw_options.pixel_format) ?_ ?_ ?_
    · intro dev err
      rw [boot_ui_entry_pixel_format, process_boot_ui_pixel_format_name]
    · intro dev f hf
      cases f <;> first | rfl | (simp [boot_ui_key] at hf)
    · intro dev f hf
      cases f <;> first | rfl | exact absurd rfl hf
  · refine good_of_setter _ _ _ _ _ _ (fun dev => dev.set_tw_force_pixel_format d.tw_options.force_pixel_format) ?_ ?_ ?_
    · intro dev err
      rw [boot_ui_entry_force_pixel_format, process_boot_ui_force_pixel_format_name]
    · intro dev f hf
      cases f <;> first | rfl | (simp [boot_ui_key] at hf)
    · intro dev f hf
      cases f <;> first | rfl | exact absurd rfl hf
  · refine good_of_setter _ _ _ _ _ _ (fun dev => dev.set_tw_overscan_percent d.tw_options.overscan_percent) ?_ ?_ ?_
    · intro dev err
      rw [boot_ui_entry_overscan_percent, device_set_int_int]
    · intro dev f hf
      cases f <;> first | rfl | (simp [boot_ui_key] at hf)
    · intro dev f hf
      cases f <;> first | rfl | exact absurd rfl hf
  · refine good_of_setter _ _ _ _ _ _ (fun dev => dev.set_tw_default_x_offset d.tw_options.default_x_offset) ?_ ?_ ?_
    · intro dev err
      rw [boot_ui_entry_default_x_offset, device_set_int_int]
    · intro dev f hf
      cases f <;> first | rfl | (simp [boot_ui_key] at hf)
    · intro dev f hf
      cases f <;> first | rfl | exact absurd rfl hf
  · refine good_of_setter _ _ _ _ _ _ (fun dev => dev.set_tw_default_y_offset d.tw_options.default_y_offset) ?_ ?_ ?_
    · intro dev err
      rw [boot_ui_entry_default_y_offset, device_set_int_int]
    · intro dev f hf
      cases f <;> first | rfl | (simp [boot_ui_key] at hf)
    · intro dev f hf
      cases f <;> first | rfl | exact absurd rfl hf
  · refine good_of_setter _ _ _ _ _ _ (fun dev => dev.set_tw_brightness_path d.tw_options.brightness_path) ?_ ?_ ?_
    · intro dev err
      rw [boot_ui_entry_brightness_path, device_set_string_string]
    · intro dev f hf
      cases f <;> first | rfl | (simp [boot_ui_key] at hf)
    · intro dev f hf
      cases f <;> first | rfl | exact absurd rfl hf
  · refine good_of_setter _ _ _ _ _ _ (fun dev => dev.set_tw_secondary_brightness_path d.tw_options.secondary_brightness_path) ?_ ?_ ?_
    · intro dev err
      rw [boot_ui_entry_secondary_brightness_path, device_set_string_string]
    · intro dev f hf
      cases f <;> first | rfl | (simp [boot_ui_key] at hf)
    · intro dev f hf
      cases f <;> first | rfl | exact absurd rfl hf
  · refine good_of_setter _ _ _ _ _ _ (fun dev => dev.set_tw_max_brightness d.tw_options.max_brightness) ?_ ?_ ?_
    · intro dev err
      rw [boot_ui_entry_max_brightness, device_set_int_int]
    · intro dev f hf
      cases f <;> first | rfl | (simp [boot_ui_key] at hf)
    · intro dev f hf
      cases f <;> first | rfl | exact absurd rfl hf
  · refine good_of_setter _ _ _ _ _ _ (fun dev => dev.set_tw_default_brightness d.tw_options.default_brightness) ?_ ?_ ?_
    · intro dev err
      rw [boot_ui_entry_default_brightness, device_set_int_int]
    · intro dev f hf
      cases f <;> first | rfl | (simp [boot_ui_key] at hf)
    · intro dev f hf
      cases f <;> first | rfl | exact absurd rfl hf
  · refine good_of_setter _ _ _ _ _ _ (fun dev => dev.set_tw_battery_path d.tw_options.battery_path) ?_ ?_ ?_
    · intro dev err
      rw [boot_ui_entry_battery_path, device_set_string_string]
    · intro dev f hf
      cases f <;> first | rfl | (simp [boot_ui_key] at hf)
    · intro dev f hf
      cases f <;> first | rfl | exact absurd rfl hf
  · refine good_of_setter _ _ _ _ _ _ (fun dev => dev.set_tw_cpu_temp_path d.tw_options.cpu_temp_path) ?_ ?_ ?_
    · intro dev err
      rw [boot_ui_entry_cpu_temp_path, device_set_string_string]
    · intro dev f hf
      cases f <;> first | rfl | (simp [boot_ui_key] at hf)
    · intro dev f hf
      cases f <;> first | rfl | exact absurd rfl hf
  · refine good_of_setter _ _ _ _ _ _ (fun dev => dev.set_tw_input_blacklist d.tw_options.input_blacklist) ?_ ?_ ?_
    · intro dev err
      rw [boot_ui_entry_input_blacklist, device_set_string_string]
    · intro dev f hf
      cases f <;> first | rfl | (simp [boot_ui_key] at hf)
    · intro dev f hf
      cases f <;> first | rfl | exact absurd rfl hf
  · refine good_of_setter _ _ _ _ _ _ (fun dev => dev.set_tw_input_whitelist d.tw_options.input_whitelist) ?_ ?_ ?_
    · intro dev err
      rw [boot_ui_entry_input_whitelist, device_set_string_string]
    · intro dev f hf
      cases f <;> first | rfl | (simp [boot_ui_key] at hf)
    · intro dev f hf
      cases f <;> first | rfl | exact absurd rfl hf
  · refine good_of_setter _ _ _ _ _ _ (fun dev => dev.set_tw_graphics_backends d.tw_options.graphics_backends) ?_ ?_ ?_
    · intro dev err
      rw [boot_ui_entry_graphics_backends, device_set_string_array_strings]
    · intro dev f hf
      cases f <;> first | rfl | (simp [boot_ui_key] at hf)
    · intro dev f hf
      cases f <;> first | rfl | exact absurd rfl hf
  · refine good_of_setter _ _ _ _ _ _ (fun dev => dev.set_tw_theme d.tw_options.theme) ?_ ?_ ?_
    · intro dev err
      rw [boot_ui_entry_theme, device_set_string_string]
    · intro dev f hf
      cases f <;> first | rfl | (simp [boot_ui_key] at hf)
    · intro dev f hf
      cases f <;> first | rfl | exact absurd rfl hf

/-- Every member that the encoder writes into `block_devs` is decoded into its field. -/
theorem block_devs_steps_good (context : String) (base d : Device) :
    ∀ s ∈ block_devs_steps d, s.cond = true →
      GoodEntry (process_block_devs_entry context) block_devs_key base d.masked
        (s.key, s.val) := by
  intro s hs hc
  simp only [block_devs_steps, List.mem_cons, List.mem_singleton, List.not_mem_nil,
    or_false] at hs
  rcases hs with h | h | h | h | h | h | h <;> subst h
  · refine good_of_setter _ _ _ _ _ _ (fun dev => dev.set_block_dev_base_dirs d.options.base_dirs) ?_ ?_ ?_
    · intro dev err
      rw [block_devs_entry_base_dirs, device_set_string_array_strings]
    · intro dev f hf
      cases f <;> first | rfl | (simp [block_devs_key] at hf)
    · intro dev f hf
      cases f <;> first | rfl | exact absurd rfl hf
  · refine good_of_setter _ _ _ _ _ _ (fun dev => dev.set_system_block_devs d.options.system_devs) ?_ ?_ ?_
    · intro dev err
      rw [block_devs_entry_system, device_set_string_array_strings]
    · intro dev f hf
      cases f <;> first | rfl | (simp [block_devs_key] at hf)
    · intro dev f hf
      cases f <;> first | rfl | exact absurd rfl hf
  · refine good_of_setter _ _ _ _ _ _ (fun dev => dev.set_cache_block_devs d.options.cache_devs) ?_ ?_ ?_
    · intro dev err
      rw [block_devs_entry_cache, device_set_string_array_strings]
    · intro dev f hf
      cases f <;> first | rfl | (simp [block_devs_key] at hf)
    · intro dev f hf
      cases f <;> first | rfl | exact absurd rfl hf
  · refine good_of_setter _ _ _ _ _ _ (fun dev => dev.set_data_block_devs d.options.data_devs) ?_ ?_ ?_
    · intro dev err
      rw [block_devs_entry_data, device_set_string_array_strings]
    · intro dev f hf
      cases f <;> first | rfl | (simp [block_devs_key] at hf)
    · intro dev f hf
      cases f <;> first | rfl | exact absurd rfl hf
  · refine good_of_setter _ _ _ _ _ _ (fun dev => dev.set_boot_block_devs d.options.boot_devs) ?_ ?_ ?_
    · intro dev err
      rw [block_devs_entry_boot, device_set_string_array_strings]
    · intro dev f hf
      cases f <;> first | rfl | (simp [block_devs_key] at hf)
    · intro dev f hf
      cases f <;> first | rfl | exact absurd rfl hf
  · refine good_of_setter _ _ _ _ _ _ (fun dev => dev.set_recovery_block_devs d.options.recovery_devs) ?_ ?_ ?_
    · intro dev err
      rw [block_devs_entry_recovery, device_set_string_array_strings]
    · intro dev f hf
      cases f <;> first | rfl | (simp [block_devs_key] at hf)
    · intro dev f hf
      cases f <;> first | rfl | exact absurd rfl hf
  · refine good_of_setter _ _ _ _ _ _ (fun dev => dev.set_extra_block_devs d.options.extra_devs) ?_ ?_ ?_
    · intro dev err
      rw [block_devs_entry_extra, device_set_string_array_strings]
    · intro dev f hf
      cases f <;> first | rfl | (simp [block_devs_key] at hf)
    · intro dev f hf
      cases f <;> first | rfl | exact absurd rfl hf

theorem boot_ui_absent (d : Device) :
    ∀ f k, boot_ui_key f = some k → k ∉ (chain (boot_ui_steps d)).map Prod.fst →
      Agree f Device.ctor d.masked := by
  intro f k hf hk
  rw [key_mem_chain] at hk
  cases f <;> simp only [boot_ui_key, Option.some.injEq, reduceCtorEq] at hf <;> subst hf <;>
    simp [boot_ui_steps] at hk <;>
    simp [Agree, Device.ctor, Device.masked, hk]
  exact (flag_names_nil_tw _ hk).symm

theorem block_devs_absent (d : Device) :
    ∀ f k, block_devs_key f = some k → k ∉ (chain (block_devs_steps d)).map Prod.fst →
      Agree f Device.ctor d.masked := by
  intro f k hf hk
  rw [key_mem_chain] at hk
  cases f <;> simp only [block_devs_key, Option.some.injEq, reduceCtorEq] at hf <;>
    subst hf <;>
    simp [block_devs_steps] at hk <;>
    simp [Agree, Device.ctor, Device.masked, hk]

/-- Decoding the `boot_ui` object written by the encoder for `d`. -/
theorem process_boot_ui_encoded (d dev : Device) (context : String) (err : JsonError)
    (hI : ∀ f, Agree f dev Device.ctor ∨ Agree f dev d.masked)
    (hne : chain (boot_ui_steps d) ≠ []) :
    (process_boot_ui dev (Value.object (chain (boot_ui_steps d))) context err).ret = some true
    ∧ (process_boot_ui dev (Value.object (chain (boot_ui_steps d))) context err).error = err
    ∧ (∀ f, boot_ui_key f ≠ none →
        Agree f (process_boot_ui dev (Value.object (chain (boot_ui_steps d))) context
          err).device d.masked)
    ∧ (∀ f, boot_ui_key f = none →
        Agree f (process_boot_ui dev (Value.object (chain (boot_ui_steps d))) context
          err).device dev) := by
  rw [process_boot_ui_object _ (Value.object (chain (boot_ui_steps d))) _ _ rfl]
  have hgood : ∀ x ∈ chain (boot_ui_steps d),
      GoodEntry (process_boot_ui_entry context) boot_ui_key Device.ctor d.masked x := by
    intro x hx
    obtain ⟨s, hs, hc, rfl⟩ := mem_chain _ _ hx
    exact boot_ui_steps_good context Device.ctor d s hs hc
  have habs : ∀ f k, boot_ui_key f = some k → k ∉ (chain (boot_ui_steps d)).map Prod.fst →
      Agree f dev d.masked := by
    intro f k hf hk
    rcases hI f with h | h
    · exact agree_trans f _ _ _ h (boot_ui_absent d f k hf hk)
    · exact h
  obtain ⟨h1, h2, h3, h4⟩ := key_loop_good _ _ _ _ _ hgood none dev err hI habs
  refine ⟨h1.trans ?_, h2, h3, h4⟩
  cases hc : chain (boot_ui_steps d) with
  | nil => exact absurd hc hne
  | cons m rest => rfl

/-- Decoding the `block_devs` object written by the encoder for `d`. -/
theorem process_block_devs_encoded (d dev : Device) (context : String) (err : JsonError)
    (hI : ∀ f, Agree f dev Device.ctor ∨ Agree f dev d.masked)
    (hne : chain (block_devs_steps d) ≠ []) :
    (process_block_devs dev (Value.object (chain (block_devs_steps d))) context err).ret =
      some true
    ∧ (process_block_devs dev (Value.object (chain (block_devs_steps d))) context err).error =
      err
    ∧ (∀ f, block_devs_key f ≠ none →
        Agree f (process_block_devs dev (Value.object (chain (block_devs_steps d))) context
          err).device d.masked)
    ∧ (∀ f, block_devs_key f = none →
        Agree f (process_block_devs dev (Value.object (chain (block_devs_steps d))) context
          err).device dev) := by
  rw [process_block_devs_object _ (Value.object (chain (block_devs_steps d))) _ _ rfl]
  have hgood : ∀ x ∈ chain (block_devs_steps d),
      GoodEntry (process_block_devs_entry context) block_devs_key Device.ctor d.masked x := by
    intro x hx
    obtain ⟨s, hs, hc, rfl⟩ := mem_chain _ _ hx
    exact block_devs_steps_good context Device.ctor d s hs hc
  have habs : ∀ f k, block_devs_key f = some k →
      k ∉ (chain (block_devs_steps d)).map Prod.fst → Agree f dev d.masked := by
    intro f k hf hk
    rcases hI f with h | h
    · exact agree_trans f _ _ _ h (block_devs_absent d f k hf hk)
    · exact h
  obtain ⟨h1, h2, h3, h4⟩ := key_loop_good _ _ _ _ _ hgood none dev err hI habs
  refine ⟨h1.trans ?_, h2, h3, h4⟩
  cases hc : chain (block_devs_steps d) with
  | nil => exact absurd hc hne
  | cons m rest => rfl

theorem isEmpty_eq_false_iff {α : Type} (l : List α) : (!l.isEmpty) = true ↔ l ≠ [] := by
  cases l <;> simp

/-- Every member that the encoder writes into the root object is decoded into its
field or fields. -/
theorem device_steps_good (context : String) (d : Device) :
    ∀ s ∈ device_steps d, s.cond = true →
      GoodEntry (process_device_entry context) device_key Device.ctor d.masked
        (s.key, s.val) := by
  intro s hs hc
  simp only [device_steps, List.mem_cons, List.mem_singleton, List.not_mem_nil,
    or_false] at hs
  rcases hs with h | h | h | h | h | h | h <;> subst h
  · refine good_of_setter _ _ _ _ _ _ (fun dev => dev.set_id d.options.id) ?_ ?_ ?_
    · intro dev err
      rw [device_entry_id, device_set_string_string]
    · intro dev f hf
      cases f <;> first | rfl | (simp [device_key] at hf)
    · intro dev f hf
      cases f <;> first | rfl | exact absurd rfl hf
  · refine good_of_setter _ _ _ _ _ _ (fun dev => dev.set_codenames d.options.codenames)
      ?_ ?_ ?_
    · intro dev err
      rw [device_entry_codenames, device_set_string_array_strings]
    · intro dev f hf
      cases f <;> first | rfl | (simp [device_key] at hf)
    · intro dev f hf
      cases f <;> first | rfl | exact absurd rfl hf
  · refine good_of_setter _ _ _ _ _ _ (fun dev => dev.set_name d.options.name) ?_ ?_ ?_
    · intro dev err
      rw [device_entry_name, device_set_string_string]
    · intro dev f hf
      cases f <;> first | rfl | (simp [device_key] at hf)
    · intro dev f hf
      cases f <;> first | rfl | exact absurd rfl hf
  · refine good_of_setter _ _ _ _ _ _
      (fun dev => dev.set_architecture d.options.architecture) ?_ ?_ ?_
    · intro dev err
      rw [device_entry_architecture, device_set_string_string]
    · intro dev f hf
      cases f <;> first | rfl | (simp [device_key] at hf)
    · intro dev f hf
      cases f <;> first | rfl | exact absurd rfl hf
  · refine good_of_setter _ _ _ _ _ _
      (fun dev => dev.set_flags (d.options.flags &&& DEVICE_FLAG_MASK)) ?_ ?_ ?_
    · intro dev err
      rw [device_entry_flags, process_device_flags_flag_names]
    · intro dev f hf
      cases f <;> first | rfl | (simp [device_key] at hf)
    · intro dev f hf
      cases f <;> first | rfl | exact absurd rfl hf
  · have hne : chain (block_devs_steps d) ≠ [] :=
      (isEmpty_eq_false_iff (chain (block_devs_steps d))).mp hc
    intro dev err hI
    show (process_device_entry context "block_devs" _ dev err).ret = some true
      ∧ (process_device_entry context "block_devs" _ dev err).error = err
      ∧ (∀ f, device_key f = some "block_devs" →
          Agree f (process_device_entry context "block_devs" _ dev err).device d.masked)
      ∧ (∀ f, device_key f ≠ some "block_devs" →
          Agree f (process_device_entry context "block_devs" _ dev err).device dev)
    rw [device_entry_block_devs]
    obtain ⟨h1, h2, h3, h4⟩ := process_block_devs_encoded d dev
      (context ++ "." ++ "block_devs") err hI hne
    refine ⟨h1, h2, ?_, ?_⟩
    · intro f hf
      cases f <;> first
        | (refine h3 _ ?_; decide)
        | (simp [device_key] at hf)
    · intro f hf
      cases f <;> first | exact h4 _ rfl | exact absurd rfl hf
  · have hne : chain (boot_ui_steps d) ≠ [] :=
      (isEmpty_eq_false_iff (chain (boot_ui_steps d))).mp hc
    intro dev err hI
    show (process_device_entry context "boot_ui" _ dev err).ret = some true
      ∧ (process_device_entry context "boot_ui" _ dev err).error = err
      ∧ (∀ f, device_key f = some "boot_ui" →
          Agree f (process_device_entry context "boot_ui" _ dev err).device d.masked)
      ∧ (∀ f, device_key f ≠ some "boot_ui" →
          Agree f (process_device_entry context "boot_ui" _ dev err).device dev)
    rw [device_entry_boot_ui]
    obtain ⟨h1, h2, h3, h4⟩ := process_boot_ui_encoded d dev
      (context ++ "." ++ "boot_ui") err hI hne
    refine ⟨h1, h2, ?_, ?_⟩
    · intro f hf
      cases f <;> first
        | (refine h3 _ ?_; decide)
        | (simp [device_key] at hf)
    · intro f hf
      cases f <;> first | exact h4 _ rfl | exact absurd rfl hf

theorem outcome_eq (r : Outcome) (ret : Option Bool) (device : Device) (error : JsonError)
    (h1 : r.ret = ret) (h2 : r.device = device) (h3 : r.error = error) :
    r = ⟨ret, device, error⟩ := by
  cases r
  simp only at h1 h2 h3
  subst h1 h2 h3
  rfl

theorem chain_nil_conds (steps : List Step) (h : chain steps = []) :
    ∀ s ∈ steps, s.cond = false := by
  intro s hs
  by_contra hc
  have hc2 : s.cond = true := by simpa using hc
  exact (chain_ne_nil_iff steps).mpr ⟨s, hs, hc2⟩ h

theorem device_absent (d : Device) :
    ∀ f k, device_key f = some k → k ∉ (chain (device_steps d)).map Prod.fst →
      Agree f Device.ctor d.masked := by
  intro f k hf hk
  rw [key_mem_chain] at hk
  have hb : "block_devs" = k → ∀ s ∈ block_devs_steps d, s.cond = false := by
    intro hkk
    subst hkk
    apply chain_nil_conds
    by_contra hne
    exact hk ⟨⟨!(chain (block_devs_steps d)).isEmpty, "block_devs",
      Value.object (chain (block_devs_steps d))⟩, by simp [device_steps],
      (isEmpty_eq_false_iff _).mpr hne, rfl⟩
  have hu : "boot_ui" = k → ∀ s ∈ boot_ui_steps d, s.cond = false := by
    intro hkk
    subst hkk
    apply chain_nil_conds
    by_contra hne
    exact hk ⟨⟨!(chain (boot_ui_steps d)).isEmpty, "boot_ui",
      Value.object (chain (boot_ui_steps d))⟩, by simp [device_steps],
      (isEmpty_eq_false_iff _).mpr hne, rfl⟩
  have hb3 : "block_devs" = k →
      d.options.base_dirs = [] ∧ d.options.system_devs = [] ∧ d.options.cache_devs = []
        ∧ d.options.data_devs = [] ∧ d.options.boot_devs = []
        ∧ d.options.recovery_devs = [] ∧ d.options.extra_devs = [] := by
    intro hkk
    have hb2 := hb hkk
    simpa [block_devs_steps] using hb2
  have hu3 : "boot_ui" = k → d.masked.tw_options = Device.ctor.tw_options := by
    intro hkk
    have hu2 := hu hkk
    simp [boot_ui_steps] at hu2
    obtain ⟨u1, u2, u3, u4, u5, u6, u7, u8, u9, u10, u11, u12, u13, u14, u15, u16, u17⟩ := hu2
    have u2b := flag_names_nil_tw _ u2
    simp [Device.masked, Device.ctor, u1, u2b, u3, u4, u5, u6, u7, u8, u9, u10, u11, u12, u13,
      u14, u15, u16, u17]
  cases f <;> simp only [device_key, Option.some.injEq] at hf <;>
    first
      | (have hb2 := hb3 hf
         simp [Agree, Device.ctor, Device.masked, hb2])
      | (have hu2 := hu3 hf
         simp only [Agree, hu2])
      | (subst hf
         simp [device_steps] at hk
         first
           | (simp [Agree, Device.ctor, Device.masked, hk]; done)
           | exact (flag_names_nil_device _ hk).symm)

/-- Decoding what the encoder writes: when the encoder emits at least one key for `d`,
decoding its tree into a default-constructed device succeeds, leaves the error record
alone and yields `d` with the bits outside the two flag masks cleared. -/
theorem decode_encode (d : Device) (err : JsonError) (hne : chain (device_steps d) ≠ []) :
    device_from_json (ParseResult.ok (device_to_json d)) Device.ctor err =
      ⟨some true, d.masked, err⟩ := by
  rw [device_to_json_eq, of_members_cons_eq _ hne]
  show process_device Device.ctor (Value.object (chain (device_steps d))) "" err = _
  rw [process_device_object _ (Value.object (chain (device_steps d))) _ _ rfl]
  have hgood : ∀ x ∈ chain (device_steps d),
      GoodEntry (process_device_entry "") device_key Device.ctor d.masked x := by
    intro x hx
    obtain ⟨s, hs, hc, rfl⟩ := mem_chain _ _ hx
    exact device_steps_good "" d s hs hc
  obtain ⟨h1, h2, h3, _⟩ := key_loop_good _ _ _ _ _ hgood none Device.ctor err
    (fun f => Or.inl (agree_refl f _)) (device_absent d)
  have hdev := eq_of_agree _ _ (fun f => h3 f (by cases f <;> simp [device_key]))
  have hret : (key_loop (process_device_entry "") (chain (device_steps d)) none Device.ctor
      err).ret = some true := by
    rw [h1]
    cases hc : chain (device_steps d) with
    | nil => exact absurd hc hne
    | cons m rest => rfl
  exact outcome_eq _ _ _ _ hret hdev h2

/-! ## The validator -/

theorem or_eq_zero (a b : Nat) (h : a ||| b = 0) : a = 0 ∧ b = 0 := by
  constructor
  · apply Nat.eq_of_testBit_eq
    intro i
    have h2 := congrArg (fun x => x.testBit i) h
    simp only [Nat.testBit_or, Nat.zero_testBit, Bool.or_eq_false_iff] at h2
    simp [h2.1]
  · apply Nat.eq_of_testBit_eq
    intro i
    have h2 := congrArg (fun x => x.testBit i) h
    simp only [Nat.testBit_or, Nat.zero_testBit, Bool.or_eq_false_iff] at h2
    simp [h2.2]

theorem or_bit_eq_zero (c : Prop) [Decidable c] (x k : Nat) (hk : k ≠ 0)
    (h : (if c then x ||| k else x) = 0) : x = 0 ∧ ¬ c := by
  by_cases hc : c
  · rw [if_pos hc] at h
    exact absurd (or_eq_zero _ _ h).2 hk
  · rw [if_neg hc] at h
    exact ⟨h, hc⟩

/-- What a device without validation errors satisfies. -/
theorem validate_eq_zero (d : Device) (h : d.validate = 0) :
    d.options.id ≠ "" ∧ d.options.codenames ≠ [] ∧ d.options.name ≠ ""
    ∧ (d.options.architecture = ARCH_ARMEABI_V7A ∨ d.options.architecture = ARCH_ARM64_V8A
        ∨ d.options.architecture = ARCH_X86 ∨ d.options.architecture = ARCH_X86_64)
    ∧ d.options.flags &&& DEVICE_FLAG_MASK = d.options.flags
    ∧ d.options.system_devs ≠ [] ∧ d.options.cache_devs ≠ [] ∧ d.options.data_devs ≠ []
    ∧ d.options.boot_devs ≠ []
    ∧ (d.tw_options.supported = true →
        d.tw_options.flags &&& TW_FLAG_MASK = d.tw_options.flags
        ∧ d.tw_options.theme ≠ "" ∧ d.tw_options.graphics_backends ≠ []) := by
  unfold Device.validate at h
  lift_lets at h
  extract_lets f0 f1 f2 f3 f4 f5 f6 f7 f8 f9 g1 g2 g3 at h
  have hbase : f9 = 0 ∧ (d.tw_options.supported = true →
      d.tw_options.flags &&& TW_FLAG_MASK = d.tw_options.flags
      ∧ d.tw_options.theme ≠ "" ∧ d.tw_options.graphics_backends ≠ []) := by
    by_cases hs : d.tw_options.supported = true
    · rw [if_pos hs] at h
      obtain ⟨k2, c3⟩ := or_bit_eq_zero _ _ _ (by decide) h
      obtain ⟨k1, c2⟩ := or_bit_eq_zero _ _ _ (by decide) k2
      obtain ⟨k0, c1⟩ := or_bit_eq_zero _ _ _ (by decide) k1
      exact ⟨k0, fun _ => ⟨not_not.mp c1, c2, c3⟩⟩
    · rw [if_neg hs] at h
      exact ⟨h, fun h2 => absurd h2 hs⟩
  obtain ⟨e9, htw⟩ := hbase
  obtain ⟨e8, c9⟩ := or_bit_eq_zero _ _ _ (by decide) e9
  obtain ⟨e7, c8⟩ := or_bit_eq_zero _ _ _ (by decide) e8
  obtain ⟨e6, c7⟩ := or_bit_eq_zero _ _ _ (by decide) e7
  obtain ⟨e5, c6⟩ := or_bit_eq_zero _ _ _ (by decide) e6
  obtain ⟨e4, c5⟩ := or_bit_eq_zero _ _ _ (by decide) e5
  have harch : f3 = 0 ∧ d.options.architecture ≠ ""
      ∧ ¬ (d.options.architecture ≠ ARCH_ARMEABI_V7A
        ∧ d.options.architecture ≠ ARCH_ARM64_V8A
        ∧ d.options.architecture ≠ ARCH_X86 ∧ d.options.architecture ≠ ARCH_X86_64) := by
    by_cases ha : d.options.architecture = ""
    · have e4b : f3 ||| VALIDATE_MISSING_ARCHITECTURE = 0 := by
        rw [← e4]
        exact (if_pos ha).symm
      exact absurd (or_eq_zero _ _ e4b).2 (by decide)
    · have e4b : (if d.options.architecture ≠ ARCH_ARMEABI_V7A
            ∧ d.options.architecture ≠ ARCH_ARM64_V8A
            ∧ d.options.architecture ≠ ARCH_X86 ∧ d.options.architecture ≠ ARCH_X86_64 then
          f3 ||| VALIDATE_INVALID_ARCHITECTURE else f3) = 0 := by
        rw [← e4]
        exact (if_neg ha).symm
      obtain ⟨e3, c4⟩ := or_bit_eq_zero _ _ _ (by decide) e4b
      exact ⟨e3, ha, c4⟩
  obtain ⟨e3, _, c4⟩ := harch
  obtain ⟨e2, c3⟩ := or_bit_eq_zero _ _ _ (by decide) e3
  obtain ⟨e1, c2⟩ := or_bit_eq_zero _ _ _ (by decide) e2
  obtain ⟨_, c1⟩ := or_bit_eq_zero _ _ _ (by decide) e1
  refine ⟨c1, c2, c3, ?_, not_not.mp c5, c6, c7, c8, c9, htw⟩
  by_contra hcon
  simp only [not_or] at hcon
  exact c4 hcon

/-! ## Decoded flags stay within their masks -/

theorem key_loop_invariant (P : Device → Prop)
    (entry : String → Value → Device → JsonError → Outcome)
    (hentry : ∀ k v dev err, P dev → P (entry k v dev err).device)
    (ms : List (String × Value)) :
    ∀ (ret : Option Bool) (dev : Device) (err : JsonError),
      P dev → P (key_loop entry ms ret dev err).device := by
  induction ms with
  | nil => intro ret dev err h; exact h
  | cons x rest ih =>
    intro ret dev err h
    obtain ⟨k, v⟩ := x
    by_cases hr : (entry k v dev err).ret = some true
    · rw [key_loop_cons_ok _ _ _ _ _ _ _ hr]
      exact ih _ _ _ (hentry k v dev err h)
    · rw [key_loop_cons_stop _ _ _ _ _ _ _ hr]
      exact hentry k v dev err h

theorem flag_of_in_mask (table : List FlagMapping) (mask : Nat)
    (htable : ∀ it ∈ table, it.flag &&& mask = it.flag) (name : String) :
    flag_of table name &&& mask = flag_of table name := by
  unfold flag_of
  cases hf : table.find? (fun it => decide (it.key = name)) with
  | none => simp
  | some it => exact htable it (List.mem_of_find?_eq_some hf)

theorem flags_loop_in_mask (table : List FlagMapping) (mask : Nat)
    (htable : ∀ it ∈ table, it.flag &&& mask = it.flag) (context : String)
    (error : JsonError) (items : List Value) :
    ∀ (index flags result : Nat), flags &&& mask = flags →
      flags_loop table context error items index flags = Except.ok result →
      result &&& mask = result := by
  induction items with
  | nil =>
    intro index flags result h hr
    simp only [flags_loop, Except.ok.injEq] at hr
    rw [← hr]
    exact h
  | cons item rest ih =>
    intro index flags result h hr
    simp only [flags_loop] at hr
    split at hr
    · simp at hr
    · split at hr
      · simp at hr
      · refine ih _ _ _ ?_ hr
        rw [flag_table_scan_eq, Nat.and_distrib_right, h, flag_of_in_mask table mask htable]

theorem device_table_in_mask :
    ∀ it ∈ device_flag_mappings, it.flag &&& DEVICE_FLAG_MASK = it.flag := by
  decide

theorem tw_table_in_mask : ∀ it ∈ tw_flag_mappings, it.flag &&& TW_FLAG_MASK = it.flag := by
  decide

theorem device_set_boolean_in_mask (setter : Device → Bool → Device)
    (hset : ∀ dev b, InMask dev → InMask (setter dev b)) (device : Device) (val : Value)
    (context : String) (error : JsonError) (h : InMask device) :
    InMask (device_set_boolean setter device val context error).device := by
  unfold device_set_boolean
  split
  · exact h
  · exact hset _ _ h

theorem device_set_int_in_mask (setter : Device → Int → Device)
    (hset : ∀ dev b, InMask dev → InMask (setter dev b)) (device : Device) (val : Value)
    (context : String) (error : JsonError) (h : InMask device) :
    InMask (device_set_int setter device val context error).device := by
  unfold device_set_int
  split
  · exact h
  · exact hset _ _ h

theorem device_set_string_in_mask (setter : Device → String → Device)
    (hset : ∀ dev b, InMask dev → InMask (setter dev b)) (device : Device) (val : Value)
    (context : String) (error : JsonError) (h : InMask device) :
    InMask (device_set_string setter device val context error).device := by
  unfold device_set_string
  split
  · exact h
  · exact hset _ _ h

theorem device_set_string_array_in_mask (setter : Device → List String → Device)
    (hset : ∀ dev b, InMask dev → InMask (setter dev b)) (device : Device) (val : Value)
    (context : String) (error : JsonError) (h : InMask device) :
    InMask (device_set_string_array setter device val context error).device := by
  unfold device_set_string_array
  split
  · exact h
  · split
    · exact h
    · exact hset _ _ h

theorem process_device_flags_in_mask (device : Device) (val : Value) (context : String)
    (error : JsonError) (h : InMask device) :
    InMask (process_device_flags device val context error).device := by
  unfold process_device_flags
  split
  · exact h
  · split
    · exact h
    · next flags hf =>
      exact ⟨flags_loop_in_mask _ _ device_table_in_mask _ _ _ _ _ _ (by simp) hf, h.2⟩

theorem process_boot_ui_flags_in_mask (device : Device) (val : Value) (context : String)
    (error : JsonError) (h : InMask device) :
    InMask (process_boot_ui_flags device val context error).device := by
  unfold process_boot_ui_flags
  split
  · exact h
  · split
    · exact h
    · next flags hf =>
      exact ⟨h.1, flags_loop_in_mask _ _ tw_table_in_mask _ _ _ _ _ _ (by simp) hf⟩

theorem process_boot_ui_pixel_format_in_mask (device : Device) (val : Value)
    (context : String) (error : JsonError) (h : InMask device) :
    InMask (process_boot_ui_pixel_format device val context error).device := by
  unfold process_boot_ui_pixel_format
  split
  · exact h
  · split <;> exact h

theorem process_boot_ui_force_pixel_format_in_mask (device : Device) (val : Value)
    (context : String) (error : JsonError) (h : InMask device) :
    InMask (process_boot_ui_force_pixel_format device val context error).device := by
  unfold process_boot_ui_force_pixel_format
  split
  · exact h
  · split <;> exact h

theorem block_devs_entry_in_mask (context key : String) (val : Value) (device : Device)
    (error : JsonError) (h : InMask device) :
    InMask (process_block_devs_entry context key val device error).device := by
  by_cases hkey : key ∈ block_devs_keys
  · simp only [block_devs_keys, List.mem_cons, List.mem_singleton, List.not_mem_nil,
      or_false] at hkey
    rcases hkey with hk | hk | hk | hk | hk | hk | hk <;> subst hk
    · rw [block_devs_entry_base_dirs]
      refine device_set_string_array_in_mask _ ?_ _ _ _ _ h
      exact fun _ _ hd => hd
    · rw [block_devs_entry_system]
      refine device_set_string_array_in_mask _ ?_ _ _ _ _ h
      exact fun _ _ hd => hd
    · rw [block_devs_entry_cache]
      refine device_set_string_array_in_mask _ ?_ _ _ _ _ h
      exact fun _ _ hd => hd
    · rw [block_devs_entry_data]
      refine device_set_string_array_in_mask _ ?_ _ _ _ _ h
      exact fun _ _ hd => hd
    · rw [block_devs_entry_boot]
      refine device_set_string_array_in_mask _ ?_ _ _ _ _ h
      exact fun _ _ hd => hd
    · rw [block_devs_entry_recovery]
      refine device_set_string_array_in_mask _ ?_ _ _ _ _ h
      exact fun _ _ hd => hd
    · rw [block_devs_entry_extra]
      refine device_set_string_array_in_mask _ ?_ _ _ _ _ h
      exact fun _ _ hd => hd
  · rw [block_devs_entry_unknown _ _ _ _ _ hkey]
    exact h

theorem boot_ui_entry_in_mask (context key : String) (val : Value) (device : Device)
    (error : JsonError) (h : InMask device) :
    InMask (process_boot_ui_entry context key val device error).device := by
  by_cases hkey : key ∈ boot_ui_keys
  · simp only [boot_ui_keys, List.mem_cons, List.mem_singleton, List.not_mem_nil,
      or_false] at hkey
    rcases hkey with hk | hk | hk | hk | hk | hk | hk | hk | hk | hk | hk | hk | hk | hk | hk |
      hk | hk <;> subst hk
    · rw [boot_ui_entry_supported]
      refine device_set_boolean_in_mask _ ?_ _ _ _ _ h
      exact fun _ _ hd => hd
    · rw [boot_ui_entry_flags]
      exact process_boot_ui_flags_in_mask _ _ _ _ h
    · rw [boot_ui_entry_pixel_format]
      exact process_boot_ui_pixel_format_in_mask _ _ _ _ h
    · rw [boot_ui_entry_force_pixel_format]
      exact process_boot_ui_force_pixel_format_in_mask _ _ _ _ h
    · rw [boot_ui_entry_overscan_percent]
      refine device_set_int_in_mask _ ?_ _ _ _ _ h
      exact fun _ _ hd => hd
    · rw [boot_ui_entry_default_x_offset]
      refine device_set_int_in_mask _ ?_ _ _ _ _ h
      exact fun _ _ hd => hd
    · rw [boot_ui_entry_default_y_offset]
      refine device_set_int_in_mask _ ?_ _ _ _ _ h
      exact fun _ _ hd => hd
    · rw [boot_ui_entry_brightness_path]
      refine device_set_string_in_mask _ ?_ _ _ _ _ h
      exact fun _ _ hd => hd
    · rw [boot_ui_entry_secondary_brightness_path]
      refine device_set_string_in_mask _ ?_ _ _ _ _ h
      exact fun _ _ hd => hd
    · rw [boot_ui_entry_max_brightness]
      refine device_set_int_in_mask _ ?_ _ _ _ _ h
      exact fun _ _ hd => hd
    · rw [boot_ui_entry_default_brightness]
      refine device_set_int_in_mask _ ?_ _ _ _ _ h
      exact fun _ _ hd => hd
    · rw [boot_ui_entry_battery_path]
      refine device_set_string_in_mask _ ?_ _ _ _ _ h
      exact fun _ _ hd => hd
    · rw [boot_ui_entry_cpu_temp_path]
      refine device_set_string_in_mask _ ?_ _ _ _ _ h
      exact fun _ _ hd => hd
    · rw [boot_ui_entry_input_blacklist]
      refine device_set_string_in_mask _ ?_ _ _ _ _ h
      exact fun _ _ hd => hd
    · rw [boot_ui_entry_input_whitelist]
      refine device_set_string_in_mask _ ?_ _ _ _ _ h
      exact fun _ _ hd => hd
    · rw [boot_ui_entry_graphics_backends]
      refine device_set_string_array_in_mask _ ?_ _ _ _ _ h
      exact fun _ _ hd => hd
    · rw [boot_ui_entry_theme]
      refine device_set_string_in_mask _ ?_ _ _ _ _ h
      exact fun _ _ hd => hd
  · rw [boot_ui_entry_unknown _ _ _ _ _ hkey]
    exact h

theorem process_block_devs_in_mask (device : Device) (val : Value) (context : String)
    (error : JsonError) (h : InMask device) :
    InMask (process_block_devs device val context error).device := by
  unfold process_block_devs
  split
  · exact h
  · exact key_loop_invariant InMask _ (fun k v dev err hd =>
      block_devs_entry_in_mask context k v dev err hd) _ _ _ _ h

theorem process_boot_ui_in_mask (device : Device) (val : Value) (context : String)
    (error : JsonError) (h : InMask device) :
    InMask (process_boot_ui device val context error).device := by
  unfold process_boot_ui
  split
  · exact h
  · exact key_loop_invariant InMask _ (fun k v dev err hd =>
      boot_ui_entry_in_mask context k v dev err hd) _ _ _ _ h

theorem device_entry_in_mask (context key : String) (val : Value) (device : Device)
    (error : JsonError) (h : InMask device) :
    InMask (process_device_entry context key val device error).device := by
  by_cases hkey : key ∈ device_keys
  · simp only [device_keys, List.mem_cons, List.mem_singleton, List.not_mem_nil,
      or_false] at hkey
    rcases hkey with hk | hk | hk | hk | hk | hk | hk <;> subst hk
    · rw [device_entry_name]
      refine device_set_string_in_mask _ ?_ _ _ _ _ h
      exact fun _ _ hd => hd
    · rw [device_entry_id]
      refine device_set_string_in_mask _ ?_ _ _ _ _ h
      exact fun _ _ hd => hd
    · rw [device_entry_codenames]
      refine device_set_string_array_in_mask _ ?_ _ _ _ _ h
      exact fun _ _ hd => hd
    · rw [device_entry_architecture]
      refine device_set_string_in_mask _ ?_ _ _ _ _ h
      exact fun _ _ hd => hd
    · rw [device_entry_flags]
      exact process_device_flags_in_mask _ _ _ _ h
    · rw [device_entry_block_devs]
      exact process_block_devs_in_mask _ _ _ _ h
    · rw [device_entry_boot_ui]
      exact process_boot_ui_in_mask _ _ _ _ h
  · rw [device_entry_unknown _ _ _ _ _ hkey]
    exact h

/-- Whatever `process_device` does to a device whose flags lie within their masks, the
flags of the device it leaves lie within their masks. -/
theorem process_device_in_mask (device : Device) (val : Value) (context : String)
    (error : JsonError) (h : InMask device) :
    InMask (process_device device val context error).device := by
  unfold process_device
  split
  · exact h
  · exact key_loop_invariant InMask _ (fun k v dev err hd =>
      device_entry_in_mask context k v dev err hd) _ _ _ _ h

theorem masked_of_in_mask (d : Device) (h : InMask d) : d.masked = d := by
  obtain ⟨o, t⟩ := d
  simp only [InMask] at h
  simp [Device.masked, h.1, h.2]

theorem ctor_in_mask : InMask Device.ctor := by
  constructor <;> decide

/-! ## Round trips -/

theorem operator_eq_self (a : Device) : Device.operator_eq a a = true := by
  simp [Device.operator_eq, BaseOptions.operator_eq, TwOptions.operator_eq]

theorem chain_ne_nil_of_id (d : Device) (h : d.options.id ≠ "") :
    chain (device_steps d) ≠ [] :=
  (chain_ne_nil_iff _).mpr
    ⟨⟨decide (d.options.id ≠ ""), "id", Value.string d.options.id⟩,
      by simp [device_steps], by simpa using h⟩

theorem chain_ne_nil_of_not_null (d : Device) (h : device_to_json d ≠ Value.null) :
    chain (device_steps d) ≠ [] := by
  intro hc
  apply h
  rw [device_to_json_eq, hc]
  rfl

/-- C1 as stated fails: the device `sample_unsupported_device` passes validation, boot
UI being unsupported, and holds a boot-UI flag bit outside the mask; its encoding
decodes to a device whose tw_flags is 0, which `operator==` tells apart from it. -/
theorem round_trip_valid_counterexample :
    sample_unsupported_device.validate = 0
    ∧ (device_from_json (ParseResult.ok (device_to_json sample_unsupported_device))
        Device.ctor error0).ret = some true
    ∧ (device_from_json (ParseResult.ok (device_to_json sample_unsupported_device))
        Device.ctor error0).device.tw_options.flags = 0
    ∧ sample_unsupported_device.tw_options.flags = 131072
    ∧ Device.operator_eq
        (device_from_json (ParseResult.ok (device_to_json sample_unsupported_device))
          Device.ctor error0).device
        sample_unsupported_device = false := by
  have h := decode_encode sample_unsupported_device error0
    (chain_ne_nil_of_id _ (by decide))
  rw [h]
  refine ⟨?_, ?_, ?_, ?_, ?_⟩ <;> decide

/-- C1, amended: for every device `d` with `validate() == 0`, decoding
`device_to_json(d)` into a default-constructed device succeeds and yields `d` with
tw_flags replaced by `tw_flags & TW_FLAG_MASK`, every other field as in `d`; the result
equals `d` under `operator==` whenever tw_flags has no bit outside the mask, which is
the case whenever boot UI is supported. -/
theorem round_trip_valid (d : Device) (error : JsonError) (h : d.validate = 0) :
    device_from_json (ParseResult.ok (device_to_json d)) Device.ctor error =
      ⟨some true,
        { d with tw_options :=
            { d.tw_options with flags := d.tw_options.flags &&& TW_FLAG_MASK } },
        error⟩
    ∧ (d.tw_options.flags &&& TW_FLAG_MASK = d.tw_options.flags →
        device_from_json (ParseResult.ok (device_to_json d)) Device.ctor error =
          ⟨some true, d, error⟩
        ∧ Device.operator_eq
            (device_from_json (ParseResult.ok (device_to_json d)) Device.ctor error).device
            d = true)
    ∧ (d.tw_options.supported = true →
        Device.operator_eq
          (device_from_json (ParseResult.ok (device_to_json d)) Device.ctor error).device
          d = true) := by
  obtain ⟨hid, _, _, _, hflags, _, _, _, _, htw⟩ := validate_eq_zero d h
  have hdec := decode_encode d error (chain_ne_nil_of_id d hid)
  have hm : d.masked =
      { d with tw_options :=
          { d.tw_options with flags := d.tw_options.flags &&& TW_FLAG_MASK } } := by
    obtain ⟨o, t⟩ := d
    simp only at hflags
    simp [Device.masked, hflags]
  have hin : d.tw_options.flags &&& TW_FLAG_MASK = d.tw_options.flags →
      device_from_json (ParseResult.ok (device_to_json d)) Device.ctor error =
          ⟨some true, d, error⟩
        ∧ Device.operator_eq
            (device_from_json (ParseResult.ok (device_to_json d)) Device.ctor error).device
            d = true := by
    intro hmask
    rw [hdec, masked_of_in_mask d ⟨hflags, hmask⟩]
    exact ⟨rfl, operator_eq_self d⟩
  refine ⟨?_, hin, ?_⟩
  · rw [hdec, hm]
  · intro hs
    exact (hin (htw hs).1).2

/-- C1, amended, on `sample_unsupported_device`: all fields come back, tw_flags as 0. -/
theorem round_trip_valid_witness :
    sample_unsupported_device.validate = 0
    ∧ device_from_json (ParseResult.ok (device_to_json sample_unsupported_device))
        Device.ctor error0 =
      ⟨some true,
        { sample_unsupported_device with tw_options :=
            { sample_unsupported_device.tw_options with
              flags := sample_unsupported_device.tw_options.flags &&& TW_FLAG_MASK } },
        error0⟩ :=
  ⟨by decide, (round_trip_valid sample_unsupported_device error0 (by decide)).1⟩

/-- C2 as stated fails: the object `{"name": ""}` is accepted and gives a
default-constructed device, whose encoding is the JSON value `null`; decoding that
fails with `MISMATCHED_TYPE` at `.`. -/
theorem round_trip_decoded_counterexample :
    device_from_json (ParseResult.ok (Value.object [("name", Value.string "")]))
        Device.ctor error0 =
      ⟨some true, Device.ctor, error0⟩
    ∧ device_from_json (ParseResult.ok (device_to_json Device.ctor)) Device.ctor error0 =
      ⟨some false, Device.ctor, mismatched_type_error error0 "." "null" "object"⟩ := by
  refine ⟨?_, ?_⟩ <;> decide

set_option linter.unusedVariables false in
/-- C2, amended: when `device_from_json` accepts a JSON tree into a default-constructed
device `d1` and the encoder emits at least one key for `d1` (its tree is not `null`),
decoding `device_to_json(d1)` into a default-constructed device succeeds and yields a
device equal to `d1`. -/
theorem round_trip_decoded (root : Value) (error1 error2 : JsonError)
    (hacc : (device_from_json (ParseResult.ok root) Device.ctor error1).ret = some true)
    (hobj : device_to_json (device_from_json (ParseResult.ok root) Device.ctor error1).device
      ≠ Value.null) :
    device_from_json
        (ParseResult.ok
          (device_to_json (device_from_json (ParseResult.ok root) Device.ctor error1).device))
        Device.ctor error2 =
      ⟨some true, (device_from_json (ParseResult.ok root) Device.ctor error1).device, error2⟩
    ∧ Device.operator_eq
        (device_from_json (ParseResult.ok root) Device.ctor error1).device
        (device_from_json
          (ParseResult.ok
            (device_to_json (device_from_json (ParseResult.ok root) Device.ctor error1).device))
          Device.ctor error2).device = true := by
  have hmask : InMask (device_from_json (ParseResult.ok root) Device.ctor error1).device :=
    process_device_in_mask Device.ctor root "" error1 ctor_in_mask
  have hdec := decode_encode _ error2 (chain_ne_nil_of_not_null _ hobj)
  rw [masked_of_in_mask _ hmask] at hdec
  rw [hdec]
  exact ⟨rfl, operator_eq_self _⟩

set_option maxRecDepth 100000 in
/-- C2, amended, on the full-field sample object of the test `CreateJson`. -/
theorem round_trip_decoded_witness :
    (device_from_json (ParseResult.ok sample_complete) Device.ctor error0).ret = some true
    ∧ device_to_json (device_from_json (ParseResult.ok sample_complete) Device.ctor error0).device
      ≠ Value.null
    ∧ device_from_json
        (ParseResult.ok
          (device_to_json
            (device_from_json (ParseResult.ok sample_complete) Device.ctor error0).device))
        Device.ctor error0 =
      ⟨some true, (device_from_json (ParseResult.ok sample_complete) Device.ctor error0).device,
        error0⟩ :=
  have hobj : device_to_json
      (device_from_json (ParseResult.ok sample_complete) Device.ctor error0).device
      ≠ Value.null := by
    intro h
    have h2 := congrArg Value.type h
    revert h2
    decide
  ⟨by decide, hobj, (round_trip_decoded sample_complete error0 error0 (by decide) hobj).1⟩

/-! ## Flag arrays -/

/-- C3, evaluated on the code: the array `["FSTAB_SKIP_SDCARD0", "FSTAB_SKIP_SDCARD0"]`
given as `flags` is rejected with `UNKNOWN_VALUE` at `.flags[1]`, and the array
`["TW_NO_CPU_TEMP", "TW_NO_CPU_TEMP"]` given as `boot_ui.flags` with `UNKNOWN_VALUE` at
`.boot_ui.flags[1]`, although the same arrays with the repeat removed decode to the
masks 2 and 8192. -/
theorem duplicate_flag_name_rejected :
    device_from_json
        (ParseResult.ok (Value.object
          [("flags", strings ["FSTAB_SKIP_SDCARD0", "FSTAB_SKIP_SDCARD0"])]))
        Device.ctor error0 =
      ⟨some false, Device.ctor, unknown_value_error error0 ".flags[1]"⟩
    ∧ device_from_json
        (ParseResult.ok (Value.object [("flags", strings ["FSTAB_SKIP_SDCARD0"])]))
        Device.ctor error0 =
      ⟨some true, Device.ctor.set_flags 2, error0⟩
    ∧ device_from_json
        (ParseResult.ok (Value.object
          [("boot_ui", Value.object
            [("flags", strings ["TW_NO_CPU_TEMP", "TW_NO_CPU_TEMP"])])]))
        Device.ctor error0 =
      ⟨some false, Device.ctor, unknown_value_error error0 ".boot_ui.flags[1]"⟩
    ∧ device_from_json
        (ParseResult.ok (Value.object
          [("boot_ui", Value.object [("flags", strings ["TW_NO_CPU_TEMP"])])]))
        Device.ctor error0 =
      ⟨some true, Device.ctor.set_tw_flags 8192, error0⟩ := by
  refine ⟨?_, ?_, ?_, ?_⟩ <;> decide

/-- C4: an array of pairwise distinct recognized flag names given as `flags` (resp.
`boot_ui.flags`) decodes successfully and replaces the device's flags (resp. tw_flags)
by the bitwise OR of the table bits of the names, whatever the flags were before; the
mask does not depend on the order of the names, and the empty array gives 0. -/
theorem flag_accumulation (parent : String) (device : Device) (error : JsonError)
    (names reordered : List String) (hnd : names.Nodup) (hperm : names.Perm reordered) :
    ((∀ name ∈ names, name ∈ table_keys device_flag_mappings) →
      process_device_entry parent "flags" (strings names) device error =
          ⟨some true, device.set_flags (or_of_names device_flag_mappings names), error⟩
        ∧ process_device_entry parent "flags" (strings reordered) device error =
          ⟨some true, device.set_flags (or_of_names device_flag_mappings names), error⟩
        ∧ device_from_json (ParseResult.ok (Value.object [("flags", strings names)]))
            device error =
          ⟨some true, device.set_flags (or_of_names device_flag_mappings names), error⟩)
    ∧ ((∀ name ∈ names, name ∈ table_keys tw_flag_mappings) →
      process_boot_ui_entry parent "flags" (strings names) device error =
          ⟨some true, device.set_tw_flags (or_of_names tw_flag_mappings names), error⟩
        ∧ process_boot_ui_entry parent "flags" (strings reordered) device error =
          ⟨some true, device.set_tw_flags (or_of_names tw_flag_mappings names), error⟩
        ∧ device_from_json
            (ParseResult.ok (Value.object
              [("boot_ui", Value.object [("flags", strings names)])]))
            device error =
          ⟨some true, device.set_tw_flags (or_of_names tw_flag_mappings names), error⟩)
    ∧ process_device_entry parent "flags" (strings []) device error =
        ⟨some true, device.set_flags 0, error⟩
    ∧ process_boot_ui_entry parent "flags" (strings []) device error =
        ⟨some true, device.set_tw_flags 0, error⟩ := by
  have hnd2 : reordered.Nodup := (List.Perm.nodup_iff hperm).mp hnd
  have hor : ∀ table, or_of_names table reordered = or_of_names table names :=
    fun table => (or_names_perm table 0 names reordered hperm).symm
  refine ⟨?_, ?_, ?_, ?_⟩
  · intro hrec
    have hrec2 : ∀ name ∈ reordered, name ∈ table_keys device_flag_mappings :=
      fun n hn => hrec n (hperm.mem_iff.mpr hn)
    refine ⟨?_, ?_, ?_⟩
    · rw [device_entry_flags, process_device_flags_distinct _ _ _ _ hnd hrec]
    · rw [device_entry_flags, process_device_flags_distinct _ _ _ _ hnd2 hrec2, hor]
    · simp [device_from_json, process_device, Value.isObject, Value.type, Value.members,
        key_loop, process_device_flags_distinct _ _ _ _ hnd hrec]
  · intro hrec
    have hrec2 : ∀ name ∈ reordered, name ∈ table_keys tw_flag_mappings :=
      fun n hn => hrec n (hperm.mem_iff.mpr hn)
    refine ⟨?_, ?_, ?_⟩
    · rw [boot_ui_entry_flags, process_boot_ui_flags_distinct _ _ _ _ hnd hrec]
    · rw [boot_ui_entry_flags, process_boot_ui_flags_distinct _ _ _ _ hnd2 hrec2, hor]
    · simp [device_from_json, process_device, process_boot_ui, Value.isObject, Value.type,
        Value.members, key_loop, process_boot_ui_flags_distinct _ _ _ _ hnd hrec]
  · rw [device_entry_flags]
    simp [process_device_flags, strings, Value.isArray, Value.type, Value.items, flags_loop]
  · rw [boot_ui_entry_flags]
    simp [process_boot_ui_flags, strings, Value.isArray, Value.type, Value.items, flags_loop]

/-- C4 at three boot-UI flags in two orders: the mask is 7 both times. -/
theorem flag_accumulation_witness :
    ["TW_TOUCHSCREEN_SWAP_XY", "TW_TOUCHSCREEN_FLIP_X", "TW_TOUCHSCREEN_FLIP_Y"].Nodup
    ∧ (process_boot_ui_entry ".boot_ui" "flags"
        (strings ["TW_TOUCHSCREEN_FLIP_Y", "TW_TOUCHSCREEN_SWAP_XY", "TW_TOUCHSCREEN_FLIP_X"])
        Device.ctor error0 =
      ⟨some true,
        Device.ctor.set_tw_flags (or_of_names tw_flag_mappings
          ["TW_TOUCHSCREEN_SWAP_XY", "TW_TOUCHSCREEN_FLIP_X", "TW_TOUCHSCREEN_FLIP_Y"]),
        error0⟩)
    ∧ or_of_names tw_flag_mappings
        ["TW_TOUCHSCREEN_SWAP_XY", "TW_TOUCHSCREEN_FLIP_X", "TW_TOUCHSCREEN_FLIP_Y"] = 7 :=
  ⟨by decide,
    ((flag_accumulation ".boot_ui" Device.ctor error0
      ["TW_TOUCHSCREEN_SWAP_XY", "TW_TOUCHSCREEN_FLIP_X", "TW_TOUCHSCREEN_FLIP_Y"]
      ["TW_TOUCHSCREEN_FLIP_Y", "TW_TOUCHSCREEN_SWAP_XY", "TW_TOUCHSCREEN_FLIP_X"]
      (by decide) (by decide)).2.1 (by decide)).2.1,
    by decide⟩

/-- C6: in a `flags` (resp. `boot_ui.flags`) array whose element i is a string that the
table does not have, all earlier elements being pairwise distinct recognized names,
decoding fails with `UNKNOWN_VALUE` at the field's path followed by `[i]`, and the
device is left as it was. -/
theorem unknown_flag_name (parent : String) (device : Device) (error : JsonError)
    (names : List String) (s : String) (post : List Value) (hnd : names.Nodup) :
    ((∀ name ∈ names, name ∈ table_keys device_flag_mappings) →
      s ∉ table_keys device_flag_mappings →
      process_device_entry parent "flags"
          (Value.array (names.map Value.string ++ Value.string s :: post)) device error =
        ⟨some false, device,
          unknown_value_error error (element_context (parent ++ ".flags") names.length)⟩
      ∧ device_from_json
          (ParseResult.ok (Value.object
            [("flags", Value.array (names.map Value.string ++ Value.string s :: post))]))
          device error =
        ⟨some false, device,
          unknown_value_error error (element_context ".flags" names.length)⟩)
    ∧ ((∀ name ∈ names, name ∈ table_keys tw_flag_mappings) →
      s ∉ table_keys tw_flag_mappings →
      process_boot_ui_entry parent "flags"
          (Value.array (names.map Value.string ++ Value.string s :: post)) device error =
        ⟨some false, device,
          unknown_value_error error (element_context (parent ++ ".flags") names.length)⟩
      ∧ device_from_json
          (ParseResult.ok (Value.object
            [("boot_ui", Value.object
              [("flags", Value.array (names.map Value.string ++ Value.string s :: post))])]))
          device error =
        ⟨some false, device,
          unknown_value_error error (element_context ".boot_ui.flags" names.length)⟩) := by
  refine ⟨?_, ?_⟩
  · intro hrec hs
    have h := fun context => flags_loop_unknown_name _ device_flag_table_ok names s post
      context error hnd hrec hs
    refine ⟨?_, ?_⟩
    · rw [device_entry_flags]
      simp [process_device_flags, Value.isArray, Value.type, Value.items, h, String.append_assoc]
    · simp [device_from_json, process_device, Value.isObject, Value.type, Value.members,
        key_loop, process_device_flags, Value.isArray, Value.items, h]
  · intro hrec hs
    have h := fun context => flags_loop_unknown_name _ tw_flag_table_ok names s post
      context error hnd hrec hs
    refine ⟨?_, ?_⟩
    · rw [boot_ui_entry_flags]
      simp [process_boot_ui_flags, Value.isArray, Value.type, Value.items, h, String.append_assoc]
    · simp [device_from_json, process_device, process_boot_ui, Value.isObject, Value.type,
        Value.members, key_loop, process_boot_ui_flags, Value.isArray, Value.items, h]

/-- C6 on the two inputs of the test `LoadInvalidValue`: `.flags[0]` and
`.boot_ui.flags[0]`. -/
theorem unknown_flag_name_witness :
    ([] : List String).Nodup
    ∧ "FOO_BAR" ∉ table_keys device_flag_mappings
    ∧ "TW_FOO_BAR" ∉ table_keys tw_flag_mappings
    ∧ device_from_json
        (ParseResult.ok (Value.object [("flags", Value.array [Value.string "FOO_BAR"])]))
        Device.ctor error0 =
      ⟨some false, Device.ctor, unknown_value_error error0 (element_context ".flags" 0)⟩
    ∧ device_from_json
        (ParseResult.ok (Value.object
          [("boot_ui", Value.object [("flags", Value.array [Value.string "TW_FOO_BAR"])])]))
        Device.ctor error0 =
      ⟨some false, Device.ctor,
        unknown_value_error error0 (element_context ".boot_ui.flags" 0)⟩
    ∧ element_context ".boot_ui.flags" 0 = ".boot_ui.flags[0]" :=
  ⟨by decide, by decide, by decide,
    ((unknown_flag_name "" Device.ctor error0 [] "FOO_BAR" [] (by decide)).1
      (by decide) (by decide)).2,
    ((unknown_flag_name "" Device.ctor error0 [] "TW_FOO_BAR" [] (by decide)).2
      (by decide) (by decide)).2,
    by decide⟩

/-! ## Type mismatches -/

/-- C9 as stated fails for `flags`: in `["FOO_BAR", 1]` the first element that is not a
string is element 1, yet decoding stops at element 0 with `UNKNOWN_VALUE`, not with
`MISMATCHED_TYPE` at `.flags[1]`. -/
theorem array_element_mismatch_counterexample :
    (∀ x ∈ [Value.string "FOO_BAR"], x.type = ValueType.stringValue)
    ∧ (Value.int 1).type ≠ ValueType.stringValue
    ∧ process_device_entry "" "flags"
        (Value.array ([Value.string "FOO_BAR"] ++ Value.int 1 :: [])) Device.ctor error0 =
      ⟨some false, Device.ctor, unknown_value_error error0 ".flags[0]"⟩
    ∧ process_device_entry "" "flags"
        (Value.array ([Value.string "FOO_BAR"] ++ Value.int 1 :: [])) Device.ctor error0 ≠
      ⟨some false, Device.ctor,
        mismatched_type_error error0 (element_context ".flags" 1) "integer" "string"⟩ := by
  refine ⟨?_, ?_, ?_, ?_⟩ <;> decide

/-- C9, amended: for codenames, the seven block_devs lists and
boot_ui.graphics_backends, if element i is the first element that is not a string,
decoding fails with `MISMATCHED_TYPE`, expected type `string`, the element's type as
actual type, and the field's path followed by `[i]` as context, and the device is left
as it was; for flags and boot_ui.flags the same holds when the elements before i are
pairwise distinct recognized names. -/
theorem array_element_mismatch (parent key : String) (device : Device) (error : JsonError)
    (pre : List Value) (bad : Value) (post : List Value)
    (hpre : ∀ x ∈ pre, x.type = ValueType.stringValue)
    (hbad : bad.type ≠ ValueType.stringValue) :
    process_device_entry parent "codenames" (Value.array (pre ++ bad :: post)) device error =
        ⟨some false, device,
          mismatched_type_error error
            (element_context (parent ++ "." ++ "codenames") pre.length)
            (json_type_to_string bad.type) "string"⟩
    ∧ (key ∈ block_devs_keys →
        process_block_devs_entry parent key (Value.array (pre ++ bad :: post)) device error =
          ⟨some false, device,
            mismatched_type_error error (element_context (parent ++ "." ++ key) pre.length)
              (json_type_to_string bad.type) "string"⟩)
    ∧ process_boot_ui_entry parent "graphics_backends" (Value.array (pre ++ bad :: post))
          device error =
        ⟨some false, device,
          mismatched_type_error error
            (element_context (parent ++ "." ++ "graphics_backends") pre.length)
            (json_type_to_string bad.type) "string"⟩
    ∧ (∀ names : List String, pre = names.map Value.string → names.Nodup →
        (∀ name ∈ names, name ∈ table_keys device_flag_mappings) →
        process_device_entry parent "flags" (Value.array (pre ++ bad :: post)) device error =
          ⟨some false, device,
            mismatched_type_error error
              (element_context (parent ++ "." ++ "flags") pre.length)
              (json_type_to_string bad.type) "string"⟩)
    ∧ (∀ names : List String, pre = names.map Value.string → names.Nodup →
        (∀ name ∈ names, name ∈ table_keys tw_flag_mappings) →
        process_boot_ui_entry parent "flags" (Value.array (pre ++ bad :: post)) device error =
          ⟨some false, device,
            mismatched_type_error error
              (element_context (parent ++ "." ++ "flags") pre.length)
              (json_type_to_string bad.type) "string"⟩) := by
  refine ⟨?_, ?_, ?_, ?_, ?_⟩
  · rw [device_entry_codenames, device_set_string_array_mismatch _ _ _ _ _ _ _ hpre hbad]
  · intro hkey
    simp only [block_devs_keys, List.mem_cons, List.mem_singleton, List.not_mem_nil,
      or_false] at hkey
    rcases hkey with h | h | h | h | h | h | h <;> subst h
    · rw [block_devs_entry_base_dirs, device_set_string_array_mismatch _ _ _ _ _ _ _ hpre hbad]
    · rw [block_devs_entry_system, device_set_string_array_mismatch _ _ _ _ _ _ _ hpre hbad]
    · rw [block_devs_entry_cache, device_set_string_array_mismatch _ _ _ _ _ _ _ hpre hbad]
    · rw [block_devs_entry_data, device_set_string_array_mismatch _ _ _ _ _ _ _ hpre hbad]
    · rw [block_devs_entry_boot, device_set_string_array_mismatch _ _ _ _ _ _ _ hpre hbad]
    · rw [block_devs_entry_recovery, device_set_string_array_mismatch _ _ _ _ _ _ _ hpre hbad]
    · rw [block_devs_entry_extra, device_set_string_array_mismatch _ _ _ _ _ _ _ hpre hbad]
  · rw [boot_ui_entry_graphics_backends,
      device_set_string_array_mismatch _ _ _ _ _ _ _ hpre hbad]
  · intro names hnames hnd hrec
    subst hnames
    rw [device_entry_flags]
    simp [process_device_flags, Value.isArray, Value.type, Value.items,
      flags_loop_mismatch _ device_flag_table_ok names bad post _ error hnd hrec hbad]
  · intro names hnames hnd hrec
    subst hnames
    rw [boot_ui_entry_flags]
    simp [process_boot_ui_flags, Value.isArray, Value.type, Value.items,
      flags_loop_mismatch _ tw_flag_table_ok names bad post _ error hnd hrec hbad]

/-- C9, amended, on `{"codenames": ["a", 7]}` inside a device object: the context is
`.codenames[1]` and the actual type `integer`. -/
theorem array_element_mismatch_witness :
    (∀ x ∈ [Value.string "a"], x.type = ValueType.stringValue)
    ∧ (Value.int 7).type ≠ ValueType.stringValue
    ∧ process_device_entry "" "codenames"
        (Value.array ([Value.string "a"] ++ Value.int 7 :: [])) Device.ctor error0 =
      ⟨some false, Device.ctor,
        mismatched_type_error error0
          (element_context ("" ++ "." ++ "codenames") [Value.string "a"].length)
          (json_type_to_string (Value.int 7).type) "string"⟩
    ∧ element_context ("" ++ "." ++ "codenames") [Value.string "a"].length = ".codenames[1]" :=
  ⟨by decide, by decide,
    (array_element_mismatch "" "system" Device.ctor error0 [Value.string "a"] (Value.int 7) []
      (by decide) (by decide)).1,
    by decide⟩

/-- C10: a root that is not an object makes `device_from_json` fail with
`MISMATCHED_TYPE`, context `.`, expected type `object` and the root's type as actual
type; the device is left as it was. -/
theorem root_not_object (root : Value) (device : Device) (error : JsonError)
    (h : root.type ≠ ValueType.objectValue) :
    device_from_json (ParseResult.ok root) device error =
      ⟨some false, device,
        mismatched_type_error error "." (json_type_to_string root.type) "object"⟩ := by
  simp [device_from_json, process_device, Value.isObject, h, json_error_set_mismatched_type,
    json_type_to_string, mismatched_type_error]

/-- C10 on the array root `["foo", "bar"]` of the test `LoadInvalidType`: the actual
type is `array`. -/
theorem root_not_object_witness :
    (Value.array [Value.string "foo", Value.string "bar"]).type ≠ ValueType.objectValue
    ∧ device_from_json
        (ParseResult.ok (Value.array [Value.string "foo", Value.string "bar"]))
        Device.ctor error0 =
      ⟨some false, Device.ctor, mismatched_type_error error0 "." "array" "object"⟩ :=
  ⟨by decide,
    root_not_object (Value.array [Value.string "foo", Value.string "bar"]) Device.ctor error0
      (by decide)⟩

/-- C7: a string given as `boot_ui.pixel_format` (resp. `boot_ui.force_pixel_format`)
sets the field to the enum value of that name when it is one of the five (resp. two)
names, and otherwise fails with `UNKNOWN_VALUE` at the field's path, the device (and so
the enum field) being left as it was. -/
theorem enum_decoding (parent s : String) (device : Device) (error : JsonError) :
    process_boot_ui_entry parent "pixel_format" (Value.string s) device error =
      (match pixel_format_named s with
       | some value => ⟨some true, device.set_tw_pixel_format value, error⟩
       | none => ⟨some false, device,
           unknown_value_error error (parent ++ "." ++ "pixel_format")⟩)
    ∧ process_boot_ui_entry parent "force_pixel_format" (Value.string s) device error =
      (match force_pixel_format_named s with
       | some value => ⟨some true, device.set_tw_force_pixel_format value, error⟩
       | none => ⟨some false, device,
           unknown_value_error error (parent ++ "." ++ "force_pixel_format")⟩)
    ∧ device_from_json
        (ParseResult.ok (Value.object
          [("boot_ui", Value.object [("pixel_format", Value.string s)])])) device error =
      (match pixel_format_named s with
       | some value => ⟨some true, device.set_tw_pixel_format value, error⟩
       | none => ⟨some false, device, unknown_value_error error ".boot_ui.pixel_format"⟩)
    ∧ device_from_json
        (ParseResult.ok (Value.object
          [("boot_ui", Value.object [("force_pixel_format", Value.string s)])]))
        device error =
      (match force_pixel_format_named s with
       | some value => ⟨some true, device.set_tw_force_pixel_format value, error⟩
       | none => ⟨some false, device,
           unknown_value_error error ".boot_ui.force_pixel_format"⟩) := by
  have h1 : ∀ context : String,
      process_boot_ui_pixel_format device (Value.string s) (context ++ "." ++ "pixel_format")
          error =
        (match pixel_format_named s with
         | some value => ⟨some true, device.set_tw_pixel_format value, error⟩
         | none => ⟨some false, device,
             unknown_value_error error (context ++ "." ++ "pixel_format")⟩) := by
    intro context
    simp only [process_boot_ui_pixel_format, Value.isString, Value.type, Value.asString,
      tw_pxfmt_scan_eq, unknown_value_sub]
    cases pixel_format_named s <;> simp
  have h2 : ∀ context : String,
      process_boot_ui_force_pixel_format device (Value.string s)
          (context ++ "." ++ "force_pixel_format") error =
        (match force_pixel_format_named s with
         | some value => ⟨some true, device.set_tw_force_pixel_format value, error⟩
         | none => ⟨some false, device,
             unknown_value_error error (context ++ "." ++ "force_pixel_format")⟩) := by
    intro context
    simp only [process_boot_ui_force_pixel_format, Value.isString, Value.type,
      Value.asString, tw_force_pxfmt_scan_eq, unknown_value_sub]
    cases force_pixel_format_named s <;> simp
  refine ⟨?_, ?_, ?_, ?_⟩
  · rw [boot_ui_entry_pixel_format, h1]
  · rw [boot_ui_entry_force_pixel_format, h2]
  · have h3 := h1 ("" ++ "." ++ "boot_ui")
    simp only [device_from_json, process_device, process_boot_ui, Value.isObject, Value.type,
      Value.members, key_loop, device_entry_boot_ui, boot_ui_entry_pixel_format, h3]
    cases pixel_format_named s <;> simp [key_loop]
  · have h3 := h2 ("" ++ "." ++ "boot_ui")
    simp only [device_from_json, process_device, process_boot_ui, Value.isObject, Value.type,
      Value.members, key_loop, device_entry_boot_ui, boot_ui_entry_force_pixel_format, h3]
    cases force_pixel_format_named s <;> simp [key_loop]

/-- C8: a recognized key whose value has another JSON type than the schema expects
makes decoding fail with `MISMATCHED_TYPE`, the dotted path of the value as context,
the name of the value's type as actual type and the name of the schema type as expected
type; the device is left as it was. Stated for one member of an object at any context,
and for that member alone in a device given to `device_from_json`. -/
theorem type_mismatch (parent key : String) (expected : ValueType) (val : Value)
    (device : Device) (error : JsonError) (h : val.type ≠ expected) :
    ((key, expected) ∈ device_schema →
      process_device_entry parent key val device error =
          ⟨some false, device, mismatched_type_error error (parent ++ "." ++ key)
            (json_type_to_string val.type) (json_type_to_string expected)⟩
        ∧ device_from_json (ParseResult.ok (Value.object [(key, val)])) device error =
          ⟨some false, device, mismatched_type_error error ("" ++ "." ++ key)
            (json_type_to_string val.type) (json_type_to_string expected)⟩)
    ∧ ((key, expected) ∈ block_devs_schema →
      process_block_devs_entry parent key val device error =
          ⟨some false, device, mismatched_type_error error (parent ++ "." ++ key)
            (json_type_to_string val.type) (json_type_to_string expected)⟩
        ∧ device_from_json
            (ParseResult.ok (Value.object [("block_devs", Value.object [(key, val)])]))
            device error =
          ⟨some false, device, mismatched_type_error error (".block_devs" ++ "." ++ key)
            (json_type_to_string val.type) (json_type_to_string expected)⟩)
    ∧ ((key, expected) ∈ boot_ui_schema →
      process_boot_ui_entry parent key val device error =
          ⟨some false, device, mismatched_type_error error (parent ++ "." ++ key)
            (json_type_to_string val.type) (json_type_to_string expected)⟩
        ∧ device_from_json
            (ParseResult.ok (Value.object [("boot_ui", Value.object [(key, val)])]))
            device error =
          ⟨some false, device, mismatched_type_error error (".boot_ui" ++ "." ++ key)
            (json_type_to_string val.type) (json_type_to_string expected)⟩) := by
  have hb : "" ++ "." ++ "block_devs" = ".block_devs" := by decide
  have hu : "" ++ "." ++ "boot_ui" = ".boot_ui" := by decide
  refine ⟨?_, ?_, ?_⟩
  · intro hkey
    refine ⟨device_entry_mismatch parent key expected val device error hkey h, ?_⟩
    simp [device_from_json, process_device, Value.isObject, Value.type, Value.members,
      key_loop, device_entry_mismatch "" key expected val device error hkey h]
  · intro hkey
    refine ⟨block_devs_entry_mismatch parent key expected val device error hkey h, ?_⟩
    simp only [device_from_json, process_device, Value.isObject, Value.type, Value.members,
      key_loop, device_entry_block_devs, process_block_devs, hb,
      block_devs_entry_mismatch ".block_devs" key expected val device error hkey h]
    simp
  · intro hkey
    refine ⟨boot_ui_entry_mismatch parent key expected val device error hkey h, ?_⟩
    simp only [device_from_json, process_device, Value.isObject, Value.type, Value.members,
      key_loop, device_entry_boot_ui, process_boot_ui, hu,
      boot_ui_entry_mismatch ".boot_ui" key expected val device error hkey h]
    simp

/-- C8 on the input `{"boot_ui": "FOO_BAR"}` of the test `LoadInvalidType`: context
`.boot_ui`, actual type `string`, expected type `object`. -/
theorem type_mismatch_witness :
    (Value.string "FOO_BAR").type ≠ ValueType.objectValue
    ∧ ("boot_ui", ValueType.objectValue) ∈ device_schema
    ∧ device_from_json
        (ParseResult.ok (Value.object [("boot_ui", Value.string "FOO_BAR")]))
        Device.ctor error0 =
      ⟨some false, Device.ctor,
        mismatched_type_error error0 ("" ++ "." ++ "boot_ui")
          (json_type_to_string (Value.string "FOO_BAR").type)
          (json_type_to_string ValueType.objectValue)⟩
    ∧ mismatched_type_error error0 ("" ++ "." ++ "boot_ui")
          (json_type_to_string (Value.string "FOO_BAR").type)
          (json_type_to_string ValueType.objectValue) =
        mismatched_type_error error0 ".boot_ui" "string" "object" :=
  ⟨by decide, by decide,
    ((type_mismatch "" "boot_ui" ValueType.objectValue (Value.string "FOO_BAR") Device.ctor
      error0 (by decide)).1 (by decide)).2,
    by decide⟩

theorem reports_unknown_key_of_unknown (parent key : String) (device : Device)
    (error : JsonError) :
    ReportsUnknownKey
      ⟨some false, device, unknown_key_error error (parent ++ "." ++ key)⟩ parent key :=
  ⟨rfl, rfl, rfl⟩

/-- C5: a member of an object being decoded is reported as an unknown key (false is
returned, the error type is `UNKNOWN_KEY`, the context is the parent's context followed
by `.` and the key) if and only if its key is not one of the recognized keys of that
level; and in an object whose earlier members are decoded successfully, such a member
makes the decoding of the object return false with that error. -/
theorem closed_schema (parent key : String) (val : Value) (device : Device)
    (error : JsonError) :
    (ReportsUnknownKey (process_device_entry parent key val device error) parent key
        ↔ key ∉ device_keys)
    ∧ (ReportsUnknownKey (process_block_devs_entry parent key val device error) parent key
        ↔ key ∉ block_devs_keys)
    ∧ (ReportsUnknownKey (process_boot_ui_entry parent key val device error) parent key
        ↔ key ∉ boot_ui_keys)
    ∧ (key ∉ device_keys → ∀ pre post : List (String × Value),
        (key_loop (process_device_entry parent) pre (some true) device error).ret = some true →
        process_device device (Value.object (pre ++ (key, val) :: post)) parent error =
          ⟨some false,
            (key_loop (process_device_entry parent) pre (some true) device error).device,
            unknown_key_error
              (key_loop (process_device_entry parent) pre (some true) device error).error
              (parent ++ "." ++ key)⟩)
    ∧ (key ∉ block_devs_keys → ∀ pre post : List (String × Value),
        (key_loop (process_block_devs_entry parent) pre (some true) device error).ret =
          some true →
        process_block_devs device (Value.object (pre ++ (key, val) :: post)) parent error =
          ⟨some false,
            (key_loop (process_block_devs_entry parent) pre (some true) device error).device,
            unknown_key_error
              (key_loop (process_block_devs_entry parent) pre (some true) device error).error
              (parent ++ "." ++ key)⟩)
    ∧ (key ∉ boot_ui_keys → ∀ pre post : List (String × Value),
        (key_loop (process_boot_ui_entry parent) pre (some true) device error).ret =
          some true →
        process_boot_ui device (Value.object (pre ++ (key, val) :: post)) parent error =
          ⟨some false,
            (key_loop (process_boot_ui_entry parent) pre (some true) device error).device,
            unknown_key_error
              (key_loop (process_boot_ui_entry parent) pre (some true) device error).error
              (parent ++ "." ++ key)⟩) := by
  refine ⟨?_, ?_, ?_, ?_, ?_, ?_⟩
  · constructor
    · intro hr hkey
      exact device_entry_known parent key val device error hkey hr
    · intro hkey
      rw [device_entry_unknown _ _ _ _ _ hkey]
      exact reports_unknown_key_of_unknown _ _ _ _
  · constructor
    · intro hr hkey
      have hne : (process_block_devs_entry parent key val device error).ret ≠ some true := by
        rw [hr.1]; simp
      exact block_devs_entry_known parent key val device error hkey hne hr.2.1
    · intro hkey
      rw [block_devs_entry_unknown _ _ _ _ _ hkey]
      exact reports_unknown_key_of_unknown _ _ _ _
  · constructor
    · intro hr hkey
      have hne : (process_boot_ui_entry parent key val device error).ret ≠ some true := by
        rw [hr.1]; simp
      exact boot_ui_entry_known parent key val device error hkey hne hr.2.1
    · intro hkey
      rw [boot_ui_entry_unknown _ _ _ _ _ hkey]
      exact reports_unknown_key_of_unknown _ _ _ _
  · intro hkey pre post hpre
    rw [process_device_object _ (Value.object (pre ++ (key, val) :: post)) _ _ rfl]
    simp only [Value.members]
    rw [key_loop_append _ _ _ _ _ _ _ hpre, key_loop_cons_stop, device_entry_unknown _ _ _ _ _ hkey]
    rw [device_entry_unknown _ _ _ _ _ hkey]
    simp
  · intro hkey pre post hpre
    rw [process_block_devs_object _ (Value.object (pre ++ (key, val) :: post)) _ _ rfl]
    simp only [Value.members]
    rw [key_loop_append _ _ _ _ _ _ _ hpre, key_loop_cons_stop,
      block_devs_entry_unknown _ _ _ _ _ hkey]
    rw [block_devs_entry_unknown _ _ _ _ _ hkey]
    simp
  · intro hkey pre post hpre
    rw [process_boot_ui_object _ (Value.object (pre ++ (key, val) :: post)) _ _ rfl]
    simp only [Value.members]
    rw [key_loop_append _ _ _ _ _ _ _ hpre, key_loop_cons_stop,
      boot_ui_entry_unknown _ _ _ _ _ hkey]
    rw [boot_ui_entry_unknown _ _ _ _ _ hkey]
    simp

/-- C5 on the input `{"foo": "bar"}` of the test `LoadInvalidKey`: `UNKNOWN_KEY` at
`.foo`. -/
theorem closed_schema_witness :
    "foo" ∉ device_keys
    ∧ device_from_json
        (ParseResult.ok (Value.object ([] ++ ("foo", Value.string "bar") :: [])))
        Device.ctor error0 =
      ⟨some false, Device.ctor, unknown_key_error error0 ("" ++ "." ++ "foo")⟩
    ∧ "" ++ "." ++ "foo" = ".foo" :=
  ⟨by decide,
    (closed_schema "" "foo" (Value.string "bar") Device.ctor error0).2.2.2.1 (by decide) [] []
      rfl,
    by decide⟩

/-! ## Paths and contexts -/

theorem render_path_cons_ne_empty (context : String) (s : Segment) (rest : List Segment) :
    context ++ render_path (s :: rest) ≠ "" := by
  intro h
  have h2 := congrArg String.length h
  have h1 : ".".length = 1 := rfl
  have h3 : "[".length = 1 := rfl
  cases s <;> simp [render_path, Segment.render, String.length_append] at h2 <;> omega

theorem context_at_nil (context : String) :
    context_at context [] = if context = "" then "." else context := by
  simp [context_at, render_path]

theorem context_at_cons (context : String) (s : Segment) (rest : List Segment) :
    context_at context (s :: rest) = context ++ render_path (s :: rest) := by
  simp [context_at, render_path_cons_ne_empty]

theorem context_at_key (context key : String) (path : List Segment) :
    context_at (context ++ "." ++ key) path = context_at context (Segment.key key :: path) := by
  rw [context_at_cons]
  have h : context ++ "." ++ key ++ render_path path ≠ "" := by
    intro h
    have h2 := congrArg String.length h
    have h1 : ".".length = 1 := rfl
    simp [String.length_append] at h2
    omega
  have h2 : context ++ ("." ++ (key ++ render_path path)) ≠ "" := by
    simpa [String.append_assoc] using h
  simp [context_at, h2, render_path, Segment.render, String.append_assoc]

theorem context_at_key_nil (context key : String) :
    context_at context [Segment.key key] = context ++ "." ++ key := by
  simp [context_at_cons, render_path, Segment.render, String.append_assoc]

theorem context_at_index_nil (context : String) (index : Nat) :
    context_at context [Segment.index index] = context ++ "[" ++ toString index ++ "]" := by
  simp [context_at_cons, render_path, Segment.render, String.append_assoc]

theorem context_at_empty (path : List Segment) :
    context_at "" path = if path = [] then "." else render_path path := by
  cases path with
  | nil => simp [context_at, render_path]
  | cons s rest => simp [context_at_cons]

theorem has_path_key (k : String) (rest : List Segment) (node val : Value)
    (hm : (k, val) ∈ node.members) (h : has_path rest val = true) :
    has_path (Segment.key k :: rest) node = true := by
  simp only [has_path, List.any_eq_true]
  exact ⟨(k, val), hm, by simp [h]⟩

theorem has_path_index (i : Nat) (rest : List Segment) (node x : Value)
    (hx : node.items[i]? = some x) (h : has_path rest x = true) :
    has_path (Segment.index i :: rest) node = true := by
  simp [has_path, hx, h]

/-! ## Error records as updates of the context -/

theorem mismatched_type_context (error : JsonError) (context : String)
    (actual expected : ValueType) :
    json_error_set_mismatched_type error context actual expected
      = { json_error_set_mismatched_type error "" actual expected with
          context := context_at context [] } := by
  simp [json_error_set_mismatched_type, context_at_nil]

theorem unknown_key_context (error : JsonError) (context : String) :
    json_error_set_unknown_key error context
      = { json_error_set_unknown_key error "" with context := context_at context [] } := by
  simp [json_error_set_unknown_key, context_at_nil]

theorem unknown_value_context (error : JsonError) (context : String) :
    json_error_set_unknown_value error context
      = { json_error_set_unknown_value error "" with context := context_at context [] } := by
  simp [json_error_set_unknown_value, context_at_nil]

/-! ## Uniformity of the decoder in the context and the error record -/

theorem uniform_ok (Q : List Segment → Prop) (f : Device → String → JsonError → Outcome)
    (t : Device → Device) (h : ∀ dev ctx e, f dev ctx e = ⟨some true, t dev, e⟩) :
    Uniform Q f :=
  ⟨some true, t, [], id, by simp, by intro dev ctx e; simp [h]⟩

theorem uniform_fail (Q : List Segment → Prop) (f : Device → String → JsonError → Outcome)
    (t : Device → Device) (path : List Segment) (upd : JsonError → JsonError) (hQ : Q path)
    (h : ∀ dev ctx e, f dev ctx e
      = ⟨some false, t dev, { upd e with context := context_at ctx path }⟩) :
    Uniform Q f :=
  ⟨some false, t, path, upd, fun _ => hQ, by intro dev ctx e; simp [h]⟩

theorem uniform_mono (Q Q2 : List Segment → Prop)
    (f : Device → String → JsonError → Outcome) (hQ : ∀ p, Q p → Q2 p) (h : Uniform Q f) :
    Uniform Q2 f := by
  obtain ⟨ret, t, path, upd, h1, h2⟩ := h
  exact ⟨ret, t, path, upd, fun hr => hQ _ (h1 hr), h2⟩

/-- A handler called with the context extended by a key is uniform in the parent's
context, with a path that starts at that key. -/
theorem uniform_sub (node val : Value) (k : String)
    (F : Device → String → JsonError → Outcome) (hm : (k, val) ∈ node.members)
    (h : Uniform (fun p => has_path p val = true) F) :
    Uniform (fun p => p ≠ [] ∧ has_path p node = true)
      (fun dev ctx e => F dev (ctx ++ "." ++ k) e) := by
  obtain ⟨ret, t, path, upd, h1, h2⟩ := h
  refine ⟨ret, t, Segment.key k :: path, upd, ?_, ?_⟩
  · intro hr
    exact ⟨by simp, has_path_key k path node val hm (h1 hr)⟩
  · intro dev ctx e
    show F dev (ctx ++ "." ++ k) e = _
    rw [h2, context_at_key]

theorem device_set_boolean_uniform (setter : Device → Bool → Device) (node : Value) :
    Uniform (fun p => has_path p node = true)
      (fun dev ctx e => device_set_boolean setter dev node ctx e) := by
  by_cases h : node.isBool = true
  · exact uniform_ok _ _ (fun dev => setter dev node.asBool)
      (by intro dev ctx e; simp [device_set_boolean, h])
  · refine uniform_fail _ _ id []
      (fun e => json_error_set_mismatched_type e "" node.type ValueType.booleanValue) rfl ?_
    intro dev ctx e
    simp only [device_set_boolean, h]
    rw [mismatched_type_context]
    rfl

theorem device_set_int_uniform (setter : Device → Int → Device) (node : Value) :
    Uniform (fun p => has_path p node = true)
      (fun dev ctx e => device_set_int setter dev node ctx e) := by
  by_cases h : node.isInt = true
  · exact uniform_ok _ _ (fun dev => setter dev node.asInt)
      (by intro dev ctx e; simp [device_set_int, h])
  · refine uniform_fail _ _ id []
      (fun e => json_error_set_mismatched_type e "" node.type ValueType.intValue) rfl ?_
    intro dev ctx e
    simp only [device_set_int, h]
    rw [mismatched_type_context]
    rfl

theorem device_set_string_uniform (setter : Device → String → Device) (node : Value) :
    Uniform (fun p => has_path p node = true)
      (fun dev ctx e => device_set_string setter dev node ctx e) := by
  by_cases h : node.isString = true
  · exact uniform_ok _ _ (fun dev => setter dev node.asString)
      (by intro dev ctx e; simp [device_set_string, h])
  · refine uniform_fail _ _ id []
      (fun e => json_error_set_mismatched_type e "" node.type ValueType.stringValue) rfl ?_
    intro dev ctx e
    simp only [device_set_string, h]
    rw [mismatched_type_context]
    rfl

theorem mismatched_type_index (error : JsonError) (context : String) (index : Nat)
    (actual expected : ValueType) :
    json_error_set_mismatched_type error (context ++ "[" ++ toString index ++ "]")
        actual expected
      = { json_error_set_mismatched_type error "" actual expected with
          context := context_at context [Segment.index index] } := by
  rw [context_at_index_nil]
  simp [json_error_set_mismatched_type, index_context_ne_empty]

theorem unknown_value_index (error : JsonError) (context : String) (index : Nat) :
    json_error_set_unknown_value error (context ++ "[" ++ toString index ++ "]")
      = { json_error_set_unknown_value error "" with
          context := context_at context [Segment.index index] } := by
  rw [context_at_index_nil]
  simp [json_error_set_unknown_value, index_context_ne_empty]

/-- The element loop of `device_set_string_array` either collects the same strings under
every context, or stops at the same element under every context. -/
theorem string_array_loop_cases (items : List Value) :
    ∀ (index : Nat) (array : List String),
      (∃ out, ∀ ctx e, string_array_loop ctx e items index array = Except.ok out)
      ∨ ∃ (j : Nat) (item : Value) (upd : JsonError → JsonError),
          items[j]? = some item ∧ ∀ ctx e,
            string_array_loop ctx e items index array
              = Except.error { upd e with
                  context := context_at ctx [Segment.index (index + j)] } := by
  induction items with
  | nil => intro index array; left; exact ⟨array, fun _ _ => rfl⟩
  | cons item rest ih =>
    intro index array
    by_cases h : item.isString = true
    · rcases ih (index + 1) (array ++ [item.asString]) with ⟨out, h1⟩ | ⟨j, x, upd, hx, h1⟩
      · left
        exact ⟨out, fun ctx e => by simp only [string_array_loop, h]; exact h1 ctx e⟩
      · right
        refine ⟨j + 1, x, upd, by simpa using hx, fun ctx e => ?_⟩
        simp only [string_array_loop, h]
        rw [show index + (j + 1) = index + 1 + j by omega]
        exact h1 ctx e
    · right
      refine ⟨0, item,
        fun e => json_error_set_mismatched_type e "" item.type ValueType.stringValue,
        by simp, fun ctx e => ?_⟩
      simp only [string_array_loop, h]
      rw [mismatched_type_index]
      rfl

/-- The element loop of the flag decoders either yields the same mask under every
context, or stops at the same element under every context. -/
theorem flags_loop_cases (table : List FlagMapping) (items : List Value) :
    ∀ (index flags : Nat),
      (∃ out, ∀ ctx e, flags_loop table ctx e items index flags = Except.ok out)
      ∨ ∃ (j : Nat) (item : Value) (upd : JsonError → JsonError),
          items[j]? = some item ∧ ∀ ctx e,
            flags_loop table ctx e items index flags
              = Except.error { upd e with
                  context := context_at ctx [Segment.index (index + j)] } := by
  induction items with
  | nil => intro index flags; left; exact ⟨flags, fun _ _ => rfl⟩
  | cons item rest ih =>
    intro index flags
    by_cases h : item.isString = true
    · by_cases hf : flag_table_scan table item.asString flags = flags
      · right
        refine ⟨0, item, fun e => json_error_set_unknown_value e "", by simp, fun ctx e => ?_⟩
        simp only [flags_loop, h, hf]
        rw [unknown_value_index]
        rfl
      · rcases ih (index + 1) (flag_table_scan table item.asString flags)
          with ⟨out, h1⟩ | ⟨j, x, upd, hx, h1⟩
        · left
          exact ⟨out, fun ctx e => by simp only [flags_loop, h, hf]; exact h1 ctx e⟩
        · right
          refine ⟨j + 1, x, upd, by simpa using hx, fun ctx e => ?_⟩
          simp only [flags_loop, h, hf]
          rw [show index + (j + 1) = index + 1 + j by omega]
          exact h1 ctx e
    · right
      refine ⟨0, item,
        fun e => json_error_set_mismatched_type e "" item.type ValueType.stringValue,
        by simp, fun ctx e => ?_⟩
      simp only [flags_loop, h]
      rw [mismatched_type_index]
      rfl

theorem device_set_string_array_uniform (setter : Device → List String → Device)
    (node : Value) :
    Uniform (fun p => has_path p node = true)
      (fun dev ctx e => device_set_string_array setter dev node ctx e) := by
  by_cases h : node.isArray = true
  · rcases string_array_loop_cases node.items 0 [] with ⟨out, h1⟩ | ⟨j, x, upd, hx, h1⟩
    · exact uniform_ok _ _ (fun dev => setter dev out)
        (by intro dev ctx e; simp [device_set_string_array, h, h1])
    · refine uniform_fail _ _ id [Segment.index j] upd
        (has_path_index j [] node x hx rfl) ?_
      intro dev ctx e
      simp only [device_set_string_array, h, h1, Nat.zero_add]
      rfl
  · refine uniform_fail _ _ id []
      (fun e => json_error_set_mismatched_type e "" node.type ValueType.arrayValue) rfl ?_
    intro dev ctx e
    simp only [device_set_string_array, h]
    rw [mismatched_type_context]
    rfl

theorem process_device_flags_uniform (node : Value) :
    Uniform (fun p => has_path p node = true)
      (fun dev ctx e => process_device_flags dev node ctx e) := by
  by_cases h : node.isArray = true
  · rcases flags_loop_cases device_flag_mappings node.items 0 0
      with ⟨out, h1⟩ | ⟨j, x, upd, hx, h1⟩
    · exact uniform_ok _ _ (fun dev => dev.set_flags out)
        (by intro dev ctx e; simp [process_device_flags, h, h1])
    · refine uniform_fail _ _ id [Segment.index j] upd
        (has_path_index j [] node x hx rfl) ?_
      intro dev ctx e
      simp only [process_device_flags, h, h1, Nat.zero_add]
      rfl
  · refine uniform_fail _ _ id []
      (fun e => json_error_set_mismatched_type e "" node.type ValueType.arrayValue) rfl ?_
    intro dev ctx e
    simp only [process_device_flags, h]
    rw [mismatched_type_context]
    rfl

theorem process_boot_ui_flags_uniform (node : Value) :
    Uniform (fun p => has_path p node = true)
      (fun dev ctx e => process_boot_ui_flags dev node ctx e) := by
  by_cases h : node.isArray = true
  · rcases flags_loop_cases tw_flag_mappings node.items 0 0
      with ⟨out, h1⟩ | ⟨j, x, upd, hx, h1⟩
    · exact uniform_ok _ _ (fun dev => dev.set_tw_flags out)
        (by intro dev ctx e; simp [process_boot_ui_flags, h, h1])
    · refine uniform_fail _ _ id [Segment.index j] upd
        (has_path_index j [] node x hx rfl) ?_
      intro dev ctx e
      simp only [process_boot_ui_flags, h, h1, Nat.zero_add]
      rfl
  · refine uniform_fail _ _ id []
      (fun e => json_error_set_mismatched_type e "" node.type ValueType.arrayValue) rfl ?_
    intro dev ctx e
    simp only [process_boot_ui_flags, h]
    rw [mismatched_type_context]
    rfl

theorem process_boot_ui_pixel_format_uniform (node : Value) :
    Uniform (fun p => has_path p node = true)
      (fun dev ctx e => process_boot_ui_pixel_format dev node ctx e) := by
  by_cases h : node.isString = true
  · cases hs : tw_pxfmt_scan tw_pxfmt_mappings node.asString with
    | some value =>
      exact uniform_ok _ _ (fun dev => dev.set_tw_pixel_format value)
        (by intro dev ctx e; simp [process_boot_ui_pixel_format, h, hs])
    | none =>
      refine uniform_fail _ _ id [] (fun e => json_error_set_unknown_value e "") rfl ?_
      intro dev ctx e
      simp only [process_boot_ui_pixel_format, h, hs]
      rw [unknown_value_context]
      rfl
  · refine uniform_fail _ _ id []
      (fun e => json_error_set_mismatched_type e "" node.type ValueType.stringValue) rfl ?_
    intro dev ctx e
    simp only [process_boot_ui_pixel_format, h]
    rw [mismatched_type_context]
    rfl

theorem process_boot_ui_force_pixel_format_uniform (node : Value) :
    Uniform (fun p => has_path p node = true)
      (fun dev ctx e => process_boot_ui_force_pixel_format dev node ctx e) := by
  by_cases h : node.isString = true
  · cases hs : tw_force_pxfmt_scan tw_force_pxfmt_mappings node.asString with
    | some value =>
      exact uniform_ok _ _ (fun dev => dev.set_tw_force_pixel_format value)
        (by intro dev ctx e; simp [process_boot_ui_force_pixel_format, h, hs])
    | none =>
      refine uniform_fail _ _ id [] (fun e => json_error_set_unknown_value e "") rfl ?_
      intro dev ctx e
      simp only [process_boot_ui_force_pixel_format, h, hs]
      rw [unknown_value_context]
      rfl
  · refine uniform_fail _ _ id []
      (fun e => json_error_set_mismatched_type e "" node.type ValueType.stringValue) rfl ?_
    intro dev ctx e
    simp only [process_boot_ui_force_pixel_format, h]
    rw [mismatched_type_context]
    rfl

theorem unknown_key_uniform (node val : Value) (k : String) (hm : (k, val) ∈ node.members) :
    Uniform (fun p => p ≠ [] ∧ has_path p node = true)
      (fun dev ctx e => (⟨some false, dev, unknown_key_error e (ctx ++ "." ++ k)⟩ : Outcome)) := by
  refine uniform_fail _ _ id [Segment.key k]
    (fun e => { e with type := JsonErrorType.UNKNOWN_KEY })
    ⟨by simp, has_path_key k [] node val hm rfl⟩ ?_
  intro dev ctx e
  rw [context_at_key_nil]
  rfl

/-- The key loop is uniform when the loop body is uniform on each of its members. -/
theorem key_loop_uniform (Q : List Segment → Prop)
    (entry : String → String → Value → Device → JsonError → Outcome)
    (ms : List (String × Value)) :
    (∀ m ∈ ms, Uniform Q (fun dev ctx e => entry ctx m.1 m.2 dev e)) →
    ∀ ret0 : Option Bool, ret0 ≠ some false →
      Uniform Q (fun dev ctx e => key_loop (entry ctx) ms ret0 dev e) := by
  induction ms with
  | nil =>
    intro _ ret0 h0
    exact ⟨ret0, id, [], id, fun h => absurd h h0, by intro dev ctx e; simp [key_loop, h0]⟩
  | cons m ms ih =>
    intro h ret0 _
    obtain ⟨k, v⟩ := m
    obtain ⟨ret, t, path, upd, h1, h2⟩ := h (k, v) (List.mem_cons_self _ _)
    by_cases hret : ret = some true
    · subst hret
      obtain ⟨ret2, t2, path2, upd2, h3, h4⟩ :=
        ih (fun m hm => h m (List.mem_cons_of_mem _ hm)) (some true) (by simp)
      refine ⟨ret2, fun dev => t2 (t dev), path2, upd2, h3, ?_⟩
      intro dev ctx e
      have h5 : entry ctx k v dev e = ⟨some true, t dev, e⟩ := by simpa using h2 dev ctx e
      have hr : (entry ctx k v dev e).ret = some true := by rw [h5]
      show key_loop (entry ctx) ((k, v) :: ms) ret0 dev e = _
      rw [key_loop_cons_ok _ _ _ _ _ _ _ hr, h5]
      exact h4 (t dev) ctx e
    · refine ⟨ret, t, path, upd, h1, ?_⟩
      intro dev ctx e
      have h5 : entry ctx k v dev e = _ := h2 dev ctx e
      have hr : (entry ctx k v dev e).ret ≠ some true := by rw [h5]; exact hret
      show key_loop (entry ctx) ((k, v) :: ms) ret0 dev e = _
      rw [key_loop_cons_stop _ _ _ _ _ _ _ hr]
      exact h5

/-- The body of the key loop of `process_block_devs` is uniform on a member of the node. -/
theorem process_block_devs_entry_uniform (node val : Value) (k : String)
    (hm : (k, val) ∈ node.members) :
    Uniform (fun p => p ≠ [] ∧ has_path p node = true)
      (fun dev ctx e => process_block_devs_entry ctx k val dev e) := by
  by_cases hk : k ∈ block_devs_keys
  · simp only [block_devs_keys, List.mem_cons, List.mem_singleton, List.not_mem_nil, or_false] at hk
    rcases hk with rfl | rfl | rfl | rfl | rfl | rfl | rfl
    · simp only [block_devs_entry_base_dirs]
      exact uniform_sub node val _ (fun dev ctx e => device_set_string_array Device.set_block_dev_base_dirs dev val ctx e) hm
        (device_set_string_array_uniform _ _)
    · simp only [block_devs_entry_system]
      exact uniform_sub node val _ (fun dev ctx e => device_set_string_array Device.set_system_block_devs dev val ctx e) hm
        (device_set_string_array_uniform _ _)
    · simp only [block_devs_entry_cache]
      exact uniform_sub node val _ (fun dev ctx e => device_set_string_array Device.set_cache_block_devs dev val ctx e) hm
        (device_set_string_array_uniform _ _)
    · simp only [block_devs_entry_data]
      exact uniform_sub node val _ (fun dev ctx e => device_set_string_array Device.set_data_block_devs dev val ctx e) hm
        (device_set_string_array_uniform _ _)
    · simp only [block_devs_entry_boot]
      exact uniform_sub node val _ (fun dev ctx e => device_set_string_array Device.set_boot_block_devs dev val ctx e) hm
        (device_set_string_array_uniform _ _)
    · simp only [block_devs_entry_recovery]
      exact uniform_sub node val _ (fun dev ctx e => device_set_string_array Device.set_recovery_block_devs dev val ctx e) hm
        (device_set_string_array_uniform _ _)
    · simp only [block_devs_entry_extra]
      exact uniform_sub node val _ (fun dev ctx e => device_set_string_array Device.set_extra_block_devs dev val ctx e) hm
        (device_set_string_array_uniform _ _)
  · simp only [block_devs_entry_unknown _ _ _ _ _ hk]
    exact unknown_key_uniform node val k hm

theorem process_block_devs_uniform (node : Value) :
    Uniform (fun p => has_path p node = true)
      (fun dev ctx e => process_block_devs dev node ctx e) := by
  by_cases h : node.isObject = true
  · simp only [process_block_devs, h, Bool.not_true, Bool.false_eq_true, if_false]
    exact uniform_mono _ _ _ (fun p hp => hp.2)
      (key_loop_uniform _ process_block_devs_entry node.members
        (fun m hm => process_block_devs_entry_uniform node m.2 m.1 hm) none (by simp))
  · refine uniform_fail _ _ id []
      (fun e => json_error_set_mismatched_type e "" node.type ValueType.objectValue) rfl ?_
    intro dev ctx e
    simp only [process_block_devs, h]
    rw [mismatched_type_context]
    rfl

/-- The body of the key loop of `process_boot_ui` is uniform on a member of the node. -/
theorem process_boot_ui_entry_uniform (node val : Value) (k : String)
    (hm : (k, val) ∈ node.members) :
    Uniform (fun p => p ≠ [] ∧ has_path p node = true)
      (fun dev ctx e => process_boot_ui_entry ctx k val dev e) := by
  by_cases hk : k ∈ boot_ui_keys
  · simp only [boot_ui_keys, List.mem_cons, List.mem_singleton, List.not_mem_nil, or_false] at hk
    rcases hk with rfl | rfl | rfl | rfl | rfl | rfl | rfl | rfl | rfl | rfl | rfl | rfl | rfl | rfl | rfl | rfl | rfl
    · simp only [boot_ui_entry_supported]
      exact uniform_sub node val _ (fun dev ctx e => device_set_boolean Device.set_tw_supported dev val ctx e) hm
        (device_set_boolean_uniform _ _)
    · simp only [boot_ui_entry_flags]
      exact uniform_sub node val _ (fun dev ctx e => process_boot_ui_flags dev val ctx e) hm
        (process_boot_ui_flags_uniform _)
    · simp only [boot_ui_entry_pixel_format]
      exact uniform_sub node val _ (fun dev ctx e => process_boot_ui_pixel_format dev val ctx e) hm
        (process_boot_ui_pixel_format_uniform _)
    · simp only [boot_ui_entry_force_pixel_format]
      exact uniform_sub node val _ (fun dev ctx e => process_boot_ui_force_pixel_format dev val ctx e) hm
        (process_boot_ui_force_pixel_format_uniform _)
    · simp only [boot_ui_entry_overscan_percent]
      exact uniform_sub node val _ (fun dev ctx e => device_set_int Device.set_tw_overscan_percent dev val ctx e) hm
        (device_set_int_uniform _ _)
    · simp only [boot_ui_entry_default_x_offset]
      exact uniform_sub node val _ (fun dev ctx e => device_set_int Device.set_tw_default_x_offset dev val ctx e) hm
        (device_set_int_uniform _ _)
    · simp only [boot_ui_entry_default_y_offset]
      exact uniform_sub node val _ (fun dev ctx e => device_set_int Device.set_tw_default_y_offset dev val ctx e) hm
        (device_set_int_uniform _ _)
    · simp only [boot_ui_entry_brightness_path]
      exact uniform_sub node val _ (fun dev ctx e => device_set_string Device.set_tw_brightness_path dev val ctx e) hm
        (device_set_string_uniform _ _)
    · simp only [boot_ui_entry_secondary_brightness_path]
      exact uniform_sub node val _ (fun dev ctx e => device_set_string Device.set_tw_secondary_brightness_path dev val ctx e) hm
        (device_set_string_uniform _ _)
    · simp only [boot_ui_entry_max_brightness]
      exact uniform_sub node val _ (fun dev ctx e => device_set_int Device.set_tw_max_brightness dev val ctx e) hm
        (device_set_int_uniform _ _)
    · simp only [boot_ui_entry_default_brightness]
      exact uniform_sub node val _ (fun dev ctx e => device_set_int Device.set_tw_default_brightness dev val ctx e) hm
        (device_set_int_uniform _ _)
    · simp only [boot_ui_entry_battery_path]
      exact uniform_sub node val _ (fun dev ctx e => device_set_string Device.set_tw_battery_path dev val ctx e) hm
        (device_set_string_uniform _ _)
    · simp only [boot_ui_entry_cpu_temp_path]
      exact uniform_sub node val _ (fun dev ctx e => device_set_string Device.set_tw_cpu_temp_path dev val ctx e) hm
        (device_set_string_uniform _ _)
    · simp only [boot_ui_entry_input_blacklist]
      exact uniform_sub node val _ (fun dev ctx e => device_set_string Device.set_tw_input_blacklist dev val ctx e) hm
        (device_set_string_uniform _ _)
    · simp only [boot_ui_entry_input_whitelist]
      exact uniform_sub node val _ (fun dev ctx e => device_set_string Device.set_tw_input_whitelist dev val ctx e) hm
        (device_set_string_uniform _ _)
    · simp only [boot_ui_entry_graphics_backends]
      exact uniform_sub node val _ (fun dev ctx e => device_set_string_array Device.set_tw_graphics_backends dev val ctx e) hm
        (device_set_string_array_uniform _ _)
    · simp only [boot_ui_entry_theme]
      exact uniform_sub node val _ (fun dev ctx e => device_set_string Device.set_tw_theme dev val ctx e) hm
        (device_set_string_uniform _ _)
  · simp only [boot_ui_entry_unknown _ _ _ _ _ hk]
    exact unknown_key_uniform node val k hm

theorem process_boot_ui_uniform (node : Value) :
    Uniform (fun p => has_path p node = true)
      (fun dev ctx e => process_boot_ui dev node ctx e) := by
  by_cases h : node.isObject = true
  · simp only [process_boot_ui, h, Bool.not_true, Bool.false_eq_true, if_false]
    exact uniform_mono _ _ _ (fun p hp => hp.2)
      (key_loop_uniform _ process_boot_ui_entry node.members
        (fun m hm => process_boot_ui_entry_uniform node m.2 m.1 hm) none (by simp))
  · refine uniform_fail _ _ id []
      (fun e => json_error_set_mismatched_type e "" node.type ValueType.objectValue) rfl ?_
    intro dev ctx e
    simp only [process_boot_ui, h]
    rw [mismatched_type_context]
    rfl

/-- The body of the key loop of `process_device` is uniform on a member of the node. -/
theorem process_device_entry_uniform (node val : Value) (k : String)
    (hm : (k, val) ∈ node.members) :
    Uniform (fun p => p ≠ [] ∧ has_path p node = true)
      (fun dev ctx e => process_device_entry ctx k val dev e) := by
  by_cases hk : k ∈ device_keys
  · simp only [device_keys, List.mem_cons, List.mem_singleton, List.not_mem_nil, or_false] at hk
    rcases hk with rfl | rfl | rfl | rfl | rfl | rfl | rfl
    · simp only [device_entry_name]
      exact uniform_sub node val _ (fun dev ctx e => device_set_string Device.set_name dev val ctx e) hm
        (device_set_string_uniform _ _)
    · simp only [device_entry_id]
      exact uniform_sub node val _ (fun dev ctx e => device_set_string Device.set_id dev val ctx e) hm
        (device_set_string_uniform _ _)
    · simp only [device_entry_codenames]
      exact uniform_sub node val _ (fun dev ctx e => device_set_string_array Device.set_codenames dev val ctx e) hm
        (device_set_string_array_uniform _ _)
    · simp only [device_entry_architecture]
      exact uniform_sub node val _ (fun dev ctx e => device_set_string Device.set_architecture dev val ctx e) hm
        (device_set_string_uniform _ _)
    · simp only [device_entry_flags]
      exact uniform_sub node val _ (fun dev ctx e => process_device_flags dev val ctx e) hm
        (process_device_flags_uniform _)
    · simp only [device_entry_block_devs]
      exact uniform_sub node val _ (fun dev ctx e => process_block_devs dev val ctx e) hm
        (process_block_devs_uniform _)
    · simp only [device_entry_boot_ui]
      exact uniform_sub node val _ (fun dev ctx e => process_boot_ui dev val ctx e) hm
        (process_boot_ui_uniform _)
  · simp only [device_entry_unknown _ _ _ _ _ hk]
    exact unknown_key_uniform node val k hm

/-- The decoder of a device object is uniform: on failure the path of the error context
exists in the node, and it is empty exactly when the node is not an object. -/
theorem process_device_uniform (node : Value) :
    Uniform (fun p => has_path p node = true ∧ (p = [] ↔ node.type ≠ ValueType.objectValue))
      (fun dev ctx e => process_device dev node ctx e) := by
  by_cases h : node.isObject = true
  · have hobj : node.type = ValueType.objectValue := by simpa [Value.isObject] using h
    simp only [process_device, h, Bool.not_true, Bool.false_eq_true, if_false]
    exact uniform_mono _ _ _ (fun p hp => ⟨hp.2, by simp [hp.1, hobj]⟩)
      (key_loop_uniform _ process_device_entry node.members
        (fun m hm => process_device_entry_uniform node m.2 m.1 hm) none (by simp))
  · have hobj : node.type ≠ ValueType.objectValue := by simpa [Value.isObject] using h
    refine uniform_fail _ _ id []
      (fun e => json_error_set_mismatched_type e "" node.type ValueType.objectValue)
      ⟨rfl, by simp [hobj]⟩ ?_
    intro dev ctx e
    simp only [process_device, h]
    rw [mismatched_type_context]
    rfl

/-! ## Consequences of uniformity -/

theorem uniform_ret (Q : List Segment → Prop) (f : Device → String → JsonError → Outcome)
    (h : Uniform Q f) (dev dev2 : Device) (ctx ctx2 : String) (e e2 : JsonError) :
    (f dev ctx e).ret = (f dev2 ctx2 e2).ret := by
  obtain ⟨ret, t, path, upd, _, h2⟩ := h
  rw [h2, h2]

theorem uniform_device (Q : List Segment → Prop) (f : Device → String → JsonError → Outcome)
    (h : Uniform Q f) (dev : Device) (ctx ctx2 : String) (e e2 : JsonError) :
    (f dev ctx e).device = (f dev ctx2 e2).device := by
  obtain ⟨ret, t, path, upd, _, h2⟩ := h
  rw [h2, h2]

theorem uniform_error (Q : List Segment → Prop) (f : Device → String → JsonError → Outcome)
    (h : Uniform Q f) (dev dev2 : Device) (ctx : String) (e : JsonError) :
    (f dev ctx e).error = (f dev2 ctx e).error := by
  obtain ⟨ret, t, path, upd, _, h2⟩ := h
  rw [h2, h2]

theorem uniform_error_of_not_false (Q : List Segment → Prop)
    (f : Device → String → JsonError → Outcome) (h : Uniform Q f) (dev : Device)
    (ctx : String) (e : JsonError) (hr : (f dev ctx e).ret ≠ some false) :
    (f dev ctx e).error = e := by
  obtain ⟨ret, t, path, upd, _, h2⟩ := h
  rw [h2] at hr ⊢
  simp only at hr
  simp [hr]

/-- On failure the error record is the one of the same call under the empty context,
with the context of a path of the node below the context passed in. -/
theorem uniform_error_context (Q : List Segment → Prop)
    (f : Device → String → JsonError → Outcome) (h : Uniform Q f) (dev : Device)
    (e : JsonError) (hr : (f dev "" e).ret = some false) :
    ∃ path, Q path ∧ ∀ dev2 ctx,
      (f dev2 ctx e).error = { (f dev "" e).error with context := context_at ctx path } := by
  obtain ⟨ret, t, path, upd, h1, h2⟩ := h
  rw [h2] at hr
  simp only at hr
  subst hr
  refine ⟨path, h1 rfl, fun dev2 ctx => ?_⟩
  rw [h2, h2]
  simp

/-! ## The element loop of the list decoder -/

theorem index_context_eq (index : Nat) (path : List Segment) :
    context_at ("[" ++ toString index ++ "]") path
      = render_path (Segment.index index :: path) := by
  have h : "[" ++ toString index ++ "]" ++ render_path path ≠ "" := by
    intro h
    have h2 := congrArg String.length h
    have h1 : "[".length = 1 := rfl
    simp [String.length_append] at h2
    omega
  simp [context_at, h, render_path, Segment.render]

/-- Elements that decode successfully on their own are passed over by the list decoder:
each adds the device it decodes to on its own, and the error record is left alone. -/
theorem device_list_loop_append (pre rest : List Value) (e0 : JsonError)
    (hpre : ∀ y ∈ pre, (process_device Device.ctor y "" e0).ret = some true) :
    ∀ (index : Nat) (devices : List Device) (error : JsonError),
      device_list_loop (pre ++ rest) index devices error
        = device_list_loop rest (index + pre.length)
            (devices ++ pre.map (fun y => (process_device Device.ctor y "" e0).device))
            error := by
  induction pre with
  | nil => intro index devices error; simp
  | cons y pre ih =>
    intro index devices error
    have hy := hpre y (List.mem_cons_self _ _)
    have hU := process_device_uniform y
    have h1 : (process_device Device.ctor y ("[" ++ toString index ++ "]") error).ret
        = some true := by
      rw [← hy]; exact uniform_ret _ _ hU _ _ _ _ _ _
    have h2 : (process_device Device.ctor y ("[" ++ toString index ++ "]") error).error
        = error := uniform_error_of_not_false _ _ hU _ _ _ (by rw [h1]; simp)
    have h3 : (process_device Device.ctor y ("[" ++ toString index ++ "]") error).device
        = (process_device Device.ctor y "" e0).device := uniform_device _ _ hU _ _ _ _ _
    rw [List.cons_append]
    simp only [device_list_loop, h1, h2, h3]
    rw [ih (fun z hz => hpre z (List.mem_cons_of_mem _ hz))]
    simp [Nat.add_assoc, Nat.add_comm 1]

/-- The list decoder stops at an element that fails on its own, with that element's
error under the context of its index. -/
theorem device_list_loop_fail (x : Value) (post : List Value) (e0 : JsonError)
    (hx : (process_device Device.ctor x "" e0).ret = some false)
    (index : Nat) (devices : List Device) (error : JsonError) :
    device_list_loop (x :: post) index devices error
      = ⟨some false, devices,
          (process_device Device.ctor x ("[" ++ toString index ++ "]") error).error⟩ := by
  have hU := process_device_uniform x
  have h1 : (process_device Device.ctor x ("[" ++ toString index ++ "]") error).ret
      = some false := by
    rw [← hx]; exact uniform_ret _ _ hU _ _ _ _ _ _
  simp only [device_list_loop, h1]

theorem uniform_failure_context (Q : List Segment → Prop)
    (f : Device → String → JsonError → Outcome) (h : Uniform Q f) (dev : Device)
    (ctx : String) (e : JsonError) (hr : (f dev ctx e).ret = some false) :
    ∃ path, Q path ∧ (f dev ctx e).error.context = context_at ctx path := by
  obtain ⟨ret, t, path, upd, h1, h2⟩ := h
  rw [h2] at hr
  simp only at hr
  subst hr
  exact ⟨path, h1 rfl, by rw [h2]; simp⟩

/-- A list decoding that returns false carries the context of a path that starts at the
index of an element of the array. -/
theorem device_list_loop_failure (items : List Value) :
    ∀ (index : Nat) (devices : List Device) (error : JsonError),
      (device_list_loop items index devices error).ret = some false →
      ∃ (j : Nat) (item : Value) (path : List Segment),
        items[j]? = some item ∧ has_path path item = true
        ∧ (device_list_loop items index devices error).error.context
            = render_path (Segment.index (index + j) :: path) := by
  induction items with
  | nil => intro index devices error h; simp [device_list_loop] at h
  | cons item rest ih =>
    intro index devices error h
    cases hr : (process_device Device.ctor item ("[" ++ toString index ++ "]") error).ret with
    | none => simp [device_list_loop, hr] at h
    | some b =>
      cases b with
      | true =>
        simp only [device_list_loop, hr] at h ⊢
        obtain ⟨j, x, path, hx, hp, hc⟩ := ih _ _ _ h
        refine ⟨j + 1, x, path, by simpa using hx, hp, ?_⟩
        rw [hc, show index + (j + 1) = index + 1 + j by omega]
      | false =>
        obtain ⟨path, ⟨hp, _⟩, hc⟩ :=
          uniform_failure_context _ _ (process_device_uniform item) _ _ _ hr
        refine ⟨0, item, path, by simp, hp, ?_⟩
        simp only [device_list_loop, hr, Nat.add_zero]
        rw [hc, index_context_eq]

theorem level_entry_uniform (level : Level) (k : String) (v : Value) :
    Uniform (fun _ => True) (fun dev ctx e => level.entry ctx k v dev e) := by
  have hm : (k, v) ∈ (Value.object [(k, v)]).members := by simp [Value.members]
  cases level
  · exact uniform_mono _ _ _ (fun _ _ => trivial) (process_device_entry_uniform _ v k hm)
  · exact uniform_mono _ _ _ (fun _ _ => trivial) (process_block_devs_entry_uniform _ v k hm)
  · exact uniform_mono _ _ _ (fun _ _ => trivial) (process_boot_ui_entry_uniform _ v k hm)

theorem level_process_object (level : Level) (device : Device)
    (ms : List (String × Value)) (context : String) (error : JsonError) :
    level.process device (Value.object ms) context error
      = key_loop (level.entry context) ms none device error := by
  cases level <;> rfl

/-- The key loop passes over members that its body accepts and returns what the body
leaves on the first member that it does not accept. -/
theorem key_loop_fail_fast (Q : List Segment → Prop)
    (entry : String → String → Value → Device → JsonError → Outcome)
    (hU : ∀ k v, Uniform Q (fun dev ctx e => entry ctx k v dev e))
    (ctx : String) (pre post : List (String × Value)) (key : String) (val : Value)
    (d0 : Device) (e0 : JsonError)
    (hpre : ∀ m ∈ pre, (entry ctx m.1 m.2 d0 e0).ret = some true)
    (hbad : (entry ctx key val d0 e0).ret ≠ some true) :
    ∀ (ret0 : Option Bool) (device : Device) (error : JsonError),
      key_loop (entry ctx) (pre ++ (key, val) :: post) ret0 device error
        = entry ctx key val (key_loop (entry ctx) pre ret0 device error).device error := by
  induction pre with
  | nil =>
    intro ret0 device error
    have hr : (entry ctx key val device error).ret ≠ some true := by
      rw [uniform_ret _ _ (hU key val) device d0 ctx ctx error e0]; exact hbad
    rw [List.nil_append, key_loop_cons_stop _ _ _ _ _ _ _ hr]
    rfl
  | cons m pre ih =>
    intro ret0 device error
    obtain ⟨k, v⟩ := m
    have hr : (entry ctx k v device error).ret = some true := by
      rw [uniform_ret _ _ (hU k v) device d0 ctx ctx error e0]
      exact hpre (k, v) (List.mem_cons_self _ _)
    have he : (entry ctx k v device error).error = error :=
      uniform_error_of_not_false _ _ (hU k v) device ctx error (by rw [hr]; simp)
    rw [List.cons_append, key_loop_cons_ok _ _ _ _ _ _ _ hr,
      key_loop_cons_ok _ _ _ _ _ _ _ hr, he]
    exact ih (fun z hz => hpre z (List.mem_cons_of_mem _ hz)) _ _ _

/-! ## Members of the encoder's tree -/

theorem lookup_cons_eq (k k0 : String) (v0 : Value) (rest : List (String × Value)) :
    List.lookup k ((k0, v0) :: rest) = if k = k0 then some v0 else List.lookup k rest := by
  by_cases h : k = k0
  · subst h
    simp [List.lookup]
  · have hb : (k == k0) = false := by simpa using h
    simp [List.lookup, hb, h]

theorem lookup_updateMember_const (key : String) (x : Value) (ms : List (String × Value))
    (k : String) :
    (Value.updateMember key (fun _ => x) ms).lookup k
      = if k = key then some x else ms.lookup k := by
  induction ms with
  | nil => simp [Value.updateMember, lookup_cons_eq]
  | cons m rest ih =>
    obtain ⟨k0, v0⟩ := m
    by_cases h0 : key = k0
    · subst h0
      by_cases h : k = key <;> simp [Value.updateMember, lookup_cons_eq, h]
    · by_cases h1 : key.data < k0.data
      · simp [Value.updateMember, lookup_cons_eq, h0, h1]
      · by_cases h : k = key
        · subst h
          simp [Value.updateMember, lookup_cons_eq, h0, h1, ih]
        · simp [Value.updateMember, lookup_cons_eq, h, h0, h1, ih]

theorem lookup_eq_none_of_not_mem (ms : List (String × Value)) (k : String)
    (h : k ∉ ms.map Prod.fst) : ms.lookup k = none := by
  induction ms with
  | nil => rfl
  | cons m rest ih =>
    obtain ⟨k0, v0⟩ := m
    simp only [List.map_cons, List.mem_cons, not_or] at h
    rw [lookup_cons_eq, if_neg h.1]
    exact ih h.2

/-- In a sequence of encoder statements with distinct keys, the member of a statement's
key is its value when its condition holds, and absent otherwise. -/
theorem lookup_chain_of_mem (steps : List Step) :
    (steps.map Step.key).Nodup → ∀ s ∈ steps,
      (chain steps).lookup s.key = if s.cond then some s.val else none := by
  induction steps using List.reverseRecOn with
  | nil => intro _ s hs; simp at hs
  | append_singleton init last ih =>
    intro hnd s hs
    rw [List.map_append, List.nodup_append] at hnd
    obtain ⟨hnd1, _, hdis⟩ := hnd
    rw [chain_snoc]
    rcases List.mem_append.mp hs with h | h
    · have hne : s.key ≠ last.key := by
        intro he
        exact hdis (List.mem_map_of_mem Step.key h) (by simp [he])
      unfold insert_step
      split
      · rw [lookup_updateMember_const, if_neg hne]
        exact ih hnd1 s h
      · exact ih hnd1 s h
    · simp only [List.mem_singleton] at h
      subst h
      have hnone : (chain init).lookup s.key = none := by
        apply lookup_eq_none_of_not_mem
        rw [key_mem_chain]
        rintro ⟨s2, hs2, _, hk⟩
        exact hdis (List.mem_map_of_mem Step.key hs2) (by simp [hk])
      unfold insert_step
      split
      · rw [lookup_updateMember_const, if_pos rfl]
      · exact hnone

theorem member_of_members (ms : List (String × Value)) (k : String) :
    member (of_members ms) k = ms.lookup k := by
  cases ms <;> rfl

/-- Every statement of the root object: its key is present in the tree of
`device_to_json` exactly when its condition holds, and then carries its value. -/
theorem device_members (d : Device) : ∀ s ∈ device_steps d,
    member (device_to_json d) s.key = if s.cond then some s.val else none := by
  intro s hs
  rw [device_to_json_eq, member_of_members]
  exact lookup_chain_of_mem _ (by simp [device_steps]) s hs

theorem member2_block_devs (d : Device) (k : String) :
    member2 (device_to_json d) "block_devs" k = (chain (block_devs_steps d)).lookup k := by
  have h := device_members d
    ⟨!(chain (block_devs_steps d)).isEmpty, "block_devs",
      Value.object (chain (block_devs_steps d))⟩ (by simp [device_steps])
  simp only at h
  unfold member2
  rw [h]
  cases hc : chain (block_devs_steps d) with
  | nil => rfl
  | cons m rest => rfl

theorem member2_boot_ui (d : Device) (k : String) :
    member2 (device_to_json d) "boot_ui" k = (chain (boot_ui_steps d)).lookup k := by
  have h := device_members d
    ⟨!(chain (boot_ui_steps d)).isEmpty, "boot_ui",
      Value.object (chain (boot_ui_steps d))⟩ (by simp [device_steps])
  simp only at h
  unfold member2
  rw [h]
  cases hc : chain (boot_ui_steps d) with
  | nil => rfl
  | cons m rest => rfl

/-- Every statement of the `block_devs` object: its key is present under `block_devs`
exactly when its condition holds, and then carries its value. -/
theorem block_devs_members (d : Device) : ∀ s ∈ block_devs_steps d,
    member2 (device_to_json d) "block_devs" s.key = if s.cond then some s.val else none := by
  intro s hs
  rw [member2_block_devs]
  exact lookup_chain_of_mem _ (by simp [block_devs_steps]) s hs

/-- Every statement of the `boot_ui` object: its key is present under `boot_ui` exactly
when its condition holds, and then carries its value. -/
theorem boot_ui_members (d : Device) : ∀ s ∈ boot_ui_steps d,
    member2 (device_to_json d) "boot_ui" s.key = if s.cond then some s.val else none := by
  intro s hs
  rw [member2_boot_ui]
  exact lookup_chain_of_mem _ (by simp [boot_ui_steps]) s hs

/-! ## What a handler writes -/

theorem device_set_boolean_writes (setter : Device → Bool → Device) (dev : Device)
    (node : Value) (ctx : String) (e : JsonError) :
    (device_set_boolean setter dev node ctx e).device = dev
    ∨ ∃ x, (device_set_boolean setter dev node ctx e).device = setter dev x := by
  unfold device_set_boolean
  split
  · exact Or.inl rfl
  · exact Or.inr ⟨_, rfl⟩

theorem device_set_int_writes (setter : Device → Int → Device) (dev : Device)
    (node : Value) (ctx : String) (e : JsonError) :
    (device_set_int setter dev node ctx e).device = dev
    ∨ ∃ x, (device_set_int setter dev node ctx e).device = setter dev x := by
  unfold device_set_int
  split
  · exact Or.inl rfl
  · exact Or.inr ⟨_, rfl⟩

theorem device_set_string_writes (setter : Device → String → Device) (dev : Device)
    (node : Value) (ctx : String) (e : JsonError) :
    (device_set_string setter dev node ctx e).device = dev
    ∨ ∃ x, (device_set_string setter dev node ctx e).device = setter dev x := by
  unfold device_set_string
  split
  · exact Or.inl rfl
  · exact Or.inr ⟨_, rfl⟩

theorem device_set_string_array_writes (setter : Device → List String → Device)
    (dev : Device) (node : Value) (ctx : String) (e : JsonError) :
    (device_set_string_array setter dev node ctx e).device = dev
    ∨ ∃ x, (device_set_string_array setter dev node ctx e).device = setter dev x := by
  unfold device_set_string_array
  split
  · exact Or.inl rfl
  · split
    · exact Or.inl rfl
    · exact Or.inr ⟨_, rfl⟩

theorem process_device_flags_writes (dev : Device) (node : Value) (ctx : String)
    (e : JsonError) :
    (process_device_flags dev node ctx e).device = dev
    ∨ ∃ x, (process_device_flags dev node ctx e).device = dev.set_flags x := by
  unfold process_device_flags
  split
  · exact Or.inl rfl
  · split
    · exact Or.inl rfl
    · exact Or.inr ⟨_, rfl⟩

theorem process_boot_ui_flags_writes (dev : Device) (node : Value) (ctx : String)
    (e : JsonError) :
    (process_boot_ui_flags dev node ctx e).device = dev
    ∨ ∃ x, (process_boot_ui_flags dev node ctx e).device = dev.set_tw_flags x := by
  unfold process_boot_ui_flags
  split
  · exact Or.inl rfl
  · split
    · exact Or.inl rfl
    · exact Or.inr ⟨_, rfl⟩

theorem process_boot_ui_pixel_format_writes (dev : Device) (node : Value) (ctx : String)
    (e : JsonError) :
    (process_boot_ui_pixel_format dev node ctx e).device = dev
    ∨ ∃ x, (process_boot_ui_pixel_format dev node ctx e).device
        = dev.set_tw_pixel_format x := by
  unfold process_boot_ui_pixel_format
  split
  · exact Or.inl rfl
  · split
    · exact Or.inr ⟨_, rfl⟩
    · exact Or.inl rfl

theorem process_boot_ui_force_pixel_format_writes (dev : Device) (node : Value)
    (ctx : String) (e : JsonError) :
    (process_boot_ui_force_pixel_format dev node ctx e).device = dev
    ∨ ∃ x, (process_boot_ui_force_pixel_format dev node ctx e).device
        = dev.set_tw_force_pixel_format x := by
  unfold process_boot_ui_force_pixel_format
  split
  · exact Or.inl rfl
  · split
    · exact Or.inr ⟨_, rfl⟩
    · exact Or.inl rfl

/-! ## What an accepted node is -/

theorem device_set_boolean_ok (setter : Device → Bool → Device) (dev : Device)
    (node : Value) (ctx : String) (e : JsonError)
    (h : (device_set_boolean setter dev node ctx e).ret = some true) :
    ∃ x, node = Value.bool x ∧ (device_set_boolean setter dev node ctx e).device
      = setter dev x := by
  cases node <;> first | (simp [device_set_boolean, Value.isBool, Value.type] at h; done) | skip
  exact ⟨_, rfl, rfl⟩

theorem device_set_int_ok (setter : Device → Int → Device) (dev : Device)
    (node : Value) (ctx : String) (e : JsonError)
    (h : (device_set_int setter dev node ctx e).ret = some true) :
    ∃ x, node = Value.int x ∧ (device_set_int setter dev node ctx e).device
      = setter dev x := by
  cases node <;> first | (simp [device_set_int, Value.isInt, Value.type] at h; done) | skip
  exact ⟨_, rfl, rfl⟩

theorem device_set_string_ok (setter : Device → String → Device) (dev : Device)
    (node : Value) (ctx : String) (e : JsonError)
    (h : (device_set_string setter dev node ctx e).ret = some true) :
    ∃ x, node = Value.string x ∧ (device_set_string setter dev node ctx e).device
      = setter dev x := by
  cases node <;> first | (simp [device_set_string, Value.isString, Value.type] at h; done) | skip
  exact ⟨_, rfl, rfl⟩

/-- The element loop of `device_set_string_array` collects the strings of the array in
its order, after those collected before. -/
theorem string_array_loop_ok (context : String) (error : JsonError) (items : List Value) :
    ∀ (index : Nat) (array out : List String),
      string_array_loop context error items index array = Except.ok out →
      items = (items.map Value.asString).map Value.string
      ∧ out = array ++ items.map Value.asString := by
  induction items with
  | nil =>
    intro index array out h
    simp only [string_array_loop, Except.ok.injEq] at h
    simp [h]
  | cons item rest ih =>
    intro index array out h
    cases item <;>
      first
      | (simp [string_array_loop, Value.isString, Value.type] at h; done)
      | skip
    simp only [string_array_loop, Value.isString, Value.type, decide_True, Bool.not_true,
      Bool.false_eq_true, if_false, Value.asString] at h
    obtain ⟨h1, h2⟩ := ih _ _ _ h
    constructor
    · simp only [List.map_cons, Value.asString]
      rw [← h1]
    · simp [h2, Value.asString]

theorem device_set_string_array_ok (setter : Device → List String → Device)
    (dev : Device) (node : Value) (ctx : String) (e : JsonError)
    (h : (device_set_string_array setter dev node ctx e).ret = some true) :
    ∃ x, node = strings x ∧ (device_set_string_array setter dev node ctx e).device
      = setter dev x := by
  cases node <;>
    first
    | (simp [device_set_string_array, Value.isArray, Value.type] at h; done)
    | skip
  rename_i items
  simp only [device_set_string_array, Value.isArray, Value.type, decide_True, Bool.not_true,
    Bool.false_eq_true, if_false, Value.items] at h ⊢
  cases hl : string_array_loop ctx e items 0 [] with
  | error e1 => rw [hl] at h; simp at h
  | ok out =>
    obtain ⟨h1, h2⟩ := string_array_loop_ok _ _ _ _ _ _ hl
    refine ⟨out, ?_, rfl⟩
    rw [h2, List.nil_append]
    unfold strings
    rw [← h1]

/-! ## Fields that a key loop leaves alone -/

theorem key_loop_frame (entry : String → Value → Device → JsonError → Outcome)
    (keyOf : FieldId → Option String) (f : FieldId)
    (hentry : ∀ k v dev err, keyOf f ≠ some k → Agree f (entry k v dev err).device dev)
    (ms : List (String × Value)) :
    (∀ m ∈ ms, keyOf f ≠ some m.1) →
    ∀ (ret : Option Bool) (dev : Device) (err : JsonError),
      Agree f (key_loop entry ms ret dev err).device dev := by
  induction ms with
  | nil => intro _ ret dev err; exact agree_refl _ _
  | cons m rest ih =>
    intro h ret dev err
    obtain ⟨k, v⟩ := m
    have h1 := hentry k v dev err (h (k, v) (List.mem_cons_self _ _))
    by_cases hy : (entry k v dev err).ret = some true
    · rw [key_loop_cons_ok _ _ _ _ _ _ _ hy]
      exact agree_trans _ _ _ _
        (ih (fun m hm => h m (List.mem_cons_of_mem _ hm)) _ _ _) h1
    · rw [key_loop_cons_stop _ _ _ _ _ _ _ hy]
      exact h1

/-- In a key loop that returns true over members with distinct keys, every member was
accepted by the loop body, and the fields decoded under its key are as the body left
them. -/
theorem key_loop_last_write (entry : String → Value → Device → JsonError → Outcome)
    (keyOf : FieldId → Option String)
    (hframe : ∀ f k v dev err, keyOf f ≠ some k → Agree f (entry k v dev err).device dev)
    (ms : List (String × Value)) (k : String) (v : Value) :
    (ms.map Prod.fst).Nodup → (k, v) ∈ ms →
    ∀ (ret : Option Bool) (dev : Device) (err : JsonError),
      (key_loop entry ms ret dev err).ret = some true →
      ∃ (dev1 : Device) (err1 : JsonError), (entry k v dev1 err1).ret = some true
        ∧ ∀ f, keyOf f = some k →
            Agree f (key_loop entry ms ret dev err).device (entry k v dev1 err1).device := by
  induction ms with
  | nil => intro _ hm; simp at hm
  | cons m rest ih =>
    intro hnd hm ret dev err h
    obtain ⟨k0, v0⟩ := m
    rw [List.map_cons, List.nodup_cons] at hnd
    by_cases hy : (entry k0 v0 dev err).ret = some true
    · rw [key_loop_cons_ok _ _ _ _ _ _ _ hy] at h ⊢
      rcases List.mem_cons.mp hm with heq | hin
      · obtain ⟨rfl, rfl⟩ := Prod.mk.inj heq
        refine ⟨dev, err, hy, fun f hf => ?_⟩
        apply key_loop_frame entry keyOf f (hframe f)
        intro m hm2 hk2
        rw [hf] at hk2
        apply hnd.1
        rw [Option.some.inj hk2]
        exact List.mem_map.mpr ⟨m, hm2, rfl⟩
      · exact ih hnd.2 hin _ _ _ h
    · rw [key_loop_cons_stop _ _ _ _ _ _ _ hy] at h
      exact absurd h hy

/-- The body of the key loop of `process_block_devs` leaves alone every field that is not
decoded under the member's key. -/
theorem process_block_devs_entry_frame (ctx k : String) (v : Value) (dev : Device) (err : JsonError)
    (f : FieldId) (hf : block_devs_key f ≠ some k) :
    Agree f (process_block_devs_entry ctx k v dev err).device dev := by
  by_cases hk : k ∈ block_devs_keys
  · simp only [block_devs_keys, List.mem_cons, List.mem_singleton, List.not_mem_nil, or_false] at hk
    rcases hk with rfl | rfl | rfl | rfl | rfl | rfl | rfl
    · rw [block_devs_entry_base_dirs]
      rcases device_set_string_array_writes _ _ _ _ _ with h | ⟨x, h⟩ <;> rw [h]
      · exact agree_refl _ _
      · cases f <;> first | rfl | exact absurd rfl hf
    · rw [block_devs_entry_system]
      rcases device_set_string_array_writes _ _ _ _ _ with h | ⟨x, h⟩ <;> rw [h]
      · exact agree_refl _ _
      · cases f <;> first | rfl | exact absurd rfl hf
    · rw [block_devs_entry_cache]
      rcases device_set_string_array_writes _ _ _ _ _ with h | ⟨x, h⟩ <;> rw [h]
      · exact agree_refl _ _
      · cases f <;> first | rfl | exact absurd rfl hf
    · rw [block_devs_entry_data]
      rcases device_set_string_array_writes _ _ _ _ _ with h | ⟨x, h⟩ <;> rw [h]
      · exact agree_refl _ _
      · cases f <;> first | rfl | exact absurd rfl hf
    · rw [block_devs_entry_boot]
      rcases device_set_string_array_writes _ _ _ _ _ with h | ⟨x, h⟩ <;> rw [h]
      · exact agree_refl _ _
      · cases f <;> first | rfl | exact absurd rfl hf
    · rw [block_devs_entry_recovery]
      rcases device_set_string_array_writes _ _ _ _ _ with h | ⟨x, h⟩ <;> rw [h]
      · exact agree_refl _ _
      · cases f <;> first | rfl | exact absurd rfl hf
    · rw [block_devs_entry_extra]
      rcases device_set_string_array_writes _ _ _ _ _ with h | ⟨x, h⟩ <;> rw [h]
      · exact agree_refl _ _
      · cases f <;> first | rfl | exact absurd rfl hf
  · rw [block_devs_entry_unknown _ _ _ _ _ hk]
    exact agree_refl _ _

theorem process_block_devs_frame (dev : Device) (node : Value) (ctx : String)
    (err : JsonError) (f : FieldId) (hf : block_devs_key f = none) :
    Agree f (process_block_devs dev node ctx err).device dev := by
  unfold process_block_devs
  split
  · exact agree_refl _ _
  · exact key_loop_frame _ block_devs_key f
      (fun k v dev err hk => process_block_devs_entry_frame ctx k v dev err f hk)
      _ (fun m _ => by rw [hf]; simp) _ _ _

/-- The body of the key loop of `process_boot_ui` leaves alone every field that is not
decoded under the member's key. -/
theorem process_boot_ui_entry_frame (ctx k : String) (v : Value) (dev : Device) (err : JsonError)
    (f : FieldId) (hf : boot_ui_key f ≠ some k) :
    Agree f (process_boot_ui_entry ctx k v dev err).device dev := by
  by_cases hk : k ∈ boot_ui_keys
  · simp only [boot_ui_keys, List.mem_cons, List.mem_singleton, List.not_mem_nil, or_false] at hk
    rcases hk with rfl | rfl | rfl | rfl | rfl | rfl | rfl | rfl | rfl | rfl | rfl | rfl | rfl | rfl | rfl | rfl | rfl
    · rw [boot_ui_entry_supported]
      rcases device_set_boolean_writes _ _ _ _ _ with h | ⟨x, h⟩ <;> rw [h]
      · exact agree_refl _ _
      · cases f <;> first | rfl | exact absurd rfl hf
    · rw [boot_ui_entry_flags]
      rcases process_boot_ui_flags_writes _ _ _ _ with h | ⟨x, h⟩ <;> rw [h]
      · exact agree_refl _ _
      · cases f <;> first | rfl | exact absurd rfl hf
    · rw [boot_ui_entry_pixel_format]
      rcases process_boot_ui_pixel_format_writes _ _ _ _ with h | ⟨x, h⟩ <;> rw [h]
      · exact agree_refl _ _
      · cases f <;> first | rfl | exact absurd rfl hf
    · rw [boot_ui_entry_force_pixel_format]
      rcases process_boot_ui_force_pixel_format_writes _ _ _ _ with h | ⟨x, h⟩ <;> rw [h]
      · exact agree_refl _ _
      · cases f <;> first | rfl | exact absurd rfl hf
    · rw [boot_ui_entry_overscan_percent]
      rcases device_set_int_writes _ _ _ _ _ with h | ⟨x, h⟩ <;> rw [h]
      · exact agree_refl _ _
      · cases f <;> first | rfl | exact absurd rfl hf
    · rw [boot_ui_entry_default_x_offset]
      rcases device_set_int_writes _ _ _ _ _ with h | ⟨x, h⟩ <;> rw [h]
      · exact agree_refl _ _
      · cases f <;> first | rfl | exact absurd rfl hf
    · rw [boot_ui_entry_default_y_offset]
      rcases device_set_int_writes _ _ _ _ _ with h | ⟨x, h⟩ <;> rw [h]
      · exact agree_refl _ _
      · cases f <;> first | rfl | exact absurd rfl hf
    · rw [boot_ui_entry_brightness_path]
      rcases device_set_string_writes _ _ _ _ _ with h | ⟨x, h⟩ <;> rw [h]
      · exact agree_refl _ _
      · cases f <;> first | rfl | exact absurd rfl hf
    · rw [boot_ui_entry_secondary_brightness_path]
      rcases device_set_string_writes _ _ _ _ _ with h | ⟨x, h⟩ <;> rw [h]
      · exact agree_refl _ _
      · cases f <;> first | rfl | exact absurd rfl hf
    · rw [boot_ui_entry_max_brightness]
      rcases device_set_int_writes _ _ _ _ _ with h | ⟨x, h⟩ <;> rw [h]
      · exact agree_refl _ _
      · cases f <;> first | rfl | exact absurd rfl hf
    · rw [boot_ui_entry_default_brightness]
      rcases device_set_int_writes _ _ _ _ _ with h | ⟨x, h⟩ <;> rw [h]
      · exact agree_refl _ _
      · cases f <;> first | rfl | exact absurd rfl hf
    · rw [boot_ui_entry_battery_path]
      rcases device_set_string_writes _ _ _ _ _ with h | ⟨x, h⟩ <;> rw [h]
      · exact agree_refl _ _
      · cases f <;> first | rfl | exact absurd rfl hf
    · rw [boot_ui_entry_cpu_temp_path]
      rcases device_set_string_writes _ _ _ _ _ with h | ⟨x, h⟩ <;> rw [h]
      · exact agree_refl _ _
      · cases f <;> first | rfl | exact absurd rfl hf
    · rw [boot_ui_entry_input_blacklist]
      rcases device_set_string_writes _ _ _ _ _ with h | ⟨x, h⟩ <;> rw [h]
      · exact agree_refl _ _
      · cases f <;> first | rfl | exact absurd rfl hf
    · rw [boot_ui_entry_input_whitelist]
      rcases device_set_string_writes _ _ _ _ _ with h | ⟨x, h⟩ <;> rw [h]
      · exact agree_refl _ _
      · cases f <;> first | rfl | exact absurd rfl hf
    · rw [boot_ui_entry_graphics_backends]
      rcases device_set_string_array_writes _ _ _ _ _ with h | ⟨x, h⟩ <;> rw [h]
      · exact agree_refl _ _
      · cases f <;> first | rfl | exact absurd rfl hf
    · rw [boot_ui_entry_theme]
      rcases device_set_string_writes _ _ _ _ _ with h | ⟨x, h⟩ <;> rw [h]
      · exact agree_refl _ _
      · cases f <;> first | rfl | exact absurd rfl hf
  · rw [boot_ui_entry_unknown _ _ _ _ _ hk]
    exact agree_refl _ _

theorem process_boot_ui_frame (dev : Device) (node : Value) (ctx : String)
    (err : JsonError) (f : FieldId) (hf : boot_ui_key f = none) :
    Agree f (process_boot_ui dev node ctx err).device dev := by
  unfold process_boot_ui
  split
  · exact agree_refl _ _
  · exact key_loop_frame _ boot_ui_key f
      (fun k v dev err hk => process_boot_ui_entry_frame ctx k v dev err f hk)
      _ (fun m _ => by rw [hf]; simp) _ _ _

/-- The body of the key loop of `process_device` leaves alone every field that is not
decoded under the member's key. -/
theorem process_device_entry_frame (ctx k : String) (v : Value) (dev : Device) (err : JsonError)
    (f : FieldId) (hf : device_key f ≠ some k) :
    Agree f (process_device_entry ctx k v dev err).device dev := by
  by_cases hk : k ∈ device_keys
  · simp only [device_keys, List.mem_cons, List.mem_singleton, List.not_mem_nil, or_false] at hk
    rcases hk with rfl | rfl | rfl | rfl | rfl | rfl | rfl
    · rw [device_entry_name]
      rcases device_set_string_writes _ _ _ _ _ with h | ⟨x, h⟩ <;> rw [h]
      · exact agree_refl _ _
      · cases f <;> first | rfl | exact absurd rfl hf
    · rw [device_entry_id]
      rcases device_set_string_writes _ _ _ _ _ with h | ⟨x, h⟩ <;> rw [h]
      · exact agree_refl _ _
      · cases f <;> first | rfl | exact absurd rfl hf
    · rw [device_entry_codenames]
      rcases device_set_string_array_writes _ _ _ _ _ with h | ⟨x, h⟩ <;> rw [h]
      · exact agree_refl _ _
      · cases f <;> first | rfl | exact absurd rfl hf
    · rw [device_entry_architecture]
      rcases device_set_string_writes _ _ _ _ _ with h | ⟨x, h⟩ <;> rw [h]
      · exact agree_refl _ _
      · cases f <;> first | rfl | exact absurd rfl hf
    · rw [device_entry_flags]
      rcases process_device_flags_writes _ _ _ _ with h | ⟨x, h⟩ <;> rw [h]
      · exact agree_refl _ _
      · cases f <;> first | rfl | exact absurd rfl hf
    · rw [device_entry_block_devs]
      exact process_block_devs_frame _ _ _ _ f
        (by cases f <;> first | rfl | exact absurd rfl hf)
    · rw [device_entry_boot_ui]
      exact process_boot_ui_frame _ _ _ _ f
        (by cases f <;> first | rfl | exact absurd rfl hf)
  · rw [device_entry_unknown _ _ _ _ _ hk]
    exact agree_refl _ _

/-- A member that the body of the key loop of `process_block_devs` accepts is the JSON
literal of the value that the field decoded under its key then holds. -/
theorem process_block_devs_entry_literal (ctx k : String) (v : Value) (dev : Device) (err : JsonError)
    (f : FieldId) (hk : block_devs_key f = some k)
    (hret : (process_block_devs_entry ctx k v dev err).ret = some true) (lit : Value)
    (hlit : field_literal f (process_block_devs_entry ctx k v dev err).device = some lit) : lit = v := by
  cases f
  all_goals try (simp [block_devs_key] at hk; done)
  all_goals cases hk
  case base_dirs =>
    rw [block_devs_entry_base_dirs] at hret hlit
    obtain ⟨x, hx, hd⟩ := device_set_string_array_ok _ _ _ _ _ hret
    rw [hd] at hlit
    rw [hx]
    exact (Option.some.inj hlit).symm
  case system_devs =>
    rw [block_devs_entry_system] at hret hlit
    obtain ⟨x, hx, hd⟩ := device_set_string_array_ok _ _ _ _ _ hret
    rw [hd] at hlit
    rw [hx]
    exact (Option.some.inj hlit).symm
  case cache_devs =>
    rw [block_devs_entry_cache] at hret hlit
    obtain ⟨x, hx, hd⟩ := device_set_string_array_ok _ _ _ _ _ hret
    rw [hd] at hlit
    rw [hx]
    exact (Option.some.inj hlit).symm
  case data_devs =>
    rw [block_devs_entry_data] at hret hlit
    obtain ⟨x, hx, hd⟩ := device_set_string_array_ok _ _ _ _ _ hret
    rw [hd] at hlit
    rw [hx]
    exact (Option.some.inj hlit).symm
  case boot_devs =>
    rw [block_devs_entry_boot] at hret hlit
    obtain ⟨x, hx, hd⟩ := device_set_string_array_ok _ _ _ _ _ hret
    rw [hd] at hlit
    rw [hx]
    exact (Option.some.inj hlit).symm
  case recovery_devs =>
    rw [block_devs_entry_recovery] at hret hlit
    obtain ⟨x, hx, hd⟩ := device_set_string_array_ok _ _ _ _ _ hret
    rw [hd] at hlit
    rw [hx]
    exact (Option.some.inj hlit).symm
  case extra_devs =>
    rw [block_devs_entry_extra] at hret hlit
    obtain ⟨x, hx, hd⟩ := device_set_string_array_ok _ _ _ _ _ hret
    rw [hd] at hlit
    rw [hx]
    exact (Option.some.inj hlit).symm

/-- A member that the body of the key loop of `process_boot_ui` accepts is the JSON
literal of the value that the field decoded under its key then holds. -/
theorem process_boot_ui_entry_literal (ctx k : String) (v : Value) (dev : Device) (err : JsonError)
    (f : FieldId) (hk : boot_ui_key f = some k)
    (hret : (process_boot_ui_entry ctx k v dev err).ret = some true) (lit : Value)
    (hlit : field_literal f (process_boot_ui_entry ctx k v dev err).device = some lit) : lit = v := by
  cases f
  all_goals try (simp [boot_ui_key] at hk; done)
  all_goals cases hk
  case tw_supported =>
    rw [boot_ui_entry_supported] at hret hlit
    obtain ⟨x, hx, hd⟩ := device_set_boolean_ok _ _ _ _ _ hret
    rw [hd] at hlit
    rw [hx]
    exact (Option.some.inj hlit).symm
  case tw_flags => simp [field_literal] at hlit
  case tw_pixel_format => simp [field_literal] at hlit
  case tw_force_pixel_format => simp [field_literal] at hlit
  case tw_overscan_percent =>
    rw [boot_ui_entry_overscan_percent] at hret hlit
    obtain ⟨x, hx, hd⟩ := device_set_int_ok _ _ _ _ _ hret
    rw [hd] at hlit
    rw [hx]
    exact (Option.some.inj hlit).symm
  case tw_default_x_offset =>
    rw [boot_ui_entry_default_x_offset] at hret hlit
    obtain ⟨x, hx, hd⟩ := device_set_int_ok _ _ _ _ _ hret
    rw [hd] at hlit
    rw [hx]
    exact (Option.some.inj hlit).symm
  case tw_default_y_offset =>
    rw [boot_ui_entry_default_y_offset] at hret hlit
    obtain ⟨x, hx, hd⟩ := device_set_int_ok _ _ _ _ _ hret
    rw [hd] at hlit
    rw [hx]
    exact (Option.some.inj hlit).symm
  case tw_brightness_path =>
    rw [boot_ui_entry_brightness_path] at hret hlit
    obtain ⟨x, hx, hd⟩ := device_set_string_ok _ _ _ _ _ hret
    rw [hd] at hlit
    rw [hx]
    exact (Option.some.inj hlit).symm
  case tw_secondary_brightness_path =>
    rw [boot_ui_entry_secondary_brightness_path] at hret hlit
    obtain ⟨x, hx, hd⟩ := device_set_string_ok _ _ _ _ _ hret
    rw [hd] at hlit
    rw [hx]
    exact (Option.some.inj hlit).symm
  case tw_max_brightness =>
    rw [boot_ui_entry_max_brightness] at hret hlit
    obtain ⟨x, hx, hd⟩ := device_set_int_ok _ _ _ _ _ hret
    rw [hd] at hlit
    rw [hx]
    exact (Option.some.inj hlit).symm
  case tw_default_brightness =>
    rw [boot_ui_entry_default_brightness] at hret hlit
    obtain ⟨x, hx, hd⟩ := device_set_int_ok _ _ _ _ _ hret
    rw [hd] at hlit
    rw [hx]
    exact (Option.some.inj hlit).symm
  case tw_battery_path =>
    rw [boot_ui_entry_battery_path] at hret hlit
    obtain ⟨x, hx, hd⟩ := device_set_string_ok _ _ _ _ _ hret
    rw [hd] at hlit
    rw [hx]
    exact (Option.some.inj hlit).symm
  case tw_cpu_temp_path =>
    rw [boot_ui_entry_cpu_temp_path] at hret hlit
    obtain ⟨x, hx, hd⟩ := device_set_string_ok _ _ _ _ _ hret
    rw [hd] at hlit
    rw [hx]
    exact (Option.some.inj hlit).symm
  case tw_input_blacklist =>
    rw [boot_ui_entry_input_blacklist] at hret hlit
    obtain ⟨x, hx, hd⟩ := device_set_string_ok _ _ _ _ _ hret
    rw [hd] at hlit
    rw [hx]
    exact (Option.some.inj hlit).symm
  case tw_input_whitelist =>
    rw [boot_ui_entry_input_whitelist] at hret hlit
    obtain ⟨x, hx, hd⟩ := device_set_string_ok _ _ _ _ _ hret
    rw [hd] at hlit
    rw [hx]
    exact (Option.some.inj hlit).symm
  case tw_graphics_backends =>
    rw [boot_ui_entry_graphics_backends] at hret hlit
    obtain ⟨x, hx, hd⟩ := device_set_string_array_ok _ _ _ _ _ hret
    rw [hd] at hlit
    rw [hx]
    exact (Option.some.inj hlit).symm
  case tw_theme =>
    rw [boot_ui_entry_theme] at hret hlit
    obtain ⟨x, hx, hd⟩ := device_set_string_ok _ _ _ _ _ hret
    rw [hd] at hlit
    rw [hx]
    exact (Option.some.inj hlit).symm

/-- A member that the body of the key loop of `process_device` accepts is the JSON
literal of the value that the field decoded under its key then holds. -/
theorem process_device_entry_literal (ctx k : String) (v : Value) (dev : Device) (err : JsonError)
    (f : FieldId) (hk : device_key f = some k)
    (hbd : block_devs_key f = none) (hbu : boot_ui_key f = none)
    (hret : (process_device_entry ctx k v dev err).ret = some true) (lit : Value)
    (hlit : field_literal f (process_device_entry ctx k v dev err).device = some lit) : lit = v := by
  cases f
  all_goals try (simp [block_devs_key] at hbd; done)
  all_goals try (simp [boot_ui_key] at hbu; done)
  all_goals cases hk
  case name =>
    rw [device_entry_name] at hret hlit
    obtain ⟨x, hx, hd⟩ := device_set_string_ok _ _ _ _ _ hret
    rw [hd] at hlit
    rw [hx]
    exact (Option.some.inj hlit).symm
  case id =>
    rw [device_entry_id] at hret hlit
    obtain ⟨x, hx, hd⟩ := device_set_string_ok _ _ _ _ _ hret
    rw [hd] at hlit
    rw [hx]
    exact (Option.some.inj hlit).symm
  case codenames =>
    rw [device_entry_codenames] at hret hlit
    obtain ⟨x, hx, hd⟩ := device_set_string_array_ok _ _ _ _ _ hret
    rw [hd] at hlit
    rw [hx]
    exact (Option.some.inj hlit).symm
  case architecture =>
    rw [device_entry_architecture] at hret hlit
    obtain ⟨x, hx, hd⟩ := device_set_string_ok _ _ _ _ _ hret
    rw [hd] at hlit
    rw [hx]
    exact (Option.some.inj hlit).symm
  case flags => simp [field_literal] at hlit

/-! ## Decoded fields and the literals of the input -/

theorem mem_of_lookup (ms : List (String × Value)) (k : String) (v : Value)
    (h : ms.lookup k = some v) : (k, v) ∈ ms := by
  induction ms with
  | nil => simp [List.lookup] at h
  | cons m rest ih =>
    obtain ⟨k0, v0⟩ := m
    rw [lookup_cons_eq] at h
    split at h
    · rename_i hk
      subst hk
      rw [Option.some.inj h]
      exact List.mem_cons_self _ _
    · exact List.mem_cons_of_mem _ (ih h)

theorem field_literal_congr (f : FieldId) (a b : Device) (h : Agree f a b) :
    field_literal f a = field_literal f b := by
  cases f <;> first | rfl | (simp only [field_literal]; congr 2)

/-- A field decoded at the top level holds the value of its member. -/
theorem top_level_field (root : Value) (dev : Device) (ctx : String) (err : JsonError)
    (hroot : distinct_keys root)
    (hok : (process_device dev root ctx err).ret = some true)
    (f : FieldId) (k : String) (v : Value) (hk : device_key f = some k)
    (hbd : block_devs_key f = none) (hbu : boot_ui_key f = none)
    (hv : member root k = some v) (lit : Value)
    (hl : field_literal f (process_device dev root ctx err).device = some lit) :
    lit = v := by
  have hobj : root.isObject = true := by
    by_contra hno
    simp [process_device, hno] at hok
  simp only [process_device, hobj, Bool.not_true, Bool.false_eq_true, if_false] at hok hl
  obtain ⟨dev1, err1, h1, h2⟩ := key_loop_last_write (process_device_entry ctx) device_key
    (fun f k v dev err hf => process_device_entry_frame ctx k v dev err f hf)
    root.members k v hroot (mem_of_lookup _ _ _ hv) none dev err hok
  rw [field_literal_congr f _ _ (h2 f hk)] at hl
  exact process_device_entry_literal ctx k v dev1 err1 f hk hbd hbu h1 lit hl

/-- A field decoded inside `block_devs` holds the value of its member there. -/
theorem block_devs_field (root : Value) (dev : Device) (ctx : String) (err : JsonError)
    (hroot : distinct_keys root)
    (hsub : ∀ w, member root "block_devs" = some w → distinct_keys w)
    (hok : (process_device dev root ctx err).ret = some true)
    (f : FieldId) (k : String) (v : Value) (hk : block_devs_key f = some k)
    (hv : member2 root "block_devs" k = some v) (lit : Value)
    (hl : field_literal f (process_device dev root ctx err).device = some lit) :
    lit = v := by
  obtain ⟨w, hw, hv2⟩ : ∃ w, member root "block_devs" = some w ∧ member w k = some v := by
    simpa [member2, Option.bind_eq_some] using hv
  have hdk : device_key f = some "block_devs" := by
    cases f <;> first | rfl | (simp [block_devs_key] at hk)
  have hobj : root.isObject = true := by
    by_contra hno
    simp [process_device, hno] at hok
  simp only [process_device, hobj, Bool.not_true, Bool.false_eq_true, if_false] at hok hl
  obtain ⟨dev1, err1, h1, h2⟩ := key_loop_last_write (process_device_entry ctx) device_key
    (fun f k v dev err hf => process_device_entry_frame ctx k v dev err f hf)
    root.members "block_devs" w hroot (mem_of_lookup _ _ _ hw) none dev err hok
  rw [field_literal_congr f _ _ (h2 f hdk)] at hl
  rw [device_entry_block_devs] at h1 hl
  have hobj2 : w.isObject = true := by
    by_contra hno
    simp [process_block_devs, hno] at h1
  simp only [process_block_devs, hobj2, Bool.not_true, Bool.false_eq_true, if_false] at h1 hl
  obtain ⟨dev2, err2, h3, h4⟩ := key_loop_last_write
    (process_block_devs_entry (ctx ++ "." ++ "block_devs")) block_devs_key
    (fun f k v dev err hf => process_block_devs_entry_frame _ k v dev err f hf)
    w.members k v (hsub w hw) (mem_of_lookup _ _ _ hv2) none dev1 err1 h1
  rw [field_literal_congr f _ _ (h4 f hk)] at hl
  exact process_block_devs_entry_literal _ k v dev2 err2 f hk h3 lit hl

/-- A field decoded inside `boot_ui` holds the value of its member there. -/
theorem boot_ui_field (root : Value) (dev : Device) (ctx : String) (err : JsonError)
    (hroot : distinct_keys root)
    (hsub : ∀ w, member root "boot_ui" = some w → distinct_keys w)
    (hok : (process_device dev root ctx err).ret = some true)
    (f : FieldId) (k : String) (v : Value) (hk : boot_ui_key f = some k)
    (hv : member2 root "boot_ui" k = some v) (lit : Value)
    (hl : field_literal f (process_device dev root ctx err).device = some lit) :
    lit = v := by
  obtain ⟨w, hw, hv2⟩ : ∃ w, member root "boot_ui" = some w ∧ member w k = some v := by
    simpa [member2, Option.bind_eq_some] using hv
  have hdk : device_key f = some "boot_ui" := by
    cases f <;> first | rfl | (simp [boot_ui_key] at hk)
  have hobj : root.isObject = true := by
    by_contra hno
    simp [process_device, hno] at hok
  simp only [process_device, hobj, Bool.not_true, Bool.false_eq_true, if_false] at hok hl
  obtain ⟨dev1, err1, h1, h2⟩ := key_loop_last_write (process_device_entry ctx) device_key
    (fun f k v dev err hf => process_device_entry_frame ctx k v dev err f hf)
    root.members "boot_ui" w hroot (mem_of_lookup _ _ _ hw) none dev err hok
  rw [field_literal_congr f _ _ (h2 f hdk)] at hl
  rw [device_entry_boot_ui] at h1 hl
  have hobj2 : w.isObject = true := by
    by_contra hno
    simp [process_boot_ui, hno] at h1
  simp only [process_boot_ui, hobj2, Bool.not_true, Bool.false_eq_true, if_false] at h1 hl
  obtain ⟨dev2, err2, h3, h4⟩ := key_loop_last_write
    (process_boot_ui_entry (ctx ++ "." ++ "boot_ui")) boot_ui_key
    (fun f k v dev err hf => process_boot_ui_entry_frame _ k v dev err f hf)
    w.members k v (hsub w hw) (mem_of_lookup _ _ _ hv2) none dev1 err1 h1
  rw [field_literal_congr f _ _ (h4 f hk)] at hl
  exact process_boot_ui_entry_literal _ k v dev2 err2 f hk h3 lit hl

/-! ## What a failed handler reports -/

theorem leads_to_has_path (path : List Segment) :
    ∀ (v x : Value), leads_to path v x → has_path path v = true := by
  induction path with
  | nil => intro v x _; rfl
  | cons s rest ih =>
    intro v x h
    cases s with
    | key k =>
      obtain ⟨w, hw, h2⟩ := h
      exact has_path_key k rest v w hw (ih w x h2)
    | index i =>
      obtain ⟨w, hw, h2⟩ := h
      exact has_path_index i rest v w hw (ih w x h2)

theorem string_of_type (x : Value) (h : x.type = ValueType.stringValue) :
    x = Value.string x.asString := by
  cases x <;> first | rfl | (simp [Value.type] at h)

/-- The element loop of `device_set_string_array` fails at an element that is not a
string, with the mismatch of that element's type at its index. -/
theorem string_array_loop_fault (context : String) (error : JsonError)
    (items : List Value) :
    ∀ (index : Nat) (array : List String) (E : JsonError),
      string_array_loop context error items index array = Except.error E →
      ∃ (j : Nat) (item : Value), items[j]? = some item
        ∧ item.type ≠ ValueType.stringValue
        ∧ E = mismatched_type_error error (element_context context (index + j))
            (json_type_to_string item.type) (json_type_to_string ValueType.stringValue) := by
  induction items with
  | nil => intro index array E h; simp [string_array_loop] at h
  | cons item rest ih =>
    intro index array E h
    by_cases hs : item.type = ValueType.stringValue
    · have hstep : string_array_loop context error (item :: rest) index array
          = string_array_loop context error rest (index + 1) (array ++ [item.asString]) := by
        simp [string_array_loop, Value.isString, hs]
      rw [hstep] at h
      obtain ⟨j, x, hx, hn, hE⟩ := ih _ _ _ h
      refine ⟨j + 1, x, by simpa using hx, hn, ?_⟩
      rw [hE, show index + 1 + j = index + (j + 1) by omega]
    · rw [string_array_loop_not_string _ _ _ _ _ _ hs, mismatched_type_at] at h
      refine ⟨0, item, by simp, hs, ?_⟩
      injection h with h
      rw [← h]
      rfl

theorem device_set_string_array_fault (setter : Device → List String → Device)
    (dev : Device) (node : Value) (ctx : String) (e : JsonError)
    (ht : node.type = ValueType.arrayValue)
    (h : (device_set_string_array setter dev node ctx e).ret = some false) :
    ∃ (j : Nat) (item : Value), node.items[j]? = some item
      ∧ item.type ≠ ValueType.stringValue
      ∧ (device_set_string_array setter dev node ctx e).error
          = mismatched_type_error e (element_context ctx j)
              (json_type_to_string item.type)
              (json_type_to_string ValueType.stringValue) := by
  unfold device_set_string_array at h ⊢
  simp only [Value.isArray, ht, decide_True, Bool.not_true, Bool.false_eq_true, if_false] at h ⊢
  cases hl : string_array_loop ctx e node.items 0 [] with
  | ok out => rw [hl] at h; simp at h
  | error E =>
    obtain ⟨j, x, hx, hn, hE⟩ := string_array_loop_fault ctx e node.items 0 [] E hl
    rw [Nat.zero_add] at hE
    exact ⟨j, x, hx, hn, hE⟩

/-- The bits of the names seen so far do not meet the bit of a name not yet seen. -/
theorem flags_loop_fault (table : List FlagMapping) (hok : FlagTableOK table)
    (context : String) (error : JsonError) (items : List Value) :
    ∀ (index flags : Nat) (seen : List String) (E : JsonError),
      (∀ s ∈ table_keys table, s ∉ seen → flag_of table s &&& flags = 0) →
      flags_loop table context error items index flags = Except.error E →
      ∃ (j : Nat) (item : Value), items[j]? = some item
        ∧ ((item.type ≠ ValueType.stringValue
            ∧ E = mismatched_type_error error (element_context context (index + j))
                (json_type_to_string item.type)
                (json_type_to_string ValueType.stringValue))
          ∨ (item.type = ValueType.stringValue
            ∧ (item.asString ∉ table_keys table ∨ item.asString ∈ seen
              ∨ ∃ i, i < j ∧ items[i]? = some (Value.string item.asString))
            ∧ E = unknown_value_error error (element_context context (index + j)))) := by
  induction items with
  | nil => intro index flags seen E _ h; simp [flags_loop] at h
  | cons item rest ih =>
    intro index flags seen E hinv h
    by_cases hs : item.type = ValueType.stringValue
    · by_cases hf : flags ||| flag_of table item.asString = flags
      · have hitem := string_of_type item hs
        rw [hitem, flags_loop_repeated _ _ _ _ _ _ _ hf, unknown_value_at] at h
        refine ⟨0, item, by simp, Or.inr ⟨hs, ?_, ?_⟩⟩
        · by_cases hk : item.asString ∈ table_keys table
          · by_cases hseen : item.asString ∈ seen
            · exact Or.inr (Or.inl hseen)
            · exact absurd hf (or_ne_self_of_disjoint flags _
                (hok.nonzero _ hk) (hinv _ hk hseen))
          · exact Or.inl hk
        · injection h with h
          rw [← h]
          rfl
      · have hstep : flags_loop table context error (item :: rest) index flags
            = flags_loop table context error rest (index + 1)
                (flags ||| flag_of table item.asString) := by
          simp [flags_loop, Value.isString, hs, flag_table_scan_eq, hf]
        rw [hstep] at h
        have hinv2 : ∀ s ∈ table_keys table, s ∉ item.asString :: seen →
            flag_of table s &&& (flags ||| flag_of table item.asString) = 0 := by
          intro s hk hns
          have h1 : s ≠ item.asString := fun he => hns (he ▸ List.mem_cons_self _ _)
          have h2 : s ∉ seen := fun hm => hns (List.mem_cons_of_mem _ hm)
          rw [Nat.and_or_distrib_left, hinv s hk h2]
          by_cases hk2 : item.asString ∈ table_keys table
          · rw [hok.disjoint s hk _ hk2 h1]
            rfl
          · rw [flag_of_unknown table _ hk2]
            simp
        obtain ⟨j, x, hx, hcase⟩ := ih (index + 1) _ (item.asString :: seen) E hinv2 h
        refine ⟨j + 1, x, by simpa using hx, ?_⟩
        rcases hcase with ⟨hn, hE⟩ | ⟨hxs, hname, hE⟩
        · exact Or.inl ⟨hn, by rw [hE, show index + 1 + j = index + (j + 1) by omega]⟩
        · refine Or.inr ⟨hxs, ?_, by rw [hE, show index + 1 + j = index + (j + 1) by omega]⟩
          rcases hname with hname | hname | ⟨i, hi, hxi⟩
          · exact Or.inl hname
          · rcases List.mem_cons.mp hname with heq | hmem
            · refine Or.inr (Or.inr ⟨0, by omega, ?_⟩)
              rw [heq, ← string_of_type item hs]
              simp
            · exact Or.inr (Or.inl hmem)
          · exact Or.inr (Or.inr ⟨i + 1, by omega, by simpa using hxi⟩)
    · rw [flags_loop_not_string _ _ _ _ _ _ _ hs, mismatched_type_at] at h
      refine ⟨0, item, by simp, Or.inl ⟨hs, ?_⟩⟩
      injection h with h
      rw [← h]
      rfl

theorem process_device_flags_fault (dev : Device) (node : Value) (ctx : String)
    (e : JsonError) (ht : node.type = ValueType.arrayValue)
    (h : (process_device_flags dev node ctx e).ret = some false) :
    ∃ (j : Nat) (item : Value), node.items[j]? = some item
      ∧ ((item.type ≠ ValueType.stringValue
          ∧ (process_device_flags dev node ctx e).error
              = mismatched_type_error e (element_context ctx j)
                  (json_type_to_string item.type)
                  (json_type_to_string ValueType.stringValue))
        ∨ (item.type = ValueType.stringValue
          ∧ (item.asString ∉ table_keys device_flag_mappings
            ∨ ∃ i, i < j ∧ node.items[i]? = some (Value.string item.asString))
          ∧ (process_device_flags dev node ctx e).error
              = unknown_value_error e (element_context ctx j))) := by
  unfold process_device_flags at h ⊢
  simp only [Value.isArray, ht, decide_True, Bool.not_true, Bool.false_eq_true, if_false] at h ⊢
  cases hl : flags_loop device_flag_mappings ctx e node.items 0 0 with
  | ok out => rw [hl] at h; simp at h
  | error E =>
    obtain ⟨j, x, hx, hcase⟩ := flags_loop_fault _ device_flag_table_ok ctx e node.items
      0 0 [] E (fun s _ _ => by simp) hl
    rw [Nat.zero_add] at hcase
    refine ⟨j, x, hx, ?_⟩
    rcases hcase with hc | ⟨h1, h2, h3⟩
    · exact Or.inl hc
    · refine Or.inr ⟨h1, ?_, h3⟩
      rcases h2 with h2 | h2 | h2
      · exact Or.inl h2
      · simp at h2
      · exact Or.inr h2

theorem process_boot_ui_flags_fault (dev : Device) (node : Value) (ctx : String)
    (e : JsonError) (ht : node.type = ValueType.arrayValue)
    (h : (process_boot_ui_flags dev node ctx e).ret = some false) :
    ∃ (j : Nat) (item : Value), node.items[j]? = some item
      ∧ ((item.type ≠ ValueType.stringValue
          ∧ (process_boot_ui_flags dev node ctx e).error
              = mismatched_type_error e (element_context ctx j)
                  (json_type_to_string item.type)
                  (json_type_to_string ValueType.stringValue))
        ∨ (item.type = ValueType.stringValue
          ∧ (item.asString ∉ table_keys tw_flag_mappings
            ∨ ∃ i, i < j ∧ node.items[i]? = some (Value.string item.asString))
          ∧ (process_boot_ui_flags dev node ctx e).error
              = unknown_value_error e (element_context ctx j))) := by
  unfold process_boot_ui_flags at h ⊢
  simp only [Value.isArray, ht, decide_True, Bool.not_true, Bool.false_eq_true, if_false] at h ⊢
  cases hl : flags_loop tw_flag_mappings ctx e node.items 0 0 with
  | ok out => rw [hl] at h; simp at h
  | error E =>
    obtain ⟨j, x, hx, hcase⟩ := flags_loop_fault _ tw_flag_table_ok ctx e node.items
      0 0 [] E (fun s _ _ => by simp) hl
    rw [Nat.zero_add] at hcase
    refine ⟨j, x, hx, ?_⟩
    rcases hcase with hc | ⟨h1, h2, h3⟩
    · exact Or.inl hc
    · refine Or.inr ⟨h1, ?_, h3⟩
      rcases h2 with h2 | h2 | h2
      · exact Or.inl h2
      · simp at h2
      · exact Or.inr h2

theorem process_boot_ui_pixel_format_fault (dev : Device) (node : Value)
    (ctx key : String) (e : JsonError) (ht : node.type = ValueType.stringValue)
    (h : (process_boot_ui_pixel_format dev node (ctx ++ "." ++ key) e).ret = some false) :
    node.asString ∉ tw_pxfmt_mappings.map (fun it => it.key)
    ∧ (process_boot_ui_pixel_format dev node (ctx ++ "." ++ key) e).error
        = unknown_value_error e (ctx ++ "." ++ key) := by
  unfold process_boot_ui_pixel_format at h ⊢
  simp only [Value.isString, ht, decide_True, Bool.not_true, Bool.false_eq_true, if_false] at h ⊢
  cases hs : tw_pxfmt_scan tw_pxfmt_mappings node.asString with
  | some p => rw [hs] at h; simp at h
  | none =>
    refine ⟨?_, by simp [unknown_value_sub]⟩
    rw [tw_pxfmt_scan_eq] at hs
    intro hmem
    simp only [tw_pxfmt_mappings, List.map_cons, List.map_nil, List.mem_cons,
      List.mem_singleton, List.not_mem_nil, or_false] at hmem
    rcases hmem with hm | hm | hm | hm | hm <;> simp [pixel_format_named, hm] at hs

theorem process_boot_ui_force_pixel_format_fault (dev : Device) (node : Value)
    (ctx key : String) (e : JsonError) (ht : node.type = ValueType.stringValue)
    (h : (process_boot_ui_force_pixel_format dev node (ctx ++ "." ++ key) e).ret
      = some false) :
    node.asString ∉ tw_force_pxfmt_mappings.map (fun it => it.key)
    ∧ (process_boot_ui_force_pixel_format dev node (ctx ++ "." ++ key) e).error
        = unknown_value_error e (ctx ++ "." ++ key) := by
  unfold process_boot_ui_force_pixel_format at h ⊢
  simp only [Value.isString, ht, decide_True, Bool.not_true, Bool.false_eq_true, if_false] at h ⊢
  cases hs : tw_force_pxfmt_scan tw_force_pxfmt_mappings node.asString with
  | some p => rw [hs] at h; simp at h
  | none =>
    refine ⟨?_, by simp [unknown_value_sub]⟩
    rw [tw_force_pxfmt_scan_eq] at hs
    intro hmem
    simp only [tw_force_pxfmt_mappings, List.map_cons, List.map_nil, List.mem_cons,
      List.mem_singleton, List.not_mem_nil, or_false] at hmem
    rcases hmem with hm | hm <;> simp [force_pixel_format_named, hm] at hs

/-! ## The node that a failed decoding points to -/

theorem context_at_key_key (ctx a b : String) :
    context_at ctx [Segment.key a, Segment.key b] = ctx ++ "." ++ a ++ "." ++ b := by
  simp [context_at_cons, render_path, Segment.render, String.append_assoc]

theorem context_at_key_index (ctx a : String) (j : Nat) :
    context_at ctx [Segment.key a, Segment.index j] = element_context (ctx ++ "." ++ a) j := by
  simp [context_at_cons, render_path, Segment.render, element_context, String.append_assoc]

theorem context_at_key_key_index (ctx a b : String) (j : Nat) :
    context_at ctx [Segment.key a, Segment.key b, Segment.index j]
      = element_context (ctx ++ "." ++ a ++ "." ++ b) j := by
  simp [context_at_cons, render_path, Segment.render, element_context, String.append_assoc]

/-- The key loop returns false with the error of a member that its body rejects, the
members before it leaving the error record as it was. -/
theorem key_loop_fault (entry : String → Value → Device → JsonError → Outcome)
    (D : JsonError → JsonError → Prop) (ms : List (String × Value))
    (hok : ∀ m ∈ ms, ∀ dev e, (entry m.1 m.2 dev e).ret = some true →
      (entry m.1 m.2 dev e).error = e)
    (hbad : ∀ m ∈ ms, ∀ dev e, (entry m.1 m.2 dev e).ret = some false →
      D e (entry m.1 m.2 dev e).error) :
    ∀ (ret0 : Option Bool) (dev : Device) (e : JsonError), ret0 ≠ some false →
      (key_loop entry ms ret0 dev e).ret = some false →
      D e (key_loop entry ms ret0 dev e).error := by
  induction ms with
  | nil => intro ret0 dev e h0 h; exact absurd h h0
  | cons m rest ih =>
    intro ret0 dev e _ h
    obtain ⟨k, v⟩ := m
    by_cases hy : (entry k v dev e).ret = some true
    · rw [key_loop_cons_ok _ _ _ _ _ _ _ hy] at h ⊢
      rw [hok (k, v) (List.mem_cons_self _ _) dev e hy] at h ⊢
      exact ih (fun m hm => hok m (List.mem_cons_of_mem _ hm))
        (fun m hm => hbad m (List.mem_cons_of_mem _ hm)) (some true) _ e (by simp) h
    · rw [key_loop_cons_stop _ _ _ _ _ _ _ hy] at h ⊢
      exact hbad (k, v) (List.mem_cons_self _ _) dev e h

theorem level_entry_error_ok (level : Level) (ctx k : String) (v : Value) (dev : Device)
    (e : JsonError) (h : (level.entry ctx k v dev e).ret = some true) :
    (level.entry ctx k v dev e).error = e :=
  uniform_error_of_not_false _ _ (level_entry_uniform level k v) dev ctx e
    (by rw [h]; simp)

theorem block_devs_key_type (k : String) (hk : k ∈ block_devs_keys) :
    (k, ValueType.arrayValue) ∈ block_devs_schema
    ∧ block_devs_schema.lookup k = some ValueType.arrayValue := by
  simp only [block_devs_keys, List.mem_cons, List.mem_singleton, List.not_mem_nil, or_false] at hk
  rcases hk with rfl | rfl | rfl | rfl | rfl | rfl | rfl <;> exact ⟨by decide, by decide⟩

theorem schema_mem_of_lookup (schema : List (String × ValueType)) (k : String)
    (t : ValueType) (h : schema.lookup k = some t) : (k, t) ∈ schema := by
  induction schema with
  | nil => simp at h
  | cons m rest ih =>
    obtain ⟨k0, t0⟩ := m
    by_cases hk : k = k0
    · subst hk
      simp at h
      rw [h]
      exact List.mem_cons_self _ _
    · have hb : (k == k0) = false := by simpa using hk
      have h2 : rest.lookup k = some t := by
        rw [List.lookup_cons, hb] at h
        exact h
      exact List.mem_cons_of_mem _ (ih h2)

theorem boot_ui_key_type (k : String) (hk : k ∈ boot_ui_keys) :
    ∃ t, (k, t) ∈ boot_ui_schema ∧ boot_ui_schema.lookup k = some t := by
  have h : (boot_ui_schema.lookup k).isSome = true := by
    simp only [boot_ui_keys, List.mem_cons, List.mem_singleton, List.not_mem_nil, or_false] at hk
    rcases hk with rfl | rfl | rfl | rfl | rfl | rfl | rfl | rfl | rfl | rfl | rfl | rfl | rfl | rfl | rfl | rfl | rfl <;>
      decide
  obtain ⟨t, ht⟩ := Option.isSome_iff_exists.mp h
  exact ⟨t, schema_mem_of_lookup _ _ _ ht, ht⟩

theorem device_key_type (k : String) (hk : k ∈ device_keys) :
    ∃ t, (k, t) ∈ device_schema ∧ device_schema.lookup k = some t := by
  have h : (device_schema.lookup k).isSome = true := by
    simp only [device_keys, List.mem_cons, List.mem_singleton, List.not_mem_nil, or_false] at hk
    rcases hk with rfl | rfl | rfl | rfl | rfl | rfl | rfl <;> decide
  obtain ⟨t, ht⟩ := Option.isSome_iff_exists.mp h
  exact ⟨t, schema_mem_of_lookup _ _ _ ht, ht⟩

theorem leads_to_index (q : List Segment) :
    ∀ (root v item : Value) (j : Nat), leads_to q root v → v.items[j]? = some item →
      leads_to (q ++ [Segment.index j]) root item := by
  induction q with
  | nil =>
    intro root v item j h hx
    have hv : v = root := h
    rw [hv] at hx
    exact ⟨item, hx, rfl⟩
  | cons s rest ih =>
    intro root v item j h hx
    cases s with
    | key k =>
      obtain ⟨w, hw, h2⟩ := h
      exact ⟨w, hw, ih w v item j h2 hx⟩
    | index i =>
      obtain ⟨w, hw, h2⟩ := h
      exact ⟨w, hw, ih w v item j h2 hx⟩

/-- An array of strings with an element that is not a string: the error describes
that element. -/
theorem string_array_offending (root v : Value) (q : List Segment) (hq : leads_to q root v)
    (hexp : ∀ j, expected_at (q ++ [Segment.index j]) = some ValueType.stringValue)
    (ctx c : String) (hctx : ∀ j, element_context c j = context_at ctx (q ++ [Segment.index j]))
    (e err : JsonError)
    (hfault : ∃ (j : Nat) (item : Value), v.items[j]? = some item
      ∧ item.type ≠ ValueType.stringValue
      ∧ err = mismatched_type_error e (element_context c j)
          (json_type_to_string item.type) (json_type_to_string ValueType.stringValue)) :
    ∃ (path : List Segment) (x : Value), leads_to path root x
      ∧ Offending root path x e (context_at ctx path) err := by
  obtain ⟨j, item, hx, hn, hE⟩ := hfault
  refine ⟨q ++ [Segment.index j], item, leads_to_index q root v item j hq hx,
    Or.inl ⟨ValueType.stringValue, hexp j, hn, ?_⟩⟩
  rw [hE, hctx]

/-- A flags array with an element that is rejected: the error describes that element. -/
theorem flags_offending (root v : Value) (q : List Segment) (hq : leads_to q root v)
    (names : List String)
    (hexp : ∀ j, expected_at (q ++ [Segment.index j]) = some ValueType.stringValue)
    (hnames : ∀ j, names_at (q ++ [Segment.index j]) = some names)
    (ctx c : String) (hctx : ∀ j, element_context c j = context_at ctx (q ++ [Segment.index j]))
    (e err : JsonError)
    (hfault : ∃ (j : Nat) (item : Value), v.items[j]? = some item
      ∧ ((item.type ≠ ValueType.stringValue
          ∧ err = mismatched_type_error e (element_context c j)
              (json_type_to_string item.type) (json_type_to_string ValueType.stringValue))
        ∨ (item.type = ValueType.stringValue
          ∧ (item.asString ∉ names
            ∨ ∃ i, i < j ∧ v.items[i]? = some (Value.string item.asString))
          ∧ err = unknown_value_error e (element_context c j)))) :
    ∃ (path : List Segment) (x : Value), leads_to path root x
      ∧ Offending root path x e (context_at ctx path) err := by
  obtain ⟨j, item, hx, hcase⟩ := hfault
  refine ⟨q ++ [Segment.index j], item, leads_to_index q root v item j hq hx, ?_⟩
  rcases hcase with ⟨hn, hE⟩ | ⟨hs, hname, hE⟩
  · exact Or.inl ⟨ValueType.stringValue, hexp j, hn, by rw [hE, hctx]⟩
  · refine Or.inr (Or.inr ⟨names, hnames j, hs, ?_, by rw [hE, hctx]⟩)
    rcases hname with hname | ⟨i, hi, hxi⟩
    · exact Or.inl hname
    · exact Or.inr ⟨q, j, v, i, rfl, hq, hi, hxi⟩

/-- A member of `block_devs` that the loop body rejects: the error describes the node
it points to. -/
theorem block_devs_entry_offending (root w : Value) (hw : ("block_devs", w) ∈ root.members)
    (ctx k : String) (v : Value) (hm : (k, v) ∈ w.members) (dev : Device) (e : JsonError)
    (h : (process_block_devs_entry (ctx ++ "." ++ "block_devs") k v dev e).ret
      = some false) :
    ∃ (path : List Segment) (x : Value), leads_to path root x
      ∧ Offending root path x e (context_at ctx path)
          (process_block_devs_entry (ctx ++ "." ++ "block_devs") k v dev e).error := by
  have hq : leads_to [Segment.key "block_devs", Segment.key k] root v := ⟨w, hw, v, hm, rfl⟩
  by_cases hk : k ∈ block_devs_keys
  · obtain ⟨hs, hl⟩ := block_devs_key_type k hk
    by_cases ht : v.type = ValueType.arrayValue
    · have hd : ∃ setter, process_block_devs_entry (ctx ++ "." ++ "block_devs") k v dev e
          = device_set_string_array setter dev v (ctx ++ "." ++ "block_devs" ++ "." ++ k)
              e := by
        simp only [block_devs_keys, List.mem_cons, List.mem_singleton, List.not_mem_nil,
          or_false] at hk
        rcases hk with rfl | rfl | rfl | rfl | rfl | rfl | rfl
        · exact ⟨_, block_devs_entry_base_dirs _ _ _ _⟩
        · exact ⟨_, block_devs_entry_system _ _ _ _⟩
        · exact ⟨_, block_devs_entry_cache _ _ _ _⟩
        · exact ⟨_, block_devs_entry_data _ _ _ _⟩
        · exact ⟨_, block_devs_entry_boot _ _ _ _⟩
        · exact ⟨_, block_devs_entry_recovery _ _ _ _⟩
        · exact ⟨_, block_devs_entry_extra _ _ _ _⟩
      obtain ⟨setter, hd⟩ := hd
      rw [hd] at h ⊢
      exact string_array_offending root v _ hq (fun j => by simp [expected_at, hl]) ctx _
        (fun j => (context_at_key_key_index ctx "block_devs" k j).symm) e _
        (device_set_string_array_fault _ _ _ _ _ ht h)
    · rw [block_devs_entry_mismatch _ _ _ _ _ _ hs ht]
      refine ⟨_, v, hq, Or.inl ⟨ValueType.arrayValue, ?_, ht, ?_⟩⟩
      · simp [expected_at, hl]
      · rw [context_at_key_key]
  · rw [block_devs_entry_unknown _ _ _ _ _ hk]
    refine ⟨_, v, hq,
      Or.inr (Or.inl ⟨[Segment.key "block_devs"], k, block_devs_keys, rfl, ?_, hk, ?_⟩)⟩
    · simp [keys_at]
    · rw [context_at_key_key]

/-- A member of `boot_ui` that the loop body rejects: the error describes the node it
points to. -/
theorem boot_ui_entry_offending (root w : Value) (hw : ("boot_ui", w) ∈ root.members)
    (ctx k : String) (v : Value) (hm : (k, v) ∈ w.members) (dev : Device) (e : JsonError)
    (h : (process_boot_ui_entry (ctx ++ "." ++ "boot_ui") k v dev e).ret = some false) :
    ∃ (path : List Segment) (x : Value), leads_to path root x
      ∧ Offending root path x e (context_at ctx path)
          (process_boot_ui_entry (ctx ++ "." ++ "boot_ui") k v dev e).error := by
  have hq : leads_to [Segment.key "boot_ui", Segment.key k] root v := ⟨w, hw, v, hm, rfl⟩
  by_cases hk : k ∈ boot_ui_keys
  · obtain ⟨t, hs, hl⟩ := boot_ui_key_type k hk
    by_cases ht : v.type = t
    · simp only [boot_ui_schema, List.mem_cons, List.mem_singleton, List.not_mem_nil,
        or_false, Prod.mk.injEq] at hs
      rcases hs with ⟨hk2, he⟩ | ⟨hk2, he⟩ | ⟨hk2, he⟩ | ⟨hk2, he⟩ | ⟨hk2, he⟩ | ⟨hk2, he⟩ |
        ⟨hk2, he⟩ | ⟨hk2, he⟩ | ⟨hk2, he⟩ | ⟨hk2, he⟩ | ⟨hk2, he⟩ | ⟨hk2, he⟩ | ⟨hk2, he⟩ |
        ⟨hk2, he⟩ | ⟨hk2, he⟩ | ⟨hk2, he⟩ | ⟨hk2, he⟩
      all_goals subst hk2
      all_goals subst he
      · simp [device_set_boolean, Value.isBool, ht] at h
      · rw [boot_ui_entry_flags] at h ⊢
        exact flags_offending root v _ hq (table_keys tw_flag_mappings)
          (fun j => by simp [expected_at, hl]) (fun j => by simp [names_at]) ctx _
          (fun j => (context_at_key_key_index ctx "boot_ui" "flags" j).symm) e _
          (process_boot_ui_flags_fault _ _ _ _ ht h)
      · rw [boot_ui_entry_pixel_format] at h ⊢
        obtain ⟨hname, hE⟩ := process_boot_ui_pixel_format_fault _ _ _ _ _ ht h
        refine ⟨_, v, hq, Or.inr (Or.inr ⟨_, ?_, ht, Or.inl hname, ?_⟩)⟩
        · simp [names_at]
        · rw [hE, context_at_key_key]
      · rw [boot_ui_entry_force_pixel_format] at h ⊢
        obtain ⟨hname, hE⟩ := process_boot_ui_force_pixel_format_fault _ _ _ _ _ ht h
        refine ⟨_, v, hq, Or.inr (Or.inr ⟨_, ?_, ht, Or.inl hname, ?_⟩)⟩
        · simp [names_at]
        · rw [hE, context_at_key_key]
      · simp [device_set_int, Value.isInt, ht] at h
      · simp [device_set_int, Value.isInt, ht] at h
      · simp [device_set_int, Value.isInt, ht] at h
      · simp [device_set_string, Value.isString, ht] at h
      · simp [device_set_string, Value.isString, ht] at h
      · simp [device_set_int, Value.isInt, ht] at h
      · simp [device_set_int, Value.isInt, ht] at h
      · simp [device_set_string, Value.isString, ht] at h
      · simp [device_set_string, Value.isString, ht] at h
      · simp [device_set_string, Value.isString, ht] at h
      · simp [device_set_string, Value.isString, ht] at h
      · rw [boot_ui_entry_graphics_backends] at h ⊢
        exact string_array_offending root v _ hq (fun j => by simp [expected_at, hl]) ctx _
          (fun j => (context_at_key_key_index ctx "boot_ui" "graphics_backends" j).symm) e _
          (device_set_string_array_fault _ _ _ _ _ ht h)
      · simp [device_set_string, Value.isString, ht] at h
    · rw [boot_ui_entry_mismatch _ _ _ _ _ _ hs ht]
      refine ⟨_, v, hq, Or.inl ⟨t, ?_, ht, ?_⟩⟩
      · simp [expected_at, hl]
      · rw [context_at_key_key]
  · rw [boot_ui_entry_unknown _ _ _ _ _ hk]
    refine ⟨_, v, hq,
      Or.inr (Or.inl ⟨[Segment.key "boot_ui"], k, boot_ui_keys, rfl, ?_, hk, ?_⟩)⟩
    · simp [keys_at]
    · rw [context_at_key_key]

/-- A member of a device object that the loop body rejects: the error describes the
node it points to, in the member or below it. -/
theorem device_entry_offending (root : Value) (ctx k : String) (v : Value)
    (hm : (k, v) ∈ root.members) (dev : Device) (e : JsonError)
    (h : (process_device_entry ctx k v dev e).ret = some false) :
    ∃ (path : List Segment) (x : Value), leads_to path root x
      ∧ Offending root path x e (context_at ctx path)
          (process_device_entry ctx k v dev e).error := by
  have hq : leads_to [Segment.key k] root v := ⟨v, hm, rfl⟩
  by_cases hk : k ∈ device_keys
  · obtain ⟨t, hs, hl⟩ := device_key_type k hk
    by_cases ht : v.type = t
    · have hobj : t = ValueType.objectValue → v.isObject = true := by
        intro h1
        simp [Value.isObject, ht, h1]
      simp only [device_schema, List.mem_cons, List.mem_singleton, List.not_mem_nil,
        or_false, Prod.mk.injEq] at hs
      rcases hs with ⟨hk2, he⟩ | ⟨hk2, he⟩ | ⟨hk2, he⟩ | ⟨hk2, he⟩ | ⟨hk2, he⟩ | ⟨hk2, he⟩ |
        ⟨hk2, he⟩
      all_goals subst hk2
      all_goals subst he
      · simp [device_set_string, Value.isString, ht] at h
      · simp [device_set_string, Value.isString, ht] at h
      · rw [device_entry_codenames] at h ⊢
        exact string_array_offending root v _ hq (fun j => by simp [expected_at, hl]) ctx _
          (fun j => (context_at_key_index ctx "codenames" j).symm) e _
          (device_set_string_array_fault _ _ _ _ _ ht h)
      · simp [device_set_string, Value.isString, ht] at h
      · rw [device_entry_flags] at h ⊢
        exact flags_offending root v _ hq (table_keys device_flag_mappings)
          (fun j => by simp [expected_at, hl]) (fun j => by simp [names_at]) ctx _
          (fun j => (context_at_key_index ctx "flags" j).symm) e _
          (process_device_flags_fault _ _ _ _ ht h)
      · rw [device_entry_block_devs] at h ⊢
        have ho := hobj rfl
        simp only [process_block_devs, ho, Bool.not_true, Bool.false_eq_true, if_false] at h ⊢
        exact key_loop_fault _
          (fun e0 err => ∃ (path : List Segment) (x : Value), leads_to path root x
            ∧ Offending root path x e0 (context_at ctx path) err)
          v.members
          (fun m _ d e0 hr => level_entry_error_ok Level.block_devs _ m.1 m.2 d e0 hr)
          (fun m hm2 d e0 hr => block_devs_entry_offending root v hm ctx m.1 m.2 hm2 d e0 hr)
          none dev e (by simp) h
      · rw [device_entry_boot_ui] at h ⊢
        have ho := hobj rfl
        simp only [process_boot_ui, ho, Bool.not_true, Bool.false_eq_true, if_false] at h ⊢
        exact key_loop_fault _
          (fun e0 err => ∃ (path : List Segment) (x : Value), leads_to path root x
            ∧ Offending root path x e0 (context_at ctx path) err)
          v.members
          (fun m _ d e0 hr => level_entry_error_ok Level.boot_ui _ m.1 m.2 d e0 hr)
          (fun m hm2 d e0 hr => boot_ui_entry_offending root v hm ctx m.1 m.2 hm2 d e0 hr)
          none dev e (by simp) h
    · rw [device_entry_mismatch _ _ _ _ _ _ hs ht]
      refine ⟨_, v, hq, Or.inl ⟨t, ?_, ht, ?_⟩⟩
      · simp [expected_at, hl]
      · rw [context_at_key_nil]
  · rw [device_entry_unknown _ _ _ _ _ hk]
    refine ⟨_, v, hq, Or.inr (Or.inl ⟨[], k, device_keys, rfl, rfl, hk, ?_⟩)⟩
    rw [context_at_key_nil]

/-- A device object that is rejected: the error describes the node it points to. -/
theorem process_device_offending (root : Value) (dev : Device) (ctx : String)
    (e : JsonError) (h : (process_device dev root ctx e).ret = some false) :
    ∃ (path : List Segment) (x : Value), leads_to path root x
      ∧ Offending root path x e (context_at ctx path) (process_device dev root ctx e).error := by
  by_cases ho : root.isObject = true
  · simp only [process_device, ho, Bool.not_true, Bool.false_eq_true, if_false] at h ⊢
    exact key_loop_fault _
      (fun e0 err => ∃ (path : List Segment) (x : Value), leads_to path root x
        ∧ Offending root path x e0 (context_at ctx path) err)
      root.members
      (fun m _ d e0 hr => level_entry_error_ok Level.device ctx m.1 m.2 d e0 hr)
      (fun m hm d e0 hr => device_entry_offending root ctx m.1 m.2 hm d e0 hr)
      none dev e (by simp) h
  · have ht : root.type ≠ ValueType.objectValue := by simpa [Value.isObject] using ho
    refine ⟨[], root, rfl, Or.inl ⟨ValueType.objectValue, rfl, ht, ?_⟩⟩
    simp [process_device, ho, json_error_set_mismatched_type, mismatched_type_error,
      context_at_nil]

/-- The element loop of the list decoder returns false at an element that is rejected,
with an error that describes the node it points to in that element. -/
theorem device_list_loop_offending (items : List Value) :
    ∀ (index : Nat) (devices : List Device) (error : JsonError),
      (device_list_loop items index devices error).ret = some false →
      ∃ (j : Nat) (item : Value) (path : List Segment) (x : Value),
        items[j]? = some item ∧ leads_to path item x
        ∧ Offending item path x error (render_path (Segment.index (index + j) :: path))
            (device_list_loop items index devices error).error := by
  induction items with
  | nil => intro index devices error h; simp [device_list_loop] at h
  | cons item rest ih =>
    intro index devices error h
    cases hr : (process_device Device.ctor item ("[" ++ toString index ++ "]") error).ret with
    | none => simp [device_list_loop, hr] at h
    | some b =>
      cases b with
      | true =>
        have he : (process_device Device.ctor item ("[" ++ toString index ++ "]")
            error).error = error :=
          uniform_error_of_not_false _ _ (process_device_uniform item) _ _ _
            (by rw [hr]; simp)
        simp only [device_list_loop, hr, he] at h ⊢
        obtain ⟨j, x0, path, x, hx, hl, ho⟩ := ih _ _ _ h
        refine ⟨j + 1, x0, path, x, by simpa using hx, hl, ?_⟩
        rw [show index + (j + 1) = index + 1 + j by omega]
        exact ho
      | false =>
        obtain ⟨path, x, hl, ho⟩ := process_device_offending item Device.ctor _ error hr
        refine ⟨0, item, path, x, by simp, hl, ?_⟩
        simp only [device_list_loop, hr, Nat.add_zero]
        rw [← index_context_eq]
        exact ho

theorem offending_context (root : Value) (path : List Segment) (x : Value)
    (error : JsonError) (context : String) (result : JsonError)
    (h : Offending root path x error context result) : result.context = context := by
  rcases h with ⟨_, _, _, h⟩ | ⟨_, _, _, _, _, _, h⟩ | ⟨_, _, _, _, h⟩ <;> rw [h] <;> rfl

/-! ## The list decoder -/

/-- C11: a parsed root that is not an array makes `device_list_from_json` fail with
`MISMATCHED_TYPE`, context `.`, expected type `array` and the root's type name as actual
type; the vector is left as it was. -/
theorem list_root_not_array (root : Value) (devices : List Device) (error : JsonError)
    (h : root.type ≠ ValueType.arrayValue) :
    device_list_from_json (ParseResult.ok root) devices error =
      ⟨some false, devices,
        mismatched_type_error error "." (json_type_to_string root.type) "array"⟩ := by
  simp [device_list_from_json, Value.isArray, h, json_error_set_mismatched_type,
    json_type_to_string, mismatched_type_error]

/-- C11 on the single object `sample_complete` of the test `LoadMultiple`: the actual
type is `object`. -/
theorem list_root_not_array_witness :
    sample_complete.type ≠ ValueType.arrayValue
    ∧ device_list_from_json (ParseResult.ok sample_complete) [] error0 =
      ⟨some false, [], mismatched_type_error error0 "." "object" "array"⟩ :=
  ⟨by decide, list_root_not_array sample_complete [] error0 (by decide)⟩

/-- C12: on an array whose elements each decode successfully on their own,
`device_list_from_json` called with an empty vector returns true and leaves in the
vector, in array order, the devices that the elements decode to when each is decoded
alone by `device_from_json` into a default-constructed `Device`; the error record is
left as it was. -/
theorem list_decoding_agrees (items : List Value) (error : JsonError)
    (hok : ∀ x ∈ items,
      (device_from_json (ParseResult.ok x) Device.ctor error).ret = some true) :
    device_list_from_json (ParseResult.ok (Value.array items)) [] error =
      ⟨some true,
        items.map (fun x => (device_from_json (ParseResult.ok x) Device.ctor error).device),
        error⟩ := by
  have h := device_list_loop_append items [] error hok 0 [] error
  simp only [List.append_nil, List.nil_append, device_list_loop] at h
  simpa [device_list_from_json, Value.isArray, Value.type, Value.items] using h

/-- C12 on `sample_multiple` of the test `LoadMultiple`: two devices, with the ids
`test1` and `test2` in this order. -/
theorem list_decoding_agrees_witness :
    (∀ x ∈ sample_multiple.items,
      (device_from_json (ParseResult.ok x) Device.ctor error0).ret = some true)
    ∧ device_list_from_json (ParseResult.ok (Value.array sample_multiple.items)) [] error0 =
      ⟨some true,
        sample_multiple.items.map
          (fun x => (device_from_json (ParseResult.ok x) Device.ctor error0).device),
        error0⟩
    ∧ (device_list_from_json (ParseResult.ok sample_multiple) [] error0).devices.map Device.id
      = ["test1", "test2"] :=
  ⟨by decide, list_decoding_agrees sample_multiple.items error0 (by decide), by decide⟩

/-- C13: when the elements before element `i` of the array each decode successfully on
their own and element `i` fails on its own, `device_list_from_json` returns false with
the error record of element `i`, in which the context is `[i]` followed by the path of
the error inside the element: the empty path exactly when the element is not an object
(decoded alone, its context is then `.`), and otherwise the path that is its context
when decoded alone. The elements after `i` have no influence on the outcome; the devices
of the elements before `i` have been added to the vector. -/
theorem list_element_error (pre post : List Value) (x : Value) (devices : List Device)
    (error : JsonError)
    (hpre : ∀ y ∈ pre,
      (device_from_json (ParseResult.ok y) Device.ctor error).ret = some true)
    (hx : (device_from_json (ParseResult.ok x) Device.ctor error).ret = some false) :
    ∃ path : List Segment,
      has_path path x = true
      ∧ (path = [] ↔ x.type ≠ ValueType.objectValue)
      ∧ (device_from_json (ParseResult.ok x) Device.ctor error).error.context
          = (if path = [] then "." else render_path path)
      ∧ device_list_from_json (ParseResult.ok (Value.array (pre ++ x :: post))) devices error
          = ⟨some false,
              devices ++ pre.map
                (fun y => (device_from_json (ParseResult.ok y) Device.ctor error).device),
              { (device_from_json (ParseResult.ok x) Device.ctor error).error with
                context := render_path (Segment.index pre.length :: path) }⟩ := by
  obtain ⟨path, ⟨hp1, hp2⟩, hp3⟩ :=
    uniform_error_context _ _ (process_device_uniform x) Device.ctor error hx
  refine ⟨path, hp1, hp2, ?_, ?_⟩
  · have h := hp3 Device.ctor ""
    have h2 := congrArg JsonError.context h
    simp only [context_at_empty] at h2
    exact h2
  · have h := device_list_loop_append pre (x :: post) error hpre 0 devices error
    rw [device_list_loop_fail x post error hx, hp3, index_context_eq] at h
    simpa [device_list_from_json, Value.isArray, Value.type, Value.items] using h

/-- C13 on `[{"id": "a"}, {"foo": 1}, 5]`: the error is `UNKNOWN_KEY` at `[1].foo`;
and the contexts `[0].boot_ui.flags[2]` and `[1]` on two further arrays. -/
theorem list_element_error_witness :
    (∀ y ∈ [Value.object [("id", Value.string "a")]],
      (device_from_json (ParseResult.ok y) Device.ctor error0).ret = some true)
    ∧ (device_from_json (ParseResult.ok (Value.object [("foo", Value.int 1)]))
        Device.ctor error0).ret = some false
    ∧ (∃ path : List Segment,
      has_path path (Value.object [("foo", Value.int 1)]) = true
      ∧ (path = [] ↔ (Value.object [("foo", Value.int 1)]).type ≠ ValueType.objectValue)
      ∧ (device_from_json (ParseResult.ok (Value.object [("foo", Value.int 1)]))
          Device.ctor error0).error.context = (if path = [] then "." else render_path path)
      ∧ device_list_from_json
          (ParseResult.ok (Value.array ([Value.object [("id", Value.string "a")]]
            ++ Value.object [("foo", Value.int 1)] :: [Value.int 5]))) [] error0
          = ⟨some false,
              [] ++ [Value.object [("id", Value.string "a")]].map
                (fun y => (device_from_json (ParseResult.ok y) Device.ctor error0).device),
              { (device_from_json (ParseResult.ok (Value.object [("foo", Value.int 1)]))
                  Device.ctor error0).error with
                context := render_path
                  (Segment.index [Value.object [("id", Value.string "a")]].length :: path) }⟩)
    ∧ device_list_from_json
        (ParseResult.ok (Value.array [Value.object [("id", Value.string "a")],
          Value.object [("foo", Value.int 1)], Value.int 5])) [] error0
        = ⟨some false, [Device.ctor.set_id "a"], unknown_key_error error0 "[1].foo"⟩
    ∧ (device_list_from_json
        (ParseResult.ok (Value.array [Value.object [("boot_ui", Value.object [("flags",
          Value.array [Value.string "TW_NO_CPU_TEMP", Value.string "TW_ROUND_SCREEN",
            Value.int 3])])]])) [] error0).error.context = "[0].boot_ui.flags[2]"
    ∧ (device_list_from_json
        (ParseResult.ok (Value.array [Value.object [("id", Value.string "a")],
          Value.string "b"])) [] error0).error.context = "[1]" :=
  ⟨by decide, by decide,
    list_element_error [Value.object [("id", Value.string "a")]] [Value.int 5]
      (Value.object [("foo", Value.int 1)]) [] error0 (by decide) (by decide),
    by decide, by decide, by decide⟩

/-- C14: when the parser rejects the text, `device_from_json` and
`device_list_from_json` return false with error type `PARSE_ERROR` and the parser's
message as `parser_msg`; the device, the vector and the other fields of the error
record, the context among them, are left as they were. -/
theorem parse_failure (msg : String) (device : Device) (devices : List Device)
    (error : JsonError) :
    device_from_json (ParseResult.syntaxError msg) device error
      = ⟨some false, device,
          { error with type := JsonErrorType.PARSE_ERROR, parser_msg := msg }⟩
    ∧ device_list_from_json (ParseResult.syntaxError msg) devices error
      = ⟨some false, devices,
          { error with type := JsonErrorType.PARSE_ERROR, parser_msg := msg }⟩ :=
  ⟨rfl, rfl⟩

/-- C16: in the object decoded at any of the three levels, when the members before a
member are accepted by the loop body and that member is rejected, the decoding returns
false with the error that the body records for that member, whatever the device it is
given; the members after it have no influence on the outcome. At the top level the body
hands `block_devs` and `boot_ui` to the nested decoders and returns their outcome as it
is. -/
theorem fail_fast (level : Level) (pre post : List (String × Value)) (key : String)
    (val : Value) (device : Device) (context : String) (error : JsonError)
    (hpre : ∀ m ∈ pre, (level.entry context m.1 m.2 Device.ctor error0).ret = some true)
    (hbad : (level.entry context key val Device.ctor error0).ret = some false) :
    (level.process device (Value.object (pre ++ (key, val) :: post)) context error).ret
      = some false
    ∧ (∀ dev : Device,
        (level.process device (Value.object (pre ++ (key, val) :: post)) context error).error
          = (level.entry context key val dev error).error)
    ∧ level.process device (Value.object (pre ++ (key, val) :: post)) context error
        = level.process device (Value.object (pre ++ [(key, val)])) context error
    ∧ (∀ (dev : Device) (e : JsonError),
        process_device_entry context "block_devs" val dev e
          = process_block_devs dev val (context ++ ".block_devs") e)
    ∧ (∀ (dev : Device) (e : JsonError),
        process_device_entry context "boot_ui" val dev e
          = process_boot_ui dev val (context ++ ".boot_ui") e) := by
  have hb : (level.entry context key val Device.ctor error0).ret ≠ some true := by
    rw [hbad]; simp
  have h1 := key_loop_fail_fast _ level.entry (level_entry_uniform level) context pre post
    key val Device.ctor error0 hpre hb none device error
  have h2 := key_loop_fail_fast _ level.entry (level_entry_uniform level) context pre []
    key val Device.ctor error0 hpre hb none device error
  rw [level_process_object, level_process_object, h1, h2]
  refine ⟨?_, ?_, rfl, ?_, ?_⟩
  · rw [← hbad]
    exact uniform_ret _ _ (level_entry_uniform level key val) _ _ _ _ _ _
  · intro dev
    exact uniform_error _ _ (level_entry_uniform level key val) _ _ _ _
  · intro dev e
    simp [String.append_assoc]
  · intro dev e
    simp [String.append_assoc]

/-- C16 on `{"id": "x", "name": 1, "foo": null}`: the error is the type mismatch at
`.name`, not the unknown key `foo`; and on `{"boot_ui": {"theme": 1}, "foo": null}` the
error is the one raised inside `boot_ui`. -/
theorem fail_fast_witness :
    (∀ m ∈ [("id", Value.string "x")],
      (Level.device.entry "" m.1 m.2 Device.ctor error0).ret = some true)
    ∧ (Level.device.entry "" "name" (Value.int 1) Device.ctor error0).ret = some false
    ∧ (Level.device.process Device.ctor
        (Value.object ([("id", Value.string "x")] ++ ("name", Value.int 1)
          :: [("foo", Value.null)])) "" error0).ret = some false
    ∧ process_device Device.ctor
        (Value.object [("id", Value.string "x"), ("name", Value.int 1), ("foo", Value.null)])
        "" error0
        = ⟨some false, Device.ctor.set_id "x",
            mismatched_type_error error0 ".name" "integer" "string"⟩
    ∧ process_device Device.ctor
        (Value.object [("boot_ui", Value.object [("theme", Value.int 1)]),
          ("foo", Value.null)]) "" error0
        = ⟨some false, Device.ctor,
            mismatched_type_error error0 ".boot_ui.theme" "integer" "string"⟩ :=
  ⟨by decide, by decide,
    (fail_fast Level.device [("id", Value.string "x")] [("foo", Value.null)] "name"
      (Value.int 1) Device.ctor "" error0 (by decide) (by decide)).1,
    by decide, by decide⟩

/-- C17: every error other than a parse error with which `device_from_json` or
`device_list_from_json` returns false comes from a successfully parsed root and has a
non-empty context: `.` for the root itself, and otherwise the concatenation of the
segments, `.key` for a member and `[i]` for an element, of a path that leads from the
root down to the offending node `x`, which the error record describes. For
`device_from_json` the record is the mismatch of the type of `x` with the type that the
schema expects at the path, or the unknown key with which the path ends, or the unknown
value of the string `x` where a table name is expected. For `device_list_from_json` the
path is empty for a root that is not an array, the record being the mismatch of its
type with `array`, and otherwise starts with the index of an element and goes on with
the path to the offending node of that element, described in the same way. -/
theorem error_context_grammar (json : ParseResult) (device : Device)
    (devices : List Device) (error : JsonError) :
    ((device_from_json json device error).ret = some false →
      (device_from_json json device error).error.type ≠ JsonErrorType.PARSE_ERROR →
      ∃ (root : Value) (path : List Segment) (x : Value),
        json = ParseResult.ok root ∧ has_path path root = true
        ∧ (device_from_json json device error).error.context
            = (if path = [] then "." else render_path path)
        ∧ (device_from_json json device error).error.context ≠ ""
        ∧ leads_to path root x
        ∧ Offending root path x error (if path = [] then "." else render_path path)
            (device_from_json json device error).error)
    ∧ ((device_list_from_json json devices error).ret = some false →
      (device_list_from_json json devices error).error.type ≠ JsonErrorType.PARSE_ERROR →
      ∃ (root : Value) (path : List Segment) (x : Value),
        json = ParseResult.ok root ∧ has_path path root = true
        ∧ (device_list_from_json json devices error).error.context
            = (if path = [] then "." else render_path path)
        ∧ (device_list_from_json json devices error).error.context ≠ ""
        ∧ leads_to path root x
        ∧ ((path = [] ∧ root.type ≠ ValueType.arrayValue
            ∧ (device_list_from_json json devices error).error
                = mismatched_type_error error "." (json_type_to_string root.type)
                    (json_type_to_string ValueType.arrayValue))
          ∨ ∃ (j : Nat) (item : Value) (sub : List Segment),
              path = Segment.index j :: sub ∧ root.items[j]? = some item
              ∧ leads_to sub item x
              ∧ Offending item sub x error (render_path path)
                  (device_list_from_json json devices error).error)) := by
  have hne : ∀ path : List Segment, (if path = [] then "." else render_path path) ≠ "" := by
    intro path
    cases path with
    | nil => simp
    | cons s rest => simpa using render_path_cons_ne_empty "" s rest
  constructor
  · intro hr ht
    cases json with
    | syntaxError msg => exact absurd rfl ht
    | ok root =>
      obtain ⟨path, x, hl, ho⟩ := process_device_offending root device "" error hr
      rw [context_at_empty] at ho
      have hc : (device_from_json (ParseResult.ok root) device error).error.context
          = (if path = [] then "." else render_path path) :=
        offending_context _ _ _ _ _ _ ho
      exact ⟨root, path, x, rfl, leads_to_has_path path root x hl, hc,
        by rw [hc]; exact hne path, hl, ho⟩
  · intro hr ht
    cases json with
    | syntaxError msg => exact absurd rfl ht
    | ok root =>
      by_cases ha : root.isArray = true
      · simp only [device_list_from_json, ha, Bool.not_true, Bool.false_eq_true, if_false]
          at hr ⊢
        obtain ⟨j, item, sub, x, hx, hl, ho⟩ := device_list_loop_offending _ _ _ _ hr
        rw [Nat.zero_add] at ho
        have hc := offending_context _ _ _ _ _ _ ho
        have hl2 : leads_to (Segment.index j :: sub) root x := ⟨item, hx, hl⟩
        refine ⟨root, Segment.index j :: sub, x, rfl, leads_to_has_path _ root x hl2,
          by simpa using hc, ?_, hl2, Or.inr ⟨j, item, sub, rfl, hx, hl, ho⟩⟩
        rw [hc]
        simpa using render_path_cons_ne_empty "" (Segment.index j) sub
      · have hta : root.type ≠ ValueType.arrayValue := by simpa [Value.isArray] using ha
        refine ⟨root, [], root, rfl, rfl, ?_, ?_, rfl, Or.inl ⟨rfl, hta, ?_⟩⟩ <;>
          simp [device_list_from_json, ha, json_error_set_mismatched_type,
            mismatched_type_error]

/-- C17 on two inputs. In `{"boot_ui": {"flags": ["TW_NO_CPU_TEMP", 3]}}` the integer 3
is where a string is expected: the context is `.boot_ui.flags[1]`, the text of the path
that leads to it, and the record is the mismatch of `integer` with `string`. In the list
`[{"id": "a"}, {"foo": 1}]` the key `foo` of element 1 is unknown: the context is
`[1].foo`. -/
theorem error_context_grammar_witness :
    (∃ (root : Value) (path : List Segment) (x : Value),
        ParseResult.ok (Value.object [("boot_ui", Value.object [("flags",
            Value.array [Value.string "TW_NO_CPU_TEMP", Value.int 3])])])
          = ParseResult.ok root
        ∧ has_path path root = true
        ∧ (device_from_json (ParseResult.ok (Value.object [("boot_ui", Value.object
              [("flags", Value.array [Value.string "TW_NO_CPU_TEMP", Value.int 3])])]))
            Device.ctor error0).error.context
            = (if path = [] then "." else render_path path)
        ∧ (device_from_json (ParseResult.ok (Value.object [("boot_ui", Value.object
              [("flags", Value.array [Value.string "TW_NO_CPU_TEMP", Value.int 3])])]))
            Device.ctor error0).error.context ≠ ""
        ∧ leads_to path root x
        ∧ Offending root path x error0 (if path = [] then "." else render_path path)
            (device_from_json (ParseResult.ok (Value.object [("boot_ui", Value.object
              [("flags", Value.array [Value.string "TW_NO_CPU_TEMP", Value.int 3])])]))
            Device.ctor error0).error)
    ∧ device_from_json (ParseResult.ok (Value.object [("boot_ui", Value.object
          [("flags", Value.array [Value.string "TW_NO_CPU_TEMP", Value.int 3])])]))
        Device.ctor error0
      = ⟨some false, Device.ctor,
          mismatched_type_error error0 ".boot_ui.flags[1]" "integer" "string"⟩
    ∧ render_path [Segment.key "boot_ui", Segment.key "flags", Segment.index 1]
      = ".boot_ui.flags[1]"
    ∧ leads_to [Segment.key "boot_ui", Segment.key "flags", Segment.index 1]
        (Value.object [("boot_ui", Value.object [("flags",
          Value.array [Value.string "TW_NO_CPU_TEMP", Value.int 3])])]) (Value.int 3)
    ∧ expected_at [Segment.key "boot_ui", Segment.key "flags", Segment.index 1]
      = some ValueType.stringValue
    ∧ device_list_from_json
        (ParseResult.ok (Value.array [Value.object [("id", Value.string "a")],
          Value.object [("foo", Value.int 1)]])) [] error0
      = ⟨some false, [Device.ctor.set_id "a"], unknown_key_error error0 "[1].foo"⟩
    ∧ render_path [Segment.index 1, Segment.key "foo"] = "[1].foo"
    ∧ keys_at [] = some device_keys ∧ "foo" ∉ device_keys :=
  ⟨(error_context_grammar
      (ParseResult.ok (Value.object [("boot_ui", Value.object [("flags",
        Value.array [Value.string "TW_NO_CPU_TEMP", Value.int 3])])]))
      Device.ctor [] error0).1 (by decide) (by decide),
    by decide, by decide,
    ⟨_, List.mem_cons_self _ _, _, List.mem_cons_self _ _, _, rfl, rfl⟩,
    by decide, by decide, by decide, rfl, by decide⟩


/-- C15: when `device_from_json` returns true on an object whose members, and those of
its `block_devs` and `boot_ui` members, have distinct keys, then for every field whose
key is present the JSON literal of the decoded field is the value given for the key: the
string itself, the integer itself, the boolean itself, and for a list of strings the
array of the same strings in the same order, repeated ones included. -/
theorem field_for_field (root : Value) (device : Device) (error : JsonError)
    (hroot : distinct_keys root)
    (hbd : ∀ w, member root "block_devs" = some w → distinct_keys w)
    (hbu : ∀ w, member root "boot_ui" = some w → distinct_keys w)
    (hok : (device_from_json (ParseResult.ok root) device error).ret = some true)
    (f : FieldId) (v : Value) (hv : field_value root f = some v) (lit : Value)
    (hl : field_literal f (device_from_json (ParseResult.ok root) device error).device
      = some lit) :
    lit = v := by
  unfold field_value at hv
  cases h1 : block_devs_key f with
  | some k =>
    rw [h1] at hv
    exact block_devs_field root device "" error hroot hbd hok f k v h1 hv lit hl
  | none =>
    rw [h1] at hv
    cases h2 : boot_ui_key f with
    | some k =>
      rw [h2] at hv
      exact boot_ui_field root device "" error hroot hbu hok f k v h2 hv lit hl
    | none =>
      rw [h2] at hv
      obtain ⟨k, hk, hv2⟩ : ∃ k, device_key f = some k ∧ member root k = some v := by
        simpa [Option.bind_eq_some] using hv
      exact top_level_field root device "" error hroot hok f k v hk h1 h2 hv2 lit hl

/-- C15 on `sample_fields`: the codenames `["a", "b", "a"]` are decoded in this order
with the repeated one kept, like the two equal entries of `block_devs.system`; the
brightness 0 and the boolean false are decoded as given. -/
theorem field_for_field_witness :
    distinct_keys sample_fields
    ∧ (∀ w, member sample_fields "block_devs" = some w → distinct_keys w)
    ∧ (∀ w, member sample_fields "boot_ui" = some w → distinct_keys w)
    ∧ (device_from_json (ParseResult.ok sample_fields) Device.ctor error0).ret = some true
    ∧ field_value sample_fields FieldId.codenames = some (strings ["a", "b", "a"])
    ∧ field_literal FieldId.codenames
        (device_from_json (ParseResult.ok sample_fields) Device.ctor error0).device
        = some (strings ["a", "b", "a"])
    ∧ strings ["a", "b", "a"] = strings ["a", "b", "a"]
    ∧ (device_from_json (ParseResult.ok sample_fields) Device.ctor error0).device.codenames
        = ["a", "b", "a"]
    ∧ (device_from_json (ParseResult.ok sample_fields) Device.ctor
        error0).device.system_block_devs = ["/dev/block/sda1", "/dev/block/sda1"]
    ∧ (device_from_json (ParseResult.ok sample_fields) Device.ctor
        error0).device.tw_max_brightness = 0
    ∧ (device_from_json (ParseResult.ok sample_fields) Device.ctor
        error0).device.tw_supported = false :=
  have h1 : distinct_keys sample_fields := by
    show (List.map Prod.fst _).Nodup
    decide
  have h2 : ∀ w, member sample_fields "block_devs" = some w → distinct_keys w := by
    intro w hw
    have hm : member sample_fields "block_devs"
        = some (Value.object [("system", strings ["/dev/block/sda1", "/dev/block/sda1"]),
            ("extra", strings [])]) := rfl
    rw [hm] at hw
    rw [← Option.some.inj hw]
    show (List.map Prod.fst _).Nodup
    decide
  have h3 : ∀ w, member sample_fields "boot_ui" = some w → distinct_keys w := by
    intro w hw
    have hm : member sample_fields "boot_ui"
        = some (Value.object [("supported", Value.bool false),
            ("max_brightness", Value.int 0)]) := rfl
    rw [hm] at hw
    rw [← Option.some.inj hw]
    show (List.map Prod.fst _).Nodup
    decide
  ⟨h1, h2, h3, by decide, rfl, rfl,
    field_for_field sample_fields Device.ctor error0 h1 h2 h3 (by decide) FieldId.codenames
      (strings ["a", "b", "a"]) rfl (strings ["a", "b", "a"]) rfl,
    by decide, by decide, by decide, by decide⟩

/-! ## What the encoder emits -/

/-- C18: in the tree of `device_to_json`, each of `id`, `name`, `architecture` and the
seven string keys of `boot_ui` is present iff the string is not empty, the three integer
keys `overscan_percent`, `default_x_offset`, `default_y_offset` iff the integer is not
zero, `supported` iff it is true, `pixel_format` iff it is not `DEFAULT` and
`force_pixel_format` iff it is not `NONE`; a present key carries the field's value, an
enum as the name that its table gives it. -/
theorem encoder_scalars (d : Device) :
    member (device_to_json d) "id"
        = (if d.id ≠ "" then some (Value.string d.id) else none)
    ∧ member (device_to_json d) "name"
        = (if d.name ≠ "" then some (Value.string d.name) else none)
    ∧ member (device_to_json d) "architecture"
        = (if d.architecture ≠ "" then some (Value.string d.architecture) else none)
    ∧ member2 (device_to_json d) "boot_ui" "brightness_path"
        = (if d.tw_brightness_path ≠ "" then some (Value.string d.tw_brightness_path) else none)
    ∧ member2 (device_to_json d) "boot_ui" "secondary_brightness_path"
        = (if d.tw_secondary_brightness_path ≠ "" then some (Value.string d.tw_secondary_brightness_path) else none)
    ∧ member2 (device_to_json d) "boot_ui" "battery_path"
        = (if d.tw_battery_path ≠ "" then some (Value.string d.tw_battery_path) else none)
    ∧ member2 (device_to_json d) "boot_ui" "cpu_temp_path"
        = (if d.tw_cpu_temp_path ≠ "" then some (Value.string d.tw_cpu_temp_path) else none)
    ∧ member2 (device_to_json d) "boot_ui" "input_blacklist"
        = (if d.tw_input_blacklist ≠ "" then some (Value.string d.tw_input_blacklist) else none)
    ∧ member2 (device_to_json d) "boot_ui" "input_whitelist"
        = (if d.tw_input_whitelist ≠ "" then some (Value.string d.tw_input_whitelist) else none)
    ∧ member2 (device_to_json d) "boot_ui" "theme"
        = (if d.tw_theme ≠ "" then some (Value.string d.tw_theme) else none)
    ∧ member2 (device_to_json d) "boot_ui" "overscan_percent"
        = (if d.tw_overscan_percent ≠ 0 then some (Value.int d.tw_overscan_percent) else none)
    ∧ member2 (device_to_json d) "boot_ui" "default_x_offset"
        = (if d.tw_default_x_offset ≠ 0 then some (Value.int d.tw_default_x_offset) else none)
    ∧ member2 (device_to_json d) "boot_ui" "default_y_offset"
        = (if d.tw_default_y_offset ≠ 0 then some (Value.int d.tw_default_y_offset) else none)
    ∧ member2 (device_to_json d) "boot_ui" "supported"
        = (if d.tw_supported = true then some (Value.bool true) else none)
    ∧ member2 (device_to_json d) "boot_ui" "pixel_format"
        = (if d.tw_pixel_format ≠ TwPixelFormat.DEFAULT then
            some (Value.string (pixel_format_name d.tw_pixel_format)) else none)
    ∧ member2 (device_to_json d) "boot_ui" "force_pixel_format"
        = (if d.tw_force_pixel_format ≠ TwForcePixelFormat.NONE then
            some (Value.string (force_pixel_format_name d.tw_force_pixel_format)) else none)
    ∧ (∀ p : TwPixelFormat, (⟨pixel_format_name p, p⟩ : TwPixelFormatMapping) ∈ tw_pxfmt_mappings)
    ∧ (∀ p : TwForcePixelFormat,
        (⟨force_pixel_format_name p, p⟩ : TwForcePixelFormatMapping) ∈ tw_force_pxfmt_mappings) := by
  refine ⟨?_, ?_, ?_, ?_, ?_, ?_, ?_, ?_, ?_, ?_, ?_, ?_, ?_, ?_, ?_, ?_, ?_, ?_⟩
  · simpa [Device.id] using device_members d
      ⟨decide (d.options.id ≠ ""), "id", Value.string d.options.id⟩ (by simp [device_steps])
  · simpa [Device.name] using device_members d
      ⟨decide (d.options.name ≠ ""), "name", Value.string d.options.name⟩ (by simp [device_steps])
  · simpa [Device.architecture] using device_members d
      ⟨decide (d.options.architecture ≠ ""), "architecture", Value.string d.options.architecture⟩ (by simp [device_steps])
  · simpa [Device.tw_brightness_path] using boot_ui_members d
      ⟨decide (d.tw_options.brightness_path ≠ ""), "brightness_path", Value.string d.tw_options.brightness_path⟩
      (by simp [boot_ui_steps])
  · simpa [Device.tw_secondary_brightness_path] using boot_ui_members d
      ⟨decide (d.tw_options.secondary_brightness_path ≠ ""), "secondary_brightness_path", Value.string d.tw_options.secondary_brightness_path⟩
      (by simp [boot_ui_steps])
  · simpa [Device.tw_battery_path] using boot_ui_members d
      ⟨decide (d.tw_options.battery_path ≠ ""), "battery_path", Value.string d.tw_options.battery_path⟩
      (by simp [boot_ui_steps])
  · simpa [Device.tw_cpu_temp_path] using boot_ui_members d
      ⟨decide (d.tw_options.cpu_temp_path ≠ ""), "cpu_temp_path", Value.string d.tw_options.cpu_temp_path⟩
      (by simp [boot_ui_steps])
  · simpa [Device.tw_input_blacklist] using boot_ui_members d
      ⟨decide (d.tw_options.input_blacklist ≠ ""), "input_blacklist", Value.string d.tw_options.input_blacklist⟩
      (by simp [boot_ui_steps])
  · simpa [Device.tw_input_whitelist] using boot_ui_members d
      ⟨decide (d.tw_options.input_whitelist ≠ ""), "input_whitelist", Value.string d.tw_options.input_whitelist⟩
      (by simp [boot_ui_steps])
  · simpa [Device.tw_theme] using boot_ui_members d
      ⟨decide (d.tw_options.theme ≠ ""), "theme", Value.string d.tw_options.theme⟩
      (by simp [boot_ui_steps])
  · simpa [Device.tw_overscan_percent] using boot_ui_members d
      ⟨decide (d.tw_options.overscan_percent ≠ 0), "overscan_percent", Value.int d.tw_options.overscan_percent⟩
      (by simp [boot_ui_steps])
  · simpa [Device.tw_default_x_offset] using boot_ui_members d
      ⟨decide (d.tw_options.default_x_offset ≠ 0), "default_x_offset", Value.int d.tw_options.default_x_offset⟩
      (by simp [boot_ui_steps])
  · simpa [Device.tw_default_y_offset] using boot_ui_members d
      ⟨decide (d.tw_options.default_y_offset ≠ 0), "default_y_offset", Value.int d.tw_options.default_y_offset⟩
      (by simp [boot_ui_steps])
  · simpa [Device.tw_supported] using boot_ui_members d
      ⟨d.tw_options.supported, "supported", Value.bool true⟩ (by simp [boot_ui_steps])
  · simpa [Device.tw_pixel_format] using boot_ui_members d
      ⟨decide (d.tw_options.pixel_format ≠ TwPixelFormat.DEFAULT), "pixel_format",
        Value.string (pixel_format_name d.tw_options.pixel_format)⟩ (by simp [boot_ui_steps])
  · simpa [Device.tw_force_pixel_format] using boot_ui_members d
      ⟨decide (d.tw_options.force_pixel_format ≠ TwForcePixelFormat.NONE),
        "force_pixel_format",
        Value.string (force_pixel_format_name d.tw_options.force_pixel_format)⟩
      (by simp [boot_ui_steps])
  · intro p; cases p <;> decide
  · intro p; cases p <;> decide

/-- An encoder that emits nothing was given the default brightness values. -/
theorem brightness_of_chain_nil (d : Device) (h : chain (device_steps d) = []) :
    d.tw_options.max_brightness = -1 ∧ d.tw_options.default_brightness = -1 := by
  have h1 := chain_nil_conds _ h
    ⟨!(chain (boot_ui_steps d)).isEmpty, "boot_ui", Value.object (chain (boot_ui_steps d))⟩
    (by simp [device_steps])
  have h2 : chain (boot_ui_steps d) = [] := by simpa using h1
  have h3 := chain_nil_conds _ h2
    ⟨decide (d.tw_options.max_brightness ≠ -1), "max_brightness",
      Value.int d.tw_options.max_brightness⟩ (by simp [boot_ui_steps])
  have h4 := chain_nil_conds _ h2
    ⟨decide (d.tw_options.default_brightness ≠ -1), "default_brightness",
      Value.int d.tw_options.default_brightness⟩ (by simp [boot_ui_steps])
  exact ⟨by simpa using h3, by simpa using h4⟩

/-- A brightness value other than -1 makes the encoder emit a key. -/
theorem chain_ne_nil_of_brightness (d : Device)
    (h : d.tw_options.max_brightness ≠ -1 ∨ d.tw_options.default_brightness ≠ -1) :
    chain (device_steps d) ≠ [] := by
  intro hc
  obtain ⟨h1, h2⟩ := brightness_of_chain_nil d hc
  rcases h with h | h
  · exact h h1
  · exact h h2

/-- C19: `device_to_json` emits `boot_ui.max_brightness` (resp. `default_brightness`) iff
the value is not -1, with the value itself, 0 included; after decoding the encoding into
a default-constructed `Device`, both brightness values are those of the encoded device,
and the decoding returns true whenever one of them is not -1. -/
theorem brightness_sentinel (d : Device) (error : JsonError) :
    member2 (device_to_json d) "boot_ui" "max_brightness"
      = (if d.tw_max_brightness ≠ -1 then some (Value.int d.tw_max_brightness) else none)
    ∧ member2 (device_to_json d) "boot_ui" "default_brightness"
      = (if d.tw_default_brightness ≠ -1 then some (Value.int d.tw_default_brightness)
          else none)
    ∧ (device_from_json (ParseResult.ok (device_to_json d)) Device.ctor
        error).device.tw_max_brightness = d.tw_max_brightness
    ∧ (device_from_json (ParseResult.ok (device_to_json d)) Device.ctor
        error).device.tw_default_brightness = d.tw_default_brightness
    ∧ (d.tw_max_brightness ≠ -1 ∨ d.tw_default_brightness ≠ -1 →
        (device_from_json (ParseResult.ok (device_to_json d)) Device.ctor error).ret
          = some true) := by
  have hdec : (device_from_json (ParseResult.ok (device_to_json d)) Device.ctor
        error).device.tw_max_brightness = d.tw_max_brightness
      ∧ (device_from_json (ParseResult.ok (device_to_json d)) Device.ctor
        error).device.tw_default_brightness = d.tw_default_brightness := by
    by_cases hc : chain (device_steps d) = []
    · obtain ⟨h1, h2⟩ := brightness_of_chain_nil d hc
      rw [device_to_json_eq, hc]
      simp only [Device.tw_max_brightness, Device.tw_default_brightness, h1, h2]
      exact ⟨rfl, rfl⟩
    · rw [decode_encode d error hc]
      exact ⟨rfl, rfl⟩
  refine ⟨?_, ?_, hdec.1, hdec.2, ?_⟩
  · simpa [Device.tw_max_brightness] using boot_ui_members d
      ⟨decide (d.tw_options.max_brightness ≠ -1), "max_brightness",
        Value.int d.tw_options.max_brightness⟩ (by simp [boot_ui_steps])
  · simpa [Device.tw_default_brightness] using boot_ui_members d
      ⟨decide (d.tw_options.default_brightness ≠ -1), "default_brightness",
        Value.int d.tw_options.default_brightness⟩ (by simp [boot_ui_steps])
  · intro h
    rw [decode_encode d error (chain_ne_nil_of_brightness d h)]

/-- C19 on the default device with `max_brightness` set to 0: the tree is
`{"boot_ui": {"max_brightness": 0}}`, and decoding it restores 0 next to the -1 of
`default_brightness`. -/
theorem brightness_sentinel_witness :
    device_to_json (Device.ctor.set_tw_max_brightness 0)
      = Value.object [("boot_ui", Value.object [("max_brightness", Value.int 0)])]
    ∧ device_from_json (ParseResult.ok (device_to_json (Device.ctor.set_tw_max_brightness 0)))
        Device.ctor error0 = ⟨some true, Device.ctor.set_tw_max_brightness 0, error0⟩
    ∧ (Device.ctor.set_tw_max_brightness 0).tw_max_brightness = 0
    ∧ (Device.ctor.set_tw_max_brightness 0).tw_default_brightness = -1
    ∧ (device_from_json (ParseResult.ok (device_to_json (Device.ctor.set_tw_max_brightness 0)))
        Device.ctor error0).ret = some true :=
  ⟨rfl, by decide, by decide, by decide,
    (brightness_sentinel (Device.ctor.set_tw_max_brightness 0) error0).2.2.2.2
      (Or.inl (by decide))⟩

/-- In a table with distinct keys, the name of an entry is among the names of the set
bits exactly when the entry's bit is set. -/
theorem mem_flag_names (table : List FlagMapping) (hnd : (table_keys table).Nodup)
    (flags : Nat) (it : FlagMapping) (hit : it ∈ table) :
    it.key ∈ flag_names table flags ↔ flags &&& it.flag ≠ 0 := by
  unfold flag_names
  simp only [List.mem_map, List.mem_filter, decide_eq_true_eq]
  constructor
  · rintro ⟨it2, ⟨h2, hb⟩, hk⟩
    have : it2 = it := List.inj_on_of_nodup_map hnd h2 hit hk
    rw [← this]
    exact hb
  · intro hb
    exact ⟨it, ⟨hit, hb⟩, rfl⟩

/-- C20: the `flags` (resp. `boot_ui.flags`) key of the tree of `device_to_json` is
absent when no bit of the table is set in `flags` (resp. `tw_flags`), and otherwise
carries the array of the names of the table entries whose bit is set, in the order of the
table; a name is in that array iff its entry's bit is set, no name occurs twice, and
both tables are in ascending order of their bits. -/
theorem flag_arrays_canonical (d : Device) :
    member (device_to_json d) "flags"
      = (if flag_names device_flag_mappings d.flags = [] then none
          else some (strings (flag_names device_flag_mappings d.flags)))
    ∧ member2 (device_to_json d) "boot_ui" "flags"
      = (if flag_names tw_flag_mappings d.tw_flags = [] then none
          else some (strings (flag_names tw_flag_mappings d.tw_flags)))
    ∧ flag_names device_flag_mappings d.flags
      = (device_flag_mappings.filter (fun it => decide (d.flags &&& it.flag ≠ 0))).map
          (fun it => it.key)
    ∧ flag_names tw_flag_mappings d.tw_flags
      = (tw_flag_mappings.filter (fun it => decide (d.tw_flags &&& it.flag ≠ 0))).map
          (fun it => it.key)
    ∧ (∀ it ∈ device_flag_mappings,
        it.key ∈ flag_names device_flag_mappings d.flags ↔ d.flags &&& it.flag ≠ 0)
    ∧ (∀ it ∈ tw_flag_mappings,
        it.key ∈ flag_names tw_flag_mappings d.tw_flags ↔ d.tw_flags &&& it.flag ≠ 0)
    ∧ (flag_names device_flag_mappings d.flags).Nodup
    ∧ (flag_names tw_flag_mappings d.tw_flags).Nodup
    ∧ List.Pairwise (fun a b => a.flag < b.flag) device_flag_mappings
    ∧ List.Pairwise (fun a b => a.flag < b.flag) tw_flag_mappings := by
  refine ⟨?_, ?_, rfl, rfl, ?_, ?_, device_flag_names_nodup _, tw_flag_names_nodup _,
    by decide, by decide⟩
  · simpa [Device.flags] using device_members d
      ⟨decide (flag_names device_flag_mappings d.options.flags ≠ []), "flags",
        strings (flag_names device_flag_mappings d.options.flags)⟩ (by simp [device_steps])
  · simpa [Device.tw_flags] using boot_ui_members d
      ⟨decide (flag_names tw_flag_mappings d.tw_options.flags ≠ []), "flags",
        strings (flag_names tw_flag_mappings d.tw_options.flags)⟩ (by simp [boot_ui_steps])
  · intro it hit
    exact mem_flag_names _ (by decide) _ it hit
  · intro it hit
    exact mem_flag_names _ (by decide) _ it hit

/-! ## The validator as a disjunction of rule bits -/

theorem if_or_rule_bit (c : Prop) [Decidable c] (x k : Nat) :
    (if c then x ||| k else x) = x ||| rule_bit (decide c) k := by
  by_cases h : c <;> simp [rule_bit, h]

theorem arch_rule_bits (a : String) (x : Nat) :
    (if a = "" then x ||| VALIDATE_MISSING_ARCHITECTURE
      else if a ≠ ARCH_ARMEABI_V7A ∧ a ≠ ARCH_ARM64_V8A ∧ a ≠ ARCH_X86 ∧ a ≠ ARCH_X86_64 then
        x ||| VALIDATE_INVALID_ARCHITECTURE
      else x)
    = x ||| rule_bit (decide (a = "")) VALIDATE_MISSING_ARCHITECTURE
        ||| rule_bit (decide (a ≠ "" ∧ a ≠ ARCH_ARMEABI_V7A ∧ a ≠ ARCH_ARM64_V8A
              ∧ a ≠ ARCH_X86 ∧ a ≠ ARCH_X86_64)) VALIDATE_INVALID_ARCHITECTURE := by
  by_cases h : a = ""
  · subst h
    simp [rule_bit]
  · by_cases h2 : a ≠ ARCH_ARMEABI_V7A ∧ a ≠ ARCH_ARM64_V8A ∧ a ≠ ARCH_X86 ∧ a ≠ ARCH_X86_64
    · simp only [if_neg h, if_pos h2, rule_bit, decide_eq_true_eq, h, ne_eq, not_false_eq_true,
        true_and, h2, and_self, if_true, if_false, Nat.or_zero]
    · simp only [if_neg h, if_neg h2, rule_bit, decide_eq_true_eq, h, ne_eq, not_false_eq_true,
        true_and, h2, if_false, Nat.or_zero]

theorem boot_ui_rule_bits (s : Bool) (c1 c2 c3 : Prop) [Decidable c1] [Decidable c2]
    [Decidable c3] (x k1 k2 k3 : Nat) :
    (if s = true then
      (if c3 then (if c2 then (if c1 then x ||| k1 else x) ||| k2
          else (if c1 then x ||| k1 else x)) ||| k3
        else (if c2 then (if c1 then x ||| k1 else x) ||| k2
          else (if c1 then x ||| k1 else x)))
      else x)
    = x ||| rule_bit (s && decide c1) k1 ||| rule_bit (s && decide c2) k2
        ||| rule_bit (s && decide c3) k3 := by
  cases s <;> by_cases h1 : c1 <;> by_cases h2 : c2 <;> by_cases h3 : c3 <;>
    simp [rule_bit, h1, h2, h3]

/-- The mask of `Device::validate` is the disjunction of the bits of its thirteen
rules, each contributing its bit when it fires. -/
theorem validate_eq (d : Device) :
    d.validate =
      rule_bit (decide (d.options.id = "")) VALIDATE_MISSING_ID
      ||| rule_bit (decide (d.options.codenames = [])) VALIDATE_MISSING_CODENAMES
      ||| rule_bit (decide (d.options.name = "")) VALIDATE_MISSING_NAME
      ||| rule_bit (decide (d.options.architecture = "")) VALIDATE_MISSING_ARCHITECTURE
      ||| rule_bit (decide (d.options.architecture ≠ ""
            ∧ d.options.architecture ≠ ARCH_ARMEABI_V7A
            ∧ d.options.architecture ≠ ARCH_ARM64_V8A
            ∧ d.options.architecture ≠ ARCH_X86
            ∧ d.options.architecture ≠ ARCH_X86_64)) VALIDATE_INVALID_ARCHITECTURE
      ||| rule_bit (decide (d.options.flags &&& DEVICE_FLAG_MASK ≠ d.options.flags))
            VALIDATE_INVALID_FLAGS
      ||| rule_bit (decide (d.options.system_devs = [])) VALIDATE_MISSING_SYSTEM_BLOCK_DEVS
      ||| rule_bit (decide (d.options.cache_devs = [])) VALIDATE_MISSING_CACHE_BLOCK_DEVS
      ||| rule_bit (decide (d.options.data_devs = [])) VALIDATE_MISSING_DATA_BLOCK_DEVS
      ||| rule_bit (decide (d.options.boot_devs = [])) VALIDATE_MISSING_BOOT_BLOCK_DEVS
      ||| rule_bit (d.tw_options.supported
            && decide (d.tw_options.flags &&& TW_FLAG_MASK ≠ d.tw_options.flags))
            VALIDATE_INVALID_BOOT_UI_FLAGS
      ||| rule_bit (d.tw_options.supported && decide (d.tw_options.theme = ""))
            VALIDATE_MISSING_BOOT_UI_THEME
      ||| rule_bit (d.tw_options.supported && decide (d.tw_options.graphics_backends = []))
            VALIDATE_MISSING_BOOT_UI_GRAPHICS_BACKENDS := by
  unfold Device.validate
  lift_lets
  intro f0 f1 f2 f3 f4 f5 f6 f7 f8 f9 g1 g2 g3
  have h1 : f1 = rule_bit (decide (d.options.id = "")) VALIDATE_MISSING_ID := by
    unfold f1 f0
    rw [if_or_rule_bit, Nat.zero_or]
  have h2 : f2 = f1 ||| rule_bit (decide (d.options.codenames = []))
      VALIDATE_MISSING_CODENAMES := if_or_rule_bit _ _ _
  have h3 : f3 = f2 ||| rule_bit (decide (d.options.name = "")) VALIDATE_MISSING_NAME :=
    if_or_rule_bit _ _ _
  have h4 : f4 = f3 ||| rule_bit (decide (d.options.architecture = ""))
        VALIDATE_MISSING_ARCHITECTURE
      ||| rule_bit (decide (d.options.architecture ≠ ""
            ∧ d.options.architecture ≠ ARCH_ARMEABI_V7A
            ∧ d.options.architecture ≠ ARCH_ARM64_V8A
            ∧ d.options.architecture ≠ ARCH_X86
            ∧ d.options.architecture ≠ ARCH_X86_64)) VALIDATE_INVALID_ARCHITECTURE :=
    arch_rule_bits _ _
  have h5 : f5 = f4 ||| rule_bit
      (decide (d.options.flags &&& DEVICE_FLAG_MASK ≠ d.options.flags))
      VALIDATE_INVALID_FLAGS := if_or_rule_bit _ _ _
  have h6 : f6 = f5 ||| rule_bit (decide (d.options.system_devs = []))
      VALIDATE_MISSING_SYSTEM_BLOCK_DEVS := if_or_rule_bit _ _ _
  have h7 : f7 = f6 ||| rule_bit (decide (d.options.cache_devs = []))
      VALIDATE_MISSING_CACHE_BLOCK_DEVS := if_or_rule_bit _ _ _
  have h8 : f8 = f7 ||| rule_bit (decide (d.options.data_devs = []))
      VALIDATE_MISSING_DATA_BLOCK_DEVS := if_or_rule_bit _ _ _
  have h9 : f9 = f8 ||| rule_bit (decide (d.options.boot_devs = []))
      VALIDATE_MISSING_BOOT_BLOCK_DEVS := if_or_rule_bit _ _ _
  have h10 : (if d.tw_options.supported = true then g3 else f9)
      = f9 ||| rule_bit (d.tw_options.supported
            && decide (d.tw_options.flags &&& TW_FLAG_MASK ≠ d.tw_options.flags))
            VALIDATE_INVALID_BOOT_UI_FLAGS
        ||| rule_bit (d.tw_options.supported && decide (d.tw_options.theme = ""))
            VALIDATE_MISSING_BOOT_UI_THEME
        ||| rule_bit (d.tw_options.supported && decide (d.tw_options.graphics_backends = []))
            VALIDATE_MISSING_BOOT_UI_GRAPHICS_BACKENDS := boot_ui_rule_bits _ _ _ _ _ _ _ _
  rw [h10, h9, h8, h7, h6, h5, h4, h3, h2, h1]

theorem rule_bit_and (c : Bool) (k m : Nat) : rule_bit c k &&& m = rule_bit c (k &&& m) := by
  cases c <;> simp [rule_bit]

theorem rule_bit_zero (c : Bool) : rule_bit c 0 = 0 := by
  cases c <;> rfl

theorem rule_bit_eq_zero (c : Bool) (k : Nat) (hk : k ≠ 0) : rule_bit c k = 0 ↔ c = false := by
  cases c <;> simp [rule_bit, hk]

theorem testBit_rule_bit (c : Bool) (k i : Nat) :
    (rule_bit c (1 <<< k)).testBit i = (c && decide (k = i)) := by
  cases c <;> simp [rule_bit, Nat.one_shiftLeft, Nat.testBit_two_pow]

/-- A value differs from its lowest `n` bits exactly when it has a bit set from position
`n` upwards. -/
theorem and_mask_ne_iff (x n : Nat) : x &&& (2 ^ n - 1) ≠ x ↔ has_bit_from n x := by
  constructor
  · intro h
    by_contra hno
    apply h
    apply Nat.eq_of_testBit_eq
    intro i
    rw [Nat.testBit_and, Nat.testBit_two_pow_sub_one]
    by_cases hi : i < n
    · simp [hi]
    · have : x.testBit i = false := by
        by_contra hx
        exact hno ⟨i, Nat.le_of_not_lt hi, by simpa using hx⟩
      simp [this]
  · rintro ⟨i, hi, hx⟩ h
    have h2 := congrArg (fun y => y.testBit i) h
    simp only [Nat.testBit_and, Nat.testBit_two_pow_sub_one, hx, Bool.true_and] at h2
    have : ¬ i < n := Nat.not_lt.mpr hi
    simp [this] at h2

theorem device_flag_mask_ne_iff (x : Nat) :
    x &&& DEVICE_FLAG_MASK ≠ x ↔ has_bit_from 2 x := and_mask_ne_iff x 2

theorem tw_flag_mask_ne_iff (x : Nat) :
    x &&& TW_FLAG_MASK ≠ x ↔ has_bit_from 17 x := and_mask_ne_iff x 17

/-- A value below `2 ^ w` has no bit set from position `w` upwards. -/
theorem testBit_lt_of_lt (x w i : Nat) (hx : x < 2 ^ w) (hi : x.testBit i = true) : i < w := by
  by_contra hge
  have h1 : 2 ^ w ≤ 2 ^ i := Nat.pow_le_pow_right (by decide) (Nat.le_of_not_lt hge)
  have h2 : x.testBit i = false := Nat.testBit_eq_false_of_lt (Nat.lt_of_lt_of_le hx h1)
  rw [h2] at hi
  exact absurd hi (by decide)

/-- The part of the validator's mask selected by `m`: each rule contributes the part of
its bit that lies in `m`. -/
theorem validate_and (d : Device) (m : Nat) :
    d.validate &&& m =
      rule_bit (decide (d.options.id = "")) (VALIDATE_MISSING_ID &&& m)
      ||| rule_bit (decide (d.options.codenames = [])) (VALIDATE_MISSING_CODENAMES &&& m)
      ||| rule_bit (decide (d.options.name = "")) (VALIDATE_MISSING_NAME &&& m)
      ||| rule_bit (decide (d.options.architecture = "")) (VALIDATE_MISSING_ARCHITECTURE &&& m)
      ||| rule_bit (decide (d.options.architecture ≠ ""
            ∧ d.options.architecture ≠ ARCH_ARMEABI_V7A
            ∧ d.options.architecture ≠ ARCH_ARM64_V8A
            ∧ d.options.architecture ≠ ARCH_X86
            ∧ d.options.architecture ≠ ARCH_X86_64)) (VALIDATE_INVALID_ARCHITECTURE &&& m)
      ||| rule_bit (decide (d.options.flags &&& DEVICE_FLAG_MASK ≠ d.options.flags))
            (VALIDATE_INVALID_FLAGS &&& m)
      ||| rule_bit (decide (d.options.system_devs = []))
            (VALIDATE_MISSING_SYSTEM_BLOCK_DEVS &&& m)
      ||| rule_bit (decide (d.options.cache_devs = []))
            (VALIDATE_MISSING_CACHE_BLOCK_DEVS &&& m)
      ||| rule_bit (decide (d.options.data_devs = []))
            (VALIDATE_MISSING_DATA_BLOCK_DEVS &&& m)
      ||| rule_bit (decide (d.options.boot_devs = []))
            (VALIDATE_MISSING_BOOT_BLOCK_DEVS &&& m)
      ||| rule_bit (d.tw_options.supported
            && decide (d.tw_options.flags &&& TW_FLAG_MASK ≠ d.tw_options.flags))
            (VALIDATE_INVALID_BOOT_UI_FLAGS &&& m)
      ||| rule_bit (d.tw_options.supported && decide (d.tw_options.theme = ""))
            (VALIDATE_MISSING_BOOT_UI_THEME &&& m)
      ||| rule_bit (d.tw_options.supported && decide (d.tw_options.graphics_backends = []))
            (VALIDATE_MISSING_BOOT_UI_GRAPHICS_BACKENDS &&& m) := by
  rw [validate_eq]
  simp only [Nat.and_distrib_right, rule_bit_and]

/-! ### The bit of each rule

One lemma per bit of the mask: the bit is the contribution of its own rule. -/

theorem validate_and_missing_id (d : Device) :
    d.validate &&& VALIDATE_MISSING_ID
      = rule_bit (decide (d.options.id = "")) VALIDATE_MISSING_ID := by
  rw [validate_and]
  simp only [(by decide : VALIDATE_MISSING_ID &&& VALIDATE_MISSING_ID = VALIDATE_MISSING_ID),
    (by decide : VALIDATE_MISSING_CODENAMES &&& VALIDATE_MISSING_ID = 0),
    (by decide : VALIDATE_MISSING_NAME &&& VALIDATE_MISSING_ID = 0),
    (by decide : VALIDATE_MISSING_ARCHITECTURE &&& VALIDATE_MISSING_ID = 0),
    (by decide : VALIDATE_INVALID_ARCHITECTURE &&& VALIDATE_MISSING_ID = 0),
    (by decide : VALIDATE_INVALID_FLAGS &&& VALIDATE_MISSING_ID = 0),
    (by decide : VALIDATE_MISSING_SYSTEM_BLOCK_DEVS &&& VALIDATE_MISSING_ID = 0),
    (by decide : VALIDATE_MISSING_CACHE_BLOCK_DEVS &&& VALIDATE_MISSING_ID = 0),
    (by decide : VALIDATE_MISSING_DATA_BLOCK_DEVS &&& VALIDATE_MISSING_ID = 0),
    (by decide : VALIDATE_MISSING_BOOT_BLOCK_DEVS &&& VALIDATE_MISSING_ID = 0),
    (by decide : VALIDATE_INVALID_BOOT_UI_FLAGS &&& VALIDATE_MISSING_ID = 0),
    (by decide : VALIDATE_MISSING_BOOT_UI_THEME &&& VALIDATE_MISSING_ID = 0),
    (by decide : VALIDATE_MISSING_BOOT_UI_GRAPHICS_BACKENDS &&& VALIDATE_MISSING_ID = 0),
    rule_bit_zero, Nat.or_zero, Nat.zero_or]

theorem validate_and_missing_codenames (d : Device) :
    d.validate &&& VALIDATE_MISSING_CODENAMES
      = rule_bit (decide (d.options.codenames = [])) VALIDATE_MISSING_CODENAMES := by
  rw [validate_and]
  simp only [(by decide : VALIDATE_MISSING_ID &&& VALIDATE_MISSING_CODENAMES = 0),
    (by decide : VALIDATE_MISSING_CODENAMES &&& VALIDATE_MISSING_CODENAMES = VALIDATE_MISSING_CODENAMES),
    (by decide : VALIDATE_MISSING_NAME &&& VALIDATE_MISSING_CODENAMES = 0),
    (by decide : VALIDATE_MISSING_ARCHITECTURE &&& VALIDATE_MISSING_CODENAMES = 0),
    (by decide : VALIDATE_INVALID_ARCHITECTURE &&& VALIDATE_MISSING_CODENAMES = 0),
    (by decide : VALIDATE_INVALID_FLAGS &&& VALIDATE_MISSING_CODENAMES = 0),
    (by decide : VALIDATE_MISSING_SYSTEM_BLOCK_DEVS &&& VALIDATE_MISSING_CODENAMES = 0),
    (by decide : VALIDATE_MISSING_CACHE_BLOCK_DEVS &&& VALIDATE_MISSING_CODENAMES = 0),
    (by decide : VALIDATE_MISSING_DATA_BLOCK_DEVS &&& VALIDATE_MISSING_CODENAMES = 0),
    (by decide : VALIDATE_MISSING_BOOT_BLOCK_DEVS &&& VALIDATE_MISSING_CODENAMES = 0),
    (by decide : VALIDATE_INVALID_BOOT_UI_FLAGS &&& VALIDATE_MISSING_CODENAMES = 0),
    (by decide : VALIDATE_MISSING_BOOT_UI_THEME &&& VALIDATE_MISSING_CODENAMES = 0),
    (by decide : VALIDATE_MISSING_BOOT_UI_GRAPHICS_BACKENDS &&& VALIDATE_MISSING_CODENAMES = 0),
    rule_bit_zero, Nat.or_zero, Nat.zero_or]

theorem validate_and_missing_name (d : Device) :
    d.validate &&& VALIDATE_MISSING_NAME
      = rule_bit (decide (d.options.name = "")) VALIDATE_MISSING_NAME := by
  rw [validate_and]
  simp only [(by decide : VALIDATE_MISSING_ID &&& VALIDATE_MISSING_NAME = 0),
    (by decide : VALIDATE_MISSING_CODENAMES &&& VALIDATE_MISSING_NAME = 0),
    (by decide : VALIDATE_MISSING_NAME &&& VALIDATE_MISSING_NAME = VALIDATE_MISSING_NAME),
    (by decide : VALIDATE_MISSING_ARCHITECTURE &&& VALIDATE_MISSING_NAME = 0),
    (by decide : VALIDATE_INVALID_ARCHITECTURE &&& VALIDATE_MISSING_NAME = 0),
    (by decide : VALIDATE_INVALID_FLAGS &&& VALIDATE_MISSING_NAME = 0),
    (by decide : VALIDATE_MISSING_SYSTEM_BLOCK_DEVS &&& VALIDATE_MISSING_NAME = 0),
    (by decide : VALIDATE_MISSING_CACHE_BLOCK_DEVS &&& VALIDATE_MISSING_NAME = 0),
    (by decide : VALIDATE_MISSING_DATA_BLOCK_DEVS &&& VALIDATE_MISSING_NAME = 0),
    (by decide : VALIDATE_MISSING_BOOT_BLOCK_DEVS &&& VALIDATE_MISSING_NAME = 0),
    (by decide : VALIDATE_INVALID_BOOT_UI_FLAGS &&& VALIDATE_MISSING_NAME = 0),
    (by decide : VALIDATE_MISSING_BOOT_UI_THEME &&& VALIDATE_MISSING_NAME = 0),
    (by decide : VALIDATE_MISSING_BOOT_UI_GRAPHICS_BACKENDS &&& VALIDATE_MISSING_NAME = 0),
    rule_bit_zero, Nat.or_zero, Nat.zero_or]

theorem validate_and_missing_architecture (d : Device) :
    d.validate &&& VALIDATE_MISSING_ARCHITECTURE
      = rule_bit (decide (d.options.architecture = "")) VALIDATE_MISSING_ARCHITECTURE := by
  rw [validate_and]
  simp only [(by decide : VALIDATE_MISSING_ID &&& VALIDATE_MISSING_ARCHITECTURE = 0),
    (by decide : VALIDATE_MISSING_CODENAMES &&& VALIDATE_MISSING_ARCHITECTURE = 0),
    (by decide : VALIDATE_MISSING_NAME &&& VALIDATE_MISSING_ARCHITECTURE = 0),
    (by decide : VALIDATE_MISSING_ARCHITECTURE &&& VALIDATE_MISSING_ARCHITECTURE = VALIDATE_MISSING_ARCHITECTURE),
    (by decide : VALIDATE_INVALID_ARCHITECTURE &&& VALIDATE_MISSING_ARCHITECTURE = 0),
    (by decide : VALIDATE_INVALID_FLAGS &&& VALIDATE_MISSING_ARCHITECTURE = 0),
    (by decide : VALIDATE_MISSING_SYSTEM_BLOCK_DEVS &&& VALIDATE_MISSING_ARCHITECTURE = 0),
    (by decide : VALIDATE_MISSING_CACHE_BLOCK_DEVS &&& VALIDATE_MISSING_ARCHITECTURE = 0),
    (by decide : VALIDATE_MISSING_DATA_BLOCK_DEVS &&& VALIDATE_MISSING_ARCHITECTURE = 0),
    (by decide : VALIDATE_MISSING_BOOT_BLOCK_DEVS &&& VALIDATE_MISSING_ARCHITECTURE = 0),
    (by decide : VALIDATE_INVALID_BOOT_UI_FLAGS &&& VALIDATE_MISSING_ARCHITECTURE = 0),
    (by decide : VALIDATE_MISSING_BOOT_UI_THEME &&& VALIDATE_MISSING_ARCHITECTURE = 0),
    (by decide : VALIDATE_MISSING_BOOT_UI_GRAPHICS_BACKENDS &&& VALIDATE_MISSING_ARCHITECTURE = 0),
    rule_bit_zero, Nat.or_zero, Nat.zero_or]

theorem validate_and_invalid_architecture (d : Device) :
    d.validate &&& VALIDATE_INVALID_ARCHITECTURE
      = rule_bit (decide (d.options.architecture ≠ ""
          ∧ d.options.architecture ≠ ARCH_ARMEABI_V7A
          ∧ d.options.architecture ≠ ARCH_ARM64_V8A
          ∧ d.options.architecture ≠ ARCH_X86
          ∧ d.options.architecture ≠ ARCH_X86_64)) VALIDATE_INVALID_ARCHITECTURE := by
  rw [validate_and]
  simp only [(by decide : VALIDATE_MISSING_ID &&& VALIDATE_INVALID_ARCHITECTURE = 0),
    (by decide : VALIDATE_MISSING_CODENAMES &&& VALIDATE_INVALID_ARCHITECTURE = 0),
    (by decide : VALIDATE_MISSING_NAME &&& VALIDATE_INVALID_ARCHITECTURE = 0),
    (by decide : VALIDATE_MISSING_ARCHITECTURE &&& VALIDATE_INVALID_ARCHITECTURE = 0),
    (by decide : VALIDATE_INVALID_ARCHITECTURE &&& VALIDATE_INVALID_ARCHITECTURE = VALIDATE_INVALID_ARCHITECTURE),
    (by decide : VALIDATE_INVALID_FLAGS &&& VALIDATE_INVALID_ARCHITECTURE = 0),
    (by decide : VALIDATE_MISSING_SYSTEM_BLOCK_DEVS &&& VALIDATE_INVALID_ARCHITECTURE = 0),
    (by decide : VALIDATE_MISSING_CACHE_BLOCK_DEVS &&& VALIDATE_INVALID_ARCHITECTURE = 0),
    (by decide : VALIDATE_MISSING_DATA_BLOCK_DEVS &&& VALIDATE_INVALID_ARCHITECTURE = 0),
    (by decide : VALIDATE_MISSING_BOOT_BLOCK_DEVS &&& VALIDATE_INVALID_ARCHITECTURE = 0),
    (by decide : VALIDATE_INVALID_BOOT_UI_FLAGS &&& VALIDATE_INVALID_ARCHITECTURE = 0),
    (by decide : VALIDATE_MISSING_BOOT_UI_THEME &&& VALIDATE_INVALID_ARCHITECTURE = 0),
    (by decide : VALIDATE_MISSING_BOOT_UI_GRAPHICS_BACKENDS &&& VALIDATE_INVALID_ARCHITECTURE = 0),
    rule_bit_zero, Nat.or_zero, Nat.zero_or]

theorem validate_and_invalid_flags (d : Device) :
    d.validate &&& VALIDATE_INVALID_FLAGS
      = rule_bit (decide (d.options.flags &&& DEVICE_FLAG_MASK ≠ d.options.flags)) VALIDATE_INVALID_FLAGS := by
  rw [validate_and]
  simp only [(by decide : VALIDATE_MISSING_ID &&& VALIDATE_INVALID_FLAGS = 0),
    (by decide : VALIDATE_MISSING_CODENAMES &&& VALIDATE_INVALID_FLAGS = 0),
    (by decide : VALIDATE_MISSING_NAME &&& VALIDATE_INVALID_FLAGS = 0),
    (by decide : VALIDATE_MISSING_ARCHITECTURE &&& VALIDATE_INVALID_FLAGS = 0),
    (by decide : VALIDATE_INVALID_ARCHITECTURE &&& VALIDATE_INVALID_FLAGS = 0),
    (by decide : VALIDATE_INVALID_FLAGS &&& VALIDATE_INVALID_FLAGS = VALIDATE_INVALID_FLAGS),
    (by decide : VALIDATE_MISSING_SYSTEM_BLOCK_DEVS &&& VALIDATE_INVALID_FLAGS = 0),
    (by decide : VALIDATE_MISSING_CACHE_BLOCK_DEVS &&& VALIDATE_INVALID_FLAGS = 0),
    (by decide : VALIDATE_MISSING_DATA_BLOCK_DEVS &&& VALIDATE_INVALID_FLAGS = 0),
    (by decide : VALIDATE_MISSING_BOOT_BLOCK_DEVS &&& VALIDATE_INVALID_FLAGS = 0),
    (by decide : VALIDATE_INVALID_BOOT_UI_FLAGS &&& VALIDATE_INVALID_FLAGS = 0),
    (by decide : VALIDATE_MISSING_BOOT_UI_THEME &&& VALIDATE_INVALID_FLAGS = 0),
    (by decide : VALIDATE_MISSING_BOOT_UI_GRAPHICS_BACKENDS &&& VALIDATE_INVALID_FLAGS = 0),
    rule_bit_zero, Nat.or_zero, Nat.zero_or]

theorem validate_and_missing_system (d : Device) :
    d.validate &&& VALIDATE_MISSING_SYSTEM_BLOCK_DEVS
      = rule_bit (decide (d.options.system_devs = [])) VALIDATE_MISSING_SYSTEM_BLOCK_DEVS := by
  rw [validate_and]
  simp only [(by decide : VALIDATE_MISSING_ID &&& VALIDATE_MISSING_SYSTEM_BLOCK_DEVS = 0),
    (by decide : VALIDATE_MISSING_CODENAMES &&& VALIDATE_MISSING_SYSTEM_BLOCK_DEVS = 0),
    (by decide : VALIDATE_MISSING_NAME &&& VALIDATE_MISSING_SYSTEM_BLOCK_DEVS = 0),
    (by decide : VALIDATE_MISSING_ARCHITECTURE &&& VALIDATE_MISSING_SYSTEM_BLOCK_DEVS = 0),
    (by decide : VALIDATE_INVALID_ARCHITECTURE &&& VALIDATE_MISSING_SYSTEM_BLOCK_DEVS = 0),
    (by decide : VALIDATE_INVALID_FLAGS &&& VALIDATE_MISSING_SYSTEM_BLOCK_DEVS = 0),
    (by decide : VALIDATE_MISSING_SYSTEM_BLOCK_DEVS &&& VALIDATE_MISSING_SYSTEM_BLOCK_DEVS = VALIDATE_MISSING_SYSTEM_BLOCK_DEVS),
    (by decide : VALIDATE_MISSING_CACHE_BLOCK_DEVS &&& VALIDATE_MISSING_SYSTEM_BLOCK_DEVS = 0),
    (by decide : VALIDATE_MISSING_DATA_BLOCK_DEVS &&& VALIDATE_MISSING_SYSTEM_BLOCK_DEVS = 0),
    (by decide : VALIDATE_MISSING_BOOT_BLOCK_DEVS &&& VALIDATE_MISSING_SYSTEM_BLOCK_DEVS = 0),
    (by decide : VALIDATE_INVALID_BOOT_UI_FLAGS &&& VALIDATE_MISSING_SYSTEM_BLOCK_DEVS = 0),
    (by decide : VALIDATE_MISSING_BOOT_UI_THEME &&& VALIDATE_MISSING_SYSTEM_BLOCK_DEVS = 0),
    (by decide : VALIDATE_MISSING_BOOT_UI_GRAPHICS_BACKENDS &&& VALIDATE_MISSING_SYSTEM_BLOCK_DEVS = 0),
    rule_bit_zero, Nat.or_zero, Nat.zero_or]

theorem validate_and_missing_cache (d : Device) :
    d.validate &&& VALIDATE_MISSING_CACHE_BLOCK_DEVS
      = rule_bit (decide (d.options.cache_devs = [])) VALIDATE_MISSING_CACHE_BLOCK_DEVS := by
  rw [validate_and]
  simp only [(by decide : VALIDATE_MISSING_ID &&& VALIDATE_MISSING_CACHE_BLOCK_DEVS = 0),
    (by decide : VALIDATE_MISSING_CODENAMES &&& VALIDATE_MISSING_CACHE_BLOCK_DEVS = 0),
    (by decide : VALIDATE_MISSING_NAME &&& VALIDATE_MISSING_CACHE_BLOCK_DEVS = 0),
    (by decide : VALIDATE_MISSING_ARCHITECTURE &&& VALIDATE_MISSING_CACHE_BLOCK_DEVS = 0),
    (by decide : VALIDATE_INVALID_ARCHITECTURE &&& VALIDATE_MISSING_CACHE_BLOCK_DEVS = 0),
    (by decide : VALIDATE_INVALID_FLAGS &&& VALIDATE_MISSING_CACHE_BLOCK_DEVS = 0),
    (by decide : VALIDATE_MISSING_SYSTEM_BLOCK_DEVS &&& VALIDATE_MISSING_CACHE_BLOCK_DEVS = 0),
    (by decide : VALIDATE_MISSING_CACHE_BLOCK_DEVS &&& VALIDATE_MISSING_CACHE_BLOCK_DEVS = VALIDATE_MISSING_CACHE_BLOCK_DEVS),
    (by decide : VALIDATE_MISSING_DATA_BLOCK_DEVS &&& VALIDATE_MISSING_CACHE_BLOCK_DEVS = 0),
    (by decide : VALIDATE_MISSING_BOOT_BLOCK_DEVS &&& VALIDATE_MISSING_CACHE_BLOCK_DEVS = 0),
    (by decide : VALIDATE_INVALID_BOOT_UI_FLAGS &&& VALIDATE_MISSING_CACHE_BLOCK_DEVS = 0),
    (by decide : VALIDATE_MISSING_BOOT_UI_THEME &&& VALIDATE_MISSING_CACHE_BLOCK_DEVS = 0),
    (by decide : VALIDATE_MISSING_BOOT_UI_GRAPHICS_BACKENDS &&& VALIDATE_MISSING_CACHE_BLOCK_DEVS = 0),
    rule_bit_zero, Nat.or_zero, Nat.zero_or]

theorem validate_and_missing_data (d : Device) :
    d.validate &&& VALIDATE_MISSING_DATA_BLOCK_DEVS
      = rule_bit (decide (d.options.data_devs = [])) VALIDATE_MISSING_DATA_BLOCK_DEVS := by
  rw [validate_and]
  simp only [(by decide : VALIDATE_MISSING_ID &&& VALIDATE_MISSING_DATA_BLOCK_DEVS = 0),
    (by decide : VALIDATE_MISSING_CODENAMES &&& VALIDATE_MISSING_DATA_BLOCK_DEVS = 0),
    (by decide : VALIDATE_MISSING_NAME &&& VALIDATE_MISSING_DATA_BLOCK_DEVS = 0),
    (by decide : VALIDATE_MISSING_ARCHITECTURE &&& VALIDATE_MISSING_DATA_BLOCK_DEVS = 0),
    (by decide : VALIDATE_INVALID_ARCHITECTURE &&& VALIDATE_MISSING_DATA_BLOCK_DEVS = 0),
    (by decide : VALIDATE_INVALID_FLAGS &&& VALIDATE_MISSING_DATA_BLOCK_DEVS = 0),
    (by decide : VALIDATE_MISSING_SYSTEM_BLOCK_DEVS &&& VALIDATE_MISSING_DATA_BLOCK_DEVS = 0),
    (by decide : VALIDATE_MISSING_CACHE_BLOCK_DEVS &&& VALIDATE_MISSING_DATA_BLOCK_DEVS = 0),
    (by decide : VALIDATE_MISSING_DATA_BLOCK_DEVS &&& VALIDATE_MISSING_DATA_BLOCK_DEVS = VALIDATE_MISSING_DATA_BLOCK_DEVS),
    (by decide : VALIDATE_MISSING_BOOT_BLOCK_DEVS &&& VALIDATE_MISSING_DATA_BLOCK_DEVS = 0),
    (by decide : VALIDATE_INVALID_BOOT_UI_FLAGS &&& VALIDATE_MISSING_DATA_BLOCK_DEVS = 0),
    (by decide : VALIDATE_MISSING_BOOT_UI_THEME &&& VALIDATE_MISSING_DATA_BLOCK_DEVS = 0),
    (by decide : VALIDATE_MISSING_BOOT_UI_GRAPHICS_BACKENDS &&& VALIDATE_MISSING_DATA_BLOCK_DEVS = 0),
    rule_bit_zero, Nat.or_zero, Nat.zero_or]

theorem validate_and_missing_boot (d : Device) :
    d.validate &&& VALIDATE_MISSING_BOOT_BLOCK_DEVS
      = rule_bit (decide (d.options.boot_devs = [])) VALIDATE_MISSING_BOOT_BLOCK_DEVS := by
  rw [validate_and]
  simp only [(by decide : VALIDATE_MISSING_ID &&& VALIDATE_MISSING_BOOT_BLOCK_DEVS = 0),
    (by decide : VALIDATE_MISSING_CODENAMES &&& VALIDATE_MISSING_BOOT_BLOCK_DEVS = 0),
    (by decide : VALIDATE_MISSING_NAME &&& VALIDATE_MISSING_BOOT_BLOCK_DEVS = 0),
    (by decide : VALIDATE_MISSING_ARCHITECTURE &&& VALIDATE_MISSING_BOOT_BLOCK_DEVS = 0),
    (by decide : VALIDATE_INVALID_ARCHITECTURE &&& VALIDATE_MISSING_BOOT_BLOCK_DEVS = 0),
    (by decide : VALIDATE_INVALID_FLAGS &&& VALIDATE_MISSING_BOOT_BLOCK_DEVS = 0),
    (by decide : VALIDATE_MISSING_SYSTEM_BLOCK_DEVS &&& VALIDATE_MISSING_BOOT_BLOCK_DEVS = 0),
    (by decide : VALIDATE_MISSING_CACHE_BLOCK_DEVS &&& VALIDATE_MISSING_BOOT_BLOCK_DEVS = 0),
    (by decide : VALIDATE_MISSING_DATA_BLOCK_DEVS &&& VALIDATE_MISSING_BOOT_BLOCK_DEVS = 0),
    (by decide : VALIDATE_MISSING_BOOT_BLOCK_DEVS &&& VALIDATE_MISSING_BOOT_BLOCK_DEVS = VALIDATE_MISSING_BOOT_BLOCK_DEVS),
    (by decide : VALIDATE_INVALID_BOOT_UI_FLAGS &&& VALIDATE_MISSING_BOOT_BLOCK_DEVS = 0),
    (by decide : VALIDATE_MISSING_BOOT_UI_THEME &&& VALIDATE_MISSING_BOOT_BLOCK_DEVS = 0),
    (by decide : VALIDATE_MISSING_BOOT_UI_GRAPHICS_BACKENDS &&& VALIDATE_MISSING_BOOT_BLOCK_DEVS = 0),
    rule_bit_zero, Nat.or_zero, Nat.zero_or]

theorem validate_and_invalid_boot_ui_flags (d : Device) :
    d.validate &&& VALIDATE_INVALID_BOOT_UI_FLAGS
      = rule_bit (d.tw_options.supported
          && decide (d.tw_options.flags &&& TW_FLAG_MASK ≠ d.tw_options.flags)) VALIDATE_INVALID_BOOT_UI_FLAGS := by
  rw [validate_and]
  simp only [(by decide : VALIDATE_MISSING_ID &&& VALIDATE_INVALID_BOOT_UI_FLAGS = 0),
    (by decide : VALIDATE_MISSING_CODENAMES &&& VALIDATE_INVALID_BOOT_UI_FLAGS = 0),
    (by decide : VALIDATE_MISSING_NAME &&& VALIDATE_INVALID_BOOT_UI_FLAGS = 0),
    (by decide : VALIDATE_MISSING_ARCHITECTURE &&& VALIDATE_INVALID_BOOT_UI_FLAGS = 0),
    (by decide : VALIDATE_INVALID_ARCHITECTURE &&& VALIDATE_INVALID_BOOT_UI_FLAGS = 0),
    (by decide : VALIDATE_INVALID_FLAGS &&& VALIDATE_INVALID_BOOT_UI_FLAGS = 0),
    (by decide : VALIDATE_MISSING_SYSTEM_BLOCK_DEVS &&& VALIDATE_INVALID_BOOT_UI_FLAGS = 0),
    (by decide : VALIDATE_MISSING_CACHE_BLOCK_DEVS &&& VALIDATE_INVALID_BOOT_UI_FLAGS = 0),
    (by decide : VALIDATE_MISSING_DATA_BLOCK_DEVS &&& VALIDATE_INVALID_BOOT_UI_FLAGS = 0),
    (by decide : VALIDATE_MISSING_BOOT_BLOCK_DEVS &&& VALIDATE_INVALID_BOOT_UI_FLAGS = 0),
    (by decide : VALIDATE_INVALID_BOOT_UI_FLAGS &&& VALIDATE_INVALID_BOOT_UI_FLAGS = VALIDATE_INVALID_BOOT_UI_FLAGS),
    (by decide : VALIDATE_MISSING_BOOT_UI_THEME &&& VALIDATE_INVALID_BOOT_UI_FLAGS = 0),
    (by decide : VALIDATE_MISSING_BOOT_UI_GRAPHICS_BACKENDS &&& VALIDATE_INVALID_BOOT_UI_FLAGS = 0),
    rule_bit_zero, Nat.or_zero, Nat.zero_or]

theorem validate_and_missing_boot_ui_theme (d : Device) :
    d.validate &&& VALIDATE_MISSING_BOOT_UI_THEME
      = rule_bit (d.tw_options.supported && decide (d.tw_options.theme = "")) VALIDATE_MISSING_BOOT_UI_THEME := by
  rw [validate_and]
  simp only [(by decide : VALIDATE_MISSING_ID &&& VALIDATE_MISSING_BOOT_UI_THEME = 0),
    (by decide : VALIDATE_MISSING_CODENAMES &&& VALIDATE_MISSING_BOOT_UI_THEME = 0),
    (by decide : VALIDATE_MISSING_NAME &&& VALIDATE_MISSING_BOOT_UI_THEME = 0),
    (by decide : VALIDATE_MISSING_ARCHITECTURE &&& VALIDATE_MISSING_BOOT_UI_THEME = 0),
    (by decide : VALIDATE_INVALID_ARCHITECTURE &&& VALIDATE_MISSING_BOOT_UI_THEME = 0),
    (by decide : VALIDATE_INVALID_FLAGS &&& VALIDATE_MISSING_BOOT_UI_THEME = 0),
    (by decide : VALIDATE_MISSING_SYSTEM_BLOCK_DEVS &&& VALIDATE_MISSING_BOOT_UI_THEME = 0),
    (by decide : VALIDATE_MISSING_CACHE_BLOCK_DEVS &&& VALIDATE_MISSING_BOOT_UI_THEME = 0),
    (by decide : VALIDATE_MISSING_DATA_BLOCK_DEVS &&& VALIDATE_MISSING_BOOT_UI_THEME = 0),
    (by decide : VALIDATE_MISSING_BOOT_BLOCK_DEVS &&& VALIDATE_MISSING_BOOT_UI_THEME = 0),
    (by decide : VALIDATE_INVALID_BOOT_UI_FLAGS &&& VALIDATE_MISSING_BOOT_UI_THEME = 0),
    (by decide : VALIDATE_MISSING_BOOT_UI_THEME &&& VALIDATE_MISSING_BOOT_UI_THEME = VALIDATE_MISSING_BOOT_UI_THEME),
    (by decide : VALIDATE_MISSING_BOOT_UI_GRAPHICS_BACKENDS &&& VALIDATE_MISSING_BOOT_UI_THEME = 0),
    rule_bit_zero, Nat.or_zero, Nat.zero_or]

theorem validate_and_missing_boot_ui_graphics_backends (d : Device) :
    d.validate &&& VALIDATE_MISSING_BOOT_UI_GRAPHICS_BACKENDS
      = rule_bit (d.tw_options.supported && decide (d.tw_options.graphics_backends = [])) VALIDATE_MISSING_BOOT_UI_GRAPHICS_BACKENDS := by
  rw [validate_and]
  simp only [(by decide : VALIDATE_MISSING_ID &&& VALIDATE_MISSING_BOOT_UI_GRAPHICS_BACKENDS = 0),
    (by decide : VALIDATE_MISSING_CODENAMES &&& VALIDATE_MISSING_BOOT_UI_GRAPHICS_BACKENDS = 0),
    (by decide : VALIDATE_MISSING_NAME &&& VALIDATE_MISSING_BOOT_UI_GRAPHICS_BACKENDS = 0),
    (by decide : VALIDATE_MISSING_ARCHITECTURE &&& VALIDATE_MISSING_BOOT_UI_GRAPHICS_BACKENDS = 0),
    (by decide : VALIDATE_INVALID_ARCHITECTURE &&& VALIDATE_MISSING_BOOT_UI_GRAPHICS_BACKENDS = 0),
    (by decide : VALIDATE_INVALID_FLAGS &&& VALIDATE_MISSING_BOOT_UI_GRAPHICS_BACKENDS = 0),
    (by decide : VALIDATE_MISSING_SYSTEM_BLOCK_DEVS &&& VALIDATE_MISSING_BOOT_UI_GRAPHICS_BACKENDS = 0),
    (by decide : VALIDATE_MISSING_CACHE_BLOCK_DEVS &&& VALIDATE_MISSING_BOOT_UI_GRAPHICS_BACKENDS = 0),
    (by decide : VALIDATE_MISSING_DATA_BLOCK_DEVS &&& VALIDATE_MISSING_BOOT_UI_GRAPHICS_BACKENDS = 0),
    (by decide : VALIDATE_MISSING_BOOT_BLOCK_DEVS &&& VALIDATE_MISSING_BOOT_UI_GRAPHICS_BACKENDS = 0),
    (by decide : VALIDATE_INVALID_BOOT_UI_FLAGS &&& VALIDATE_MISSING_BOOT_UI_GRAPHICS_BACKENDS = 0),
    (by decide : VALIDATE_MISSING_BOOT_UI_THEME &&& VALIDATE_MISSING_BOOT_UI_GRAPHICS_BACKENDS = 0),
    (by decide : VALIDATE_MISSING_BOOT_UI_GRAPHICS_BACKENDS &&& VALIDATE_MISSING_BOOT_UI_GRAPHICS_BACKENDS = VALIDATE_MISSING_BOOT_UI_GRAPHICS_BACKENDS),
    rule_bit_zero, Nat.or_zero, Nat.zero_or]

theorem validate_and_missing_recovery (d : Device) :
    d.validate &&& VALIDATE_MISSING_RECOVERY_BLOCK_DEVS = 0 := by
  rw [validate_and]
  simp only [(by decide : VALIDATE_MISSING_ID &&& VALIDATE_MISSING_RECOVERY_BLOCK_DEVS = 0),
    (by decide : VALIDATE_MISSING_CODENAMES &&& VALIDATE_MISSING_RECOVERY_BLOCK_DEVS = 0),
    (by decide : VALIDATE_MISSING_NAME &&& VALIDATE_MISSING_RECOVERY_BLOCK_DEVS = 0),
    (by decide : VALIDATE_MISSING_ARCHITECTURE &&& VALIDATE_MISSING_RECOVERY_BLOCK_DEVS = 0),
    (by decide : VALIDATE_INVALID_ARCHITECTURE &&& VALIDATE_MISSING_RECOVERY_BLOCK_DEVS = 0),
    (by decide : VALIDATE_INVALID_FLAGS &&& VALIDATE_MISSING_RECOVERY_BLOCK_DEVS = 0),
    (by decide : VALIDATE_MISSING_SYSTEM_BLOCK_DEVS &&& VALIDATE_MISSING_RECOVERY_BLOCK_DEVS = 0),
    (by decide : VALIDATE_MISSING_CACHE_BLOCK_DEVS &&& VALIDATE_MISSING_RECOVERY_BLOCK_DEVS = 0),
    (by decide : VALIDATE_MISSING_DATA_BLOCK_DEVS &&& VALIDATE_MISSING_RECOVERY_BLOCK_DEVS = 0),
    (by decide : VALIDATE_MISSING_BOOT_BLOCK_DEVS &&& VALIDATE_MISSING_RECOVERY_BLOCK_DEVS = 0),
    (by decide : VALIDATE_INVALID_BOOT_UI_FLAGS &&& VALIDATE_MISSING_RECOVERY_BLOCK_DEVS = 0),
    (by decide : VALIDATE_MISSING_BOOT_UI_THEME &&& VALIDATE_MISSING_RECOVERY_BLOCK_DEVS = 0),
    (by decide : VALIDATE_MISSING_BOOT_UI_GRAPHICS_BACKENDS &&& VALIDATE_MISSING_RECOVERY_BLOCK_DEVS = 0),
    rule_bit_zero, Nat.or_zero]

theorem rule_bit_ne_zero (c : Bool) (k : Nat) (hk : k ≠ 0) : rule_bit c k ≠ 0 ↔ c = true := by
  cases c <;> simp [rule_bit, hk]

theorem rule_bit_decide (c : Prop) [Decidable c] (k : Nat) :
    rule_bit (decide c) k = if c then k else 0 := by
  by_cases h : c <;> simp [rule_bit, h]

/-! ## The rules of the validator -/

/-- C22: in the mask of `validate()`, each of the seven bits `MISSING_ID`,
`MISSING_CODENAMES`, `MISSING_NAME` and `MISSING_SYSTEM/CACHE/DATA/BOOT_BLOCK_DEVS` is
set when its own field is empty and clear otherwise; the bit is thus a function of that
field alone, whatever the other rules find. -/
theorem missing_field_rules (d : Device) :
    d.validate &&& VALIDATE_MISSING_ID
      = (if d.id = "" then VALIDATE_MISSING_ID else 0)
    ∧ d.validate &&& VALIDATE_MISSING_CODENAMES
      = (if d.codenames = [] then VALIDATE_MISSING_CODENAMES else 0)
    ∧ d.validate &&& VALIDATE_MISSING_NAME
      = (if d.name = "" then VALIDATE_MISSING_NAME else 0)
    ∧ d.validate &&& VALIDATE_MISSING_SYSTEM_BLOCK_DEVS
      = (if d.system_block_devs = [] then VALIDATE_MISSING_SYSTEM_BLOCK_DEVS else 0)
    ∧ d.validate &&& VALIDATE_MISSING_CACHE_BLOCK_DEVS
      = (if d.cache_block_devs = [] then VALIDATE_MISSING_CACHE_BLOCK_DEVS else 0)
    ∧ d.validate &&& VALIDATE_MISSING_DATA_BLOCK_DEVS
      = (if d.data_block_devs = [] then VALIDATE_MISSING_DATA_BLOCK_DEVS else 0)
    ∧ d.validate &&& VALIDATE_MISSING_BOOT_BLOCK_DEVS
      = (if d.boot_block_devs = [] then VALIDATE_MISSING_BOOT_BLOCK_DEVS else 0) := by
  refine ⟨?_, ?_, ?_, ?_, ?_, ?_, ?_⟩
  · rw [validate_and_missing_id, rule_bit_decide]; rfl
  · rw [validate_and_missing_codenames, rule_bit_decide]; rfl
  · rw [validate_and_missing_name, rule_bit_decide]; rfl
  · rw [validate_and_missing_system, rule_bit_decide]; rfl
  · rw [validate_and_missing_cache, rule_bit_decide]; rfl
  · rw [validate_and_missing_data, rule_bit_decide]; rfl
  · rw [validate_and_missing_boot, rule_bit_decide]; rfl

/-- C23: `validate()` sets `MISSING_ARCHITECTURE` when the architecture is empty and
clears it otherwise; it sets `INVALID_ARCHITECTURE` when the architecture is not empty
and is none of `armeabi-v7a`, `arm64-v8a`, `x86`, `x86_64`, and clears it otherwise; the
two bits are never set together. -/
theorem architecture_rule (d : Device) :
    d.validate &&& VALIDATE_MISSING_ARCHITECTURE
      = (if d.architecture = "" then VALIDATE_MISSING_ARCHITECTURE else 0)
    ∧ d.validate &&& VALIDATE_INVALID_ARCHITECTURE
      = (if d.architecture ≠ ""
            ∧ d.architecture ∉ ["armeabi-v7a", "arm64-v8a", "x86", "x86_64"] then
          VALIDATE_INVALID_ARCHITECTURE else 0)
    ∧ ¬ (d.validate &&& VALIDATE_MISSING_ARCHITECTURE ≠ 0
        ∧ d.validate &&& VALIDATE_INVALID_ARCHITECTURE ≠ 0) := by
  refine ⟨?_, ?_, ?_⟩
  · rw [validate_and_missing_architecture, rule_bit_decide]; rfl
  · rw [validate_and_invalid_architecture, rule_bit_decide]
    simp [Device.architecture, ARCH_ARMEABI_V7A, ARCH_ARM64_V8A, ARCH_X86, ARCH_X86_64]
  · rw [validate_and_missing_architecture, validate_and_invalid_architecture,
      rule_bit_ne_zero _ _ (by decide), rule_bit_ne_zero _ _ (by decide)]
    simp only [decide_eq_true_eq]
    rintro ⟨h1, h2, _⟩
    exact h2 h1

/-- C24: `validate()` sets `INVALID_FLAGS` exactly when `flags` has a bit set outside
`DEVICE_FLAG_MASK`, which is 3: a bit at position 2 or above, and so one of the bits 2
to 63 of a 64-bit value. -/
theorem device_flag_mask_rule (d : Device) :
    (d.validate &&& VALIDATE_INVALID_FLAGS ≠ 0 ↔ has_bit_from 2 d.flags)
    ∧ d.validate &&& VALIDATE_INVALID_FLAGS
      = (if d.flags &&& DEVICE_FLAG_MASK ≠ d.flags then VALIDATE_INVALID_FLAGS else 0)
    ∧ DEVICE_FLAG_MASK = 3
    ∧ (d.flags < 2 ^ 64 →
        (has_bit_from 2 d.flags ↔ ∃ i, 2 ≤ i ∧ i ≤ 63 ∧ d.flags.testBit i = true)) := by
  refine ⟨?_, ?_, by decide, ?_⟩
  · rw [validate_and_invalid_flags, rule_bit_ne_zero _ _ (by decide), decide_eq_true_eq]
    exact device_flag_mask_ne_iff _
  · rw [validate_and_invalid_flags, rule_bit_decide]; rfl
  · intro hlt
    constructor
    · rintro ⟨i, hi, hb⟩
      have := testBit_lt_of_lt _ 64 i hlt hb
      exact ⟨i, hi, by omega, hb⟩
    · rintro ⟨i, hi, _, hb⟩
      exact ⟨i, hi, hb⟩

/-- C24 on the default device with `flags` set to 4: bit 2 lies outside the mask and
`INVALID_FLAGS` is set; with `flags` 3 it is not. -/
theorem device_flag_mask_rule_witness :
    (Device.ctor.set_flags 4).flags < 2 ^ 64
    ∧ (has_bit_from 2 (Device.ctor.set_flags 4).flags
        ↔ ∃ i, 2 ≤ i ∧ i ≤ 63 ∧ (Device.ctor.set_flags 4).flags.testBit i = true)
    ∧ (Device.ctor.set_flags 4).validate &&& VALIDATE_INVALID_FLAGS = VALIDATE_INVALID_FLAGS
    ∧ (Device.ctor.set_flags 3).validate &&& VALIDATE_INVALID_FLAGS = 0 :=
  ⟨by decide, (device_flag_mask_rule (Device.ctor.set_flags 4)).2.2.2 (by decide),
    by decide, by decide⟩

/-- C25: `validate()` sets `INVALID_BOOT_UI_FLAGS` exactly when `supported` is true and
`tw_flags` has a bit outside `TW_FLAG_MASK` (a bit at position 17 or above),
`MISSING_BOOT_UI_THEME` exactly when `supported` is true and the theme is empty, and
`MISSING_BOOT_UI_GRAPHICS_BACKENDS` exactly when `supported` is true and
`graphics_backends` is empty; with `supported` false none of the three is set. -/
theorem boot_ui_rules_gated (d : Device) :
    d.validate &&& VALIDATE_INVALID_BOOT_UI_FLAGS
      = (if d.tw_supported = true ∧ d.tw_flags &&& TW_FLAG_MASK ≠ d.tw_flags then
          VALIDATE_INVALID_BOOT_UI_FLAGS else 0)
    ∧ d.validate &&& VALIDATE_MISSING_BOOT_UI_THEME
      = (if d.tw_supported = true ∧ d.tw_theme = "" then
          VALIDATE_MISSING_BOOT_UI_THEME else 0)
    ∧ d.validate &&& VALIDATE_MISSING_BOOT_UI_GRAPHICS_BACKENDS
      = (if d.tw_supported = true ∧ d.tw_graphics_backends = [] then
          VALIDATE_MISSING_BOOT_UI_GRAPHICS_BACKENDS else 0)
    ∧ (d.tw_flags &&& TW_FLAG_MASK ≠ d.tw_flags ↔ has_bit_from 17 d.tw_flags)
    ∧ (d.tw_supported = false →
        d.validate &&& VALIDATE_INVALID_BOOT_UI_FLAGS = 0
        ∧ d.validate &&& VALIDATE_MISSING_BOOT_UI_THEME = 0
        ∧ d.validate &&& VALIDATE_MISSING_BOOT_UI_GRAPHICS_BACKENDS = 0) := by
  have h1 : d.validate &&& VALIDATE_INVALID_BOOT_UI_FLAGS
      = (if d.tw_supported = true ∧ d.tw_flags &&& TW_FLAG_MASK ≠ d.tw_flags then
          VALIDATE_INVALID_BOOT_UI_FLAGS else 0) := by
    rw [validate_and_invalid_boot_ui_flags]
    simp only [Device.tw_supported, Device.tw_flags, rule_bit, Bool.and_eq_true,
      decide_eq_true_eq]
  have h2 : d.validate &&& VALIDATE_MISSING_BOOT_UI_THEME
      = (if d.tw_supported = true ∧ d.tw_theme = "" then
          VALIDATE_MISSING_BOOT_UI_THEME else 0) := by
    rw [validate_and_missing_boot_ui_theme]
    simp only [Device.tw_supported, Device.tw_theme, rule_bit, Bool.and_eq_true,
      decide_eq_true_eq]
  have h3 : d.validate &&& VALIDATE_MISSING_BOOT_UI_GRAPHICS_BACKENDS
      = (if d.tw_supported = true ∧ d.tw_graphics_backends = [] then
          VALIDATE_MISSING_BOOT_UI_GRAPHICS_BACKENDS else 0) := by
    rw [validate_and_missing_boot_ui_graphics_backends]
    simp only [Device.tw_supported, Device.tw_graphics_backends, rule_bit, Bool.and_eq_true,
      decide_eq_true_eq]
  refine ⟨h1, h2, h3, tw_flag_mask_ne_iff _, ?_⟩
  intro hs
  rw [h1, h2, h3]
  simp [hs]

/-- C25 on `sample_device` with the theme removed: with `supported` true the mask is
exactly `MISSING_BOOT_UI_THEME`, with `supported` false it is 0. -/
theorem boot_ui_rules_gated_witness :
    ((sample_device.set_tw_theme "").set_tw_supported false).tw_supported = false
    ∧ (((sample_device.set_tw_theme "").set_tw_supported false).validate
          &&& VALIDATE_INVALID_BOOT_UI_FLAGS = 0
        ∧ ((sample_device.set_tw_theme "").set_tw_supported false).validate
          &&& VALIDATE_MISSING_BOOT_UI_THEME = 0
        ∧ ((sample_device.set_tw_theme "").set_tw_supported false).validate
          &&& VALIDATE_MISSING_BOOT_UI_GRAPHICS_BACKENDS = 0)
    ∧ ((sample_device.set_tw_theme "").set_tw_supported false).validate = 0
    ∧ (sample_device.set_tw_theme "").tw_supported = true
    ∧ (sample_device.set_tw_theme "").validate = VALIDATE_MISSING_BOOT_UI_THEME :=
  ⟨by decide,
    (boot_ui_rules_gated ((sample_device.set_tw_theme "").set_tw_supported false)).2.2.2.2
      (by decide),
    by decide, by decide, by decide⟩

/-- C26: `validate()` never sets `MISSING_RECOVERY_BLOCK_DEVS`, which is bit 8, and its
result is the same whatever `recovery_block_devs` holds. -/
theorem recovery_exempt (d : Device) (recovery : List String) :
    d.validate &&& VALIDATE_MISSING_RECOVERY_BLOCK_DEVS = 0
    ∧ VALIDATE_MISSING_RECOVERY_BLOCK_DEVS = 2 ^ 8
    ∧ d.validate.testBit 8 = false
    ∧ (d.set_recovery_block_devs recovery).validate = d.validate := by
  refine ⟨validate_and_missing_recovery d, by decide, ?_, rfl⟩
  have h := validate_and_missing_recovery d
  have h2 := congrArg (fun x => x.testBit 8) h
  simp only [Nat.testBit_and, Nat.zero_testBit] at h2
  have h3 : VALIDATE_MISSING_RECOVERY_BLOCK_DEVS.testBit 8 = true := by decide
  rw [h3, Bool.and_true] at h2
  exact h2

/-- C27: the fields of a default-constructed `Device`: every string and every list is
empty, both flag masks are 0, `supported` is false, the three integers are 0, the pixel
formats are `DEFAULT` and `NONE`, and both brightness values are -1. -/
theorem default_construction :
    Device.ctor.id = "" ∧ Device.ctor.codenames = [] ∧ Device.ctor.name = ""
    ∧ Device.ctor.architecture = "" ∧ Device.ctor.flags = 0
    ∧ Device.ctor.block_dev_base_dirs = [] ∧ Device.ctor.system_block_devs = []
    ∧ Device.ctor.cache_block_devs = [] ∧ Device.ctor.data_block_devs = []
    ∧ Device.ctor.boot_block_devs = [] ∧ Device.ctor.recovery_block_devs = []
    ∧ Device.ctor.extra_block_devs = []
    ∧ Device.ctor.tw_supported = false ∧ Device.ctor.tw_flags = 0
    ∧ Device.ctor.tw_pixel_format = TwPixelFormat.DEFAULT
    ∧ Device.ctor.tw_force_pixel_format = TwForcePixelFormat.NONE
    ∧ Device.ctor.tw_overscan_percent = 0 ∧ Device.ctor.tw_default_x_offset = 0
    ∧ Device.ctor.tw_default_y_offset = 0
    ∧ Device.ctor.tw_brightness_path = "" ∧ Device.ctor.tw_secondary_brightness_path = ""
    ∧ Device.ctor.tw_max_brightness = -1 ∧ Device.ctor.tw_default_brightness = -1
    ∧ Device.ctor.tw_battery_path = "" ∧ Device.ctor.tw_cpu_temp_path = ""
    ∧ Device.ctor.tw_input_blacklist = "" ∧ Device.ctor.tw_input_whitelist = ""
    ∧ Device.ctor.tw_graphics_backends = [] ∧ Device.ctor.tw_theme = "" :=
  ⟨rfl, rfl, rfl, rfl, rfl, rfl, rfl, rfl, rfl, rfl, rfl, rfl, rfl, rfl, rfl, rfl, rfl, rfl,
    rfl, rfl, rfl, rfl, rfl, rfl, rfl, rfl, rfl, rfl, rfl⟩

/-- C28: `validate()` returns 0 exactly when id, codenames, name and the system, cache,
data and boot lists are not empty, the architecture is one of the four recognized
strings, `flags` lies within `DEVICE_FLAG_MASK`, and `supported` is false or `tw_flags`
lies within `TW_FLAG_MASK` with theme and graphics backends not empty; every bit of the
result is one of the bits 0 to 7 and 9 to 13. -/
theorem acceptance_criterion (d : Device) :
    (d.validate = 0 ↔
      d.id ≠ "" ∧ d.codenames ≠ [] ∧ d.name ≠ ""
      ∧ d.system_block_devs ≠ [] ∧ d.cache_block_devs ≠ [] ∧ d.data_block_devs ≠ []
      ∧ d.boot_block_devs ≠ []
      ∧ d.architecture ∈ ["armeabi-v7a", "arm64-v8a", "x86", "x86_64"]
      ∧ d.flags &&& DEVICE_FLAG_MASK = d.flags
      ∧ (d.tw_supported = false
          ∨ (d.tw_flags &&& TW_FLAG_MASK = d.tw_flags ∧ d.tw_theme ≠ ""
              ∧ d.tw_graphics_backends ≠ [])))
    ∧ (∀ i, d.validate.testBit i = true → i ≤ 7 ∨ (9 ≤ i ∧ i ≤ 13)) := by
  constructor
  · constructor
    · intro h
      obtain ⟨h1, h2, h3, h4, h5, h6, h7, h8, h9, h10⟩ := validate_eq_zero d h
      refine ⟨h1, h2, h3, h6, h7, h8, h9, ?_, h5, ?_⟩
      · simpa [Device.architecture, ARCH_ARMEABI_V7A, ARCH_ARM64_V8A, ARCH_X86, ARCH_X86_64]
          using h4
      · cases hs : d.tw_options.supported with
        | false => exact Or.inl hs
        | true => exact Or.inr (h10 hs)
    · rintro ⟨h1, h2, h3, h6, h7, h8, h9, h4, h5, h10⟩
      simp only [Device.id, Device.codenames, Device.name, Device.system_block_devs,
        Device.cache_block_devs, Device.data_block_devs, Device.boot_block_devs,
        Device.architecture, Device.flags, Device.tw_supported, Device.tw_flags,
        Device.tw_theme, Device.tw_graphics_backends] at h1 h2 h3 h4 h5 h6 h7 h8 h9 h10
      have ha : d.options.architecture ≠ "" := by
        intro he
        rw [he] at h4
        exact absurd h4 (by decide)
      have ha2 : ¬ (d.options.architecture ≠ "" ∧ d.options.architecture ≠ ARCH_ARMEABI_V7A
          ∧ d.options.architecture ≠ ARCH_ARM64_V8A ∧ d.options.architecture ≠ ARCH_X86
          ∧ d.options.architecture ≠ ARCH_X86_64) := by
        simp only [List.mem_cons, List.mem_singleton, List.not_mem_nil, or_false] at h4
        rintro ⟨_, n1, n2, n3, n4⟩
        rcases h4 with h | h | h | h
        · exact n1 h
        · exact n2 h
        · exact n3 h
        · exact n4 h
      have hb : (d.tw_options.supported
            && decide (d.tw_options.flags &&& TW_FLAG_MASK ≠ d.tw_options.flags)) = false
          ∧ (d.tw_options.supported && decide (d.tw_options.theme = "")) = false
          ∧ (d.tw_options.supported && decide (d.tw_options.graphics_backends = []))
            = false := by
        rcases h10 with hs | ⟨k1, k2, k3⟩
        · simp [hs]
        · simp [k1, k2, k3]
      rw [validate_eq, hb.1, hb.2.1, hb.2.2, decide_eq_false ha2]
      simp [rule_bit, h1, h2, h3, ha, h5, h6, h7, h8, h9]
  · intro i hi
    rw [validate_eq] at hi
    simp only [VALIDATE_MISSING_ID, VALIDATE_MISSING_CODENAMES, VALIDATE_MISSING_NAME,
      VALIDATE_MISSING_ARCHITECTURE, VALIDATE_MISSING_SYSTEM_BLOCK_DEVS,
      VALIDATE_MISSING_CACHE_BLOCK_DEVS, VALIDATE_MISSING_DATA_BLOCK_DEVS,
      VALIDATE_MISSING_BOOT_BLOCK_DEVS, VALIDATE_MISSING_BOOT_UI_THEME,
      VALIDATE_MISSING_BOOT_UI_GRAPHICS_BACKENDS, VALIDATE_INVALID_ARCHITECTURE,
      VALIDATE_INVALID_FLAGS, VALIDATE_INVALID_BOOT_UI_FLAGS, Nat.testBit_or,
      testBit_rule_bit, Bool.or_eq_true, Bool.and_eq_true, decide_eq_true_eq] at hi
    omega

/-- C28 on `sample_device`, which satisfies every condition: its mask is 0. -/
theorem acceptance_criterion_witness : sample_device.validate = 0 :=
  (acceptance_criterion sample_device).1.mpr (by decide)

/-! ## Containers in the encoder's tree -/

theorem all_no_empty_strings (xs : List String) :
    all_no_empty_container (xs.map Value.string) = true := by
  induction xs with
  | nil => rfl
  | cons x xs ih => simp [all_no_empty_container, no_empty_container, ih]

theorem no_empty_strings (xs : List String) (h : xs ≠ []) :
    no_empty_container (strings xs) = true := by
  cases xs with
  | nil => exact absurd rfl h
  | cons x xs =>
    have := all_no_empty_strings (x :: xs)
    simpa [strings, no_empty_container] using this

theorem members_no_empty_of_forall (ms : List (String × Value))
    (h : ∀ m ∈ ms, no_empty_container m.2 = true) : members_no_empty_container ms = true := by
  induction ms with
  | nil => rfl
  | cons m rest ih =>
    obtain ⟨k, v⟩ := m
    have h1 := h (k, v) (List.mem_cons_self _ _)
    have h2 := ih (fun m hm => h m (List.mem_cons_of_mem _ hm))
    simp only at h1
    simp [members_no_empty_container, h1, h2]

/-- The object built by a sequence of encoder statements has no empty container when the
value of no statement that is carried out has one. -/
theorem no_empty_object_chain (steps : List Step)
    (h : ∀ s ∈ steps, s.cond = true → no_empty_container s.val = true)
    (hne : chain steps ≠ []) : no_empty_container (Value.object (chain steps)) = true := by
  have hm : members_no_empty_container (chain steps) = true := by
    apply members_no_empty_of_forall
    intro m hmem
    obtain ⟨s, hs, hc, rfl⟩ := mem_chain steps m hmem
    exact h s hs hc
  cases hch : chain steps with
  | nil => exact absurd hch hne
  | cons m rest =>
    rw [hch] at hm
    simp [no_empty_container, hm]

theorem block_devs_steps_no_empty (d : Device) :
    ∀ s ∈ block_devs_steps d, s.cond = true → no_empty_container s.val = true := by
  intro s hs hc
  simp only [block_devs_steps, List.mem_cons, List.mem_singleton, List.not_mem_nil,
    or_false] at hs
  rcases hs with h | h | h | h | h | h | h <;> subst h <;>
    exact no_empty_strings _ (by simpa using hc)

theorem boot_ui_steps_no_empty (d : Device) :
    ∀ s ∈ boot_ui_steps d, s.cond = true → no_empty_container s.val = true := by
  intro s hs hc
  simp only [boot_ui_steps, List.mem_cons, List.mem_singleton, List.not_mem_nil,
    or_false] at hs
  rcases hs with h | h | h | h | h | h | h | h | h | h | h | h | h | h | h | h | h <;>
    subst h <;> first | rfl | exact no_empty_strings _ (by simpa using hc)

theorem device_steps_no_empty (d : Device) :
    ∀ s ∈ device_steps d, s.cond = true → no_empty_container s.val = true := by
  intro s hs hc
  simp only [device_steps, List.mem_cons, List.mem_singleton, List.not_mem_nil,
    or_false] at hs
  rcases hs with h | h | h | h | h | h | h <;> subst h
  · rfl
  · exact no_empty_strings _ (by simpa using hc)
  · rfl
  · rfl
  · exact no_empty_strings _ (by simpa using hc)
  · exact no_empty_object_chain _ (block_devs_steps_no_empty d)
      ((isEmpty_eq_false_iff _).mp hc)
  · exact no_empty_object_chain _ (boot_ui_steps_no_empty d)
      ((isEmpty_eq_false_iff _).mp hc)

theorem device_to_json_no_empty (d : Device) :
    no_empty_container (device_to_json d) = true := by
  rw [device_to_json_eq]
  by_cases hne : chain (device_steps d) = []
  · rw [hne]; rfl
  · rw [of_members_cons_eq _ hne]
    exact no_empty_object_chain _ (device_steps_no_empty d) hne

/-- The member `block_devs` of the encoder's tree is the object of the `block_devs`
statements when one of them is carried out, and absent otherwise. -/
theorem member_block_devs (d : Device) :
    member (device_to_json d) "block_devs"
      = if (chain (block_devs_steps d)).isEmpty = true then none
        else some (Value.object (chain (block_devs_steps d))) := by
  have h := device_members d
    ⟨!(chain (block_devs_steps d)).isEmpty, "block_devs",
      Value.object (chain (block_devs_steps d))⟩ (by simp [device_steps])
  simp only at h
  rw [h]
  cases chain (block_devs_steps d) <;> rfl

/-- The member `boot_ui` of the encoder's tree is the object of the `boot_ui` statements
when one of them is carried out, and absent otherwise. -/
theorem member_boot_ui (d : Device) :
    member (device_to_json d) "boot_ui"
      = if (chain (boot_ui_steps d)).isEmpty = true then none
        else some (Value.object (chain (boot_ui_steps d))) := by
  have h := device_members d
    ⟨!(chain (boot_ui_steps d)).isEmpty, "boot_ui",
      Value.object (chain (boot_ui_steps d))⟩ (by simp [device_steps])
  simp only at h
  rw [h]
  cases chain (boot_ui_steps d) <;> rfl

theorem member_boot_ui_isSome (d : Device) :
    (member (device_to_json d) "boot_ui").isSome = true
      ↔ ∃ k v, member2 (device_to_json d) "boot_ui" k = some v := by
  constructor
  · intro h
    rw [member_boot_ui] at h
    cases hch : chain (boot_ui_steps d) with
    | nil => rw [hch] at h; exact absurd h (by decide)
    | cons m rest =>
      refine ⟨m.1, m.2, ?_⟩
      rw [member2_boot_ui, hch]
      obtain ⟨k, v⟩ := m
      rw [lookup_cons_eq, if_pos rfl]
  · rintro ⟨k, v, h⟩
    unfold member2 at h
    cases hm : member (device_to_json d) "boot_ui" with
    | none => rw [hm] at h; simp at h
    | some w => rfl

/-! ## The flag keys and the `supported` key of the encoder -/

theorem flag_names_eq_nil_of_mask (table : List FlagMapping) (mask flags : Nat)
    (htable : ∀ it ∈ table, mask &&& it.flag = it.flag) (h : flags &&& mask = 0) :
    flag_names table flags = [] := by
  unfold flag_names
  rw [List.map_eq_nil_iff, List.filter_eq_nil_iff]
  intro it hit
  have h1 : flags &&& it.flag = 0 := by
    rw [← htable it hit, ← Nat.and_assoc, h, Nat.zero_and]
  simp [h1]

/-- The encoder finds a name for `flags` exactly when a bit of the mask is set. -/
theorem device_flag_names_eq_nil_iff (flags : Nat) :
    flag_names device_flag_mappings flags = [] ↔ flags &&& DEVICE_FLAG_MASK = 0 :=
  ⟨flag_names_nil_device flags,
    flag_names_eq_nil_of_mask _ _ _ (by decide)⟩

/-- The encoder finds a name for `tw_flags` exactly when a bit of the mask is set. -/
theorem tw_flag_names_eq_nil_iff (flags : Nat) :
    flag_names tw_flag_mappings flags = [] ↔ flags &&& TW_FLAG_MASK = 0 :=
  ⟨flag_names_nil_tw flags,
    flag_names_eq_nil_of_mask _ _ _ (by decide)⟩

theorem member_flags_isSome (d : Device) :
    (member (device_to_json d) "flags").isSome = true ↔ d.flags &&& DEVICE_FLAG_MASK ≠ 0 := by
  have h := device_members d
    ⟨decide (flag_names device_flag_mappings d.options.flags ≠ []), "flags",
      strings (flag_names device_flag_mappings d.options.flags)⟩ (by simp [device_steps])
  simp only at h
  rw [h]
  have hiff := device_flag_names_eq_nil_iff d.options.flags
  by_cases hn : flag_names device_flag_mappings d.options.flags = []
  · have hz := hiff.mp hn
    simp [hn, Device.flags, hz]
  · have hz : d.options.flags &&& DEVICE_FLAG_MASK ≠ 0 := fun hc => hn (hiff.mpr hc)
    simp [hn, Device.flags, hz]

theorem member2_flags_isSome (d : Device) :
    (member2 (device_to_json d) "boot_ui" "flags").isSome = true
      ↔ d.tw_flags &&& TW_FLAG_MASK ≠ 0 := by
  have h := boot_ui_members d
    ⟨decide (flag_names tw_flag_mappings d.tw_options.flags ≠ []), "flags",
      strings (flag_names tw_flag_mappings d.tw_options.flags)⟩ (by simp [boot_ui_steps])
  simp only at h
  rw [h]
  have hiff := tw_flag_names_eq_nil_iff d.tw_options.flags
  by_cases hn : flag_names tw_flag_mappings d.tw_options.flags = []
  · have hz := hiff.mp hn
    simp [hn, Device.tw_flags, hz]
  · have hz : d.tw_options.flags &&& TW_FLAG_MASK ≠ 0 := fun hc => hn (hiff.mpr hc)
    simp [hn, Device.tw_flags, hz]

/-- Looking up a key after a sequence of encoder statements depends on the members
before the sequence only through the lookup of that key. -/
theorem lookup_foldl_insert_step (k : String) (steps : List Step) :
    ∀ (a b : List (String × Value)), a.lookup k = b.lookup k →
      (steps.foldl insert_step a).lookup k = (steps.foldl insert_step b).lookup k := by
  induction steps with
  | nil => intro a b h; exact h
  | cons s rest ih =>
    intro a b h
    rw [List.foldl_cons, List.foldl_cons]
    apply ih
    unfold insert_step
    split
    · rw [lookup_updateMember_const, lookup_updateMember_const, h]
    · exact h

/-- The first statement of a sequence has no influence on the keys other than its
own. -/
theorem lookup_chain_cons (s : Step) (rest : List Step) (k : String) (hk : k ≠ s.key) :
    (chain (s :: rest)).lookup k = (chain rest).lookup k := by
  unfold chain
  rw [List.foldl_cons]
  apply lookup_foldl_insert_step
  unfold insert_step
  split
  · rw [lookup_updateMember_const, if_neg hk]
  · rfl

/-- C21: in the tree of `device_to_json`, each of the nine string-list keys is present
iff its list is not empty, and then holds the array of the list's strings in order;
`block_devs` is present iff one of the seven block-device lists is not empty; `boot_ui`
is present iff one of its keys is emitted; and no array and no object anywhere in the
tree is empty. -/
theorem encoder_containers (d : Device) :
    member (device_to_json d) "codenames"
      = (if d.codenames ≠ [] then some (strings d.codenames) else none)
    ∧ member2 (device_to_json d) "block_devs" "base_dirs"
      = (if d.block_dev_base_dirs ≠ [] then some (strings d.block_dev_base_dirs) else none)
    ∧ member2 (device_to_json d) "block_devs" "system"
      = (if d.system_block_devs ≠ [] then some (strings d.system_block_devs) else none)
    ∧ member2 (device_to_json d) "block_devs" "cache"
      = (if d.cache_block_devs ≠ [] then some (strings d.cache_block_devs) else none)
    ∧ member2 (device_to_json d) "block_devs" "data"
      = (if d.data_block_devs ≠ [] then some (strings d.data_block_devs) else none)
    ∧ member2 (device_to_json d) "block_devs" "boot"
      = (if d.boot_block_devs ≠ [] then some (strings d.boot_block_devs) else none)
    ∧ member2 (device_to_json d) "block_devs" "recovery"
      = (if d.recovery_block_devs ≠ [] then some (strings d.recovery_block_devs) else none)
    ∧ member2 (device_to_json d) "block_devs" "extra"
      = (if d.extra_block_devs ≠ [] then some (strings d.extra_block_devs) else none)
    ∧ member2 (device_to_json d) "boot_ui" "graphics_backends"
      = (if d.tw_graphics_backends ≠ [] then some (strings d.tw_graphics_backends)
          else none)
    ∧ ((member (device_to_json d) "block_devs").isSome = true
        ↔ d.block_dev_base_dirs ≠ [] ∨ d.system_block_devs ≠ [] ∨ d.cache_block_devs ≠ []
          ∨ d.data_block_devs ≠ [] ∨ d.boot_block_devs ≠ [] ∨ d.recovery_block_devs ≠ []
          ∨ d.extra_block_devs ≠ [])
    ∧ ((member (device_to_json d) "boot_ui").isSome = true
        ↔ ∃ k v, member2 (device_to_json d) "boot_ui" k = some v)
    ∧ no_empty_container (device_to_json d) = true := by
  refine ⟨?_, ?_, ?_, ?_, ?_, ?_, ?_, ?_, ?_, ?_, member_boot_ui_isSome d,
    device_to_json_no_empty d⟩
  · simpa [Device.codenames] using device_members d
      ⟨decide (d.options.codenames ≠ []), "codenames", strings d.options.codenames⟩
      (by simp [device_steps])
  · simpa [Device.block_dev_base_dirs] using block_devs_members d
      ⟨decide (d.options.base_dirs ≠ []), "base_dirs", strings d.options.base_dirs⟩
      (by simp [block_devs_steps])
  · simpa [Device.system_block_devs] using block_devs_members d
      ⟨decide (d.options.system_devs ≠ []), "system", strings d.options.system_devs⟩
      (by simp [block_devs_steps])
  · simpa [Device.cache_block_devs] using block_devs_members d
      ⟨decide (d.options.cache_devs ≠ []), "cache", strings d.options.cache_devs⟩
      (by simp [block_devs_steps])
  · simpa [Device.data_block_devs] using block_devs_members d
      ⟨decide (d.options.data_devs ≠ []), "data", strings d.options.data_devs⟩
      (by simp [block_devs_steps])
  · simpa [Device.boot_block_devs] using block_devs_members d
      ⟨decide (d.options.boot_devs ≠ []), "boot", strings d.options.boot_devs⟩
      (by simp [block_devs_steps])
  · simpa [Device.recovery_block_devs] using block_devs_members d
      ⟨decide (d.options.recovery_devs ≠ []), "recovery", strings d.options.recovery_devs⟩
      (by simp [block_devs_steps])
  · simpa [Device.extra_block_devs] using block_devs_members d
      ⟨decide (d.options.extra_devs ≠ []), "extra", strings d.options.extra_devs⟩
      (by simp [block_devs_steps])
  · simpa [Device.tw_graphics_backends] using boot_ui_members d
      ⟨decide (d.tw_options.graphics_backends ≠ []), "graphics_backends",
        strings d.tw_options.graphics_backends⟩ (by simp [boot_ui_steps])
  · rw [member_block_devs]
    by_cases hc : chain (block_devs_steps d) = []
    · have h2 := chain_nil_conds _ hc
      simp only [block_devs_steps, List.mem_cons, List.mem_singleton, List.not_mem_nil,
        or_false, forall_eq_or_imp, forall_eq, decide_eq_false_iff_not, not_not] at h2
      obtain ⟨a1, a2, a3, a4, a5, a6, a7⟩ := h2
      rw [hc]
      simp [Device.block_dev_base_dirs, Device.system_block_devs,
        Device.cache_block_devs, Device.data_block_devs, Device.boot_block_devs,
        Device.recovery_block_devs, Device.extra_block_devs, a1, a2, a3, a4, a5, a6, a7]
    · obtain ⟨s, hs, hcond⟩ := (chain_ne_nil_iff (block_devs_steps d)).mp hc
      have he : (chain (block_devs_steps d)).isEmpty = false := by
        cases hch : chain (block_devs_steps d) with
        | nil => exact absurd hch hc
        | cons m rest => rfl
      rw [he]
      simp only [Bool.false_eq_true, if_false, Option.isSome_some, true_iff]
      simp only [block_devs_steps, List.mem_cons, List.mem_singleton, List.not_mem_nil,
        or_false] at hs
      rcases hs with e | e | e | e | e | e | e <;> subst e <;>
        simp only [decide_eq_true_eq] at hcond
      · exact Or.inl hcond
      · exact Or.inr (Or.inl hcond)
      · exact Or.inr (Or.inr (Or.inl hcond))
      · exact Or.inr (Or.inr (Or.inr (Or.inl hcond)))
      · exact Or.inr (Or.inr (Or.inr (Or.inr (Or.inl hcond))))
      · exact Or.inr (Or.inr (Or.inr (Or.inr (Or.inr (Or.inl hcond)))))
      · exact Or.inr (Or.inr (Or.inr (Or.inr (Or.inr (Or.inr hcond)))))

/-- C29 as stated fails: a device whose `flags` is 4 (resp. whose `tw_flags` is
`1 << 17`) has a value different from 0, and `device_to_json` emits no `flags` (resp.
`boot_ui.flags`) key for it, no table entry having that bit. -/
theorem flags_key_counterexample :
    (Device.ctor.set_flags 4).flags ≠ 0
    ∧ (member (device_to_json (Device.ctor.set_flags 4)) "flags").isSome = false
    ∧ (Device.ctor.set_tw_flags (1 <<< 17)).tw_flags ≠ 0
    ∧ (member2 (device_to_json (Device.ctor.set_tw_flags (1 <<< 17))) "boot_ui"
        "flags").isSome = false := by
  decide

/-- C29, amended: `device_to_json` emits the top-level `flags` key iff `flags` has a bit
of `DEVICE_FLAG_MASK` set, and `boot_ui.flags` iff `tw_flags` has a bit of
`TW_FLAG_MASK` set; for a value that lies within its mask this is iff the value differs
from 0. -/
theorem flags_key_rule (d : Device) :
    ((member (device_to_json d) "flags").isSome = true ↔ d.flags &&& DEVICE_FLAG_MASK ≠ 0)
    ∧ ((member2 (device_to_json d) "boot_ui" "flags").isSome = true
        ↔ d.tw_flags &&& TW_FLAG_MASK ≠ 0)
    ∧ (d.flags &&& DEVICE_FLAG_MASK = d.flags →
        ((member (device_to_json d) "flags").isSome = true ↔ d.flags ≠ 0))
    ∧ (d.tw_flags &&& TW_FLAG_MASK = d.tw_flags →
        ((member2 (device_to_json d) "boot_ui" "flags").isSome = true ↔ d.tw_flags ≠ 0)) := by
  refine ⟨member_flags_isSome d, member2_flags_isSome d, ?_, ?_⟩
  · intro h
    rw [member_flags_isSome, h]
  · intro h
    rw [member2_flags_isSome, h]

/-- C29, amended, on `sample_device`, whose two flag values lie within their masks and
differ from 0: both keys are emitted. -/
theorem flags_key_rule_witness :
    sample_device.flags &&& DEVICE_FLAG_MASK = sample_device.flags
    ∧ sample_device.tw_flags &&& TW_FLAG_MASK = sample_device.tw_flags
    ∧ ((member (device_to_json sample_device) "flags").isSome = true
        ↔ sample_device.flags ≠ 0)
    ∧ ((member2 (device_to_json sample_device) "boot_ui" "flags").isSome = true
        ↔ sample_device.tw_flags ≠ 0)
    ∧ sample_device.flags ≠ 0 ∧ sample_device.tw_flags ≠ 0 :=
  ⟨by decide, by decide, (flags_key_rule sample_device).2.2.1 (by decide),
    (flags_key_rule sample_device).2.2.2 (by decide), by decide, by decide⟩

/-- C30 as stated fails: the default device with `tw_flags` set to `1 << 17` has
`supported` false and a `tw_flags` different from its default 0, and `device_to_json`
emits no `boot_ui.flags` for it, nor any `boot_ui` object. -/
theorem boot_ui_not_gated_counterexample :
    (Device.ctor.set_tw_flags (1 <<< 17)).tw_supported = false
    ∧ (Device.ctor.set_tw_flags (1 <<< 17)).tw_flags ≠ 0
    ∧ (member2 (device_to_json (Device.ctor.set_tw_flags (1 <<< 17))) "boot_ui"
        "flags").isSome = false
    ∧ (member (device_to_json (Device.ctor.set_tw_flags (1 <<< 17))) "boot_ui").isSome
        = false := by
  decide

/-- C30, amended: whatever `supported` is set to, every key of `boot_ui` other than
`supported` is emitted as it is for the device itself: each statement of the encoder
after the one for `supported` puts its key under `boot_ui` exactly when its own
condition holds (for `flags`: when a bit of the table is set), and these conditions and
values do not mention `supported`; with `supported` false there is no `supported` key. -/
theorem boot_ui_not_gated (d : Device) (b : Bool) :
    (∀ k, k ≠ "supported" →
      member2 (device_to_json (d.set_tw_supported b)) "boot_ui" k
        = member2 (device_to_json d) "boot_ui" k)
    ∧ (d.tw_supported = false → member2 (device_to_json d) "boot_ui" "supported" = none)
    ∧ (∀ s ∈ (boot_ui_steps d).tail,
        member2 (device_to_json d) "boot_ui" s.key = if s.cond then some s.val else none)
    ∧ (boot_ui_steps (d.set_tw_supported b)).tail = (boot_ui_steps d).tail
    ∧ ((member2 (device_to_json d) "boot_ui" "flags").isSome = true
        ↔ d.tw_flags &&& TW_FLAG_MASK ≠ 0) := by
  refine ⟨?_, ?_, ?_, rfl, member2_flags_isSome d⟩
  · intro k hk
    rw [member2_boot_ui, member2_boot_ui]
    have h1 : boot_ui_steps (d.set_tw_supported b)
        = ⟨b, "supported", Value.bool true⟩ :: (boot_ui_steps d).tail := rfl
    have h2 : boot_ui_steps d
        = ⟨d.tw_options.supported, "supported", Value.bool true⟩ :: (boot_ui_steps d).tail :=
      rfl
    rw [h1, lookup_chain_cons _ _ _ hk]
    conv_rhs => rw [h2, lookup_chain_cons _ _ _ hk]
  · intro hs
    have h := boot_ui_members d ⟨d.tw_options.supported, "supported", Value.bool true⟩
      (by simp [boot_ui_steps])
    simp only at h
    rw [h]
    have hs2 : d.tw_options.supported = false := hs
    rw [hs2]
    rfl
  · intro s hs
    exact boot_ui_members d s (List.mem_of_mem_tail hs)

/-- C30, amended, on `sample_device` with `supported` set to false: the `boot_ui`
object has no `supported` key, and its `theme` and `flags` keys are those of
`sample_device`. -/
theorem boot_ui_not_gated_witness :
    (sample_device.set_tw_supported false).tw_supported = false
    ∧ member2 (device_to_json (sample_device.set_tw_supported false)) "boot_ui" "supported"
        = none
    ∧ member2 (device_to_json (sample_device.set_tw_supported false)) "boot_ui" "theme"
        = some (Value.string "portrait_hdpi")
    ∧ (member2 (device_to_json (sample_device.set_tw_supported false)) "boot_ui"
        "flags").isSome = true
    ∧ (member2 (device_to_json sample_device) "boot_ui" "supported").isSome = true :=
  ⟨by decide,
    (boot_ui_not_gated (sample_device.set_tw_supported false) false).2.1 (by decide),
    rfl, by decide, by decide⟩

/-! ## Equality of devices -/

theorem operator_eq_iff_eq (a b : Device) : a.operator_eq b = true ↔ a = b := by
  obtain ⟨⟨a1, a2, a3, a4, a5, a6, a7, a8, a9, a10, a11, a12⟩,
    ⟨t1, t2, t3, t4, t5, t6, t7, t8, t9, t10, t11, t12, t13, t14, t15, t16, t17⟩⟩ := a
  obtain ⟨⟨b1, b2, b3, b4, b5, b6, b7, b8, b9, b10, b11, b12⟩,
    ⟨u1, u2, u3, u4, u5, u6, u7, u8, u9, u10, u11, u12, u13, u14, u15, u16, u17⟩⟩ := b
  simp only [Device.operator_eq, BaseOptions.operator_eq, TwOptions.operator_eq,
    Bool.and_eq_true, beq_iff_eq, Device.mk.injEq, BaseOptions.mk.injEq, TwOptions.mk.injEq,
    and_assoc]

theorem agree_of_eq (a b : Device) (h : a = b) (f : FieldId) : Agree f a b := by
  subst h
  exact agree_refl f a

theorem operator_eq_iff_agree (a b : Device) :
    a.operator_eq b = true ↔ ∀ f, Agree f a b :=
  ⟨fun h => agree_of_eq a b ((operator_eq_iff_eq a b).mp h),
    fun h => (operator_eq_iff_eq a b).mpr (eq_of_agree a b h)⟩

/-! ## The batch check of `devicesgen` -/

/-- The loop of `validate` goes over every device: it reports each device whose mask
is not 0, in order, and its flag is set when there is one. -/
theorem validate_loop_eq (path : String) (devices : List Device) :
    ∀ (failed : Bool) (reports : List devicesgen.Report),
      devicesgen.validate_loop path devices failed reports
        = (failed || devices.any (fun d => decide (d.validate ≠ 0)),
            reports ++ (devices.filter (fun d => decide (d.validate ≠ 0))).map
              (fun d => devicesgen.Report.validation_error path d.id d.validate)) := by
  induction devices with
  | nil => intro failed reports; simp [devicesgen.validate_loop]
  | cons d rest ih =>
    intro failed reports
    by_cases h : d.validate = 0
    · simp [devicesgen.validate_loop, h, ih]
    · simp [devicesgen.validate_loop, h, ih]

/-! ## Round trip up to masking -/

theorem flag_names_and_mask (table : List FlagMapping) (mask flags : Nat)
    (htable : ∀ it ∈ table, mask &&& it.flag = it.flag) :
    flag_names table (flags &&& mask) = flag_names table flags := by
  unfold flag_names
  congr 1
  apply List.filter_congr
  intro it hit
  rw [Nat.and_assoc, htable it hit]

theorem boot_ui_steps_masked (d : Device) : boot_ui_steps d.masked = boot_ui_steps d := by
  simp only [boot_ui_steps, Device.masked,
    flag_names_and_mask tw_flag_mappings TW_FLAG_MASK _ (by decide)]

theorem device_steps_masked (d : Device) : device_steps d.masked = device_steps d := by
  have hb : block_devs_steps d.masked = block_devs_steps d := rfl
  unfold device_steps
  rw [boot_ui_steps_masked, hb]
  simp only [Device.masked,
    flag_names_and_mask device_flag_mappings DEVICE_FLAG_MASK _ (by decide)]

/-- Clearing the bits outside the two masks does not change the encoding. -/
theorem device_to_json_masked (d : Device) : device_to_json d.masked = device_to_json d := by
  rw [device_to_json_eq, device_to_json_eq, device_steps_masked]

theorem chain_ne_nil_of_object (d : Device)
    (h : (device_to_json d).type = ValueType.objectValue) : chain (device_steps d) ≠ [] := by
  apply chain_ne_nil_of_not_null
  intro hn
  rw [hn] at h
  exact absurd h (by decide)

/-- A tree without members that `device_to_json` returns is `null`. -/
theorem device_to_json_null_of_no_member (d : Device)
    (h : ∀ k, member (device_to_json d) k = none) : chain (device_steps d) = [] := by
  cases hc : chain (device_steps d) with
  | nil => rfl
  | cons m rest =>
    obtain ⟨k, v⟩ := m
    have h2 := h k
    rw [device_to_json_eq, member_of_members, hc, lookup_cons_eq, if_pos rfl] at h2
    exact absurd h2 (by simp)

/-! ## Decoded flags and their masks -/

theorem device_list_loop_in_mask (items : List Value) :
    ∀ (index : Nat) (devices : List Device) (error : JsonError),
      (∀ d ∈ devices, InMask d) →
      ∀ d ∈ (device_list_loop items index devices error).devices, InMask d := by
  induction items with
  | nil => intro index devices error h; exact h
  | cons item rest ih =>
    intro index devices error h
    cases hr : (process_device Device.ctor item ("[" ++ toString index ++ "]") error).ret with
    | none => simpa [device_list_loop, hr] using h
    | some b =>
      cases b with
      | false => simpa [device_list_loop, hr] using h
      | true =>
        simp only [device_list_loop, hr]
        apply ih
        intro d hd
        rcases List.mem_append.mp hd with h1 | h1
        · exact h d h1
        · rw [List.mem_singleton] at h1
          rw [h1]
          exact process_device_in_mask _ _ _ _ ctor_in_mask

theorem device_list_from_json_in_mask (json : ParseResult) (devices : List Device)
    (error : JsonError) (h : ∀ d ∈ devices, InMask d) :
    ∀ d ∈ (device_list_from_json json devices error).devices, InMask d := by
  cases json with
  | syntaxError msg => exact h
  | ok root =>
    unfold device_list_from_json
    simp only
    split
    · exact h
    · exact device_list_loop_in_mask _ _ _ _ h

theorem device_from_json_in_mask (json : ParseResult) (device : Device) (error : JsonError)
    (h : InMask device) : InMask (device_from_json json device error).device := by
  cases json with
  | syntaxError msg => exact h
  | ok root => exact process_device_in_mask _ _ _ _ h

/-- A device whose flags lie within their masks has no bit outside them, and the
validator reports neither of the two flag errors for it. -/
theorem in_mask_consequences (d : Device) (h : InMask d) :
    d.flags &&& DEVICE_FLAG_MASK = d.flags ∧ d.tw_flags &&& TW_FLAG_MASK = d.tw_flags
    ∧ ¬ has_bit_from 2 d.flags ∧ ¬ has_bit_from 17 d.tw_flags
    ∧ d.validate &&& VALIDATE_INVALID_FLAGS = 0
    ∧ d.validate &&& VALIDATE_INVALID_BOOT_UI_FLAGS = 0 := by
  obtain ⟨h1, h2⟩ := h
  refine ⟨h1, h2, ?_, ?_, ?_, ?_⟩
  · intro hb
    exact (device_flag_mask_ne_iff _).mpr hb h1
  · intro hb
    exact (tw_flag_mask_ne_iff _).mpr hb h2
  · rw [validate_and_invalid_flags]
    simp [rule_bit, h1]
  · rw [validate_and_invalid_boot_ui_flags]
    simp [rule_bit, h2]

/-! ## Fields that decoding leaves alone -/

/-- The key loop leaves a field alone when its body does so on each member. -/
theorem key_loop_preserve (entry : String → Value → Device → JsonError → Outcome)
    (f : FieldId) (ms : List (String × Value)) :
    (∀ m ∈ ms, ∀ dev err, Agree f (entry m.1 m.2 dev err).device dev) →
    ∀ (ret : Option Bool) (dev : Device) (err : JsonError),
      Agree f (key_loop entry ms ret dev err).device dev := by
  induction ms with
  | nil => intro _ ret dev err; exact agree_refl _ _
  | cons m rest ih =>
    intro h ret dev err
    obtain ⟨k, v⟩ := m
    have h1 := h (k, v) (List.mem_cons_self _ _) dev err
    by_cases hy : (entry k v dev err).ret = some true
    · rw [key_loop_cons_ok _ _ _ _ _ _ _ hy]
      exact agree_trans _ _ _ _
        (ih (fun m hm => h m (List.mem_cons_of_mem _ hm)) _ _ _) h1
    · rw [key_loop_cons_stop _ _ _ _ _ _ _ hy]
      exact h1

theorem process_block_devs_preserve (dev : Device) (w : Value) (ctx : String)
    (err : JsonError) (f : FieldId) (k : String) (hk : block_devs_key f = some k)
    (habs : k ∉ w.members.map Prod.fst) :
    Agree f (process_block_devs dev w ctx err).device dev := by
  unfold process_block_devs
  split
  · exact agree_refl _ _
  · apply key_loop_frame _ block_devs_key f
      (fun k v dev err hf => process_block_devs_entry_frame ctx k v dev err f hf)
    intro m hm hf
    rw [hk] at hf
    apply habs
    rw [Option.some.inj hf]
    exact List.mem_map.mpr ⟨m, hm, rfl⟩

theorem process_boot_ui_preserve (dev : Device) (w : Value) (ctx : String)
    (err : JsonError) (f : FieldId) (k : String) (hk : boot_ui_key f = some k)
    (habs : k ∉ w.members.map Prod.fst) :
    Agree f (process_boot_ui dev w ctx err).device dev := by
  unfold process_boot_ui
  split
  · exact agree_refl _ _
  · apply key_loop_frame _ boot_ui_key f
      (fun k v dev err hf => process_boot_ui_entry_frame ctx k v dev err f hf)
    intro m hm hf
    rw [hk] at hf
    apply habs
    rw [Option.some.inj hf]
    exact List.mem_map.mpr ⟨m, hm, rfl⟩

/-- Decoding an object leaves alone every field whose key does not occur at its
level. -/
theorem process_device_preserve (dev : Device) (root : Value) (ctx : String)
    (err : JsonError) (f : FieldId) (h : key_absent root f) :
    Agree f (process_device dev root ctx err).device dev := by
  unfold process_device
  split
  · exact agree_refl _ _
  · unfold key_absent at h
    apply key_loop_preserve
    intro m hm dev2 err2
    obtain ⟨k, w⟩ := m
    cases h1 : block_devs_key f with
    | some k2 =>
      rw [h1] at h
      have hdk : device_key f = some "block_devs" := by
        cases f <;> first | rfl | (simp [block_devs_key] at h1)
      by_cases hkb : k = "block_devs"
      · subst hkb
        show Agree f (process_device_entry ctx "block_devs" w dev2 err2).device dev2
        rw [device_entry_block_devs]
        exact process_block_devs_preserve _ _ _ _ f k2 h1 (h w hm)
      · apply process_device_entry_frame
        rw [hdk]
        intro he
        exact hkb (Option.some.inj he).symm
    | none =>
      rw [h1] at h
      cases h2 : boot_ui_key f with
      | some k2 =>
        rw [h2] at h
        have hdk : device_key f = some "boot_ui" := by
          cases f <;> first | rfl | (simp [boot_ui_key] at h2)
        by_cases hkb : k = "boot_ui"
        · subst hkb
          show Agree f (process_device_entry ctx "boot_ui" w dev2 err2).device dev2
          rw [device_entry_boot_ui]
          exact process_boot_ui_preserve _ _ _ _ f k2 h2 (h w hm)
        · apply process_device_entry_frame
          rw [hdk]
          intro he
          exact hkb (Option.some.inj he).symm
      | none =>
        rw [h2] at h
        apply process_device_entry_frame
        intro he
        exact h k he (List.mem_map.mpr ⟨(k, w), hm, rfl⟩)

/-! ## The device after a failed decoding -/

theorem device_set_boolean_keeps (setter : Device → Bool → Device) (dev : Device)
    (node : Value) (ctx : String) (e : JsonError)
    (h : (device_set_boolean setter dev node ctx e).ret ≠ some true) :
    (device_set_boolean setter dev node ctx e).device = dev := by
  unfold device_set_boolean at h ⊢
  split at h
  · simp [*]
  · simp at h

theorem device_set_int_keeps (setter : Device → Int → Device) (dev : Device)
    (node : Value) (ctx : String) (e : JsonError)
    (h : (device_set_int setter dev node ctx e).ret ≠ some true) :
    (device_set_int setter dev node ctx e).device = dev := by
  unfold device_set_int at h ⊢
  split at h
  · simp [*]
  · simp at h

theorem device_set_string_keeps (setter : Device → String → Device) (dev : Device)
    (node : Value) (ctx : String) (e : JsonError)
    (h : (device_set_string setter dev node ctx e).ret ≠ some true) :
    (device_set_string setter dev node ctx e).device = dev := by
  unfold device_set_string at h ⊢
  split at h
  · simp [*]
  · simp at h

theorem device_set_string_array_keeps (setter : Device → List String → Device)
    (dev : Device) (node : Value) (ctx : String) (e : JsonError)
    (h : (device_set_string_array setter dev node ctx e).ret ≠ some true) :
    (device_set_string_array setter dev node ctx e).device = dev := by
  rcases device_set_string_array_writes setter dev node ctx e with h1 | ⟨x, _⟩
  · exact h1
  · unfold device_set_string_array at h ⊢
    split
    · rfl
    · split
      · rfl
      · rename_i h2 _ _ h3
        simp [h2, h3] at h

theorem process_device_flags_keeps (dev : Device) (node : Value) (ctx : String)
    (e : JsonError) (h : (process_device_flags dev node ctx e).ret ≠ some true) :
    (process_device_flags dev node ctx e).device = dev := by
  unfold process_device_flags at h ⊢
  split
  · rfl
  · split
    · rfl
    · rename_i h2 _ _ h3
      simp [h2, h3] at h

theorem process_boot_ui_flags_keeps (dev : Device) (node : Value) (ctx : String)
    (e : JsonError) (h : (process_boot_ui_flags dev node ctx e).ret ≠ some true) :
    (process_boot_ui_flags dev node ctx e).device = dev := by
  unfold process_boot_ui_flags at h ⊢
  split
  · rfl
  · split
    · rfl
    · rename_i h2 _ _ h3
      simp [h2, h3] at h

theorem process_boot_ui_pixel_format_keeps (dev : Device) (node : Value) (ctx : String)
    (e : JsonError) (h : (process_boot_ui_pixel_format dev node ctx e).ret ≠ some true) :
    (process_boot_ui_pixel_format dev node ctx e).device = dev := by
  unfold process_boot_ui_pixel_format at h ⊢
  split
  · rfl
  · split
    · rename_i h2 _ _ h3
      simp [h2, h3] at h
    · rfl

theorem process_boot_ui_force_pixel_format_keeps (dev : Device) (node : Value)
    (ctx : String) (e : JsonError)
    (h : (process_boot_ui_force_pixel_format dev node ctx e).ret ≠ some true) :
    (process_boot_ui_force_pixel_format dev node ctx e).device = dev := by
  unfold process_boot_ui_force_pixel_format at h ⊢
  split
  · rfl
  · split
    · rename_i h2 _ _ h3
      simp [h2, h3] at h
    · rfl

/-- The body of the key loop of `process_block_devs` leaves the device as it was on a
member that it does not accept. -/
theorem process_block_devs_entry_keeps (ctx k : String) (v : Value) (dev : Device)
    (err : JsonError) (h : (process_block_devs_entry ctx k v dev err).ret ≠ some true) :
    (process_block_devs_entry ctx k v dev err).device = dev := by
  by_cases hk : k ∈ block_devs_keys
  · simp only [block_devs_keys, List.mem_cons, List.mem_singleton, List.not_mem_nil, or_false] at hk
    rcases hk with rfl | rfl | rfl | rfl | rfl | rfl | rfl
    all_goals
      simp only [block_devs_entry_base_dirs, block_devs_entry_system, block_devs_entry_cache,
        block_devs_entry_data, block_devs_entry_boot, block_devs_entry_recovery,
        block_devs_entry_extra] at h ⊢
      exact device_set_string_array_keeps _ _ _ _ _ h
  · rw [block_devs_entry_unknown _ _ _ _ _ hk]

/-- The body of the key loop of `process_boot_ui` leaves the device as it was on a
member that it does not accept. -/
theorem process_boot_ui_entry_keeps (ctx k : String) (v : Value) (dev : Device)
    (err : JsonError) (h : (process_boot_ui_entry ctx k v dev err).ret ≠ some true) :
    (process_boot_ui_entry ctx k v dev err).device = dev := by
  by_cases hk : k ∈ boot_ui_keys
  · simp only [boot_ui_keys, List.mem_cons, List.mem_singleton, List.not_mem_nil, or_false] at hk
    rcases hk with rfl | rfl | rfl | rfl | rfl | rfl | rfl | rfl | rfl | rfl | rfl | rfl | rfl | rfl | rfl | rfl | rfl
    all_goals
      simp only [boot_ui_entry_supported, boot_ui_entry_flags, boot_ui_entry_pixel_format,
        boot_ui_entry_force_pixel_format, boot_ui_entry_overscan_percent,
        boot_ui_entry_default_x_offset, boot_ui_entry_default_y_offset,
        boot_ui_entry_brightness_path, boot_ui_entry_secondary_brightness_path,
        boot_ui_entry_max_brightness, boot_ui_entry_default_brightness,
        boot_ui_entry_battery_path, boot_ui_entry_cpu_temp_path,
        boot_ui_entry_input_blacklist, boot_ui_entry_input_whitelist,
        boot_ui_entry_graphics_backends, boot_ui_entry_theme] at h ⊢
      first
        | exact device_set_boolean_keeps _ _ _ _ _ h
        | exact device_set_int_keeps _ _ _ _ _ h
        | exact device_set_string_keeps _ _ _ _ _ h
        | exact device_set_string_array_keeps _ _ _ _ _ h
        | exact process_boot_ui_flags_keeps _ _ _ _ h
        | exact process_boot_ui_pixel_format_keeps _ _ _ _ h
        | exact process_boot_ui_force_pixel_format_keeps _ _ _ _ h
  · rw [boot_ui_entry_unknown _ _ _ _ _ hk]

/-- The body of the key loop of `process_device` leaves the device as it was on a member
that it does not accept, unless the member is a `block_devs` or `boot_ui` object. -/
theorem process_device_entry_keeps (ctx k : String) (v : Value) (dev : Device)
    (err : JsonError) (h : (process_device_entry ctx k v dev err).ret ≠ some true)
    (hleaf : (k ≠ "block_devs" ∧ k ≠ "boot_ui") ∨ v.isObject = false) :
    (process_device_entry ctx k v dev err).device = dev := by
  by_cases hk : k ∈ device_keys
  · simp only [device_keys, List.mem_cons, List.mem_singleton, List.not_mem_nil, or_false] at hk
    rcases hk with rfl | rfl | rfl | rfl | rfl | rfl | rfl
    · rw [device_entry_name] at h ⊢
      exact device_set_string_keeps _ _ _ _ _ h
    · rw [device_entry_id] at h ⊢
      exact device_set_string_keeps _ _ _ _ _ h
    · rw [device_entry_codenames] at h ⊢
      exact device_set_string_array_keeps _ _ _ _ _ h
    · rw [device_entry_architecture] at h ⊢
      exact device_set_string_keeps _ _ _ _ _ h
    · rw [device_entry_flags] at h ⊢
      exact process_device_flags_keeps _ _ _ _ h
    · have hv : v.isObject = false := by
        rcases hleaf with ⟨h1, _⟩ | h1
        · exact absurd rfl h1
        · exact h1
      rw [device_entry_block_devs]
      simp [process_block_devs, hv]
    · have hv : v.isObject = false := by
        rcases hleaf with ⟨_, h1⟩ | h1
        · exact absurd rfl h1
        · exact h1
      rw [device_entry_boot_ui]
      simp [process_boot_ui, hv]
  · rw [device_entry_unknown _ _ _ _ _ hk]

theorem level_entry_keeps (level : Level) (hl : level ≠ Level.device) (ctx k : String)
    (v : Value) (dev : Device) (err : JsonError)
    (h : (level.entry ctx k v dev err).ret ≠ some true) :
    (level.entry ctx k v dev err).device = dev := by
  cases level
  · exact absurd rfl hl
  · exact process_block_devs_entry_keeps ctx k v dev err h
  · exact process_boot_ui_entry_keeps ctx k v dev err h

/-- The key loop on a single member returns what its body returns, with the device the
body leaves. -/
theorem key_loop_single (entry : String → Value → Device → JsonError → Outcome)
    (k : String) (v : Value) (ret0 : Option Bool) (dev : Device) (err : JsonError) :
    (key_loop entry [(k, v)] ret0 dev err).ret = (entry k v dev err).ret
    ∧ (key_loop entry [(k, v)] ret0 dev err).device = (entry k v dev err).device := by
  by_cases hr : (entry k v dev err).ret = some true
  · rw [key_loop_cons_ok _ _ _ _ _ _ _ hr]
    exact ⟨hr.symm, rfl⟩
  · rw [key_loop_cons_stop _ _ _ _ _ _ _ hr]
    exact ⟨rfl, rfl⟩

/-- After members that its body accepts, the key loop leaves the device that the body
leaves on the last member. -/
theorem key_loop_snoc_device (Q : List Segment → Prop)
    (entry : String → String → Value → Device → JsonError → Outcome)
    (hU : ∀ k v, Uniform Q (fun dev ctx e => entry ctx k v dev e))
    (ctx : String) (pre : List (String × Value)) (key : String) (val : Value)
    (d0 : Device) (e0 : JsonError)
    (hpre : ∀ m ∈ pre, (entry ctx m.1 m.2 d0 e0).ret = some true) :
    ∀ (ret0 : Option Bool) (device : Device) (error : JsonError),
      (key_loop (entry ctx) (pre ++ [(key, val)]) ret0 device error).device
        = (entry ctx key val (key_loop (entry ctx) pre ret0 device error).device
            error).device := by
  induction pre with
  | nil =>
    intro ret0 device error
    exact (key_loop_single (entry ctx) key val ret0 device error).2
  | cons m pre ih =>
    intro ret0 device error
    obtain ⟨k, v⟩ := m
    have hr : (entry ctx k v device error).ret = some true := by
      rw [uniform_ret _ _ (hU k v) device d0 ctx ctx error e0]
      exact hpre (k, v) (List.mem_cons_self _ _)
    have he : (entry ctx k v device error).error = error :=
      uniform_error_of_not_false _ _ (hU k v) device ctx error (by rw [hr]; simp)
    rw [List.cons_append, key_loop_cons_ok _ _ _ _ _ _ _ hr,
      key_loop_cons_ok _ _ _ _ _ _ _ hr, he]
    exact ih (fun z hz => hpre z (List.mem_cons_of_mem _ hz)) _ _ _

/-- A single member is accepted or rejected by a level as its loop body accepts or
rejects it, whatever the device, the context and the error record. -/
theorem level_single_ret (level : Level) (k : String) (v : Value) (dev dev2 : Device)
    (ctx ctx2 : String) (err err2 : JsonError) :
    (level.process dev (Value.object [(k, v)]) ctx err).ret
      = (level.entry ctx2 k v dev2 err2).ret := by
  rw [level_process_object, (key_loop_single _ _ _ _ _ _).1]
  exact uniform_ret _ _ (level_entry_uniform level k v) _ _ _ _ _ _

/-- A nested object whose first rejected member comes after accepted ones leaves the
device that the accepted members alone leave. -/
theorem level_nested_stop (level : Level) (hl : level ≠ Level.device) (ctx : String)
    (ipre ipost : List (String × Value)) (k2 : String) (v2 : Value) (dev : Device)
    (err : JsonError)
    (hipre : ∀ m ∈ ipre, (level.entry ctx m.1 m.2 Device.ctor error0).ret = some true)
    (hbad : (level.entry ctx k2 v2 Device.ctor error0).ret = some false) :
    (level.process dev (Value.object (ipre ++ (k2, v2) :: ipost)) ctx err).device
      = (level.process dev (Value.object ipre) ctx err).device := by
  have hb : (level.entry ctx k2 v2 Device.ctor error0).ret ≠ some true := by
    rw [hbad]; simp
  rw [level_process_object, level_process_object,
    key_loop_fail_fast _ level.entry (level_entry_uniform level) ctx ipre ipost k2 v2
      Device.ctor error0 hipre hb none dev err]
  apply level_entry_keeps level hl
  rw [uniform_ret _ _ (level_entry_uniform level k2 v2) _ Device.ctor ctx ctx _ error0]
  exact hb

/-- A field whose top-level key is not among the keys of an object is absent from it
at its level. -/
theorem key_absent_of_not_mem (ms : List (String × Value)) (f : FieldId) (k1 : String)
    (hk : device_key f = some k1) (h : k1 ∉ ms.map Prod.fst) :
    key_absent (Value.object ms) f := by
  unfold key_absent
  cases h1 : block_devs_key f with
  | some kk =>
    have hdk : device_key f = some "block_devs" := by
      cases f <;> first | rfl | (simp [block_devs_key] at h1)
    rw [hk] at hdk
    intro w hw
    exact absurd (List.mem_map.mpr ⟨("block_devs", w), hw, (Option.some.inj hdk).symm⟩) h
  | none =>
    cases h2 : boot_ui_key f with
    | some kk =>
      have hdk : device_key f = some "boot_ui" := by
        cases f <;> first | rfl | (simp [boot_ui_key] at h2)
      rw [hk] at hdk
      intro w hw
      exact absurd (List.mem_map.mpr ⟨("boot_ui", w), hw, (Option.some.inj hdk).symm⟩) h
    | none =>
      intro k hk2
      rw [hk] at hk2
      rw [← Option.some.inj hk2]
      exact h

/-- A nested field whose key is not among the keys of the only nested object of its
name is absent at its level. -/
theorem key_absent_nested (ms inner : List (String × Value)) (k : String) (f : FieldId)
    (nk : FieldId → Option String) (k3 : String)
    (hk : (k = "block_devs" ∧ nk = block_devs_key) ∨ (k = "boot_ui" ∧ nk = boot_ui_key))
    (hms : k ∉ ms.map Prod.fst) (hf : nk f = some k3) (h3 : k3 ∉ inner.map Prod.fst) :
    key_absent (Value.object (ms ++ [(k, Value.object inner)])) f := by
  have hmem : ∀ w, (k, w) ∈ (Value.object (ms ++ [(k, Value.object inner)])).members →
      w = Value.object inner := by
    intro w hw
    simp only [Value.members, List.mem_append, List.mem_singleton, Prod.mk.injEq] at hw
    rcases hw with hw | ⟨_, hw⟩
    · exact absurd (List.mem_map.mpr ⟨(k, w), hw, rfl⟩) hms
    · exact hw
  unfold key_absent
  rcases hk with ⟨rfl, rfl⟩ | ⟨rfl, rfl⟩
  · rw [hf]
    intro w hw
    rw [hmem w hw]
    exact h3
  · have hb : block_devs_key f = none := by
      cases f <;> first | rfl | (simp [boot_ui_key] at hf)
    rw [hb, hf]
    intro w hw
    rw [hmem w hw]
    exact h3

/-! ## The vector of the list decoder -/

/-- The element loop adds to the vector the devices of the first elements, each
of which decodes successfully on its own; it returns true only after all elements, and
false only at an element that fails on its own. -/
theorem device_list_loop_take (e0 : JsonError) (items : List Value) :
    ∀ (index : Nat) (devices : List Device) (error : JsonError),
      ∃ n, n ≤ items.length
        ∧ (∀ y ∈ items.take n, (process_device Device.ctor y "" e0).ret = some true)
        ∧ (device_list_loop items index devices error).devices
            = devices ++ (items.take n).map
                (fun y => (process_device Device.ctor y "" e0).device)
        ∧ ((device_list_loop items index devices error).ret = some true →
            n = items.length)
        ∧ ((device_list_loop items index devices error).ret = some false →
            ∃ x, items[n]? = some x
              ∧ (process_device Device.ctor x "" e0).ret = some false) := by
  induction items with
  | nil =>
    intro index devices error
    exact ⟨0, by simp, by simp, by simp [device_list_loop], by simp,
      by simp [device_list_loop]⟩
  | cons item rest ih =>
    intro index devices error
    have hU := process_device_uniform item
    have hret : (process_device Device.ctor item ("[" ++ toString index ++ "]") error).ret
        = (process_device Device.ctor item "" e0).ret := uniform_ret _ _ hU _ _ _ _ _ _
    have hdev : (process_device Device.ctor item ("[" ++ toString index ++ "]") error).device
        = (process_device Device.ctor item "" e0).device := uniform_device _ _ hU _ _ _ _ _
    cases hr : (process_device Device.ctor item ("[" ++ toString index ++ "]") error).ret with
    | none =>
      refine ⟨0, by simp, by simp, by simp [device_list_loop, hr], ?_, ?_⟩
      · simp [device_list_loop, hr]
      · simp [device_list_loop, hr]
    | some b =>
      cases b with
      | false =>
        refine ⟨0, by simp, by simp, by simp [device_list_loop, hr], ?_, ?_⟩
        · simp [device_list_loop, hr]
        · intro _
          exact ⟨item, by simp, by rw [← hret, hr]⟩
      | true =>
        obtain ⟨n, h1, h2, h3, h4, h5⟩ := ih (index + 1)
          (devices ++ [(process_device Device.ctor item ("[" ++ toString index ++ "]")
            error).device])
          (process_device Device.ctor item ("[" ++ toString index ++ "]") error).error
        refine ⟨n + 1, by simpa using h1, ?_, ?_, ?_, ?_⟩
        · intro y hy
          rw [List.take_succ_cons, List.mem_cons] at hy
          rcases hy with rfl | hy
          · rw [← hret, hr]
          · exact h2 y hy
        · simp only [device_list_loop, hr]
          rw [h3, hdev]
          simp
        · simp only [device_list_loop, hr]
          intro h
          rw [h4 h]
          rfl
        · simp only [device_list_loop, hr]
          intro h
          obtain ⟨x, hx, hx2⟩ := h5 h
          exact ⟨x, by simpa using hx, hx2⟩


/-! ## Equality, batch validation, masked round trip and the state after decoding -/

/-- C31: `a == b` holds iff the two devices hold the same value in each of the twelve
base fields and the seventeen boot-UI fields; so `==` is reflexive, symmetric and
transitive, and two devices that differ in a field are unequal. -/
theorem equality_field_for_field (a b c : Device) :
    (a.operator_eq b = true ↔
      a.id = b.id ∧ a.codenames = b.codenames ∧ a.name = b.name
      ∧ a.architecture = b.architecture ∧ a.flags = b.flags
      ∧ a.block_dev_base_dirs = b.block_dev_base_dirs
      ∧ a.system_block_devs = b.system_block_devs
      ∧ a.cache_block_devs = b.cache_block_devs
      ∧ a.data_block_devs = b.data_block_devs
      ∧ a.boot_block_devs = b.boot_block_devs
      ∧ a.recovery_block_devs = b.recovery_block_devs
      ∧ a.extra_block_devs = b.extra_block_devs
      ∧ a.tw_supported = b.tw_supported ∧ a.tw_flags = b.tw_flags
      ∧ a.tw_pixel_format = b.tw_pixel_format
      ∧ a.tw_force_pixel_format = b.tw_force_pixel_format
      ∧ a.tw_overscan_percent = b.tw_overscan_percent
      ∧ a.tw_default_x_offset = b.tw_default_x_offset
      ∧ a.tw_default_y_offset = b.tw_default_y_offset
      ∧ a.tw_brightness_path = b.tw_brightness_path
      ∧ a.tw_secondary_brightness_path = b.tw_secondary_brightness_path
      ∧ a.tw_max_brightness = b.tw_max_brightness
      ∧ a.tw_default_brightness = b.tw_default_brightness
      ∧ a.tw_battery_path = b.tw_battery_path
      ∧ a.tw_cpu_temp_path = b.tw_cpu_temp_path
      ∧ a.tw_input_blacklist = b.tw_input_blacklist
      ∧ a.tw_input_whitelist = b.tw_input_whitelist
      ∧ a.tw_graphics_backends = b.tw_graphics_backends
      ∧ a.tw_theme = b.tw_theme)
    ∧ (a.operator_eq b = true ↔ ∀ f, Agree f a b)
    ∧ a.operator_eq a = true
    ∧ a.operator_eq b = b.operator_eq a
    ∧ (a.operator_eq b = true → b.operator_eq c = true → a.operator_eq c = true)
    ∧ (∀ f, ¬ Agree f a b → a.operator_eq b = false) := by
  refine ⟨?_, operator_eq_iff_agree a b, operator_eq_self a, ?_, ?_, ?_⟩
  · rw [operator_eq_iff_agree]
    constructor
    · intro h
      exact ⟨h FieldId.id, h FieldId.codenames, h FieldId.name, h FieldId.architecture,
        h FieldId.flags, h FieldId.base_dirs, h FieldId.system_devs, h FieldId.cache_devs,
        h FieldId.data_devs, h FieldId.boot_devs, h FieldId.recovery_devs,
        h FieldId.extra_devs, h FieldId.tw_supported, h FieldId.tw_flags,
        h FieldId.tw_pixel_format, h FieldId.tw_force_pixel_format,
        h FieldId.tw_overscan_percent, h FieldId.tw_default_x_offset,
        h FieldId.tw_default_y_offset, h FieldId.tw_brightness_path,
        h FieldId.tw_secondary_brightness_path, h FieldId.tw_max_brightness,
        h FieldId.tw_default_brightness, h FieldId.tw_battery_path,
        h FieldId.tw_cpu_temp_path, h FieldId.tw_input_blacklist,
        h FieldId.tw_input_whitelist, h FieldId.tw_graphics_backends, h FieldId.tw_theme⟩
    · rintro ⟨h1, h2, h3, h4, h5, h6, h7, h8, h9, h10, h11, h12, h13, h14, h15, h16, h17,
        h18, h19, h20, h21, h22, h23, h24, h25, h26, h27, h28, h29⟩ f
      cases f <;> assumption
  · cases hab : a.operator_eq b with
    | true =>
      have h := (operator_eq_iff_eq a b).mp hab
      rw [h]
      exact (operator_eq_self b).symm
    | false =>
      cases hba : b.operator_eq a with
      | false => rfl
      | true =>
        have h := (operator_eq_iff_eq b a).mp hba
        rw [h, operator_eq_self] at hab
        exact absurd hab (by decide)
  · intro h1 h2
    rw [operator_eq_iff_eq] at h1 h2 ⊢
    exact h1.trans h2
  · intro f hf
    cases hab : a.operator_eq b with
    | false => rfl
    | true => exact absurd ((operator_eq_iff_agree a b).mp hab f) hf

/-- C31 on the default device and the default device with `max_brightness` set to 0:
they differ in that field and are unequal under `==`. -/
theorem equality_field_for_field_witness :
    (Device.ctor.set_tw_max_brightness 0).tw_max_brightness ≠ Device.ctor.tw_max_brightness
    ∧ (Device.ctor.set_tw_max_brightness 0).operator_eq Device.ctor = false :=
  ⟨by decide,
    (equality_field_for_field (Device.ctor.set_tw_max_brightness 0) Device.ctor
      Device.ctor).2.2.2.2.2 FieldId.tw_max_brightness
      (fun h => absurd (show (0 : Int) = -1 from h) (by decide))⟩

/-- C32: `validate` of `devicesgen` returns true exactly when the decoding returns true
(`device_list_from_json` from an empty vector when `is_array`, `device_from_json` into
a default-constructed `Device` otherwise) and the mask of `Device::validate` is 0 for
every decoded device; it returns false exactly when the decoding returns false or
returns true with a device whose mask is not 0. In the array case the loop goes over
all decoded devices before false is returned: each device whose mask is not 0 is
reported, in order. -/
theorem batch_acceptance (path : String) (json : ParseResult) (error : JsonError) :
    ((devicesgen.validate path json true error).ret = some true ↔
      (device_list_from_json json [] error).ret = some true
      ∧ ∀ d ∈ (device_list_from_json json [] error).devices, d.validate = 0)
    ∧ ((devicesgen.validate path json false error).ret = some true ↔
      (device_from_json json Device.ctor error).ret = some true
      ∧ (device_from_json json Device.ctor error).device.validate = 0)
    ∧ ((devicesgen.validate path json true error).ret = some false ↔
      (device_list_from_json json [] error).ret = some false
      ∨ ((device_list_from_json json [] error).ret = some true
        ∧ ∃ d ∈ (device_list_from_json json [] error).devices, d.validate ≠ 0))
    ∧ ((devicesgen.validate path json false error).ret = some false ↔
      (device_from_json json Device.ctor error).ret = some false
      ∨ ((device_from_json json Device.ctor error).ret = some true
        ∧ (device_from_json json Device.ctor error).device.validate ≠ 0))
    ∧ ((device_list_from_json json [] error).ret = some true →
      (devicesgen.validate path json true error).reports
        = ((device_list_from_json json [] error).devices.filter
            (fun d => decide (d.validate ≠ 0))).map
            (fun d => devicesgen.Report.validation_error path d.id d.validate)) := by
  refine ⟨?_, ?_, ?_, ?_, ?_⟩
  · cases h : (device_list_from_json json [] error).ret with
    | none => simp [devicesgen.validate, h]
    | some b =>
      cases b with
      | false => simp [devicesgen.validate, h]
      | true =>
        simp only [devicesgen.validate, h, if_true, validate_loop_eq, Bool.false_or]
        by_cases ha : ((device_list_from_json json [] error).devices.any
            (fun d => decide (d.validate ≠ 0))) = true
        · rw [if_pos ha]
          simp only [List.any_eq_true, decide_eq_true_eq] at ha
          obtain ⟨d, hd, hv⟩ := ha
          simp only [true_and]
          constructor
          · intro hc; exact absurd hc (by decide)
          · intro hall; exact absurd (hall d hd) hv
        · rw [if_neg ha]
          simp only [List.any_eq_true, decide_eq_true_eq, not_exists, not_and, not_not]
            at ha
          simp only [true_and, true_iff]
          exact ha
  · cases h : (device_from_json json Device.ctor error).ret with
    | none => simp [devicesgen.validate, h]
    | some b =>
      cases b with
      | false => simp [devicesgen.validate, h]
      | true =>
        by_cases hv : (device_from_json json Device.ctor error).device.validate = 0
        · simp [devicesgen.validate, h, hv]
        · simp [devicesgen.validate, h, hv]
  · cases h : (device_list_from_json json [] error).ret with
    | none => simp [devicesgen.validate, h]
    | some b =>
      cases b with
      | false => simp [devicesgen.validate, h]
      | true =>
        simp only [devicesgen.validate, h, if_true, validate_loop_eq, Bool.false_or]
        by_cases ha : ((device_list_from_json json [] error).devices.any
            (fun d => decide (d.validate ≠ 0))) = true
        · rw [if_pos ha]
          simp only [List.any_eq_true, decide_eq_true_eq] at ha
          simp only [true_iff]
          exact Or.inr ⟨trivial, ha⟩
        · rw [if_neg ha]
          simp only [List.any_eq_true, decide_eq_true_eq] at ha
          constructor
          · intro hc
            simp at hc
          · rintro (hc | ⟨_, hex⟩)
            · simp at hc
            · exact absurd hex ha
  · cases h : (device_from_json json Device.ctor error).ret with
    | none => simp [devicesgen.validate, h]
    | some b =>
      cases b with
      | false => simp [devicesgen.validate, h]
      | true =>
        by_cases hv : (device_from_json json Device.ctor error).device.validate = 0
        · simp [devicesgen.validate, h, hv]
        · simp [devicesgen.validate, h, hv]
  · intro h
    simp only [devicesgen.validate, h, if_true, validate_loop_eq, Bool.false_or,
      List.nil_append]
    split <;> rfl

/-- C32 on `sample_batch`, three devices of which the second and the third fail
validation: false is returned after both have been reported; `sample_complete` alone
is accepted. -/
theorem batch_acceptance_witness :
    (device_list_from_json (ParseResult.ok sample_batch) [] error0).ret = some true
    ∧ (devicesgen.validate "devices.json" (ParseResult.ok sample_batch) true error0).reports
        = ((device_list_from_json (ParseResult.ok sample_batch) [] error0).devices.filter
            (fun d => decide (d.validate ≠ 0))).map
            (fun d => devicesgen.Report.validation_error "devices.json" d.id d.validate)
    ∧ devicesgen.validate "devices.json" (ParseResult.ok sample_batch) true error0
        = ⟨some false,
            [devicesgen.Report.validation_error "devices.json" "b" 254,
             devicesgen.Report.validation_error "devices.json" "" 251]⟩
    ∧ devicesgen.validate "devices.json" (ParseResult.ok sample_complete) false error0
        = ⟨some true, []⟩ :=
  ⟨by decide,
    (batch_acceptance "devices.json" (ParseResult.ok sample_batch) error0).2.2.2.2
      (by decide),
    by decide, by decide⟩

/-- C33: when the tree of `device_to_json(d)` is an object, decoding it into a
default-constructed `Device` returns true, leaves the error record alone and yields `d`
with `flags` replaced by `flags & DEVICE_FLAG_MASK` and `tw_flags` by
`tw_flags & TW_FLAG_MASK`, every other field as in `d`; encoding the result gives the
tree of `device_to_json(d)` again. -/
theorem round_trip_masked (d : Device) (error : JsonError)
    (h : (device_to_json d).type = ValueType.objectValue) :
    device_from_json (ParseResult.ok (device_to_json d)) Device.ctor error
      = ⟨some true,
          (d.set_flags (d.flags &&& DEVICE_FLAG_MASK)).set_tw_flags
            (d.tw_flags &&& TW_FLAG_MASK),
          error⟩
    ∧ device_to_json
        (device_from_json (ParseResult.ok (device_to_json d)) Device.ctor error).device
      = device_to_json d := by
  have hd := decode_encode d error (chain_ne_nil_of_object d h)
  have hm : (d.set_flags (d.flags &&& DEVICE_FLAG_MASK)).set_tw_flags
      (d.tw_flags &&& TW_FLAG_MASK) = d.masked := rfl
  rw [hm, hd]
  exact ⟨rfl, device_to_json_masked d⟩

/-- C33 on `sample_unsupported_device` with `flags` set to 5: the tree is an object,
and decoding it gives the device with `flags` 1 and `tw_flags` 0. -/
theorem round_trip_masked_witness :
    (device_to_json (sample_unsupported_device.set_flags 5)).type = ValueType.objectValue
    ∧ device_from_json
        (ParseResult.ok (device_to_json (sample_unsupported_device.set_flags 5)))
        Device.ctor error0
      = ⟨some true,
          ((sample_unsupported_device.set_flags 5).set_flags
            ((sample_unsupported_device.set_flags 5).flags &&& DEVICE_FLAG_MASK)).set_tw_flags
            ((sample_unsupported_device.set_flags 5).tw_flags &&& TW_FLAG_MASK),
          error0⟩
    ∧ (device_from_json
        (ParseResult.ok (device_to_json (sample_unsupported_device.set_flags 5)))
        Device.ctor error0).device.flags = 1
    ∧ (device_from_json
        (ParseResult.ok (device_to_json (sample_unsupported_device.set_flags 5)))
        Device.ctor error0).device.tw_flags = 0 :=
  ⟨by decide,
    (round_trip_masked (sample_unsupported_device.set_flags 5) error0 (by decide)).1,
    by decide, by decide⟩

/-- C34: a device for which `device_to_json` emits no key is encoded as `null`, not as
an object, and decoding that tree fails with `MISMATCHED_TYPE`, context `.`, actual
type `null` and expected type `object`, the device being left as it was. -/
theorem all_default_null (d : Device) (device : Device) (error : JsonError)
    (h : ∀ k, member (device_to_json d) k = none) :
    device_to_json d = Value.null
    ∧ device_from_json (ParseResult.ok (device_to_json d)) device error
      = ⟨some false, device, mismatched_type_error error "." "null" "object"⟩ := by
  have hn : device_to_json d = Value.null := by
    rw [device_to_json_eq, device_to_json_null_of_no_member d h]
    rfl
  rw [hn]
  exact ⟨rfl, rfl⟩

/-- C34 on the default-constructed device: no key is emitted and the tree is `null`;
likewise for the device whose only non-default field is `flags` with the value 4. -/
theorem all_default_null_witness :
    (∀ k, member (device_to_json Device.ctor) k = none)
    ∧ (device_to_json Device.ctor = Value.null
      ∧ device_from_json (ParseResult.ok (device_to_json Device.ctor)) Device.ctor error0
        = ⟨some false, Device.ctor, mismatched_type_error error0 "." "null" "object"⟩)
    ∧ device_to_json (Device.ctor.set_flags 4) = Value.null :=
  have h : ∀ k, member (device_to_json Device.ctor) k = none := fun _ => rfl
  ⟨h, all_default_null Device.ctor Device.ctor error0 h, rfl⟩

/-- C35: in both flag tables the names are pairwise distinct, every value is a single
bit, the bits are pairwise distinct, and the OR of all values is the mask of the table
(3, resp. `2^17 - 1`); each pixel-format table lists every value of its enum once,
under pairwise distinct names, and for every entry the decoder's scan of the name finds
the entry's value and the encoder's scan of the value stores the entry's name. -/
theorem lookup_tables_exact :
    (table_keys device_flag_mappings).Nodup
    ∧ (∀ it ∈ device_flag_mappings, ∃ i, it.flag = 2 ^ i)
    ∧ (device_flag_mappings.map (fun it => it.flag)).Nodup
    ∧ device_flag_mappings.foldl (fun acc it => acc ||| it.flag) 0 = DEVICE_FLAG_MASK
    ∧ DEVICE_FLAG_MASK = 3
    ∧ (table_keys tw_flag_mappings).Nodup
    ∧ (∀ it ∈ tw_flag_mappings, ∃ i, it.flag = 2 ^ i)
    ∧ (tw_flag_mappings.map (fun it => it.flag)).Nodup
    ∧ tw_flag_mappings.foldl (fun acc it => acc ||| it.flag) 0 = TW_FLAG_MASK
    ∧ TW_FLAG_MASK = 2 ^ 17 - 1
    ∧ (tw_pxfmt_mappings.map (fun it => it.key)).Nodup
    ∧ (tw_pxfmt_mappings.map (fun it => it.value)).Nodup
    ∧ (∀ p : TwPixelFormat, p ∈ tw_pxfmt_mappings.map (fun it => it.value))
    ∧ (∀ it ∈ tw_pxfmt_mappings, tw_pxfmt_scan tw_pxfmt_mappings it.key = some it.value)
    ∧ (∀ it ∈ tw_pxfmt_mappings, ∀ (value : Value) (key : String),
        set_pixel_format_name value key tw_pxfmt_mappings it.value
          = value.set key (Value.string it.key))
    ∧ (tw_force_pxfmt_mappings.map (fun it => it.key)).Nodup
    ∧ (tw_force_pxfmt_mappings.map (fun it => it.value)).Nodup
    ∧ (∀ p : TwForcePixelFormat, p ∈ tw_force_pxfmt_mappings.map (fun it => it.value))
    ∧ (∀ it ∈ tw_force_pxfmt_mappings,
        tw_force_pxfmt_scan tw_force_pxfmt_mappings it.key = some it.value)
    ∧ (∀ it ∈ tw_force_pxfmt_mappings, ∀ (value : Value) (key : String),
        set_force_pixel_format_name value key tw_force_pxfmt_mappings it.value
          = value.set key (Value.string it.key)) := by
  have hbit1 : ∀ it ∈ device_flag_mappings, ∃ i ∈ List.range 2, it.flag = 2 ^ i := by decide
  have hbit2 : ∀ it ∈ tw_flag_mappings, ∃ i ∈ List.range 17, it.flag = 2 ^ i := by decide
  have hname1 : ∀ it ∈ tw_pxfmt_mappings, pixel_format_name it.value = it.key := by decide
  have hname2 : ∀ it ∈ tw_force_pxfmt_mappings, force_pixel_format_name it.value = it.key := by
    decide
  refine ⟨by decide, ?_, by decide, by decide, by decide, by decide, ?_, by decide,
    by decide, by decide, by decide, by decide, ?_, by decide, ?_, by decide, by decide,
    ?_, by decide, ?_⟩
  · intro it hit
    obtain ⟨i, _, hi⟩ := hbit1 it hit
    exact ⟨i, hi⟩
  · intro it hit
    obtain ⟨i, _, hi⟩ := hbit2 it hit
    exact ⟨i, hi⟩
  · intro p; cases p <;> decide
  · intro it hit value key
    rw [set_pixel_format_name_eq, hname1 it hit]
  · intro p; cases p <;> decide
  · intro it hit value key
    rw [set_force_pixel_format_name_eq, hname2 it hit]

/-- C36: a device that `device_from_json` has decoded into a default-constructed
`Device`, and every device that `device_list_from_json` has put into an empty vector,
has `flags` within `DEVICE_FLAG_MASK` and `tw_flags` within `TW_FLAG_MASK` (no bit at
position 2, resp. 17, or above), so that `validate()` sets neither `INVALID_FLAGS` nor
`INVALID_BOOT_UI_FLAGS` for it. -/
theorem decoded_flags_in_mask (json : ParseResult) (error : JsonError) (d : Device)
    (h : d = (device_from_json json Device.ctor error).device
      ∨ d ∈ (device_list_from_json json [] error).devices) :
    d.flags &&& DEVICE_FLAG_MASK = d.flags ∧ d.tw_flags &&& TW_FLAG_MASK = d.tw_flags
    ∧ ¬ has_bit_from 2 d.flags ∧ ¬ has_bit_from 17 d.tw_flags
    ∧ d.validate &&& VALIDATE_INVALID_FLAGS = 0
    ∧ d.validate &&& VALIDATE_INVALID_BOOT_UI_FLAGS = 0 := by
  apply in_mask_consequences
  rcases h with h | h
  · rw [h]
    exact device_from_json_in_mask _ _ _ ctor_in_mask
  · exact device_list_from_json_in_mask json [] error (by simp) d h

/-- C36 on `sample_device`, decoded from `sample_complete`: `flags` is 1 and `tw_flags`
is `2^17 - 1`, both within their masks. -/
theorem decoded_flags_in_mask_witness :
    (sample_device = (device_from_json (ParseResult.ok sample_complete) Device.ctor
        error0).device
      ∨ sample_device ∈ (device_list_from_json (ParseResult.ok sample_complete) []
        error0).devices)
    ∧ (sample_device.flags &&& DEVICE_FLAG_MASK = sample_device.flags
      ∧ sample_device.tw_flags &&& TW_FLAG_MASK = sample_device.tw_flags
      ∧ ¬ has_bit_from 2 sample_device.flags ∧ ¬ has_bit_from 17 sample_device.tw_flags
      ∧ sample_device.validate &&& VALIDATE_INVALID_FLAGS = 0
      ∧ sample_device.validate &&& VALIDATE_INVALID_BOOT_UI_FLAGS = 0)
    ∧ sample_device.flags = 1 ∧ sample_device.tw_flags = 2 ^ 17 - 1 :=
  ⟨Or.inl rfl,
    decoded_flags_in_mask (ParseResult.ok sample_complete) error0 sample_device (Or.inl rfl),
    by decide, by decide⟩

/-- C37: after `device_from_json` on a parsed object, every field whose key does not
occur at its level (a top-level key among the keys of the root, a key of `block_devs`
or `boot_ui` among the keys of a member of that name) holds the value it had before the
call, whatever the call returns. -/
theorem decode_overlays (root : Value) (device : Device) (error : JsonError) (f : FieldId)
    (h : key_absent root f) :
    Agree f (device_from_json (ParseResult.ok root) device error).device device :=
  process_device_preserve device root "" error f h

/-- C37 on `sample_device` and `{"name": "x", "boot_ui": {"theme": "t"}}`: the id, not
named, and the maximal brightness, not named inside `boot_ui`, are kept, while name and
theme are replaced. -/
theorem decode_overlays_witness :
    key_absent
      (Value.object [("name", Value.string "x"),
        ("boot_ui", Value.object [("theme", Value.string "t")])]) FieldId.tw_max_brightness
    ∧ Agree FieldId.tw_max_brightness
      (device_from_json
        (ParseResult.ok (Value.object [("name", Value.string "x"),
          ("boot_ui", Value.object [("theme", Value.string "t")])]))
        sample_device error0).device sample_device
    ∧ device_from_json
        (ParseResult.ok (Value.object [("name", Value.string "x"),
          ("boot_ui", Value.object [("theme", Value.string "t")])]))
        sample_device error0
      = ⟨some true, (sample_device.set_name "x").set_tw_theme "t", error0⟩
    ∧ ((sample_device.set_name "x").set_tw_theme "t").id = "test"
    ∧ ((sample_device.set_name "x").set_tw_theme "t").tw_max_brightness = 255 :=
  have h : key_absent
      (Value.object [("name", Value.string "x"),
        ("boot_ui", Value.object [("theme", Value.string "t")])])
      FieldId.tw_max_brightness := by
    intro w hw
    simp only [Value.members, List.mem_cons, Prod.mk.injEq, List.mem_singleton,
      List.not_mem_nil, or_false] at hw
    rcases hw with ⟨hk, _⟩ | ⟨_, hw⟩
    · exact absurd hk (by decide)
    · rw [hw]
      decide
  ⟨h, decode_overlays _ sample_device error0 FieldId.tw_max_brightness h,
    by decide, by decide, by decide⟩

/-- C38: when the members before the member `k` of the root object are accepted and `k`
is rejected, `device_from_json` returns false. If `k` is not a `block_devs` or `boot_ui`
object, the device is then the one that decoding the object of the preceding members
alone leaves; if it is such an object, whose members before `k2` are accepted and whose
member `k2` is rejected, the device is the one left by the preceding members and `k`
with the members before `k2`. With distinct keys, the fields of `k` (resp. of `k2`) and
of all later keys hold the values they had before the call. -/
theorem decode_not_atomic (pre post : List (String × Value)) (k : String) (v : Value)
    (device : Device) (error : JsonError)
    (hpre : ∀ m ∈ pre,
      (device_from_json (ParseResult.ok (Value.object [m])) Device.ctor error0).ret
        = some true)
    (hbad : (device_from_json (ParseResult.ok (Value.object [(k, v)])) Device.ctor
      error0).ret = some false) :
    (device_from_json (ParseResult.ok (Value.object (pre ++ (k, v) :: post))) device
      error).ret = some false
    ∧ ((k ≠ "block_devs" ∧ k ≠ "boot_ui") ∨ v.isObject = false →
      (device_from_json (ParseResult.ok (Value.object (pre ++ (k, v) :: post))) device
          error).device
        = (device_from_json (ParseResult.ok (Value.object pre)) device error).device
      ∧ (distinct_keys (Value.object (pre ++ (k, v) :: post)) →
        ∀ (f : FieldId) (k1 : String), device_key f = some k1 →
          k1 ∈ ((k, v) :: post).map Prod.fst →
          Agree f
            (device_from_json (ParseResult.ok (Value.object (pre ++ (k, v) :: post)))
              device error).device device))
    ∧ (∀ (nk : FieldId → Option String) (ipre ipost : List (String × Value))
        (k2 : String) (v2 : Value),
      (k = "block_devs" ∧ nk = block_devs_key) ∨ (k = "boot_ui" ∧ nk = boot_ui_key) →
      v = Value.object (ipre ++ (k2, v2) :: ipost) →
      (∀ m ∈ ipre,
        (device_from_json (ParseResult.ok (Value.object [(k, Value.object [m])]))
          Device.ctor error0).ret = some true) →
      (device_from_json (ParseResult.ok (Value.object [(k, Value.object [(k2, v2)])]))
        Device.ctor error0).ret = some false →
      (device_from_json (ParseResult.ok (Value.object (pre ++ (k, v) :: post))) device
          error).device
        = (device_from_json
            (ParseResult.ok (Value.object (pre ++ [(k, Value.object ipre)]))) device
            error).device
      ∧ (distinct_keys (Value.object (pre ++ (k, v) :: post)) → distinct_keys v →
        ∀ f : FieldId,
          (∃ k1, device_key f = some k1 ∧ k1 ∈ post.map Prod.fst)
          ∨ (∃ k3, nk f = some k3 ∧ k3 ∈ ((k2, v2) :: ipost).map Prod.fst) →
          Agree f
            (device_from_json (ParseResult.ok (Value.object (pre ++ (k, v) :: post)))
              device error).device device)) := by
  have hpre2 : ∀ m ∈ pre,
      (process_device_entry "" m.1 m.2 Device.ctor error0).ret = some true := by
    intro m hm
    rw [← hpre m hm]
    exact (level_single_ret Level.device m.1 m.2 _ _ _ _ _ _).symm
  have hbad2 : (process_device_entry "" k v Device.ctor error0).ret = some false := by
    rw [← hbad]
    exact (level_single_ret Level.device k v _ _ _ _ _ _).symm
  have hb : (process_device_entry "" k v Device.ctor error0).ret ≠ some true := by
    rw [hbad2]; simp
  have hR : device_from_json (ParseResult.ok (Value.object (pre ++ (k, v) :: post)))
      device error
      = process_device_entry "" k v
          (device_from_json (ParseResult.ok (Value.object pre)) device error).device
          error :=
    key_loop_fail_fast _ process_device_entry (level_entry_uniform Level.device) "" pre
      post k v Device.ctor error0 hpre2 hb none device error
  have hU : Uniform (fun _ => True) (fun dev ctx e => process_device_entry ctx k v dev e) :=
    level_entry_uniform Level.device k v
  have hret : ∀ dev err, (process_device_entry "" k v dev err).ret ≠ some true := by
    intro dev err
    rw [uniform_ret _ _ hU dev Device.ctor "" "" err error0]
    exact hb
  refine ⟨?_, ?_, ?_⟩
  · rw [hR, ← hbad2]
    exact uniform_ret _ _ hU _ _ _ _ _ _
  · intro hleaf
    have hdev := process_device_entry_keeps "" k v
      (device_from_json (ParseResult.ok (Value.object pre)) device error).device error
      (hret _ _) hleaf
    rw [hR, hdev]
    refine ⟨rfl, ?_⟩
    intro hd f k1 hk1 hmem
    apply process_device_preserve device (Value.object pre) "" error f
    apply key_absent_of_not_mem pre f k1 hk1
    have hd2 : (pre.map Prod.fst ++ ((k, v) :: post).map Prod.fst).Nodup := by
      simpa [distinct_keys, Value.members] using hd
    exact fun hin => (List.nodup_append.mp hd2).2.2 hin hmem
  · intro nk ipre ipost k2 v2 hk hv hipre hbad3
    have hlevel : ∃ level : Level, level ≠ Level.device
        ∧ (∀ dev val err, process_device_entry "" k val dev err
            = level.process dev val ("" ++ "." ++ k) err) := by
      rcases hk with ⟨rfl, _⟩ | ⟨rfl, _⟩
      · exact ⟨Level.block_devs, by decide, fun dev val err => device_entry_block_devs _ _ _ _⟩
      · exact ⟨Level.boot_ui, by decide, fun dev val err => device_entry_boot_ui _ _ _ _⟩
    obtain ⟨level, hl, hdisp⟩ := hlevel
    have hipre2 : ∀ m ∈ ipre,
        (level.entry ("" ++ "." ++ k) m.1 m.2 Device.ctor error0).ret = some true := by
      intro m hm
      rw [← hipre m hm]
      have h1 : (device_from_json (ParseResult.ok (Value.object [(k, Value.object [m])]))
          Device.ctor error0).ret
          = (process_device_entry "" k (Value.object [m]) Device.ctor error0).ret :=
        level_single_ret Level.device k (Value.object [m]) _ _ _ _ _ _
      rw [h1, hdisp]
      exact (level_single_ret level m.1 m.2 _ _ _ _ _ _).symm
    have hbad4 : (level.entry ("" ++ "." ++ k) k2 v2 Device.ctor error0).ret
        = some false := by
      rw [← hbad3]
      have h1 : (device_from_json
          (ParseResult.ok (Value.object [(k, Value.object [(k2, v2)])]))
          Device.ctor error0).ret
          = (process_device_entry "" k (Value.object [(k2, v2)]) Device.ctor error0).ret :=
        level_single_ret Level.device k (Value.object [(k2, v2)]) _ _ _ _ _ _
      rw [h1, hdisp]
      exact (level_single_ret level k2 v2 _ _ _ _ _ _).symm
    have hT : (device_from_json
        (ParseResult.ok (Value.object (pre ++ [(k, Value.object ipre)]))) device
        error).device
        = (process_device_entry "" k (Value.object ipre)
            (device_from_json (ParseResult.ok (Value.object pre)) device error).device
            error).device :=
      key_loop_snoc_device _ process_device_entry (level_entry_uniform Level.device) ""
        pre k (Value.object ipre) Device.ctor error0 hpre2 none device error
    have hdev : (device_from_json (ParseResult.ok (Value.object (pre ++ (k, v) :: post)))
        device error).device
        = (device_from_json
            (ParseResult.ok (Value.object (pre ++ [(k, Value.object ipre)]))) device
            error).device := by
      rw [hR, hT, hdisp, hdisp, hv]
      exact level_nested_stop level hl _ ipre ipost k2 v2 _ _ hipre2 hbad4
    refine ⟨hdev, ?_⟩
    intro hd hdv f hf
    rw [hdev]
    apply process_device_preserve device _ "" error f
    have hd2 : (pre.map Prod.fst ++ (k :: post.map Prod.fst)).Nodup := by
      simpa [distinct_keys, Value.members] using hd
    have hkpre : k ∉ pre.map Prod.fst :=
      fun hin => (List.nodup_append.mp hd2).2.2 hin (List.mem_cons_self _ _)
    rcases hf with ⟨k1, hk1, hmem⟩ | ⟨k3, hk3, hmem⟩
    · apply key_absent_of_not_mem _ f k1 hk1
      have h1 : k1 ∉ pre.map Prod.fst :=
        fun hin => (List.nodup_append.mp hd2).2.2 hin (List.mem_cons_of_mem _ hmem)
      have h2 : k1 ≠ k := by
        intro he
        rw [he] at hmem
        exact (List.nodup_cons.mp (List.nodup_append.mp hd2).2.1).1 hmem
      simp [h1, h2]
    · apply key_absent_nested pre ipre k f nk k3 hk hkpre hk3
      rw [hv] at hdv
      have hd3 : (ipre.map Prod.fst ++ ((k2, v2) :: ipost).map Prod.fst).Nodup := by
        simpa [distinct_keys, Value.members] using hdv
      exact fun hin => (List.nodup_append.mp hd3).2.2 hin hmem

/-- C38 on `{"architecture": "arm64", "boot_ui": {"default_brightness": 5, "flags": 1,
"theme": "t"}, "id": "x"}`: the decoding fails at `.boot_ui.flags`, and the device has
the architecture and the default brightness, but not the theme or the id. -/
theorem decode_not_atomic_witness :
    (∀ m ∈ [("architecture", Value.string "arm64")],
      (device_from_json (ParseResult.ok (Value.object [m])) Device.ctor error0).ret
        = some true)
    ∧ (device_from_json (ParseResult.ok (Value.object [("boot_ui",
        Value.object [("default_brightness", Value.int 5), ("flags", Value.int 1),
          ("theme", Value.string "t")])])) Device.ctor error0).ret = some false
    ∧ (device_from_json (ParseResult.ok (Value.object
        ([("architecture", Value.string "arm64")] ++ ("boot_ui",
          Value.object [("default_brightness", Value.int 5), ("flags", Value.int 1),
            ("theme", Value.string "t")]) :: [("id", Value.string "x")])))
        Device.ctor error0).ret = some false
    ∧ (device_from_json (ParseResult.ok (Value.object
        ([("architecture", Value.string "arm64")] ++ ("boot_ui",
          Value.object [("default_brightness", Value.int 5), ("flags", Value.int 1),
            ("theme", Value.string "t")]) :: [("id", Value.string "x")])))
        Device.ctor error0).device
      = (device_from_json (ParseResult.ok (Value.object
        ([("architecture", Value.string "arm64")] ++ [("boot_ui",
          Value.object [("default_brightness", Value.int 5)])])))
        Device.ctor error0).device
    ∧ device_from_json (ParseResult.ok (Value.object
        [("architecture", Value.string "arm64"), ("boot_ui",
          Value.object [("default_brightness", Value.int 5), ("flags", Value.int 1),
            ("theme", Value.string "t")]), ("id", Value.string "x")]))
        Device.ctor error0
      = ⟨some false, (Device.ctor.set_architecture "arm64").set_tw_default_brightness 5,
          mismatched_type_error error0 ".boot_ui.flags" "integer" "array"⟩
    ∧ device_from_json (ParseResult.ok (Value.object
        [("architecture", Value.string "arm64"), ("boot_ui",
          Value.object [("default_brightness", Value.int 5)])]))
        Device.ctor error0
      = ⟨some true, (Device.ctor.set_architecture "arm64").set_tw_default_brightness 5,
          error0⟩ :=
  ⟨by decide, by decide,
    (decode_not_atomic [("architecture", Value.string "arm64")] [("id", Value.string "x")]
      "boot_ui" (Value.object [("default_brightness", Value.int 5), ("flags", Value.int 1),
        ("theme", Value.string "t")]) Device.ctor error0 (by decide) (by decide)).1,
    ((decode_not_atomic [("architecture", Value.string "arm64")] [("id", Value.string "x")]
      "boot_ui" (Value.object [("default_brightness", Value.int 5), ("flags", Value.int 1),
        ("theme", Value.string "t")]) Device.ctor error0 (by decide) (by decide)).2.2
      boot_ui_key [("default_brightness", Value.int 5)] [("theme", Value.string "t")]
      "flags" (Value.int 1) (Or.inr ⟨rfl, rfl⟩) rfl (by decide) (by decide)).1,
    by decide, by decide⟩

/-- C39: `device_list_from_json` only appends to the vector: afterwards the vector is
the one passed in followed by the devices that the first `n` elements of the array
decode to on their own, in order, for some `n`. When it returns true, `n` is the number
of elements; when it returns false on an array, element `n` exists, fails on its own, and
all elements before it succeed on their own; a parse failure or a root that is not an
array leaves the vector as it was. -/
theorem list_decode_appends (json : ParseResult) (devices : List Device)
    (error : JsonError) :
    (∃ extra, (device_list_from_json json devices error).devices = devices ++ extra)
    ∧ (∀ items, json = ParseResult.ok (Value.array items) →
      ∃ n, n ≤ items.length
        ∧ (∀ y ∈ items.take n,
            (device_from_json (ParseResult.ok y) Device.ctor error).ret = some true)
        ∧ (device_list_from_json json devices error).devices
            = devices ++ (items.take n).map
                (fun y => (device_from_json (ParseResult.ok y) Device.ctor error).device)
        ∧ ((device_list_from_json json devices error).ret = some true →
            n = items.length
            ∧ (device_list_from_json json devices error).devices.length
                = devices.length + items.length)
        ∧ ((device_list_from_json json devices error).ret = some false →
            (device_list_from_json json devices error).devices.length = devices.length + n
            ∧ ∃ x, items[n]? = some x
              ∧ (device_from_json (ParseResult.ok x) Device.ctor error).ret = some false))
    ∧ ((∀ items, json ≠ ParseResult.ok (Value.array items)) →
      device_list_from_json json devices error
        = ⟨some false, devices, (device_list_from_json json devices error).error⟩) := by
  have harr : ∀ items, json = ParseResult.ok (Value.array items) →
      device_list_from_json json devices error = device_list_loop items 0 devices error := by
    intro items hj
    rw [hj]
    simp [device_list_from_json, Value.isArray, Value.type, Value.items]
  have hnot : (∀ items, json ≠ ParseResult.ok (Value.array items)) →
      device_list_from_json json devices error
        = ⟨some false, devices, (device_list_from_json json devices error).error⟩ := by
    intro h
    cases json with
    | syntaxError msg => rfl
    | ok root =>
      cases root with
      | array items => exact absurd rfl (h items)
      | _ => rfl
  refine ⟨?_, ?_, hnot⟩
  · by_cases h : ∃ items, json = ParseResult.ok (Value.array items)
    · obtain ⟨items, hj⟩ := h
      obtain ⟨n, _, _, h3, _, _⟩ := device_list_loop_take error items 0 devices error
      rw [harr items hj]
      exact ⟨_, h3⟩
    · have h2 := hnot (fun items hj => h ⟨items, hj⟩)
      exact ⟨[], by rw [h2]; simp⟩
  · intro items hj
    obtain ⟨n, h1, h2, h3, h4, h5⟩ := device_list_loop_take error items 0 devices error
    rw [harr items hj]
    refine ⟨n, h1, h2, h3, ?_, ?_⟩
    · intro h
      refine ⟨h4 h, ?_⟩
      rw [h3, h4 h]
      simp
    · intro h
      refine ⟨?_, h5 h⟩
      rw [h3]
      simp [Nat.min_eq_left h1]

/-- C39 on `[{"id": "a"}, {"foo": 1}, 5]` and a vector that holds `sample_device`: the
call returns false, and the vector then holds `sample_device` and the device decoded
from element 0. -/
theorem list_decode_appends_witness :
    (∃ extra, (device_list_from_json
      (ParseResult.ok (Value.array [Value.object [("id", Value.string "a")],
        Value.object [("foo", Value.int 1)], Value.int 5])) [sample_device]
      error0).devices = [sample_device] ++ extra)
    ∧ device_list_from_json
        (ParseResult.ok (Value.array [Value.object [("id", Value.string "a")],
          Value.object [("foo", Value.int 1)], Value.int 5])) [sample_device] error0
      = ⟨some false, [sample_device, Device.ctor.set_id "a"],
          unknown_key_error error0 "[1].foo"⟩
    ∧ device_list_from_json (ParseResult.ok sample_multiple) [sample_device] error0
      = ⟨some true, [sample_device, Device.ctor.set_id "test1", Device.ctor.set_id "test2"],
          error0⟩ :=
  ⟨(list_decode_appends
      (ParseResult.ok (Value.array [Value.object [("id", Value.string "a")],
        Value.object [("foo", Value.int 1)], Value.int 5])) [sample_device] error0).1,
    by decide, by decide⟩

/-- C40: on an object with no keys the three key loops run zero times and return the
local `ret` as it was declared, without a value: `process_device`,
`process_block_devs` and `process_boot_ui` leave the device and the error record alone
and return no defined value, and so do `device_from_json` on `{}`, the list decoder on
`[{}]` and the decoding of `{"block_devs": {}, "id": "x"}`, which does not reach `id`;
the list decoder itself returns true on `[]`. -/
theorem empty_object_return_value (device : Device) (devices : List Device)
    (context : String) (error : JsonError) :
    process_device device (Value.object []) context error = ⟨none, device, error⟩
    ∧ process_block_devs device (Value.object []) context error = ⟨none, device, error⟩
    ∧ process_boot_ui device (Value.object []) context error = ⟨none, device, error⟩
    ∧ device_from_json (ParseResult.ok (Value.object [])) device error
        = ⟨none, device, error⟩
    ∧ (device_from_json (ParseResult.ok (Value.object [])) device error).ret ≠ some true
    ∧ device_list_from_json (ParseResult.ok (Value.array [Value.object []])) devices error
        = ⟨none, devices, error⟩
    ∧ device_from_json
        (ParseResult.ok (Value.object [("block_devs", Value.object []),
          ("id", Value.string "x")])) device error
        = ⟨none, device, error⟩
    ∧ device_from_json
        (ParseResult.ok (Value.object [("boot_ui", Value.object []),
          ("id", Value.string "x")])) device error
        = ⟨none, device, error⟩
    ∧ device_list_from_json (ParseResult.ok (Value.array [])) devices error
        = ⟨some true, devices, error⟩ := by
  refine ⟨rfl, rfl, rfl, rfl, ?_, rfl, ?_, ?_, rfl⟩
  · show (none : Option Bool) ≠ some true
    simp
  · show key_loop (process_device_entry "")
      [("block_devs", Value.object []), ("id", Value.string "x")] none device error = _
    rw [key_loop_cons_stop]
    · rw [device_entry_block_devs]; rfl
    · rw [device_entry_block_devs]
      show (none : Option Bool) ≠ some true
      simp
  · show key_loop (process_device_entry "")
      [("boot_ui", Value.object []), ("id", Value.string "x")] none device error = _
    rw [key_loop_cons_stop]
    · rw [device_entry_boot_ui]; rfl
    · rw [device_entry_boot_ui]
      show (none : Option Bool) ≠ some true
      simp


end mbdevice
